import Mathlib

/-!
# Vehicle telemetry simulation: sensors, ECUs and their subscription protocol

A shallow embedding of the C++ sources (`Sensors/*.cpp`, `ECU/*.cpp`, `logger/CarLogger.cpp`,
`car/Car.cpp`).

* Objects live in a `World`: two heaps (sensors, ECUs) indexed by allocation number, the static
  counters of the classes, and the console written by `Logger::log` and `std::cout`.
* A `std::weak_ptr<ECU>` is the allocation number of the ECU; `lock()` is the heap lookup, which
  yields `none` once the ECU is destroyed.  Allocation numbers are never handed out twice.
* A `std::shared_ptr<Sensor>` is a `SensorPtr`: the allocation number of the sensor together
  with the two things of the pointee that are fixed at construction (its dynamic class and
  `const int Sensor_ID`).  The pointee of a `shared_ptr` is alive, so reading them cannot fail;
  accordingly a sensor is destroyed only when no live ECU lists it (`heldByECU`).  Which sensors
  the variables of the program still own is not part of the `World`: where a call lets go of a
  `shared_ptr` (`DeattachSensorFull`, `destroyECUFull`) it is an argument.
* A method is a function `World → ... → World` whose first argument after the state is the
  allocation number of `this`.
* `int` arithmetic is two's complement on 32 bits (`wrapInt`).
* A `double` is only stored, copied and compared by this code; it is modelled by its value in `ℚ`.
* The four random engines with their distributions are `Engines`: for each sensor class the
  sequence of the values that the calls `unif(e)` return and the number of calls made so far.
  A method that draws takes the engines and returns them.
* A `Car` is a value: its members that are `shared_ptr`s are pointers into the `World`.  The
  program of `src/main.cpp` is a `carRun`: the constructor in a state reached by `run`
  (`carStart`), then calls of the five methods that `main` calls on its car (`CarOp`).
* The four sensor classes have the same bodies up to the member names, the category index and the
  log texts; they are one `Sensor` structure with a `kind`.  Likewise for the two ECU classes.
-/

namespace Telemetry

/-! ## Data model -/

/-- The enumeration `SensorTypes` of `Sensor.hpp`. -/
inductive SensorTypes where
  | SPEED_SENSOR
  | TEMPERATURE_SENSOR
  | RADAR_SENSOR
  | BATTERY_LEVEL_SENSOR
deriving DecidableEq, Repr

/-- The value `int(SensorTypes::X)`. -/
def SensorTypes.toIndex : SensorTypes → Nat
  | .SPEED_SENSOR => 0
  | .TEMPERATURE_SENSOR => 1
  | .RADAR_SENSOR => 2
  | .BATTERY_LEVEL_SENSOR => 3

/-- The initialiser of the member `type` of each sensor class (what `getType()` returns). -/
def SensorTypes.typeString : SensorTypes → String
  | .SPEED_SENSOR => "Speed Sensor"
  | .TEMPERATURE_SENSOR => "Temperature Sensor"
  | .RADAR_SENSOR => "Radar Sensor"
  | .BATTERY_LEVEL_SENSOR => "BatteryLevel Sensor"

/-- The macro `Sensor_Types_Count` of `ECU.hpp`. -/
def Sensor_Types_Count : Nat := 4

/-- The two classes derived from `ECU`. -/
inductive ECUKind where
  | ADAPTIVE_CRUISE_CONTROL
  | DIAGNOSTIC
deriving DecidableEq, Repr

/-- The member `type` of each ECU class, copied into `name` by the constructor. -/
def ECUKind.typeString : ECUKind → String
  | .ADAPTIVE_CRUISE_CONTROL => "Adaptive Cruise Control ECU"
  | .DIAGNOSTIC => "Diagnostic ECU"

/-- Range of `int`: the result of an `int` operation, reduced to 32 bits two's complement. -/
def wrapInt (x : Int) : Int := (x + 2147483648) % 4294967296 - 2147483648

/-- The largest `int`. -/
def INT_MAX : Int := 2147483647

/-- A `std::shared_ptr<Sensor>`: the sensor object it owns, with the class and the `const int
Sensor_ID` of that object. -/
structure SensorPtr where
  addr : Nat
  kind : SensorTypes
  Sensor_ID : Int
deriving DecidableEq, Repr

/-- Method `getSensorID()` called through a `shared_ptr<Sensor>`. -/
def SensorPtr.getSensorID (s : SensorPtr) : Int := s.Sensor_ID

/-- Method `getType()` called through a `shared_ptr<Sensor>`. -/
def SensorPtr.getType (s : SensorPtr) : String := s.kind.typeString

/-- One `std::unordered_map<int, double>`. -/
abbrev DataMap := Int → Option Rat

/-- The assignment `m[k] = v` on an `unordered_map<int,double>`. -/
def DataMap.assign (m : DataMap) (k : Int) (v : Rat) : DataMap :=
  fun j => if j = k then some v else m j

/-- An object of a class derived from `ECU`. -/
structure ECU where
  kind : ECUKind
  ECU_ID : Int
  name : String
  Recent_Sensory_Data : List DataMap
  Subscribed_Sensors : List SensorPtr
  ON : Bool

/-- An object of a class derived from `Sensor`; `data` is the member `speed`, `Temperature`,
`Radar` or `BatteryLevel`. -/
structure Sensor where
  kind : SensorTypes
  Sensor_ID : Int
  data : Rat
  Subscribed_ECUs : List Nat
deriving DecidableEq

/-- Method `ECU::getID()`. -/
def ECU.getID (e : ECU) : Int := e.ECU_ID

/-- Method `ECU::getName()`. -/
def ECU.getName (e : ECU) : String := e.name

/-- Method `getType()` of a sensor. -/
def Sensor.getType (s : Sensor) : String := s.kind.typeString

/-- Method `getSensorID()` of a sensor. -/
def Sensor.getSensorID (s : Sensor) : Int := s.Sensor_ID

/-- The program state: static counters, the two heaps, the allocation counter and the console. -/
structure World where
  S_Sensor_Count : Int
  T_Sensor_Count : Int
  R_sensor_count : Int
  BL_Sensor_Count : Int
  total_sensor_count : Int
  ECU_Count : Int
  message_number : Int
  sensors : Nat → Option Sensor
  ecus : Nat → Option ECU
  next : Nat
  cout : List String

/-- The state at program start: the static initialisers, no object, nothing printed. -/
def World.init : World where
  S_Sensor_Count := 0
  T_Sensor_Count := 0
  R_sensor_count := 0
  BL_Sensor_Count := 0
  total_sensor_count := 0
  ECU_Count := 0
  message_number := 0
  sensors := fun _ => none
  ecus := fun _ => none
  next := 0
  cout := []

/-- Store (or, with `none`, remove) the ECU object at an allocation number. -/
def World.setECU (w : World) (h : Nat) (e : Option ECU) : World :=
  { w with ecus := fun a => if a = h then e else w.ecus a }

/-- Store (or, with `none`, remove) the sensor object at an allocation number. -/
def World.setSensor (w : World) (p : Nat) (s : Option Sensor) : World :=
  { w with sensors := fun a => if a = p then s else w.sensors a }

/-- Method `getSensorCount()` of the class of category `k`: that class's static counter. -/
def World.getSensorCount (w : World) : SensorTypes → Int
  | .SPEED_SENSOR => w.S_Sensor_Count
  | .TEMPERATURE_SENSOR => w.T_Sensor_Count
  | .RADAR_SENSOR => w.R_sensor_count
  | .BATTERY_LEVEL_SENSOR => w.BL_Sensor_Count

/-- Assign the static counter of the class of category `k`. -/
def World.setSensorCount (w : World) (k : SensorTypes) (v : Int) : World :=
  match k with
  | .SPEED_SENSOR => { w with S_Sensor_Count := v }
  | .TEMPERATURE_SENSOR => { w with T_Sensor_Count := v }
  | .RADAR_SENSOR => { w with R_sensor_count := v }
  | .BATTERY_LEVEL_SENSOR => { w with BL_Sensor_Count := v }

/-- The `shared_ptr` to the live sensor at an allocation number, if there is one. -/
def World.sharedPtr (w : World) (p : Nat) : Option SensorPtr :=
  (w.sensors p).map (fun s => { addr := p, kind := s.kind, Sensor_ID := s.Sensor_ID })

/-! ## Logger -/

/-- Method `Logger::log`: `++message_number`, then one line on `std::cout`. -/
def log (w : World) (message : String) : World :=
  let n := wrapInt (w.message_number + 1)
  { w with message_number := n,
           cout := w.cout ++ ["CAR LOGGER (" ++ toString n ++ "): " ++ message] }

/-- Several `Logger::log` calls in a row. -/
def logAll (w : World) (messages : List String) : World :=
  messages.foldl log w

/-! ## ECU side -/

/-- The test of the two ECU loops:
`sensor->getSensorID() == s->getSensorID() && sensor->getType() == s->getType()`. -/
def sameSensor (s sensor : SensorPtr) : Bool :=
  sensor.getSensorID == s.getSensorID && sensor.getType == s.getType

/-- Methods `Adaptive_Cruise_Control_ECU::AttachSensor` and `DiagnosticECU::AttachSensor`, called
on the ECU at `self`. -/
def AttachSensor (w : World) (self : Nat) (s : SensorPtr) : World :=
  match w.ecus self with
  | none => w
  | some e =>
    if e.Subscribed_Sensors.any (sameSensor s) then
      log w (s.getType ++ " of ID " ++ toString s.getSensorID ++ " is already subscribed.")
    else
      log (w.setECU self (some { e with Subscribed_Sensors := e.Subscribed_Sensors ++ [s] }))
        (match e.kind with
          | .ADAPTIVE_CRUISE_CONTROL => "A new " ++ s.getType ++ " is subscribed."
          | .DIAGNOSTIC => "A new " ++ s.getType ++ " is subscribed to Diagnostics.")

/-- Methods `Adaptive_Cruise_Control_ECU::DeattachSensor` and `DiagnosticECU::DeattachSensor`: the
first matching entry is erased; without a match only a message is logged.  This is the call as
long as the sensor of the erased entry has another owner, which it has whenever the entry points
to the sensor of the argument; the destructor of a sensor whose last `shared_ptr` the entry was
is the step `destroySensor` that follows in a run.  `DeattachSensorFull` is the call with that
destructor inside. -/
def DeattachSensor (w : World) (self : Nat) (s : SensorPtr) : World :=
  match w.ecus self with
  | none => w
  | some e =>
    if e.Subscribed_Sensors.any (sameSensor s) then
      log (w.setECU self
            (some { e with Subscribed_Sensors := e.Subscribed_Sensors.eraseP (sameSensor s) }))
        (match e.kind with
          | .ADAPTIVE_CRUISE_CONTROL =>
              s.getType ++ " of ID " ++ toString s.getSensorID ++ " is erased successfully."
          | .DIAGNOSTIC =>
              s.getType ++ " of ID " ++ toString s.getSensorID
                ++ " is erased successfully from Diagnostics.")
    else
      log w (match e.kind with
          | .ADAPTIVE_CRUISE_CONTROL => "Couldn't detach the sensor."
          | .DIAGNOSTIC => "Couldn't detach the sensor from Diagnostics.")

/-- Constructor `ECU::ECU` followed by the constructor of the derived class; the new object is
allocated at `w.next`. -/
def newECU (w : World) (k : ECUKind) : World :=
  let c := wrapInt (w.ECU_Count + 1)
  let e : ECU :=
    { kind := k, ECU_ID := c, name := k.typeString,
      Recent_Sensory_Data := List.replicate Sensor_Types_Count (fun _ => none),
      Subscribed_Sensors := [], ON := false }
  { w with ECU_Count := c,
           ecus := fun a => if a = w.next then some e else w.ecus a,
           next := w.next + 1,
           cout := w.cout ++ ["A new ECU is created; the ECU count is " ++ toString c] }

/-- The bodies of the destructor of the derived class and of `ECU::~ECU`, run when the last owner
of the ECU at `h` lets go of it.  The members are destroyed after the bodies: the destructors of
the sensors whose last `shared_ptr` was in `Subscribed_Sensors` are the steps `destroySensor` that
follow in a run.  `destroyECUFull` is the whole destruction, the members included. -/
def destroyECU (w : World) (h : Nat) : World :=
  match w.ecus h with
  | none => w
  | some e =>
    let w1 := log w (e.name ++ " is destroyed")
    let c := wrapInt (w1.ECU_Count - 1)
    { w1 with ECU_Count := c,
              ecus := fun a => if a = h then none else w1.ecus a,
              cout := w1.cout ++ ["ECU is destroyed; remaining ECU count is " ++ toString c] }

/-! ## Sensor side -/

/-- The test of the loop of `AttachECU` on one entry of `Subscribed_ECUs`: the entry can be locked
and `existingEcu->getID() == sharedEcu->getID()`. -/
def sameID (w : World) (sharedEcu : ECU) (subscribedEcu : Nat) : Bool :=
  match w.ecus subscribedEcu with
  | some existingEcu => existingEcu.getID == sharedEcu.getID
  | none => false

/-- The test of the loop of `DeAttachECU` on one entry: the entry can be locked and
`e->getID() == sharedECU->getID() && e->getName() == sharedECU->getName()`. -/
def sameIDName (w : World) (sharedECU : ECU) (it : Nat) : Bool :=
  match w.ecus it with
  | some e => e.getID == sharedECU.getID && e.getName == sharedECU.getName
  | none => false

/-- The name printed by the "already subscribed" message: that of the entry found. -/
def nameAt (w : World) (h : Nat) : String :=
  match w.ecus h with
  | some e => e.getName
  | none => ""

/-- Method `AttachECU` of the four sensor classes, called on the sensor at `self` with a
`weak_ptr` to the ECU at `Ecu`. -/
def AttachECU (w : World) (self : Nat) (Ecu : Nat) : World :=
  match w.sensors self with
  | none => w
  | some s =>
    match w.ecus Ecu with
    | some sharedEcu =>
      match s.Subscribed_ECUs.find? (sameID w sharedEcu) with
      | some existing => log w ("ECU " ++ nameAt w existing ++ " is already subscribed.")
      | none =>
        log (w.setSensor self (some { s with Subscribed_ECUs := s.Subscribed_ECUs ++ [Ecu] }))
          ("A new ECU: " ++ sharedEcu.getName ++ " subscribes to this " ++ s.getType ++ " sensor.")
    | none => log w "ECU object no longer exists."

/-- The message `DeAttachECU` logs for an entry that cannot be locked. -/
def expiredMessage : SensorTypes → String
  | .SPEED_SENSOR => "Couldn't detach ECU (expired)."
  | _ => "Couldn't detach (expired)."

/-- The messages logged by the loop of `DeAttachECU` before it stops: one for each expired entry
met before the first match. -/
def expiredMessages (w : World) (k : SensorTypes) (sharedECU : ECU) : List Nat → List String
  | [] => []
  | it :: rest =>
    match w.ecus it with
    | some _ => if sameIDName w sharedECU it then [] else expiredMessages w k sharedECU rest
    | none => expiredMessage k :: expiredMessages w k sharedECU rest

/-- Method `DeAttachECU` of the four sensor classes: the first entry that can be locked and has
the id and the name of the argument is erased. -/
def DeAttachECU (w : World) (self : Nat) (Ecu : Nat) : World :=
  match w.sensors self with
  | none => w
  | some s =>
    match w.ecus Ecu with
    | some sharedECU =>
      let w1 := logAll w (expiredMessages w s.kind sharedECU s.Subscribed_ECUs)
      if s.Subscribed_ECUs.any (sameIDName w sharedECU) then
        let l := s.Subscribed_ECUs.eraseP (sameIDName w sharedECU)
        log (w1.setSensor self (some { s with Subscribed_ECUs := l }))
          (sharedECU.getName ++ " was successfully detached.")
      else
        log w1 ("Could not find the ECU: " ++ sharedECU.getName ++ " with ID: "
                  ++ toString sharedECU.getID ++ " to detach.")
    | none => log w "The ECU reference has expired and cannot be locked."

/-- The statement `e->Recent_Sensory_Data[c][k] = v`: the vector is indexed by the category, the
map of that category is assigned at the sensor id. -/
def tableWrite (t : List DataMap) (c : Nat) (k : Int) (v : Rat) : List DataMap :=
  match t[c]? with
  | some m => t.set c (m.assign k v)
  | none => t

/-- Reading of `Recent_Sensory_Data[c][k]` without inserting: `none` when the key is absent. -/
def tableRead (t : List DataMap) (c : Nat) (k : Int) : Option Rat :=
  match t[c]? with
  | some m => m k
  | none => none

/-- The message logged by a successful `updateECU`. -/
def updatedMessage (s : Sensor) (e : ECU) : String :=
  match s.kind with
  | .RADAR_SENSOR =>
      "Updated  ECU : " ++ e.getName ++ "  with Sensor type " ++ s.getType ++ " ID : "
        ++ toString s.Sensor_ID
  | _ =>
      "Updated ECU: " ++ e.getName ++ " with Sensor type " ++ s.getType ++ " ID: "
        ++ toString s.Sensor_ID

/-- Method `updateECU` of the four sensor classes. -/
def updateECU (w : World) (self : Nat) (E : Nat) : World :=
  match w.sensors self with
  | none => w
  | some s =>
    match w.ecus E with
    | some e =>
      let t := tableWrite e.Recent_Sensory_Data s.kind.toIndex s.Sensor_ID s.data
      log (w.setECU E (some { e with Recent_Sensory_Data := t })) (updatedMessage s e)
    | none => log w "ECU object no longer exists."

/-- Method `NotifyAllECUs` of the four sensor classes: `updateECU` on each entry of
`Subscribed_ECUs`, in order. -/
def NotifyAllECUs (w : World) (self : Nat) : World :=
  match w.sensors self with
  | none => w
  | some s => s.Subscribed_ECUs.foldl (fun acc E => updateECU acc self E) w

/-- Methods `getRandomData` / `sensorRead`: the value `v` drawn from the random engine becomes
the stored reading. -/
def sensorRead (w : World) (self : Nat) (v : Rat) : World :=
  match w.sensors self with
  | none => w
  | some s => w.setSensor self (some { s with data := v })

/-- The text logged by `PrintInfo()` of each sensor class. -/
def printInfoMessage (k : SensorTypes) (id count : Int) : String :=
  match k with
  | .SPEED_SENSOR =>
      "New Sensor is created :: Sensor Type is " ++ k.typeString ++ " Sensor ID is " ++ toString id
        ++ " Speed Sensor Count is " ++ toString count
  | .TEMPERATURE_SENSOR =>
      "New sensor is created. Sensor Type: " ++ k.typeString ++ ", Sensor ID: " ++ toString id
        ++ ", Temperature Sensor Count: " ++ toString count
  | .RADAR_SENSOR =>
      "New sensor is created. Sensor Type: " ++ k.typeString ++ ", Sensor ID: " ++ toString id
        ++ ", Radar Sensor Count: " ++ toString count
  | .BATTERY_LEVEL_SENSOR =>
      "New sensor is created. Sensor Type: " ++ k.typeString ++ ", Sensor ID: " ++ toString id
        ++ ", Battery Level Sensor Count: " ++ toString count

/-- Constructor of the sensor class of category `k`: `Sensor_ID(++Count)`, reading `0.0`, then
`PrintInfo()` and `total_sensor_count++`.  The new object is allocated at `w.next`. -/
def newSensor (w : World) (k : SensorTypes) : World :=
  let c := wrapInt (w.getSensorCount k + 1)
  let w1 := w.setSensorCount k c
  let s : Sensor := { kind := k, Sensor_ID := c, data := 0, Subscribed_ECUs := [] }
  let w2 : World :=
    { w1 with next := w.next + 1,
              sensors := fun a => if a = w.next then some s else w1.sensors a }
  let w3 := log w2 (printInfoMessage k s.getSensorID (w2.getSensorCount k))
  { w3 with total_sensor_count := wrapInt (w3.total_sensor_count + 1) }

/-- Some live ECU still holds a `shared_ptr` to the sensor at `p`. -/
def heldByECU (w : World) (p : Nat) : Bool :=
  (List.range w.next).any fun h =>
    match w.ecus h with
    | some e => e.Subscribed_Sensors.any (fun s => s.addr == p)
    | none => false

/-- Destructor of the sensor class of the object at `p`, run when its last owner lets go of it (no
ECU holds it any more): the class counter and the total are decremented, then a message is
logged. -/
def destroySensor (w : World) (p : Nat) : World :=
  match w.sensors p with
  | none => w
  | some s =>
    if heldByECU w p then w
    else
      let c := wrapInt (w.getSensorCount s.kind - 1)
      let w1 := w.setSensorCount s.kind c
      let w2 : World := { w1 with total_sensor_count := wrapInt (w1.total_sensor_count - 1) }
      let w3 := log w2 ("Sensor of type " ++ s.getType ++ " & ID = " ++ toString s.Sensor_ID
                  ++ " is destroyed. Remaining count is " ++ toString c)
      { w3 with sensors := fun a => if a = p then none else w3.sensors a }

/-! ## Runs of the program -/

/-- One step of a driver program: an object is created or destroyed, or one method is called on a
live object with live `shared_ptr` arguments (`weak_ptr` arguments may be expired). -/
inductive Op where
  | newSensor (k : SensorTypes)
  | destroySensor (p : Nat)
  | newECU (k : ECUKind)
  | destroyECU (h : Nat)
  | AttachSensor (E S : Nat)
  | DeattachSensor (E S : Nat)
  | AttachECU (S E : Nat)
  | DeAttachECU (S E : Nat)
  | updateECU (S E : Nat)
  | NotifyAllECUs (S : Nat)
  | sensorRead (S : Nat) (v : Rat)
deriving DecidableEq, Repr

/-- Effect of one step.  A step that names an object which is not alive is not a step of any
program and leaves the state as it is.  The steps `DeattachSensor` and `destroyECU` end where the
ECU lets go of its `shared_ptr`s; a sensor that loses its last owner there is destroyed by a step
`destroySensor` of its own (`DeattachSensorFull` and `destroyECUFull` are the calls taken as a
whole). -/
def step (w : World) : Op → World
  | .newSensor k => newSensor w k
  | .destroySensor p => destroySensor w p
  | .newECU k => newECU w k
  | .destroyECU h => destroyECU w h
  | .AttachSensor E S =>
    match w.sharedPtr S with
    | some s => AttachSensor w E s
    | none => w
  | .DeattachSensor E S =>
    match w.sharedPtr S with
    | some s => DeattachSensor w E s
    | none => w
  | .AttachECU S E => AttachECU w S E
  | .DeAttachECU S E => DeAttachECU w S E
  | .updateECU S E => updateECU w S E
  | .NotifyAllECUs S => NotifyAllECUs w S
  | .sensorRead S v => sensorRead w S v

/-- Effect of a sequence of steps. -/
def run (w : World) (ops : List Op) : World :=
  ops.foldl step w

/-- No `++` of a plain `int` class counter overflows along the run (signed overflow has no defined
behaviour in C++). -/
def NoOverflow (w : World) : List Op → Bool
  | [] => true
  | .newSensor k :: ops =>
    decide (w.getSensorCount k < INT_MAX) && NoOverflow (step w (.newSensor k)) ops
  | op :: ops => NoOverflow (step w op) ops

/-- The step destroys a sensor. -/
def Op.isDestroySensor : Op → Bool
  | .destroySensor _ => true
  | _ => false

/-- The object at allocation number `a` is a live sensor of category `k`. -/
def isLiveOfKind (w : World) (k : SensorTypes) (a : Nat) : Bool :=
  match w.sensors a with
  | some s => decide (s.kind = k)
  | none => false

/-- Number of live sensors of category `k`. -/
def liveSensors (w : World) (k : SensorTypes) : Nat :=
  ((List.range w.next).filter (isLiveOfKind w k)).length

/-- Every class counter equals the population of its class and fits an `int`. -/
def CountsOK (w : World) : Prop :=
  ∀ k, w.getSensorCount k = (liveSensors w k : Int) ∧ w.getSensorCount k ≤ INT_MAX

/-- A run in which the ECUs `B` and `C` (allocation numbers 1 and 2) are alive with the same id 2,
and the speed sensor at allocation number 3, with reading 42, lists only `B`. -/
def reusedECUIdRun : List Op :=
  [.newECU .ADAPTIVE_CRUISE_CONTROL, .newECU .DIAGNOSTIC, .destroyECU 0, .newECU .DIAGNOSTIC,
   .newSensor .SPEED_SENSOR, .sensorRead 3 42, .AttachECU 3 1]

/-- A run that constructs two speed sensors, destroys the first and constructs a third. -/
def reusedSensorIdRun : List Op :=
  [.newSensor .SPEED_SENSOR, .newSensor .SPEED_SENSOR, .destroySensor 0, .newSensor .SPEED_SENSOR]

/-- No two entries of a list of sensor pointers agree on `(getType, getSensorID)`. -/
def DistinctSensors (l : List SensorPtr) : Prop :=
  l.Pairwise fun a b => sameSensor a b = false

/-- No two entries of a list of `weak_ptr<ECU>` can be locked to ECUs with the same id. -/
def DistinctLiveIDs (w : World) (l : List Nat) : Prop :=
  l.Pairwise fun a b =>
    ∀ ea eb, w.ecus a = some ea → w.ecus b = some eb → ea.getID ≠ eb.getID

/-- What `updateECU` never changes in an ECU object: everything but the content of the table (the
length of the table included). -/
def ECU.skeleton (e : ECU) : ECUKind × Int × String × Nat × List SensorPtr × Bool :=
  (e.kind, e.ECU_ID, e.name, e.Recent_Sensory_Data.length, e.Subscribed_Sensors, e.ON)

/-- Two states that differ at most in the content of the tables of the ECUs. -/
def TablesOnly (w w' : World) : Prop :=
  w'.sensors = w.sensors ∧ w'.next = w.next ∧
    ∀ h, (w'.ecus h).map ECU.skeleton = (w.ecus h).map ECU.skeleton

/-- The properties kept by every step of a run: allocation numbers in use are below `next`, every
table has `Sensor_Types_Count` partitions, and neither kind of subscription list has a
duplicate. -/
structure WF (w : World) : Prop where
  ecu_lt : ∀ h e, w.ecus h = some e → h < w.next
  sensor_lt : ∀ p s, w.sensors p = some s → p < w.next
  subs_lt : ∀ p s, w.sensors p = some s → ∀ h ∈ s.Subscribed_ECUs, h < w.next
  table_len : ∀ h e, w.ecus h = some e → e.Recent_Sensory_Data.length = Sensor_Types_Count
  distinctSensors : ∀ h e, w.ecus h = some e → DistinctSensors e.Subscribed_Sensors
  distinctIDs : ∀ p s, w.sensors p = some s → DistinctLiveIDs w s.Subscribed_ECUs
  nodup : ∀ p s, w.sensors p = some s → s.Subscribed_ECUs.Nodup

/-- Both halves of a subscription, in the order of `Car::StartDiagonisticTool`:
`E->AttachSensor(S); S->AttachECU(E);`. -/
def Subscribe (w : World) (E S : Nat) : World :=
  step (step w (.AttachSensor E S)) (.AttachECU S E)

/-- Both halves of the removal of a subscription: `E->DeattachSensor(S); S->DeAttachECU(E);`. -/
def Unsubscribe (w : World) (E S : Nat) : World :=
  step (step w (.DeattachSensor E S)) (.DeAttachECU S E)

/-- The list `Subscribed_Sensors` of the ECU at `E`, when that ECU is alive. -/
def World.subscribedSensors (w : World) (E : Nat) : Option (List SensorPtr) :=
  (w.ecus E).map (fun e => e.Subscribed_Sensors)

/-- The list `Subscribed_ECUs` of the sensor at `S`, when that sensor is alive. -/
def World.subscribedECUs (w : World) (S : Nat) : Option (List Nat) :=
  (w.sensors S).map (fun s => s.Subscribed_ECUs)

/-- The entry `Recent_Sensory_Data[c][k]` of the ECU at `E`; `none` when the ECU is not alive or
the key is absent. -/
def World.readTable (w : World) (E : Nat) (c : SensorTypes) (k : Int) : Option Rat :=
  match w.ecus E with
  | some e => tableRead e.Recent_Sensory_Data c.toIndex k
  | none => none

/-- The stored reading of the sensor at `S`, when that sensor is alive. -/
def World.reading (w : World) (S : Nat) : Option Rat :=
  (w.sensors S).map (fun s => s.data)

/-- Two sensor pointers with the same `(getType, getSensorID)` pair. -/
def sameKey (a b : SensorPtr) : Prop :=
  a.getType = b.getType ∧ a.getSensorID = b.getSensorID

instance (a b : SensorPtr) : Decidable (sameKey a b) := by
  unfold sameKey
  infer_instance

/-- Method `ECU::getECUCount()`. -/
def getECUCount (w : World) : Int := w.ECU_Count

/-- Number of live ECUs, of both classes together. -/
def liveECUs (w : World) : Nat :=
  ((List.range w.next).filter (fun a => (w.ecus a).isSome)).length

/-- No `++` of `ECU_Count` goes beyond the largest `int` along the run. -/
def NoECUOverflow (w : World) : List Op → Bool
  | [] => true
  | .newECU k :: ops =>
    decide (w.ECU_Count < INT_MAX) && NoECUOverflow (step w (.newECU k)) ops
  | op :: ops => NoECUOverflow (step w op) ops

/-- The ECU counter equals the ECU population and fits an `int`. -/
def ECUCountOK (w : World) : Prop :=
  getECUCount w = (liveECUs w : Int) ∧ getECUCount w ≤ INT_MAX

/-- A run that constructs the ECUs `A` and `B`, destroys `A` and constructs `C`, of another class
than `B`; `B` and `C` are at the allocation numbers 1 and 2.  Then a speed sensor is constructed
at 3 and `B` is attached to it. -/
def reusedECUIdOtherNameRun : List Op :=
  [.newECU .ADAPTIVE_CRUISE_CONTROL, .newECU .DIAGNOSTIC, .destroyECU 0,
   .newECU .ADAPTIVE_CRUISE_CONTROL, .newSensor .SPEED_SENSOR, .AttachECU 3 1]

/-- The entry `x` of a list `Subscribed_ECUs` can be locked to an ECU with the id and the name of
the ECU `sharedECU`. -/
def MatchesLive (w : World) (sharedECU : ECU) (x : Nat) : Prop :=
  ∃ e, w.ecus x = some e ∧ e.getID = sharedECU.getID ∧ e.getName = sharedECU.getName

/-- Method `DiagnosticECU::update`, called on the ECU at `self`: `s->NotifyAllECUs()` for each
entry `s` of `Subscribed_Sensors`, in order.  Only the class `DiagnosticECU` has the method. -/
def DiagnosticECU.update (w : World) (self : Nat) : World :=
  match w.ecus self with
  | none => w
  | some e =>
    match e.kind with
    | .DIAGNOSTIC => e.Subscribed_Sensors.foldl (fun acc s => NotifyAllECUs acc s.addr) w
    | .ADAPTIVE_CRUISE_CONTROL => w

/-- Every `shared_ptr<Sensor>` held by a live ECU points to a live sensor, of the class and with
the id recorded in the pointer. -/
def PtrOK (w : World) : Prop :=
  ∀ h e, w.ecus h = some e → ∀ sp ∈ e.Subscribed_Sensors, w.sharedPtr sp.addr = some sp

/-- A run after which the `DiagnosticECU` at 0 is subscribed, in both directions, to the speed
sensor at 2 (reading 42) and to the radar sensor at 3 (reading 7); the speed sensor also lists the
ECU at 1. -/
def twoSensorsRun : List Op :=
  [.newECU .DIAGNOSTIC, .newECU .ADAPTIVE_CRUISE_CONTROL, .newSensor .SPEED_SENSOR,
   .newSensor .RADAR_SENSOR, .sensorRead 2 42, .sensorRead 3 7, .AttachSensor 0 2, .AttachECU 2 0,
   .AttachECU 2 1, .AttachSensor 0 3, .AttachECU 3 0]

/-- One of the file-scope pairs of a random engine and a distribution (`es` and `unifs`, `et` and
`unift`, `er` and `unifr`, `eb` and `unifb`): the values that the calls `unif(e)` return, in order,
and the number of calls made so far. -/
structure RandomSource where
  values : Nat → Rat
  drawn : Nat

/-- The call `unif(e)`: the value produced next, and the engine one call further. -/
def RandomSource.draw (r : RandomSource) : Rat × RandomSource :=
  (r.values r.drawn, { r with drawn := r.drawn + 1 })

/-- The four random sources of the program, one for each sensor class. -/
abbrev Engines := SensorTypes → RandomSource

/-- The bounds given to the constructor of the distribution of each class: `unifs(0, 320)`,
`unift(0, 320)`, `unifr(0, 50)` and `unifb(0, 100)`. -/
def distribution : SensorTypes → Rat × Rat
  | .SPEED_SENSOR => (0, 320)
  | .TEMPERATURE_SENSOR => (0, 320)
  | .RADAR_SENSOR => (0, 50)
  | .BATTERY_LEVEL_SENSOR => (0, 100)

/-- Every value of every source lies in the interval of its distribution: a
`std::uniform_real_distribution<double>(a, b)` returns values `x` with `a ≤ x < b`. -/
def InDistribution (r : Engines) : Prop :=
  ∀ k n, (distribution k).1 ≤ (r k).values n ∧ (r k).values n < (distribution k).2

/-- Method `getRandomData` of the four sensor classes, with the engines made explicit: one value is
drawn from the source of the class, stored as the reading, and returned. -/
def getRandomData (w : World) (r : Engines) (self : Nat) : World × Engines × Option Rat :=
  match w.sensors self with
  | none => (w, r, none)
  | some s =>
    let d := (r s.kind).draw
    (sensorRead w self d.1, fun k => if k = s.kind then d.2 else r k, some d.1)

/-- Method `GetSensorData` of the four sensor classes: `sensorRead();` (which is
`getRandomData();`), then the stored reading is returned. -/
def GetSensorData (w : World) (r : Engines) (self : Nat) : World × Engines × Option Rat :=
  let x := getRandomData w r self
  (x.1, x.2.1, x.1.reading self)

/-- The calls of `updateECU` that reach a live ECU while the step is executed in the state `w`,
directly or from the loop of `NotifyAllECUs`: for each call the ECU written to, and the category
and the id of the sensor that writes. -/
def updatesOf (w : World) : Op → List (Nat × SensorTypes × Int)
  | .updateECU S E =>
    match w.sensors S, w.ecus E with
    | some s, some _ => [(E, s.kind, s.Sensor_ID)]
    | _, _ => []
  | .NotifyAllECUs S =>
    match w.sensors S with
    | some s =>
      (s.Subscribed_ECUs.filter fun E => (w.ecus E).isSome).map fun E => (E, s.kind, s.Sensor_ID)
    | none => []
  | _ => []

/-- The calls of `updateECU` that reach a live ECU along a run, in order. -/
def updatesAlong (w : World) : List Op → List (Nat × SensorTypes × Int)
  | [] => []
  | op :: ops => updatesOf w op ++ updatesAlong (step w op) ops

/-- Method `getTotalSensorsCount()` of the four sensor classes: the value of
`Sensor::total_sensor_count`. -/
def getTotalSensorsCount (w : World) : Int := w.total_sensor_count

/-- No `++` of `Sensor::total_sensor_count` goes beyond the largest `int` along the run. -/
def NoTotalOverflow (w : World) : List Op → Bool
  | [] => true
  | .newSensor k :: ops =>
    decide (w.total_sensor_count < INT_MAX) && NoTotalOverflow (step w (.newSensor k)) ops
  | op :: ops => NoTotalOverflow (step w op) ops

/-- The total sensor counter is the sum of the four class counters and fits an `int`. -/
def TotalOK (w : World) : Prop :=
  getTotalSensorsCount w = w.getSensorCount .SPEED_SENSOR + w.getSensorCount .TEMPERATURE_SENSOR
    + w.getSensorCount .RADAR_SENSOR + w.getSensorCount .BATTERY_LEVEL_SENSOR ∧
  getTotalSensorsCount w ≤ INT_MAX

/-- The library function `std::to_string(double)`, that is the format `%f`: the integer part, a
point and six digits, the value being rounded to the nearest millionth and, when it lies exactly
between two of them, to the one whose last digit is even. -/
def to_string (x : Rat) : String :=
  let y : Rat := |x| * 1000000
  let f : Nat := (Rat.floor y).toNat
  let n : Nat :=
    if y - f < 1 / 2 then f else if 1 / 2 < y - f then f + 1 else if f % 2 = 0 then f else f + 1
  let frac := toString (n % 1000000)
  (if x < 0 then "-" else "") ++ toString (n / 1000000) ++ "."
    ++ String.mk (List.replicate (6 - frac.length) '0') ++ frac

/-- An object of class `Car`.  A `std::shared_ptr<ECU>` is the allocation number of the ECU; the
map `Car_info` is a partial function. -/
structure Car where
  model : String
  make : String
  ECUs : List Nat
  Sensors : List SensorPtr
  Car_info : SensorTypes → Option Rat
  Car_Speed_Sensor : SensorPtr
  Car_Temperature_Sensor : SensorPtr
  Car_Battery_Level_Sensor : SensorPtr
  Car_Radar_Sensor : SensorPtr
  Car_Adaptive_Cruise_Control_ECU : Nat
  Car_Diagnostic_ECU : Nat
  Adaptive_MODE : Bool

/-- The assignment `Car_info[k] = v`. -/
def Car.assignInfo (c : Car) (k : SensorTypes) (v : Rat) : Car :=
  { c with Car_info := fun j => if j = k then some v else c.Car_info j }

/-- The value of the expression `Car_info[k]` (a key that is absent reads as `0.0`). -/
def Car.info (c : Car) (k : SensorTypes) : Rat :=
  (c.Car_info k).getD 0

/-- The expression `std::make_shared<X>()` for a sensor class `X`: the state after the constructor
and the pointer to the new object. -/
def make_shared_Sensor (w : World) (k : SensorTypes) : World × SensorPtr :=
  (newSensor w k, { addr := w.next, kind := k, Sensor_ID := wrapInt (w.getSensorCount k + 1) })

/-- The expression `std::make_shared<X>()` for an ECU class `X`. -/
def make_shared_ECU (w : World) (k : ECUKind) : World × Nat :=
  (newECU w k, w.next)

/-- Method `Car::CarINIT`. -/
def Car.CarINIT (w : World) (c : Car) : World × Car :=
  let w1 := log w ("Starting the Engine of " ++ c.make ++ " " ++ c.model ++ " vom vom vom")
  let c1 : Car :=
    { c with Sensors := [c.Car_Speed_Sensor, c.Car_Temperature_Sensor, c.Car_Radar_Sensor,
                          c.Car_Battery_Level_Sensor],
             ECUs := c.ECUs ++ [c.Car_Adaptive_Cruise_Control_ECU, c.Car_Diagnostic_ECU] }
  let c2 := c1.assignInfo .SPEED_SENSOR 0
  let w2 := log w1 ("Speed of " ++ c.make ++ " " ++ c.model ++ ": "
    ++ to_string (c2.info .SPEED_SENSOR))
  let c3 := c2.assignInfo .TEMPERATURE_SENSOR 25
  let w3 := log w2 ("Temperature of " ++ c.make ++ " " ++ c.model ++ ": "
    ++ to_string (c3.info .TEMPERATURE_SENSOR))
  let c4 := c3.assignInfo .RADAR_SENSOR 0
  let w4 := log w3 ("Radar reading of " ++ c.make ++ " " ++ c.model ++ ": "
    ++ to_string (c4.info .RADAR_SENSOR))
  let c5 := c4.assignInfo .BATTERY_LEVEL_SENSOR 100
  (log w4 ("Battery level of " ++ c.make ++ " " ++ c.model ++ ": 100%"), c5)

/-- Constructor `Car::Car(model, make)`: the members are initialised in the order of their
declaration (the four sensors, speed, temperature, battery level, radar, then the two ECUs), then
the body logs and calls `CarINIT()`. -/
def Car.new (w : World) (model make : String) : World × Car :=
  let s1 := make_shared_Sensor w .SPEED_SENSOR
  let s2 := make_shared_Sensor s1.1 .TEMPERATURE_SENSOR
  let s3 := make_shared_Sensor s2.1 .BATTERY_LEVEL_SENSOR
  let s4 := make_shared_Sensor s3.1 .RADAR_SENSOR
  let e1 := make_shared_ECU s4.1 .ADAPTIVE_CRUISE_CONTROL
  let e2 := make_shared_ECU e1.1 .DIAGNOSTIC
  let c : Car :=
    { model := model, make := make, ECUs := [], Sensors := [], Car_info := fun _ => none,
      Car_Speed_Sensor := s1.2, Car_Temperature_Sensor := s2.2,
      Car_Battery_Level_Sensor := s3.2, Car_Radar_Sensor := s4.2,
      Car_Adaptive_Cruise_Control_ECU := e1.2, Car_Diagnostic_ECU := e2.2,
      Adaptive_MODE := false }
  Car.CarINIT (log e2.1 ("A new " ++ make ++ " " ++ model ++ " is created")) c

/-- Method `Car::UpdateSensorsData`: `GetSensorData()` of the four sensors of the car, in the
order speed, temperature, radar, battery level, each result stored in `Car_info`; then one
message. -/
def Car.UpdateSensorsData (w : World) (r : Engines) (c : Car) : World × Engines × Car :=
  let g1 := GetSensorData w r c.Car_Speed_Sensor.addr
  let c1 := c.assignInfo .SPEED_SENSOR (g1.2.2.getD 0)
  let g2 := GetSensorData g1.1 g1.2.1 c.Car_Temperature_Sensor.addr
  let c2 := c1.assignInfo .TEMPERATURE_SENSOR (g2.2.2.getD 0)
  let g3 := GetSensorData g2.1 g2.2.1 c.Car_Radar_Sensor.addr
  let c3 := c2.assignInfo .RADAR_SENSOR (g3.2.2.getD 0)
  let g4 := GetSensorData g3.1 g3.2.1 c.Car_Battery_Level_Sensor.addr
  let c4 := c3.assignInfo .BATTERY_LEVEL_SENSOR (g4.2.2.getD 0)
  (log g4.1 ("Updated sensor data for " ++ c.make ++ " " ++ c.model ++ ": "
      ++ "Speed: " ++ to_string (c4.info .SPEED_SENSOR) ++ ", "
      ++ "Temperature: " ++ to_string (c4.info .TEMPERATURE_SENSOR) ++ ", "
      ++ "Radar: " ++ to_string (c4.info .RADAR_SENSOR) ++ ", "
      ++ "Battery Level: " ++ to_string (c4.info .BATTERY_LEVEL_SENSOR) ++ "%"),
    g4.2.1, c4)

/-- Methods `Adaptive_Cruise_Control_ECU::PerformFunction(Car c)` and
`DiagnosticECU::PerformFunction(Car c)`, called on the ECU at `self`.  The car is passed by value:
what the call does to `c` is done to a copy, which is dropped at the end. -/
def PerformFunction (w : World) (r : Engines) (self : Nat) (c : Car) : World × Engines :=
  match w.ecus self with
  | none => (w, r)
  | some e =>
    match e.kind with
    | .ADAPTIVE_CRUISE_CONTROL =>
      ((log w "Adaptive Cruise Control MODE is ON").setECU self (some { e with ON := true }), r)
    | .DIAGNOSTIC =>
      let w1 := (log w "Diagnostics MODE is ON").setECU self (some { e with ON := true })
      let u := Car.UpdateSensorsData (DiagnosticECU.update w1 self) r c
      (u.1, u.2.1)

/-- Methods `Adaptive_Cruise_Control_ECU::IsON` and `DiagnosticECU::IsON`. -/
def IsON (w : World) (self : Nat) : Option Bool :=
  (w.ecus self).map fun e => e.ON

/-- Method `Car::setAdaptiveMode`. -/
def Car.setAdaptiveMode (w : World) (r : Engines) (c : Car) (mode : Bool) :
    World × Engines × Car :=
  let c1 : Car := { c with Adaptive_MODE := mode }
  let w1 := log w ("Setting adaptive mode to " ++ (if mode then "enabled" else "disabled"))
  let x := c1.ECUs.foldl (fun (acc : World × Engines) E =>
    match acc.1.ecus E with
    | some e =>
      if e.getName = "Adaptive Cruise Control ECU" then
        let y := PerformFunction acc.1 acc.2 E c1
        (log y.1 "Performing function for Adaptive Cruise Control ECU", y.2)
      else acc
    | none => acc) (w1, r)
  (x.1, x.2, c1)

/-- Method `Car::getAdaptiveMode`. -/
def Car.getAdaptiveMode (c : Car) : Bool := c.Adaptive_MODE

/-- The macro `MAX_SPEED` of `Car.hpp`. -/
def MAX_SPEED : Rat := 50

/-- The macro `MAX_TEMPERATURE` of `Car.hpp`. -/
def MAX_TEMPERATURE : Rat := 30

/-- The macro `LOW_BATTERY` of `Car.hpp`. -/
def LOW_BATTERY : Rat := 20

/-- The macro `SAFE_RADAR_DISTANCE` of `Car.hpp`. -/
def SAFE_RADAR_DISTANCE : Rat := 5

/-- The expression `Car_info[k]` where it is read: the value, and the car afterwards (a key that is
absent is inserted with the value `0.0`). -/
def Car.readInfo (c : Car) (k : SensorTypes) : Rat × Car :=
  match c.Car_info k with
  | some v => (v, c)
  | none => (0, c.assignInfo k 0)

/-- Method `Car::DisplayStatus`. -/
def Car.DisplayStatus (w : World) (c : Car) : World × Car :=
  let a := c.readInfo .SPEED_SENSOR
  let w1 := log w (if a.1 > MAX_SPEED then "Speed Exceeded please SLOW DOWN"
    else "Speed is within the allowed Range")
  let b := a.2.readInfo .TEMPERATURE_SENSOR
  let w2 := log w1 (if b.1 > MAX_TEMPERATURE then "Car is overheating please stop"
    else "Temperature is within the allowed Range")
  let d := b.2.readInfo .BATTERY_LEVEL_SENSOR
  let w3 := log w2 (if d.1 < LOW_BATTERY
    then "LOW BATTERY PLEASE GO TO THE NEAREST CHARGING STATION" else "Battery is Good")
  let e := d.2.readInfo .RADAR_SENSOR
  let w4 := log w3 (if e.1 < SAFE_RADAR_DISTANCE then "Collision is predicted please Slow down"
    else "NO collision Threats")
  (log w4 (if e.2.Adaptive_MODE = true then "CRUISE CONTROL IS ON" else "CRUISE CONTROL IS OFF"),
    e.2)

/-- The loop of `Car::StartDiagonisticTool`: for each entry `s` of `Sensors`, in order,
`Car_Diagnostic_ECU->AttachSensor(s); s->AttachECU(Car_Diagnostic_ECU);`. -/
def Car.subscribeAll (w : World) (c : Car) : World :=
  c.Sensors.foldl
    (fun acc s => AttachECU (AttachSensor acc c.Car_Diagnostic_ECU s) s.addr c.Car_Diagnostic_ECU) w

/-- Method `Car::StartDiagonisticTool`, a `const` method: the loop, then
`Car_Diagnostic_ECU->PerformFunction(*this)`. -/
def Car.StartDiagonisticTool (w : World) (r : Engines) (c : Car) : World × Engines × Car :=
  let p := PerformFunction (c.subscribeAll w) r c.Car_Diagnostic_ECU c
  (p.1, p.2, c)

/-- A call of one of the methods of `Car` that `main` calls on its car. -/
inductive CarOp where
  | CarINIT
  | setAdaptiveMode (mode : Bool)
  | StartDiagonisticTool
  | DisplayStatus
  | UpdateSensorsData
deriving DecidableEq, Repr

/-- Effect of one call on the program state: the objects, the random engines and the car. -/
def carStep (x : World × Engines × Car) : CarOp → World × Engines × Car
  | .CarINIT => ((Car.CarINIT x.1 x.2.2).1, x.2.1, (Car.CarINIT x.1 x.2.2).2)
  | .setAdaptiveMode mode => Car.setAdaptiveMode x.1 x.2.1 x.2.2 mode
  | .StartDiagonisticTool => Car.StartDiagonisticTool x.1 x.2.1 x.2.2
  | .DisplayStatus => ((Car.DisplayStatus x.1 x.2.2).1, x.2.1, (Car.DisplayStatus x.1 x.2.2).2)
  | .UpdateSensorsData => Car.UpdateSensorsData x.1 x.2.1 x.2.2

/-- Effect of a sequence of calls. -/
def carRun (x : World × Engines × Car) (cs : List CarOp) : World × Engines × Car :=
  cs.foldl carStep x

/-- The program state right after `Car(model, make)` is constructed in a state reached by a run. -/
def carStart (ops : List Op) (model make : String) (r : Engines) : World × Engines × Car :=
  ((Car.new (run World.init ops) model make).1, r, (Car.new (run World.init ops) model make).2)

/-- The car `Car("rio", "kia")` constructed at program start, with the values 50, 30, 20 and 5
(the four thresholds) stored in `Car_info`. -/
def boundaryCar : Car :=
  ((((Car.new World.init "rio" "kia").2.assignInfo .SPEED_SENSOR 50).assignInfo
    .TEMPERATURE_SENSOR 30).assignInfo .BATTERY_LEVEL_SENSOR 20).assignInfo .RADAR_SENSOR 5

/-- What sampling, broadcasting, switching an ECU on and logging never change in an ECU object. -/
def ECU.links (e : ECU) : ECUKind × Int × String × Nat × List SensorPtr :=
  (e.kind, e.ECU_ID, e.name, e.Recent_Sensory_Data.length, e.Subscribed_Sensors)

/-- Two states with the same live objects and the same subscription lists: they differ at most in
the readings, the content of the tables, the `ON` members, the counters and the console. -/
def SameLinks (w w' : World) : Prop :=
  w'.next = w.next ∧ (∀ a, w'.sharedPtr a = w.sharedPtr a) ∧
    (∀ a, w'.subscribedECUs a = w.subscribedECUs a) ∧
    ∀ h, (w'.ecus h).map ECU.links = (w.ecus h).map ECU.links

/-- There is no subscription yet between the Diagnostic ECU of the car and the sensors of
`Sensors`: all the lists are empty. -/
def Car.Unlinked (c : Car) (w : World) : Prop :=
  w.subscribedSensors c.Car_Diagnostic_ECU = some [] ∧
    ∀ sp ∈ c.Sensors, w.subscribedECUs sp.addr = some []

/-- The Diagnostic ECU of the car holds exactly the sensors of `Sensors`, in order, each once, and
each of them lists exactly the Diagnostic ECU, once. -/
def Car.Linked (c : Car) (w : World) : Prop :=
  w.subscribedSensors c.Car_Diagnostic_ECU = some c.Sensors ∧
    ∀ sp ∈ c.Sensors, w.subscribedECUs sp.addr = some [c.Car_Diagnostic_ECU]

/-- What holds of a car and the objects it points to from its construction on: `Sensors` holds the
four sensors of the car at the indices of their categories, the pointers of the car point to live
objects of the classes they are declared with, `ECUs` holds only the two ECUs of the car,
`Car_info` has the four keys, and the subscriptions between the Diagnostic ECU and the sensors are
either all absent or all there. -/
structure CarInv (w : World) (c : Car) : Prop where
  wf : WF w
  sensors_eq : c.Sensors = [c.Car_Speed_Sensor, c.Car_Temperature_Sensor, c.Car_Radar_Sensor,
    c.Car_Battery_Level_Sensor]
  speed : c.Car_Speed_Sensor.kind = .SPEED_SENSOR
  temperature : c.Car_Temperature_Sensor.kind = .TEMPERATURE_SENSOR
  radar : c.Car_Radar_Sensor.kind = .RADAR_SENSOR
  battery : c.Car_Battery_Level_Sensor.kind = .BATTERY_LEVEL_SENSOR
  ecus : ∀ E ∈ c.ECUs, E = c.Car_Adaptive_Cruise_Control_ECU ∨ E = c.Car_Diagnostic_ECU
  info : ∀ k, (c.Car_info k).isSome = true
  live : ∀ sp ∈ c.Sensors, w.sharedPtr sp.addr = some sp
  diag : ∃ e, w.ecus c.Car_Diagnostic_ECU = some e ∧ e.kind = .DIAGNOSTIC ∧
    e.name = "Diagnostic ECU"
  acc : ∃ e, w.ecus c.Car_Adaptive_Cruise_Control_ECU = some e ∧
    e.kind = .ADAPTIVE_CRUISE_CONTROL ∧ e.name = "Adaptive Cruise Control ECU"
  links : c.Unlinked w ∨ c.Linked w

/-- The calls that `main` makes on its car after constructing it, up to the end of the first
iteration of its loop. -/
def mainCalls : List CarOp :=
  [.CarINIT, .setAdaptiveMode true, .StartDiagonisticTool, .DisplayStatus,
   .UpdateSensorsData, .StartDiagonisticTool, .DisplayStatus]

/-- Random engines whose draws are all 10, a value inside each of the four ranges. -/
def tenEngines : Engines := fun _ => { values := fun _ => 10, drawn := 0 }

/-- Random engines that return, for each of the four classes, 1, 2 and 3 at the first three draws
and 4 at every later one. -/
def countingEngines : Engines := fun _ =>
  { values := fun n => if n = 0 then 1 else if n = 1 then 2 else if n = 2 then 3 else 4,
    drawn := 0 }

/-- One round of the loop of `Car::setAdaptiveMode` that finds the name
"Adaptive Cruise Control ECU": `PerformFunction(*this)` on the ECU at `E`, then one message. -/
def adaptiveRound (r : Engines) (E : Nat) (c : Car) (w : World) : World :=
  log (PerformFunction w r E c).1 "Performing function for Adaptive Cruise Control ECU"

/-- An ECU lets go of one `std::shared_ptr<Sensor>`, the one to the sensor at `p` (an entry of
`Subscribed_Sensors` is erased, or destroyed with the vector); the entry is already gone from the
list.  With `owned` true, another `shared_ptr` that is not an entry of an ECU (a variable of the
program, a member of a `Car`, the argument of the running call) still points to the sensor and
nothing happens.  Otherwise the destructor of the sensor runs, unless a live ECU still holds an
entry to it (the test `heldByECU` in `destroySensor`). -/
def releaseSensor (w : World) (p : Nat) (owned : Bool) : World :=
  if owned then w else destroySensor w p

/-- The destruction of a `std::vector<std::shared_ptr<Sensor>>` that no live ECU owns any more:
the entries are let go of one after the other (first to last, as libstdc++ does); an entry whose
sensor is pointed to by a later entry of the vector does not destroy it.  `own p` tells whether a
`shared_ptr` that is not an entry of an ECU points to the sensor at `p`. -/
def releaseAll (own : Nat → Bool) (w : World) : List SensorPtr → World
  | [] => w
  | x :: rest =>
    releaseAll own
      (releaseSensor w x.addr (own x.addr || rest.any fun y => y.addr == x.addr)) rest

/-- Methods `Adaptive_Cruise_Control_ECU::DeattachSensor` and `DiagnosticECU::DeattachSensor`
with what `Subscribed_Sensors.erase(it)` does to the sensor: the first matching entry is erased,
which lets go of its `shared_ptr`; when that was the last one to its sensor the destructor of the
sensor runs, before the message of `DeattachSensor` is logged.  The argument `s` is a `shared_ptr`
itself, so a sensor that `s` points to is never destroyed by the call; `own p` tells whether
another `shared_ptr` that is not an entry of an ECU points to the sensor at `p`. -/
def DeattachSensorFull (own : Nat → Bool) (w : World) (self : Nat) (s : SensorPtr) : World :=
  match w.ecus self with
  | none => w
  | some e =>
    match e.Subscribed_Sensors.find? (sameSensor s) with
    | some x =>
      log (releaseSensor
            (w.setECU self
              (some { e with Subscribed_Sensors := e.Subscribed_Sensors.eraseP (sameSensor s) }))
            x.addr (own x.addr || x.addr == s.addr))
        (match e.kind with
          | .ADAPTIVE_CRUISE_CONTROL =>
              s.getType ++ " of ID " ++ toString s.getSensorID ++ " is erased successfully."
          | .DIAGNOSTIC =>
              s.getType ++ " of ID " ++ toString s.getSensorID
                ++ " is erased successfully from Diagnostics.")
    | none =>
      log w (match e.kind with
          | .ADAPTIVE_CRUISE_CONTROL => "Couldn't detach the sensor."
          | .DIAGNOSTIC => "Couldn't detach the sensor from Diagnostics.")

/-- The whole destruction of the ECU at `h`, run when its last owner lets go of it: the body of
the destructor of the derived class, the body of `ECU::~ECU` (both in `destroyECU`), then the
members of `ECU`, of which `Subscribed_Sensors` lets go of every `shared_ptr` it holds. -/
def destroyECUFull (own : Nat → Bool) (w : World) (h : Nat) : World :=
  match w.ecus h with
  | none => w
  | some e => releaseAll own (destroyECU w h) e.Subscribed_Sensors

/-- A run after which the `DiagnosticECU` at 0 holds the only `shared_ptr` to the battery level
sensor at 1: the sensor was attached and the variable that pointed to it was reset (a step that
destroys nothing, since the ECU holds the sensor). -/
def lastOwnerRun : List Op :=
  [.newECU .DIAGNOSTIC, .newSensor .BATTERY_LEVEL_SENSOR, .AttachSensor 0 1, .destroySensor 1]

/-- A run after which the `DiagnosticECU` at 2 holds the only `shared_ptr` to the speed sensor at
1, of id 2, and a newer speed sensor, at 3, has the id 2 as well: two speed sensors are
constructed (0 and 1), the ECU is constructed and the sensor at 1 attached to it, the variables
that pointed to the sensors at 1 and at 0 are reset (the second reset destroys the sensor at 0),
and a third speed sensor is constructed. -/
def heldReusedSensorIdRun : List Op :=
  [.newSensor .SPEED_SENSOR, .newSensor .SPEED_SENSOR, .newECU .DIAGNOSTIC, .AttachSensor 2 1,
   .destroySensor 1, .destroySensor 0, .newSensor .SPEED_SENSOR]

/-! ## Frame lemmas -/

@[simp] theorem log_ecus (w : World) (m : String) : (log w m).ecus = w.ecus := rfl
@[simp] theorem log_sensors (w : World) (m : String) : (log w m).sensors = w.sensors := rfl
@[simp] theorem log_next (w : World) (m : String) : (log w m).next = w.next := rfl
@[simp] theorem logAll_ecus (w : World) (ms : List String) : (logAll w ms).ecus = w.ecus := by
  induction ms generalizing w with
  | nil => rfl
  | cons m ms ih => simp [logAll, List.foldl] at ih ⊢; rw [ih]; rfl
@[simp] theorem logAll_sensors (w : World) (ms : List String) :
    (logAll w ms).sensors = w.sensors := by
  induction ms generalizing w with
  | nil => rfl
  | cons m ms ih => simp [logAll, List.foldl] at ih ⊢; rw [ih]; rfl
@[simp] theorem logAll_next (w : World) (ms : List String) : (logAll w ms).next = w.next := by
  induction ms generalizing w with
  | nil => rfl
  | cons m ms ih => simp [logAll, List.foldl] at ih ⊢; rw [ih]; rfl
@[simp] theorem setECU_ecus (w : World) (h : Nat) (e : Option ECU) (a : Nat) :
    (w.setECU h e).ecus a = if a = h then e else w.ecus a := rfl
@[simp] theorem setECU_sensors (w : World) (h : Nat) (e : Option ECU) :
    (w.setECU h e).sensors = w.sensors := rfl
@[simp] theorem setECU_next (w : World) (h : Nat) (e : Option ECU) :
    (w.setECU h e).next = w.next := rfl
@[simp] theorem setSensor_sensors (w : World) (p : Nat) (s : Option Sensor) (a : Nat) :
    (w.setSensor p s).sensors a = if a = p then s else w.sensors a := rfl
@[simp] theorem setSensor_ecus (w : World) (p : Nat) (s : Option Sensor) :
    (w.setSensor p s).ecus = w.ecus := rfl
@[simp] theorem setSensor_next (w : World) (p : Nat) (s : Option Sensor) :
    (w.setSensor p s).next = w.next := rfl

/-! ### What each operation does to the ECU heap -/

@[simp] theorem newSensor_ecus (w : World) (k : SensorTypes) : (newSensor w k).ecus = w.ecus := by
  cases k <;> rfl

@[simp] theorem destroySensor_ecus (w : World) (p : Nat) : (destroySensor w p).ecus = w.ecus := by
  unfold destroySensor
  split
  · rfl
  · rename_i s _
    split
    · rfl
    · cases hk : s.kind <;> simp [World.setSensorCount]

@[simp] theorem AttachECU_ecus (w : World) (S E : Nat) : (AttachECU w S E).ecus = w.ecus := by
  unfold AttachECU
  split
  · rfl
  · split
    · split <;> simp
    · simp

@[simp] theorem DeAttachECU_ecus (w : World) (S E : Nat) : (DeAttachECU w S E).ecus = w.ecus := by
  unfold DeAttachECU
  split
  · rfl
  · split
    · simp only []
      split <;> simp
    · simp

@[simp] theorem sensorRead_ecus (w : World) (S : Nat) (v : Rat) :
    (sensorRead w S v).ecus = w.ecus := by
  unfold sensorRead
  split <;> simp

theorem newECU_ecus (w : World) (k : ECUKind) (a : Nat) :
    (newECU w k).ecus a =
      if a = w.next then
        some { kind := k, ECU_ID := wrapInt (w.ECU_Count + 1), name := k.typeString,
               Recent_Sensory_Data := List.replicate Sensor_Types_Count (fun _ => none),
               Subscribed_Sensors := [], ON := false }
      else w.ecus a := rfl

theorem destroyECU_ecus (w : World) (h a : Nat) :
    (destroyECU w h).ecus a = if a = h then none else w.ecus a := by
  unfold destroyECU
  split
  · rename_i hn
    by_cases ha : a = h
    · simp [ha, hn]
    · simp [ha]
  · simp

theorem updateECU_ecus (w : World) (S E a : Nat) :
    (updateECU w S E).ecus a =
      match w.sensors S, w.ecus E with
      | some s, some e =>
        if a = E then
          some { e with Recent_Sensory_Data :=
                  tableWrite e.Recent_Sensory_Data s.kind.toIndex s.Sensor_ID s.data }
        else w.ecus a
      | _, _ => w.ecus a := by
  unfold updateECU
  cases hs : w.sensors S with
  | none => simp
  | some s =>
    cases he : w.ecus E with
    | none => simp
    | some e => simp

@[simp] theorem updateECU_sensors (w : World) (S E : Nat) :
    (updateECU w S E).sensors = w.sensors := by
  unfold updateECU
  split
  · rfl
  · split <;> simp

@[simp] theorem updateECU_next (w : World) (S E : Nat) :
    (updateECU w S E).next = w.next := by
  unfold updateECU
  split
  · rfl
  · split <;> simp



theorem TablesOnly.refl (w : World) : TablesOnly w w := ⟨rfl, rfl, fun _ => rfl⟩

theorem TablesOnly.trans {a b c : World} (h1 : TablesOnly a b) (h2 : TablesOnly b c) :
    TablesOnly a c :=
  ⟨h2.1.trans h1.1, h2.2.1.trans h1.2.1, fun h => (h2.2.2 h).trans (h1.2.2 h)⟩

theorem tableWrite_length (t : List DataMap) (c : Nat) (k : Int) (v : Rat) :
    (tableWrite t c k v).length = t.length := by
  unfold tableWrite
  split <;> simp

theorem updateECU_tablesOnly (w : World) (S E : Nat) : TablesOnly w (updateECU w S E) := by
  refine ⟨by simp, by simp, fun h => ?_⟩
  rw [updateECU_ecus]
  cases hs : w.sensors S with
  | none => simp
  | some s =>
    cases he : w.ecus E with
    | none => simp
    | some e =>
      by_cases ha : h = E
      · simp [ha, he, ECU.skeleton, tableWrite_length]
      · simp [ha]

theorem foldl_updateECU_tablesOnly (S : Nat) (l : List Nat) (w : World) :
    TablesOnly w (l.foldl (fun acc E => updateECU acc S E) w) := by
  induction l generalizing w with
  | nil => exact TablesOnly.refl w
  | cons E l ih => exact (updateECU_tablesOnly w S E).trans (ih _)

theorem NotifyAllECUs_tablesOnly (w : World) (S : Nat) : TablesOnly w (NotifyAllECUs w S) := by
  unfold NotifyAllECUs
  split
  · exact TablesOnly.refl w
  · exact foldl_updateECU_tablesOnly S _ w

theorem skeleton_of_map_eq {w w' : World} {h : Nat} {e' : ECU}
    (hm : (w'.ecus h).map ECU.skeleton = (w.ecus h).map ECU.skeleton)
    (he : w'.ecus h = some e') : ∃ e, w.ecus h = some e ∧ e.skeleton = e'.skeleton := by
  rw [he] at hm
  cases hw : w.ecus h with
  | none => rw [hw] at hm; simp at hm
  | some e => rw [hw] at hm; simp at hm; exact ⟨e, rfl, hm.symm⟩

theorem DistinctLiveIDs.mono {w w' : World} {l : List Nat}
    (hl : ∀ h ∈ l, ∀ e', w'.ecus h = some e' → ∃ e, w.ecus h = some e ∧ e.getID = e'.getID)
    (hd : DistinctLiveIDs w l) : DistinctLiveIDs w' l := by
  unfold DistinctLiveIDs at *
  induction l with
  | nil => exact List.Pairwise.nil
  | cons a l ih =>
    rw [List.pairwise_cons] at hd ⊢
    refine ⟨fun b hb ea eb hea heb => ?_, ih (fun h hh => hl h (List.mem_cons_of_mem _ hh)) hd.2⟩
    obtain ⟨ea0, h1, h2⟩ := hl a (List.mem_cons_self _ _) ea hea
    obtain ⟨eb0, h3, h4⟩ := hl b (List.mem_cons_of_mem _ hb) eb heb
    rw [← h2, ← h4]
    exact hd.1 b hb ea0 eb0 h1 h3

theorem WF.of_tablesOnly {w w' : World} (hw : WF w) (ht : TablesOnly w w') : WF w' := by
  obtain ⟨hs, hn, he⟩ := ht
  have key : ∀ h e', w'.ecus h = some e' → ∃ e, w.ecus h = some e ∧ e.skeleton = e'.skeleton :=
    fun h e' h' => skeleton_of_map_eq (he h) h'
  constructor
  · intro h e' h'
    obtain ⟨e, h1, _⟩ := key h e' h'
    rw [hn]; exact hw.ecu_lt h e h1
  · intro p s h'
    rw [hs] at h'; rw [hn]; exact hw.sensor_lt p s h'
  · intro p s h'
    rw [hs] at h'; rw [hn]; exact hw.subs_lt p s h'
  · intro h e' h'
    obtain ⟨e, h1, h2⟩ := key h e' h'
    have := hw.table_len h e h1
    simp only [ECU.skeleton, Prod.mk.injEq] at h2
    omega
  · intro h e' h'
    obtain ⟨e, h1, h2⟩ := key h e' h'
    have := hw.distinctSensors h e h1
    simp only [ECU.skeleton, Prod.mk.injEq] at h2
    rw [← h2.2.2.2.2.1]; exact this
  · intro p s h'
    rw [hs] at h'
    refine DistinctLiveIDs.mono (fun h _ e' h2 => ?_) (hw.distinctIDs p s h')
    obtain ⟨e, h1, h3⟩ := key h e' h2
    simp only [ECU.skeleton, Prod.mk.injEq] at h3
    exact ⟨e, h1, h3.2.1⟩
  · intro p s h'
    rw [hs] at h'; exact hw.nodup p s h'



theorem WF_init : WF World.init := by
  constructor <;> intro a b h <;> simp [World.init] at h

theorem newSensor_sensors (w : World) (k : SensorTypes) (a : Nat) :
    (newSensor w k).sensors a =
      if a = w.next then
        some { kind := k, Sensor_ID := wrapInt (w.getSensorCount k + 1), data := 0,
               Subscribed_ECUs := [] }
      else w.sensors a := by
  cases k <;> rfl

@[simp] theorem newSensor_next (w : World) (k : SensorTypes) :
    (newSensor w k).next = w.next + 1 := by
  cases k <;> rfl

theorem destroySensor_sensors (w : World) (p a : Nat) :
    (destroySensor w p).sensors a =
      if a = p ∧ heldByECU w p = false then none else w.sensors a := by
  unfold destroySensor
  cases hs : w.sensors p with
  | none =>
    by_cases ha : a = p
    · simp [ha, hs]
    · simp [ha]
  | some s =>
    by_cases hh : heldByECU w p = true
    · simp [hh]
    · simp only [hh]
      cases hk : s.kind <;> simp [World.setSensorCount]

@[simp] theorem destroySensor_next (w : World) (p : Nat) :
    (destroySensor w p).next = w.next := by
  unfold destroySensor
  split
  · rfl
  · rename_i s _
    split
    · rfl
    · cases hk : s.kind <;> simp [World.setSensorCount]

theorem WF_newSensor {w : World} (hw : WF w) (k : SensorTypes) : WF (newSensor w k) := by
  constructor
  · intro h e h'
    simp at h' ⊢
    exact Nat.lt_succ_of_lt (hw.ecu_lt h e h')
  · intro p s h'
    rw [newSensor_sensors] at h'
    simp only [newSensor_next]
    split at h'
    · omega
    · exact Nat.lt_succ_of_lt (hw.sensor_lt p s h')
  · intro p s h' h hh
    rw [newSensor_sensors] at h'
    simp only [newSensor_next]
    split at h'
    · simp at h'; subst h'; simp at hh
    · exact Nat.lt_succ_of_lt (hw.subs_lt p s h' h hh)
  · intro h e h'
    simp at h'
    exact hw.table_len h e h'
  · intro h e h'
    simp at h'
    exact hw.distinctSensors h e h'
  · intro p s h'
    rw [newSensor_sensors] at h'
    split at h'
    · simp at h'; subst h'; exact List.Pairwise.nil
    · refine DistinctLiveIDs.mono (fun h _ e' h2 => ?_) (hw.distinctIDs p s h')
      simp at h2
      exact ⟨e', h2, rfl⟩
  · intro p s h'
    rw [newSensor_sensors] at h'
    split at h'
    · simp at h'; subst h'; exact List.nodup_nil
    · exact hw.nodup p s h'

theorem WF_destroySensor {w : World} (hw : WF w) (p : Nat) : WF (destroySensor w p) := by
  have key : ∀ a s, (destroySensor w p).sensors a = some s → w.sensors a = some s := by
    intro a s h'
    rw [destroySensor_sensors] at h'
    split at h'
    · simp at h'
    · exact h'
  constructor
  · intro h e h'
    simp at h' ⊢
    exact hw.ecu_lt h e h'
  · intro a s h'
    simp only [destroySensor_next]
    exact hw.sensor_lt a s (key a s h')
  · intro a s h'
    simp only [destroySensor_next]
    exact hw.subs_lt a s (key a s h')
  · intro h e h'
    simp at h'
    exact hw.table_len h e h'
  · intro h e h'
    simp at h'
    exact hw.distinctSensors h e h'
  · intro a s h'
    refine DistinctLiveIDs.mono (fun h _ e' h2 => ?_) (hw.distinctIDs a s (key a s h'))
    simp at h2
    exact ⟨e', h2, rfl⟩
  · intro a s h'
    exact hw.nodup a s (key a s h')



@[simp] theorem newECU_sensors (w : World) (k : ECUKind) : (newECU w k).sensors = w.sensors := rfl
@[simp] theorem newECU_next (w : World) (k : ECUKind) : (newECU w k).next = w.next + 1 := rfl

@[simp] theorem destroyECU_sensors (w : World) (h : Nat) :
    (destroyECU w h).sensors = w.sensors := by
  unfold destroyECU
  split <;> rfl

@[simp] theorem destroyECU_next (w : World) (h : Nat) : (destroyECU w h).next = w.next := by
  unfold destroyECU
  split <;> rfl

theorem WF_newECU {w : World} (hw : WF w) (k : ECUKind) : WF (newECU w k) := by
  constructor
  · intro h e h'
    rw [newECU_ecus] at h'
    simp only [newECU_next]
    split at h'
    · omega
    · exact Nat.lt_succ_of_lt (hw.ecu_lt h e h')
  · intro p s h'
    simp at h' ⊢
    exact Nat.lt_succ_of_lt (hw.sensor_lt p s h')
  · intro p s h' h hh
    simp at h' ⊢
    exact Nat.lt_succ_of_lt (hw.subs_lt p s h' h hh)
  · intro h e h'
    rw [newECU_ecus] at h'
    split at h'
    · simp at h'; subst h'; simp
    · exact hw.table_len h e h'
  · intro h e h'
    rw [newECU_ecus] at h'
    split at h'
    · simp at h'; subst h'; exact List.Pairwise.nil
    · exact hw.distinctSensors h e h'
  · intro p s h'
    simp at h'
    refine DistinctLiveIDs.mono (fun h hh e' h2 => ?_) (hw.distinctIDs p s h')
    rw [newECU_ecus] at h2
    have := hw.subs_lt p s h' h hh
    rw [if_neg (by omega)] at h2
    exact ⟨e', h2, rfl⟩
  · intro p s h'
    simp at h'
    exact hw.nodup p s h'

theorem WF_destroyECU {w : World} (hw : WF w) (h : Nat) : WF (destroyECU w h) := by
  have key : ∀ a e, (destroyECU w h).ecus a = some e → w.ecus a = some e := by
    intro a e h'
    rw [destroyECU_ecus] at h'
    split at h'
    · simp at h'
    · exact h'
  constructor
  · intro a e h'
    simp only [destroyECU_next]
    exact hw.ecu_lt a e (key a e h')
  · intro p s h'
    simp at h' ⊢
    exact hw.sensor_lt p s h'
  · intro p s h'
    simp at h' ⊢
    exact hw.subs_lt p s h'
  · intro a e h'
    exact hw.table_len a e (key a e h')
  · intro a e h'
    exact hw.distinctSensors a e (key a e h')
  · intro p s h'
    simp at h'
    exact DistinctLiveIDs.mono (fun a _ e' h2 => ⟨e', key a e' h2, rfl⟩) (hw.distinctIDs p s h')
  · intro p s h'
    simp at h'
    exact hw.nodup p s h'

/-! ### ECU side operations -/

theorem AttachSensor_ecus (w : World) (E : Nat) (s : SensorPtr) (a : Nat) :
    (AttachSensor w E s).ecus a =
      match w.ecus E with
      | none => w.ecus a
      | some e =>
        if a = E ∧ e.Subscribed_Sensors.any (sameSensor s) = false then
          some { e with Subscribed_Sensors := e.Subscribed_Sensors ++ [s] }
        else w.ecus a := by
  unfold AttachSensor
  cases he : w.ecus E with
  | none => simp
  | some e =>
    by_cases hany : e.Subscribed_Sensors.any (sameSensor s) = true
    · simp only [hany]; simp
    · simp only [hany]
      by_cases ha : a = E
      · simp [ha]
      · simp [ha]

@[simp] theorem AttachSensor_sensors (w : World) (E : Nat) (s : SensorPtr) :
    (AttachSensor w E s).sensors = w.sensors := by
  unfold AttachSensor
  split
  · rfl
  · split <;> simp

@[simp] theorem AttachSensor_next (w : World) (E : Nat) (s : SensorPtr) :
    (AttachSensor w E s).next = w.next := by
  unfold AttachSensor
  split
  · rfl
  · split <;> simp

theorem DeattachSensor_ecus (w : World) (E : Nat) (s : SensorPtr) (a : Nat) :
    (DeattachSensor w E s).ecus a =
      match w.ecus E with
      | none => w.ecus a
      | some e =>
        if a = E then
          some { e with Subscribed_Sensors := e.Subscribed_Sensors.eraseP (sameSensor s) }
        else w.ecus a := by
  unfold DeattachSensor
  cases he : w.ecus E with
  | none => simp
  | some e =>
    by_cases hany : e.Subscribed_Sensors.any (sameSensor s) = true
    · simp only [hany]
      by_cases ha : a = E
      · simp [ha]
      · simp [ha]
    · simp only [hany]
      have hnone : ∀ x ∈ e.Subscribed_Sensors, ¬ sameSensor s x = true := by
        simpa using hany
      rw [List.eraseP_of_forall_not hnone]
      by_cases ha : a = E
      · simp [ha, he]
      · simp [ha]

@[simp] theorem DeattachSensor_sensors (w : World) (E : Nat) (s : SensorPtr) :
    (DeattachSensor w E s).sensors = w.sensors := by
  unfold DeattachSensor
  split
  · rfl
  · split <;> simp

@[simp] theorem DeattachSensor_next (w : World) (E : Nat) (s : SensorPtr) :
    (DeattachSensor w E s).next = w.next := by
  unfold DeattachSensor
  split
  · rfl
  · split <;> simp



theorem sameSensor_comm (a b : SensorPtr) : sameSensor a b = sameSensor b a := by
  unfold sameSensor
  rw [Bool.eq_iff_iff]
  simp only [Bool.and_eq_true, beq_iff_eq]
  constructor <;> rintro ⟨h1, h2⟩ <;> exact ⟨h1.symm, h2.symm⟩

theorem WF.of_ecuChange {w w' : World} (hw : WF w) (hs : w'.sensors = w.sensors)
    (hn : w'.next = w.next)
    (he : ∀ a e', w'.ecus a = some e' → ∃ e, w.ecus a = some e ∧ e.getID = e'.getID ∧
      e'.Recent_Sensory_Data.length = e.Recent_Sensory_Data.length ∧
      DistinctSensors e'.Subscribed_Sensors) : WF w' := by
  constructor
  · intro a e' h'
    obtain ⟨e, h1, _⟩ := he a e' h'
    rw [hn]; exact hw.ecu_lt a e h1
  · intro p s h'
    rw [hs] at h'; rw [hn]; exact hw.sensor_lt p s h'
  · intro p s h'
    rw [hs] at h'; rw [hn]; exact hw.subs_lt p s h'
  · intro a e' h'
    obtain ⟨e, h1, _, h3, _⟩ := he a e' h'
    rw [h3]; exact hw.table_len a e h1
  · intro a e' h'
    obtain ⟨e, _, _, _, h4⟩ := he a e' h'
    exact h4
  · intro p s h'
    rw [hs] at h'
    refine DistinctLiveIDs.mono (fun a _ e' h2 => ?_) (hw.distinctIDs p s h')
    obtain ⟨e, h1, h3, _⟩ := he a e' h2
    exact ⟨e, h1, h3⟩
  · intro p s h'
    rw [hs] at h'; exact hw.nodup p s h'

theorem distinct_append_of_not_any {l : List SensorPtr} {s : SensorPtr}
    (hl : DistinctSensors l) (hany : l.any (sameSensor s) = false) :
    DistinctSensors (l ++ [s]) := by
  unfold DistinctSensors at *
  rw [List.pairwise_append]
  refine ⟨hl, List.pairwise_singleton _ _, fun a ha b hb => ?_⟩
  have hb' : b = s := by simpa using hb
  subst hb'
  rw [sameSensor_comm]
  have : ∀ x ∈ l, ¬ sameSensor b x = true := by simpa using hany
  simpa using this a ha

theorem WF_AttachSensor {w : World} (hw : WF w) (E : Nat) (s : SensorPtr) :
    WF (AttachSensor w E s) := by
  refine hw.of_ecuChange (by simp) (by simp) (fun a e' h' => ?_)
  rw [AttachSensor_ecus] at h'
  cases he : w.ecus E with
  | none =>
    rw [he] at h'
    exact ⟨e', h', rfl, rfl, hw.distinctSensors a e' h'⟩
  | some e =>
    rw [he] at h'
    simp only at h'
    split at h'
    · rename_i hc
      simp only [Option.some.injEq] at h'
      subst h'
      refine ⟨e, by rw [hc.1]; exact he, rfl, rfl, ?_⟩
      exact distinct_append_of_not_any (hw.distinctSensors E e he) hc.2
    · exact ⟨e', h', rfl, rfl, hw.distinctSensors a e' h'⟩

theorem WF_DeattachSensor {w : World} (hw : WF w) (E : Nat) (s : SensorPtr) :
    WF (DeattachSensor w E s) := by
  refine hw.of_ecuChange (by simp) (by simp) (fun a e' h' => ?_)
  rw [DeattachSensor_ecus] at h'
  cases he : w.ecus E with
  | none =>
    rw [he] at h'
    exact ⟨e', h', rfl, rfl, hw.distinctSensors a e' h'⟩
  | some e =>
    rw [he] at h'
    simp only at h'
    split at h'
    · rename_i hc
      simp only [Option.some.injEq] at h'
      subst h'
      refine ⟨e, by rw [hc]; exact he, rfl, rfl, ?_⟩
      exact List.Pairwise.sublist (List.eraseP_sublist _) (hw.distinctSensors E e he)
    · exact ⟨e', h', rfl, rfl, hw.distinctSensors a e' h'⟩

/-! ### Sensor side operations -/

theorem AttachECU_sensors (w : World) (S E a : Nat) :
    (AttachECU w S E).sensors a =
      match w.sensors S, w.ecus E with
      | some s, some sharedEcu =>
        if a = S ∧ s.Subscribed_ECUs.any (sameID w sharedEcu) = false then
          some { s with Subscribed_ECUs := s.Subscribed_ECUs ++ [E] }
        else w.sensors a
      | _, _ => w.sensors a := by
  unfold AttachECU
  cases hs : w.sensors S with
  | none => simp
  | some s =>
    cases he : w.ecus E with
    | none => simp
    | some e =>
      simp only
      cases hf : s.Subscribed_ECUs.find? (sameID w e) with
      | some x =>
        have : s.Subscribed_ECUs.any (sameID w e) = true := by
          rw [List.any_eq_true]
          exact ⟨x, List.mem_of_find?_eq_some hf, List.find?_some hf⟩
        simp [this]
      | none =>
        have : s.Subscribed_ECUs.any (sameID w e) = false := by
          rw [List.find?_eq_none] at hf
          simpa using hf
        by_cases ha : a = S
        · simp [this, ha]
        · simp [ha]

@[simp] theorem AttachECU_next (w : World) (S E : Nat) : (AttachECU w S E).next = w.next := by
  unfold AttachECU
  split
  · rfl
  · split
    · split <;> simp
    · simp

theorem DeAttachECU_sensors (w : World) (S E a : Nat) :
    (DeAttachECU w S E).sensors a =
      match w.sensors S, w.ecus E with
      | some s, some sharedECU =>
        if a = S then
          some { s with Subscribed_ECUs := s.Subscribed_ECUs.eraseP (sameIDName w sharedECU) }
        else w.sensors a
      | _, _ => w.sensors a := by
  unfold DeAttachECU
  cases hs : w.sensors S with
  | none => simp
  | some s =>
    cases he : w.ecus E with
    | none => simp
    | some e =>
      simp only
      by_cases hany : s.Subscribed_ECUs.any (sameIDName w e) = true
      · simp only [hany]
        by_cases ha : a = S
        · simp [ha]
        · simp [ha]
      · simp only [hany]
        have hnone : ∀ x ∈ s.Subscribed_ECUs, ¬ sameIDName w e x = true := by
          simpa using hany
        rw [List.eraseP_of_forall_not hnone]
        by_cases ha : a = S
        · simp [ha, hs]
        · simp [ha]

@[simp] theorem DeAttachECU_next (w : World) (S E : Nat) : (DeAttachECU w S E).next = w.next := by
  unfold DeAttachECU
  split
  · rfl
  · split
    · simp only []
      split <;> simp
    · simp

theorem sensorRead_sensors (w : World) (S : Nat) (v : Rat) (a : Nat) :
    (sensorRead w S v).sensors a =
      match w.sensors S with
      | some s => if a = S then some { s with data := v } else w.sensors a
      | none => w.sensors a := by
  unfold sensorRead
  cases hs : w.sensors S with
  | none => simp
  | some s => simp

@[simp] theorem sensorRead_next (w : World) (S : Nat) (v : Rat) :
    (sensorRead w S v).next = w.next := by
  unfold sensorRead
  split <;> simp



theorem WF.of_sensorChange {w w' : World} (hw : WF w) (he : w'.ecus = w.ecus)
    (hn : w'.next = w.next)
    (hs : ∀ a s', w'.sensors a = some s' → ∃ s, w.sensors a = some s ∧
      (∀ h ∈ s'.Subscribed_ECUs, h < w.next) ∧ DistinctLiveIDs w s'.Subscribed_ECUs ∧
      s'.Subscribed_ECUs.Nodup) : WF w' := by
  constructor
  · intro a e h'
    rw [he] at h'; rw [hn]; exact hw.ecu_lt a e h'
  · intro p s' h'
    obtain ⟨s, h1, _⟩ := hs p s' h'
    rw [hn]; exact hw.sensor_lt p s h1
  · intro p s' h'
    obtain ⟨s, _, h2, _⟩ := hs p s' h'
    rw [hn]; exact h2
  · intro a e h'
    rw [he] at h'; exact hw.table_len a e h'
  · intro a e h'
    rw [he] at h'; exact hw.distinctSensors a e h'
  · intro p s' h'
    obtain ⟨s, _, _, h3, _⟩ := hs p s' h'
    refine DistinctLiveIDs.mono (fun a _ e' h2 => ?_) h3
    rw [he] at h2
    exact ⟨e', h2, rfl⟩
  · intro p s' h'
    obtain ⟨s, _, _, _, h4⟩ := hs p s' h'
    exact h4

theorem sameID_self {w : World} {E : Nat} {e : ECU} (he : w.ecus E = some e) :
    sameID w e E = true := by
  simp [sameID, he]

theorem WF_AttachECU {w : World} (hw : WF w) (S E : Nat) : WF (AttachECU w S E) := by
  refine hw.of_sensorChange (by simp) (by simp) (fun a s' h' => ?_)
  have keep : ∀ s, w.sensors a = some s → ∃ s0, w.sensors a = some s0 ∧
      (∀ h ∈ s.Subscribed_ECUs, h < w.next) ∧ DistinctLiveIDs w s.Subscribed_ECUs ∧
      s.Subscribed_ECUs.Nodup :=
    fun s h => ⟨s, h, hw.subs_lt a s h, hw.distinctIDs a s h, hw.nodup a s h⟩
  rw [AttachECU_sensors] at h'
  cases hs : w.sensors S with
  | none => rw [hs] at h'; exact keep s' h'
  | some s =>
    cases he : w.ecus E with
    | none => rw [hs, he] at h'; exact keep s' h'
    | some e =>
      rw [hs, he] at h'
      simp only at h'
      split at h'
      · rename_i hc
        simp only [Option.some.injEq] at h'
        subst h'
        have hnot : ∀ x ∈ s.Subscribed_ECUs, ¬ sameID w e x = true := by simpa using hc.2
        refine ⟨s, by rw [hc.1]; exact hs, ?_, ?_, ?_⟩
        · intro h hh
          rcases List.mem_append.1 hh with h1 | h1
          · exact hw.subs_lt S s hs h h1
          · have : h = E := by simpa using h1
            rw [this]; exact hw.ecu_lt E e he
        · unfold DistinctLiveIDs
          rw [List.pairwise_append]
          refine ⟨hw.distinctIDs S s hs, List.pairwise_singleton _ _, ?_⟩
          intro x hx y hy ex ey hex hey
          have hyE : y = E := by simpa using hy
          subst hyE
          rw [he] at hey
          simp only [Option.some.injEq] at hey
          subst hey
          intro hid
          apply hnot x hx
          simp [sameID, hex, hid]
        · rw [List.nodup_append]
          refine ⟨hw.nodup S s hs, List.nodup_singleton _, ?_⟩
          intro x hx hx'
          have hxE : x = E := by simpa using hx'
          subst hxE
          exact hnot x hx (sameID_self he)
      · exact keep s' h'

theorem DistinctLiveIDs.sublist {w : World} {l l' : List Nat} (hl : l'.Sublist l)
    (hd : DistinctLiveIDs w l) : DistinctLiveIDs w l' :=
  List.Pairwise.sublist hl hd

theorem WF_DeAttachECU {w : World} (hw : WF w) (S E : Nat) : WF (DeAttachECU w S E) := by
  refine hw.of_sensorChange (by simp) (by simp) (fun a s' h' => ?_)
  have keep : ∀ s, w.sensors a = some s → ∃ s0, w.sensors a = some s0 ∧
      (∀ h ∈ s.Subscribed_ECUs, h < w.next) ∧ DistinctLiveIDs w s.Subscribed_ECUs ∧
      s.Subscribed_ECUs.Nodup :=
    fun s h => ⟨s, h, hw.subs_lt a s h, hw.distinctIDs a s h, hw.nodup a s h⟩
  rw [DeAttachECU_sensors] at h'
  cases hs : w.sensors S with
  | none => rw [hs] at h'; exact keep s' h'
  | some s =>
    cases he : w.ecus E with
    | none => rw [hs, he] at h'; exact keep s' h'
    | some e =>
      rw [hs, he] at h'
      simp only at h'
      split at h'
      · rename_i hc
        simp only [Option.some.injEq] at h'
        subst h'
        have hsub := List.eraseP_sublist (p := sameIDName w e) s.Subscribed_ECUs
        refine ⟨s, by rw [hc]; exact hs, ?_, ?_, ?_⟩
        · intro h hh
          exact hw.subs_lt S s hs h (hsub.subset hh)
        · exact (hw.distinctIDs S s hs).sublist hsub
        · exact (hw.nodup S s hs).sublist hsub
      · exact keep s' h'

theorem WF_sensorRead {w : World} (hw : WF w) (S : Nat) (v : Rat) : WF (sensorRead w S v) := by
  refine hw.of_sensorChange (by simp) (by simp) (fun a s' h' => ?_)
  have keep : ∀ s, w.sensors a = some s → ∃ s0, w.sensors a = some s0 ∧
      (∀ h ∈ s.Subscribed_ECUs, h < w.next) ∧ DistinctLiveIDs w s.Subscribed_ECUs ∧
      s.Subscribed_ECUs.Nodup :=
    fun s h => ⟨s, h, hw.subs_lt a s h, hw.distinctIDs a s h, hw.nodup a s h⟩
  rw [sensorRead_sensors] at h'
  cases hs : w.sensors S with
  | none => rw [hs] at h'; exact keep s' h'
  | some s =>
    rw [hs] at h'
    simp only at h'
    split at h'
    · rename_i hc
      simp only [Option.some.injEq] at h'
      subst h'
      exact ⟨s, by rw [hc]; exact hs, hw.subs_lt S s hs, hw.distinctIDs S s hs, hw.nodup S s hs⟩
    · exact keep s' h'

theorem WF_step {w : World} (hw : WF w) (op : Op) : WF (step w op) := by
  cases op with
  | newSensor k => exact WF_newSensor hw k
  | destroySensor p => exact WF_destroySensor hw p
  | newECU k => exact WF_newECU hw k
  | destroyECU h => exact WF_destroyECU hw h
  | AttachSensor E S =>
    simp only [step]
    split
    · exact WF_AttachSensor hw E _
    · exact hw
  | DeattachSensor E S =>
    simp only [step]
    split
    · exact WF_DeattachSensor hw E _
    · exact hw
  | AttachECU S E => exact WF_AttachECU hw S E
  | DeAttachECU S E => exact WF_DeAttachECU hw S E
  | updateECU S E => exact hw.of_tablesOnly (updateECU_tablesOnly w S E)
  | NotifyAllECUs S => exact hw.of_tablesOnly (NotifyAllECUs_tablesOnly w S)
  | sensorRead S v => exact WF_sensorRead hw S v

theorem WF_run {w : World} (hw : WF w) (ops : List Op) : WF (run w ops) := by
  induction ops generalizing w with
  | nil => exact hw
  | cons op ops ih => exact ih (WF_step hw op)

theorem WF_reachable (ops : List Op) : WF (run World.init ops) := WF_run WF_init ops

/-! ## Supporting lemmas -/

theorem sameSensor_iff (s x : SensorPtr) : sameSensor s x = true ↔ sameKey x s := by
  simp only [sameSensor, sameKey, Bool.and_eq_true, beq_iff_eq]
  exact ⟨fun h => ⟨h.2, h.1⟩, fun h => ⟨h.2, h.1⟩⟩

theorem sameSensor_eq_decide (s : SensorPtr) :
    sameSensor s = fun x => decide (sameKey x s) := by
  funext x
  rw [Bool.eq_iff_iff]
  simp [sameSensor_iff]

theorem sameSensor_trans {s a b : SensorPtr} (ha : sameSensor s a = true)
    (hb : sameSensor s b = true) : sameSensor a b = true := by
  simp only [sameSensor, Bool.and_eq_true, beq_iff_eq] at *
  exact ⟨hb.1.trans ha.1.symm, hb.2.trans ha.2.symm⟩

theorem countP_le_one_of_distinct (s : SensorPtr) :
    ∀ l : List SensorPtr, DistinctSensors l → l.countP (sameSensor s) ≤ 1
  | [], _ => by simp
  | a :: l, h => by
    have ih := countP_le_one_of_distinct s l (List.Pairwise.of_cons h)
    by_cases ha : sameSensor s a = true
    · have h0 : l.countP (sameSensor s) = 0 := by
        rw [List.countP_eq_zero]
        intro b hb hsb
        have := List.rel_of_pairwise_cons h hb
        rw [sameSensor_trans ha hsb] at this
        exact Bool.noConfusion this
      simp [List.countP_cons, ha, h0]
    · simp [List.countP_cons, ha]
      exact ih

theorem sameSensor_self (s : SensorPtr) : sameSensor s s = true := by
  simp [sameSensor]

theorem AttachSensor_subscribed_of_any {w : World} {E : Nat} {e : ECU} {s : SensorPtr}
    (he : w.ecus E = some e) (hany : e.Subscribed_Sensors.any (sameSensor s) = true) :
    (AttachSensor w E s).subscribedSensors E = some e.Subscribed_Sensors := by
  simp [World.subscribedSensors, AttachSensor_ecus, he, hany]

theorem AttachSensor_subscribed_of_not_any {w : World} {E : Nat} {e : ECU} {s : SensorPtr}
    (he : w.ecus E = some e) (hany : e.Subscribed_Sensors.any (sameSensor s) = false) :
    (AttachSensor w E s).subscribedSensors E = some (e.Subscribed_Sensors ++ [s]) := by
  simp [World.subscribedSensors, AttachSensor_ecus, he, hany]

/-- After `AttachSensor(s)` the list of the ECU has an entry matching `s`, and a further
`AttachSensor(s)` leaves the list as it is. -/
theorem AttachSensor_twice {w : World} {E : Nat} {e : ECU} (s : SensorPtr)
    (he : w.ecus E = some e) :
    ∃ l, (AttachSensor w E s).subscribedSensors E = some l ∧
      (AttachSensor (AttachSensor w E s) E s).subscribedSensors E = some l ∧
      l.any (sameSensor s) = true ∧
      (DistinctSensors e.Subscribed_Sensors → DistinctSensors l) := by
  by_cases hany : e.Subscribed_Sensors.any (sameSensor s) = true
  · have h1 := AttachSensor_subscribed_of_any he hany
    have he1 : ∃ e1, (AttachSensor w E s).ecus E = some e1 ∧
        e1.Subscribed_Sensors = e.Subscribed_Sensors := by
      simp only [World.subscribedSensors, Option.map_eq_some'] at h1
      exact h1
    obtain ⟨e1, h2, h3⟩ := he1
    refine ⟨e.Subscribed_Sensors, h1, ?_, hany, fun h => h⟩
    rw [← h3]
    exact AttachSensor_subscribed_of_any h2 (by rw [h3]; exact hany)
  · have hany' : e.Subscribed_Sensors.any (sameSensor s) = false := by simpa using hany
    have h1 := AttachSensor_subscribed_of_not_any he hany'
    have he1 : ∃ e1, (AttachSensor w E s).ecus E = some e1 ∧
        e1.Subscribed_Sensors = e.Subscribed_Sensors ++ [s] := by
      simp only [World.subscribedSensors, Option.map_eq_some'] at h1
      exact h1
    obtain ⟨e1, h2, h3⟩ := he1
    have hany1 : e1.Subscribed_Sensors.any (sameSensor s) = true := by
      rw [h3]; simp [sameSensor_self]
    refine ⟨e.Subscribed_Sensors ++ [s], h1, ?_, by rw [← h3]; exact hany1,
      fun h => distinct_append_of_not_any h hany'⟩
    rw [← h3]
    exact AttachSensor_subscribed_of_any h2 hany1

theorem countP_eq_one_of_distinct {l : List SensorPtr} {s : SensorPtr}
    (hd : DistinctSensors l) (hany : l.any (sameSensor s) = true) :
    l.countP (fun x => decide (sameKey x s)) = 1 := by
  rw [← sameSensor_eq_decide]
  have h1 := countP_le_one_of_distinct s l hd
  have h2 : 0 < l.countP (sameSensor s) := by
    rw [List.countP_pos_iff]
    simpa using hany
  omega

/-! ### Subscribe then unsubscribe -/

theorem not_mem_eraseP_of_distinct (s : SensorPtr) :
    ∀ l : List SensorPtr, DistinctSensors l →
      ∀ x ∈ l.eraseP (sameSensor s), sameSensor s x = false
  | [], _ => by simp
  | a :: l, h => by
    intro x hx
    by_cases ha : sameSensor s a = true
    · rw [List.eraseP_cons_of_pos ha] at hx
      have hax := List.rel_of_pairwise_cons h hx
      cases hsx : sameSensor s x with
      | false => rfl
      | true => rw [sameSensor_trans ha hsx] at hax; exact Bool.noConfusion hax
    · rw [List.eraseP_cons_of_neg ha] at hx
      rcases List.mem_cons.1 hx with hxa | hxl
      · rw [hxa]; simpa using ha
      · exact not_mem_eraseP_of_distinct s l (List.Pairwise.of_cons h) x hxl

theorem not_mem_eraseP_of_unique {p : Nat → Bool} {E : Nat} (hE : p E = true) :
    ∀ l : List Nat, l.Nodup → (∀ x ∈ l, p x = true → x = E) → E ∉ l.eraseP p
  | [], _, _ => by simp
  | a :: l, hn, hu => by
    by_cases ha : p a = true
    · rw [List.eraseP_cons_of_pos ha]
      have := hu a (List.mem_cons_self _ _) ha
      rw [← this]
      exact (List.nodup_cons.1 hn).1
    · rw [List.eraseP_cons_of_neg ha]
      intro hmem
      rcases List.mem_cons.1 hmem with h1 | h1
      · rw [← h1] at ha; exact ha hE
      · exact not_mem_eraseP_of_unique hE l (List.nodup_cons.1 hn).2
          (fun x hx => hu x (List.mem_cons_of_mem _ hx)) h1

theorem sameIDName_self {w : World} {E : Nat} {e : ECU} (he : w.ecus E = some e) :
    sameIDName w e E = true := by
  simp [sameIDName, he]

/-- In a list without two live entries of one id, `DeAttachECU(E)` with `E` alive leaves no entry
for `E`. -/
theorem not_mem_eraseP_sameIDName {w : World} {E : Nat} {e : ECU} {l : List Nat}
    (he : w.ecus E = some e) (hn : l.Nodup) (hd : DistinctLiveIDs w l) :
    E ∉ l.eraseP (sameIDName w e) := by
  by_cases hmem : E ∈ l
  · refine not_mem_eraseP_of_unique (sameIDName_self he) l hn (fun x hx hp => ?_)
    by_contra hne
    have hsymm : Symmetric fun a b : Nat =>
        ∀ ea eb, w.ecus a = some ea → w.ecus b = some eb → ea.getID ≠ eb.getID :=
      fun a b hab eb ea h1 h2 => (hab ea eb h2 h1).symm
    have := List.Pairwise.forall hsymm hd hx hmem hne
    cases hx' : w.ecus x with
    | none => simp [sameIDName, hx'] at hp
    | some ex =>
      simp only [sameIDName, hx', Bool.and_eq_true, beq_iff_eq] at hp
      exact this ex e hx' he hp.1
  · exact fun h => hmem ((List.eraseP_sublist l).subset h)

theorem AttachECU_sharedPtr (w : World) (S E a : Nat) :
    (AttachECU w S E).sharedPtr a = w.sharedPtr a := by
  unfold World.sharedPtr
  rw [AttachECU_sensors]
  cases hs : w.sensors S with
  | none => simp
  | some s =>
    cases he : w.ecus E with
    | none => simp
    | some e =>
      simp only
      split
      · rename_i hc
        rw [hc.1, hs]
        rfl
      · rfl

theorem AttachSensor_sharedPtr (w : World) (E : Nat) (s : SensorPtr) (a : Nat) :
    (AttachSensor w E s).sharedPtr a = w.sharedPtr a := by
  simp [World.sharedPtr]

theorem AttachSensor_live {w : World} {E : Nat} (s : SensorPtr) {a : Nat}
    (h : (w.ecus a).isSome = true) : ((AttachSensor w E s).ecus a).isSome = true := by
  rw [AttachSensor_ecus]
  cases he : w.ecus E with
  | none => simpa using h
  | some e =>
    simp only
    split
    · rfl
    · exact h

/-! ### Detaching what is not there -/

theorem DeattachSensor_subscribed (w : World) (E : Nat) (sp : SensorPtr) :
    (DeattachSensor w E sp).subscribedSensors E =
      (w.subscribedSensors E).map (fun l => l.eraseP (sameSensor sp)) := by
  simp only [World.subscribedSensors, DeattachSensor_ecus]
  cases he : w.ecus E with
  | none => simp [he]
  | some e => simp

theorem DeAttachECU_subscribed (w : World) (S E : Nat) :
    (DeAttachECU w S E).subscribedECUs S =
      match w.ecus E with
      | some sharedECU => (w.subscribedECUs S).map (fun l => l.eraseP (sameIDName w sharedECU))
      | none => w.subscribedECUs S := by
  simp only [World.subscribedECUs, DeAttachECU_sensors]
  cases hs : w.sensors S with
  | none => cases he : w.ecus E <;> simp [hs]
  | some s => cases he : w.ecus E <;> simp [hs]

theorem no_sameIDName_after_eraseP {w : World} (e : ECU) :
    ∀ l : List Nat, DistinctLiveIDs w l →
      ∀ x ∈ l.eraseP (sameIDName w e), sameIDName w e x = false
  | [], _ => by simp
  | a :: l, h => by
    intro x hx
    by_cases ha : sameIDName w e a = true
    · rw [List.eraseP_cons_of_pos ha] at hx
      have hax := List.rel_of_pairwise_cons h hx
      cases hsx : sameIDName w e x with
      | false => rfl
      | true =>
        exfalso
        cases hwa : w.ecus a with
        | none => simp [sameIDName, hwa] at ha
        | some ea =>
          cases hwx : w.ecus x with
          | none => simp [sameIDName, hwx] at hsx
          | some ex =>
            simp only [sameIDName, hwa, hwx, Bool.and_eq_true, beq_iff_eq] at ha hsx
            exact hax ea ex hwa hwx (ha.1.trans hsx.1.symm)
    · rw [List.eraseP_cons_of_neg ha] at hx
      rcases List.mem_cons.1 hx with hxa | hxl
      · rw [hxa]; simpa using ha
      · exact no_sameIDName_after_eraseP e l (List.Pairwise.of_cons h) x hxl

theorem sameIDName_congr {w w' : World} {e e' : ECU}
    (hw : ∀ x, (w'.ecus x).map (fun e => (e.getID, e.getName))
      = (w.ecus x).map (fun e => (e.getID, e.getName)))
    (he : (e'.getID, e'.getName) = (e.getID, e.getName)) :
    sameIDName w' e' = sameIDName w e := by
  funext x
  have hx := hw x
  simp only [Prod.mk.injEq] at he
  unfold sameIDName
  cases h1 : w'.ecus x with
  | none =>
    cases h2 : w.ecus x with
    | none => rfl
    | some b => rw [h1, h2] at hx; simp at hx
  | some a =>
    cases h2 : w.ecus x with
    | none => rw [h1, h2] at hx; simp at hx
    | some b =>
      rw [h1, h2] at hx
      simp only [Option.map_some', Option.some.injEq, Prod.mk.injEq] at hx
      simp only [hx.1, hx.2, he.1, he.2]

theorem DeattachSensor_idName (w : World) (E : Nat) (sp : SensorPtr) (x : Nat) :
    ((DeattachSensor w E sp).ecus x).map (fun e => (e.getID, e.getName))
      = (w.ecus x).map (fun e => (e.getID, e.getName)) := by
  rw [DeattachSensor_ecus]
  cases he : w.ecus E with
  | none => rfl
  | some e =>
    simp only
    split
    · rename_i hc
      rw [hc, he]; rfl
    · rfl

theorem DeAttachECU_sharedPtr (w : World) (S E a : Nat) :
    (DeAttachECU w S E).sharedPtr a = w.sharedPtr a := by
  unfold World.sharedPtr
  rw [DeAttachECU_sensors]
  cases hs : w.sensors S with
  | none => simp
  | some s =>
    cases he : w.ecus E with
    | none => simp
    | some e =>
      simp only
      split
      · rename_i hc
        rw [hc, hs]; rfl
      · rfl

/-- Both halves of an unsubscription as the two method calls, in a state where `S` is alive. -/
theorem Unsubscribe_eq {w : World} {E S : Nat} {sp : SensorPtr} (hsp : w.sharedPtr S = some sp) :
    Unsubscribe w E S = DeAttachECU (DeattachSensor w E sp) S E := by
  simp [Unsubscribe, step, hsp]

theorem Unsubscribe_of_dead {w : World} {E S : Nat} (hsp : w.sharedPtr S = none) :
    Unsubscribe w E S = w := by
  have hs : w.sensors S = none := by simpa [World.sharedPtr] using hsp
  simp [Unsubscribe, step, hsp, DeAttachECU, hs]

theorem Unsubscribe_subscribedSensors {w : World} {E S : Nat} {sp : SensorPtr}
    (hsp : w.sharedPtr S = some sp) :
    (Unsubscribe w E S).subscribedSensors E =
      (w.subscribedSensors E).map (fun l => l.eraseP (sameSensor sp)) := by
  rw [Unsubscribe_eq hsp]
  simp only [World.subscribedSensors, DeAttachECU_ecus]
  exact DeattachSensor_subscribed w E sp

theorem Unsubscribe_subscribedECUs {w : World} {E S : Nat} {sp : SensorPtr}
    (hsp : w.sharedPtr S = some sp) :
    (Unsubscribe w E S).subscribedECUs S =
      match w.ecus E with
      | some e => (w.subscribedECUs S).map (fun l => l.eraseP (sameIDName w e))
      | none => w.subscribedECUs S := by
  rw [Unsubscribe_eq hsp, DeAttachECU_subscribed]
  have hid := DeattachSensor_idName w E sp
  cases he : w.ecus E with
  | none =>
    have : (DeattachSensor w E sp).ecus E = none := by
      have := hid E; rw [he] at this; simpa using this
    rw [this]
    simp [World.subscribedECUs]
  | some e =>
    have h1 := hid E
    rw [he] at h1
    cases he' : (DeattachSensor w E sp).ecus E with
    | none => rw [he'] at h1; simp at h1
    | some e' =>
      rw [he'] at h1
      simp only [Option.map_some', Option.some.injEq] at h1
      simp only
      rw [sameIDName_congr hid h1]
      simp [World.subscribedECUs]

theorem WF_Unsubscribe {w : World} (hw : WF w) (E S : Nat) : WF (Unsubscribe w E S) :=
  WF_step (WF_step hw _) _

theorem Unsubscribe_twice {w : World} (hw : WF w) (E S : Nat) :
    (Unsubscribe (Unsubscribe w E S) E S).subscribedSensors E
      = (Unsubscribe w E S).subscribedSensors E ∧
    (Unsubscribe (Unsubscribe w E S) E S).subscribedECUs S
      = (Unsubscribe w E S).subscribedECUs S := by
  cases hsp : w.sharedPtr S with
  | none => rw [Unsubscribe_of_dead hsp, Unsubscribe_of_dead hsp]; exact ⟨rfl, rfl⟩
  | some sp =>
    have hsp1 : (Unsubscribe w E S).sharedPtr S = some sp := by
      rw [Unsubscribe_eq hsp, DeAttachECU_sharedPtr]
      simpa [World.sharedPtr] using hsp
    have hw1 := WF_Unsubscribe hw E S
    constructor
    · rw [Unsubscribe_subscribedSensors hsp1]
      cases hl : (Unsubscribe w E S).subscribedSensors E with
      | none => rfl
      | some l =>
        simp only [Option.map_some', Option.some.injEq]
        rw [Unsubscribe_subscribedSensors hsp] at hl
        cases he : w.ecus E with
        | none => simp [World.subscribedSensors, he] at hl
        | some e =>
          simp only [World.subscribedSensors, he, Option.map_some', Option.some.injEq] at hl
          subst hl
          exact List.eraseP_of_forall_not (fun x hx hs => by
            have := not_mem_eraseP_of_distinct sp _ (hw.distinctSensors E e he) x hx
            rw [hs] at this
            exact Bool.noConfusion this)
    · rw [Unsubscribe_subscribedECUs hsp1]
      cases he1 : (Unsubscribe w E S).ecus E with
      | none => rfl
      | some e1 =>
        simp only
        cases hl : (Unsubscribe w E S).subscribedECUs S with
        | none => rfl
        | some l =>
          simp only [Option.map_some', Option.some.injEq]
          refine List.eraseP_of_forall_not (fun x hx hs => ?_)
          obtain ⟨s1, hs1, hl1⟩ : ∃ s1, (Unsubscribe w E S).sensors S = some s1 ∧
              s1.Subscribed_ECUs = l := by
            simpa [World.subscribedECUs] using hl
          rw [Unsubscribe_subscribedECUs hsp] at hl
          have hid : ∀ x, ((Unsubscribe w E S).ecus x).map (fun e => (e.getID, e.getName))
              = (w.ecus x).map (fun e => (e.getID, e.getName)) := by
            intro x
            rw [Unsubscribe_eq hsp, DeAttachECU_ecus]
            exact DeattachSensor_idName w E sp x
          cases he : w.ecus E with
          | none =>
            have := hid E
            rw [he, he1] at this
            simp at this
          | some e =>
            have h1 := hid E
            rw [he, he1] at h1
            simp only [Option.map_some', Option.some.injEq] at h1
            rw [sameIDName_congr hid h1] at hs
            rw [he] at hl
            cases hs0 : w.sensors S with
            | none => simp [World.subscribedECUs, hs0] at hl
            | some s0 =>
              simp only [World.subscribedECUs, hs0, Option.map_some', Option.some.injEq] at hl
              subst hl
              have := no_sameIDName_after_eraseP e _ (hw.distinctIDs S s0 hs0) x hx
              rw [hs] at this
              exact Bool.noConfusion this

/-! ### Notification -/

theorem tableRead_tableWrite_same {t : List DataMap} {c : Nat} (hc : c < t.length) (k : Int)
    (v : Rat) : tableRead (tableWrite t c k v) c k = some v := by
  simp only [tableRead, tableWrite, List.getElem?_eq_getElem hc]
  rw [List.getElem?_set_self hc]
  simp [DataMap.assign]

theorem tableRead_tableWrite_keep {t : List DataMap} {c : Nat} {k : Int} {v : Rat}
    (h : tableRead t c k = some v) : tableRead (tableWrite t c k v) c k = some v := by
  by_cases hc : c < t.length
  · exact tableRead_tableWrite_same hc k v
  · simp [tableRead, List.getElem?_eq_none (Nat.le_of_not_lt hc)] at h

theorem updateECU_readTable_self {w : World} {S E : Nat} {s : Sensor} {e : ECU}
    (hs : w.sensors S = some s) (he : w.ecus E = some e)
    (hlen : s.kind.toIndex < e.Recent_Sensory_Data.length) :
    (updateECU w S E).readTable E s.kind s.Sensor_ID = some s.data := by
  simp only [World.readTable, updateECU_ecus, hs, he, if_true]
  exact tableRead_tableWrite_same hlen _ _

theorem updateECU_readTable_keep {w : World} {S E h : Nat} {s : Sensor}
    (hs : w.sensors S = some s)
    (hr : w.readTable h s.kind s.Sensor_ID = some s.data) :
    (updateECU w S E).readTable h s.kind s.Sensor_ID = some s.data := by
  simp only [World.readTable, updateECU_ecus, hs] at hr ⊢
  cases he : w.ecus E with
  | none => simpa using hr
  | some e =>
    simp only
    by_cases hh : h = E
    · subst hh
      rw [he] at hr
      simp only at hr
      simp only [if_true]
      exact tableRead_tableWrite_keep hr
    · simp only [hh, if_false]
      exact hr

theorem foldl_updateECU_keep {S : Nat} {s : Sensor} {h : Nat} :
    ∀ (l : List Nat) (w : World), w.sensors S = some s →
      w.readTable h s.kind s.Sensor_ID = some s.data →
      (l.foldl (fun acc E => updateECU acc S E) w).readTable h s.kind s.Sensor_ID = some s.data
  | [], _, _, hr => hr
  | E :: l, w, hs, hr =>
    foldl_updateECU_keep l (updateECU w S E) (by simpa using hs) (updateECU_readTable_keep hs hr)

theorem foldl_updateECU_reaches {S : Nat} {s : Sensor} {h : Nat} :
    ∀ (l : List Nat) (w : World), w.sensors S = some s → h ∈ l →
      (∀ e, w.ecus h = some e → s.kind.toIndex < e.Recent_Sensory_Data.length) →
      (w.ecus h).isSome = true →
      (l.foldl (fun acc E => updateECU acc S E) w).readTable h s.kind s.Sensor_ID = some s.data
  | [], _, _, hm, _, _ => by simp at hm
  | E :: l, w, hs, hm, hlen, hlive => by
    have hs' : (updateECU w S E).sensors S = some s := by simpa using hs
    by_cases hE : h = E
    · subst hE
      obtain ⟨e, he⟩ := Option.isSome_iff_exists.1 hlive
      exact foldl_updateECU_keep l _ hs' (updateECU_readTable_self hs he (hlen e he))
    · have hm' : h ∈ l := by
        rcases List.mem_cons.1 hm with h1 | h1
        · exact absurd h1 hE
        · exact h1
      have hsk := (updateECU_tablesOnly w S E).2.2 h
      refine foldl_updateECU_reaches l _ hs' hm' ?_ ?_
      · intro e' he'
        obtain ⟨e, he, hsk'⟩ := skeleton_of_map_eq hsk he'
        have := hlen e he
        simp only [ECU.skeleton, Prod.mk.injEq] at hsk'
        omega
      · cases hw : w.ecus h with
        | none => rw [hw] at hlive; exact Bool.noConfusion hlive
        | some e =>
          rw [hw] at hsk
          cases hu : (updateECU w S E).ecus h with
          | none => rw [hu] at hsk; simp at hsk
          | some _ => rfl

theorem toIndex_lt (k : SensorTypes) : k.toIndex < Sensor_Types_Count := by
  cases k <;> decide

/-- Calling `AttachECU(E)` and then `NotifyAllECUs()` brings the reading into the table of `E`,
provided no other live entry of `Subscribed_ECUs` has the id of `E`. -/
theorem AttachECU_NotifyAllECUs_reaches (ops : List Op) (S E : Nat) (s : Sensor)
    (hS : (run World.init ops).sensors S = some s)
    (hE : ((run World.init ops).ecus E).isSome = true)
    (hno : ∀ x ∈ s.Subscribed_ECUs, x ≠ E → ∀ ex eE, (run World.init ops).ecus x = some ex →
      (run World.init ops).ecus E = some eE → ex.getID ≠ eE.getID) :
    (NotifyAllECUs (AttachECU (run World.init ops) S E) S).readTable E s.kind s.Sensor_ID
      = some s.data := by
  have hw := WF_reachable ops
  generalize run World.init ops = w at *
  obtain ⟨eE, heE⟩ := Option.isSome_iff_exists.1 hE
  have hw1 := WF_AttachECU hw S E
  have hlen : ∀ e, (AttachECU w S E).ecus E = some e →
      s.kind.toIndex < e.Recent_Sensory_Data.length := by
    intro e he
    rw [hw1.table_len E e he]
    exact toIndex_lt s.kind
  have hlive : ((AttachECU w S E).ecus E).isSome = true := by simpa using hE
  have hs1 : ∃ l1, E ∈ l1 ∧
      (AttachECU w S E).sensors S = some { s with Subscribed_ECUs := l1 } := by
    rw [AttachECU_sensors, hS, heE]
    simp only
    by_cases hany : s.Subscribed_ECUs.any (sameID w eE) = true
    · refine ⟨s.Subscribed_ECUs, ?_, by simp [hany, hS]⟩
      obtain ⟨x, hx, hsx⟩ := List.any_eq_true.1 hany
      by_cases hxE : x = E
      · exact hxE ▸ hx
      · exfalso
        cases hwx : w.ecus x with
        | none => simp [sameID, hwx] at hsx
        | some ex =>
          simp only [sameID, hwx, beq_iff_eq] at hsx
          exact hno x hx hxE ex eE hwx heE hsx
    · have hany' : s.Subscribed_ECUs.any (sameID w eE) = false := by simpa using hany
      exact ⟨s.Subscribed_ECUs ++ [E], by simp, by simp [hany']⟩
  obtain ⟨l1, hmem, hs1⟩ := hs1
  simp only [NotifyAllECUs, hs1]
  exact foldl_updateECU_reaches (s := { s with Subscribed_ECUs := l1 }) l1 _ hs1 hmem hlen hlive

theorem wrapInt_of_range {x : Int} (h1 : -2147483648 ≤ x) (h2 : x ≤ 2147483647) :
    wrapInt x = x := by
  unfold wrapInt
  omega

theorem newSensor_getSensorCount (w : World) (k k' : SensorTypes) :
    (newSensor w k).getSensorCount k' =
      if k' = k then wrapInt (w.getSensorCount k + 1) else w.getSensorCount k' := by
  cases k <;> cases k' <;> rfl

/-! ### Counters and populations -/

@[simp] theorem log_getSensorCount (w : World) (m : String) (k : SensorTypes) :
    (log w m).getSensorCount k = w.getSensorCount k := by
  cases k <;> rfl

@[simp] theorem logAll_getSensorCount (w : World) (ms : List String) (k : SensorTypes) :
    (logAll w ms).getSensorCount k = w.getSensorCount k := by
  induction ms generalizing w with
  | nil => rfl
  | cons m ms ih => simp [logAll, List.foldl] at ih ⊢; rw [ih]; simp

@[simp] theorem setECU_getSensorCount (w : World) (h : Nat) (e : Option ECU) (k : SensorTypes) :
    (w.setECU h e).getSensorCount k = w.getSensorCount k := by
  cases k <;> rfl

@[simp] theorem setSensor_getSensorCount (w : World) (p : Nat) (s : Option Sensor)
    (k : SensorTypes) : (w.setSensor p s).getSensorCount k = w.getSensorCount k := by
  cases k <;> rfl

@[simp] theorem newECU_getSensorCount (w : World) (k : ECUKind) (k' : SensorTypes) :
    (newECU w k).getSensorCount k' = w.getSensorCount k' := by
  cases k' <;> rfl

@[simp] theorem destroyECU_getSensorCount (w : World) (h : Nat) (k : SensorTypes) :
    (destroyECU w h).getSensorCount k = w.getSensorCount k := by
  unfold destroyECU
  split
  · rfl
  · cases k <;> rfl

@[simp] theorem AttachSensor_getSensorCount (w : World) (E : Nat) (s : SensorPtr)
    (k : SensorTypes) : (AttachSensor w E s).getSensorCount k = w.getSensorCount k := by
  unfold AttachSensor
  split
  · rfl
  · split <;> simp

@[simp] theorem DeattachSensor_getSensorCount (w : World) (E : Nat) (s : SensorPtr)
    (k : SensorTypes) : (DeattachSensor w E s).getSensorCount k = w.getSensorCount k := by
  unfold DeattachSensor
  split
  · rfl
  · split <;> simp

@[simp] theorem AttachECU_getSensorCount (w : World) (S E : Nat) (k : SensorTypes) :
    (AttachECU w S E).getSensorCount k = w.getSensorCount k := by
  unfold AttachECU
  split
  · rfl
  · split
    · split <;> simp
    · simp

@[simp] theorem DeAttachECU_getSensorCount (w : World) (S E : Nat) (k : SensorTypes) :
    (DeAttachECU w S E).getSensorCount k = w.getSensorCount k := by
  unfold DeAttachECU
  split
  · rfl
  · split
    · simp only []
      split <;> simp
    · simp

@[simp] theorem updateECU_getSensorCount (w : World) (S E : Nat) (k : SensorTypes) :
    (updateECU w S E).getSensorCount k = w.getSensorCount k := by
  unfold updateECU
  split
  · rfl
  · split <;> simp

@[simp] theorem NotifyAllECUs_getSensorCount (w : World) (S : Nat) (k : SensorTypes) :
    (NotifyAllECUs w S).getSensorCount k = w.getSensorCount k := by
  unfold NotifyAllECUs
  split
  · rfl
  · rename_i s _
    generalize s.Subscribed_ECUs = l
    clear * -
    induction l generalizing w with
    | nil => rfl
    | cons E l ih => simp only [List.foldl]; rw [ih]; simp

@[simp] theorem sensorRead_getSensorCount (w : World) (S : Nat) (v : Rat) (k : SensorTypes) :
    (sensorRead w S v).getSensorCount k = w.getSensorCount k := by
  unfold sensorRead
  split <;> simp

theorem destroySensor_of_not_live {w : World} {p : Nat} (h : w.sensors p = none) :
    destroySensor w p = w := by
  simp [destroySensor, h]

theorem destroySensor_of_held {w : World} {p : Nat} (h : heldByECU w p = true) :
    destroySensor w p = w := by
  unfold destroySensor
  split
  · rfl
  · simp [h]

theorem destroySensor_getSensorCount {w : World} {p : Nat} {s : Sensor}
    (hs : w.sensors p = some s) (hh : heldByECU w p = false) (k : SensorTypes) :
    (destroySensor w p).getSensorCount k =
      if k = s.kind then wrapInt (w.getSensorCount s.kind - 1) else w.getSensorCount k := by
  simp only [destroySensor, hs, hh]
  cases hk : s.kind <;> cases k <;> rfl

theorem liveSensors_eq_countP (w : World) (k : SensorTypes) :
    liveSensors w k = (List.range w.next).countP (isLiveOfKind w k) := by
  rw [liveSensors, List.countP_eq_length_filter]

theorem countP_range_succ (f : Nat → Bool) (n : Nat) :
    (List.range (n + 1)).countP f = (List.range n).countP f + if f n = true then 1 else 0 := by
  rw [List.range_succ, List.countP_append]
  simp [List.countP_cons]

theorem countP_range_congr {f g : Nat → Bool} {n : Nat} (h : ∀ a, a < n → f a = g a) :
    (List.range n).countP f = (List.range n).countP g := by
  apply List.countP_congr
  intro a ha
  rw [h a (List.mem_range.1 ha)]

theorem countP_range_remove {f g : Nat → Bool} {p : Nat} (hf : f p = true) (hg : g p = false)
    (h : ∀ a, a ≠ p → g a = f a) :
    ∀ n, p < n → (List.range n).countP f = (List.range n).countP g + 1
  | 0, hp => by omega
  | n + 1, hp => by
    rw [countP_range_succ, countP_range_succ]
    by_cases hpn : p = n
    · subst hpn
      rw [countP_range_congr (f := f) (g := g) (fun a ha => (h a (by omega)).symm)]
      simp [hf, hg]
    · rw [countP_range_remove hf hg h n (by omega), h n (fun hn => hpn hn.symm)]
      omega

theorem liveSensors_congr {w w' : World} (hn : w'.next = w.next)
    (hk : ∀ a, (w'.sensors a).map Sensor.kind = (w.sensors a).map Sensor.kind)
    (k : SensorTypes) : liveSensors w' k = liveSensors w k := by
  rw [liveSensors_eq_countP, liveSensors_eq_countP, hn]
  apply countP_range_congr
  intro a _
  have := hk a
  unfold isLiveOfKind
  cases h1 : w'.sensors a <;> cases h2 : w.sensors a <;> simp [h1, h2] at this ⊢
  rw [this]

theorem AttachECU_kind (w : World) (S E a : Nat) :
    ((AttachECU w S E).sensors a).map Sensor.kind = (w.sensors a).map Sensor.kind := by
  rw [AttachECU_sensors]
  cases hs : w.sensors S with
  | none => rfl
  | some s =>
    cases he : w.ecus E with
    | none => rfl
    | some e =>
      simp only
      split
      · rename_i hc
        rw [hc.1, hs]; rfl
      · rfl

theorem DeAttachECU_kind (w : World) (S E a : Nat) :
    ((DeAttachECU w S E).sensors a).map Sensor.kind = (w.sensors a).map Sensor.kind := by
  rw [DeAttachECU_sensors]
  cases hs : w.sensors S with
  | none => rfl
  | some s =>
    cases he : w.ecus E with
    | none => rfl
    | some e =>
      simp only
      split
      · rename_i hc
        rw [hc, hs]; rfl
      · rfl

theorem sensorRead_kind (w : World) (S : Nat) (v : Rat) (a : Nat) :
    ((sensorRead w S v).sensors a).map Sensor.kind = (w.sensors a).map Sensor.kind := by
  rw [sensorRead_sensors]
  cases hs : w.sensors S with
  | none => rfl
  | some s =>
    simp only
    split
    · rename_i hc
      rw [hc, hs]; rfl
    · rfl

theorem liveSensors_newSensor (w : World) (k0 k : SensorTypes) :
    liveSensors (newSensor w k0) k = liveSensors w k + if k = k0 then 1 else 0 := by
  rw [liveSensors_eq_countP, liveSensors_eq_countP, newSensor_next, countP_range_succ]
  congr 1
  · apply countP_range_congr
    intro a ha
    simp only [isLiveOfKind, newSensor_sensors, if_neg (Nat.ne_of_lt ha)]
  · simp only [isLiveOfKind, newSensor_sensors, if_true, decide_eq_true_eq]
    by_cases h : k = k0
    · simp [h]
    · simp [h, Ne.symm h]

theorem liveSensors_newECU {w : World} (hw : WF w) (k0 : ECUKind) (k : SensorTypes) :
    liveSensors (newECU w k0) k = liveSensors w k := by
  rw [liveSensors_eq_countP, liveSensors_eq_countP, newECU_next, countP_range_succ]
  have hnone : w.sensors w.next = none := by
    cases h : w.sensors w.next with
    | none => rfl
    | some s => exact absurd (hw.sensor_lt _ s h) (Nat.lt_irrefl _)
  have : isLiveOfKind (newECU w k0) k w.next = false := by
    simp [isLiveOfKind, hnone]
  rw [this]
  simp only [Bool.false_eq_true, if_false, Nat.add_zero]
  apply countP_range_congr
  intro a _
  simp [isLiveOfKind]

theorem liveSensors_destroySensor {w : World} (hw : WF w) {p : Nat} {s : Sensor}
    (hs : w.sensors p = some s) (hh : heldByECU w p = false) (k : SensorTypes) :
    liveSensors w k = liveSensors (destroySensor w p) k + if k = s.kind then 1 else 0 := by
  rw [liveSensors_eq_countP, liveSensors_eq_countP, destroySensor_next]
  have hother : ∀ k' a, a ≠ p →
      isLiveOfKind (destroySensor w p) k' a = isLiveOfKind w k' a := by
    intro k' a ha
    simp only [isLiveOfKind, destroySensor_sensors]
    rw [if_neg (fun h => ha h.1)]
  have hp : ∀ k', isLiveOfKind (destroySensor w p) k' p = false := by
    intro k'
    simp [isLiveOfKind, destroySensor_sensors, hh]
  by_cases hk : k = s.kind
  · rw [if_pos hk]
    refine countP_range_remove ?_ (hp k) (hother k) w.next (hw.sensor_lt p s hs)
    simp [isLiveOfKind, hs, hk]
  · rw [if_neg hk, Nat.add_zero]
    apply countP_range_congr
    intro a _
    by_cases ha : a = p
    · subst ha
      rw [hp k]
      simp [isLiveOfKind, hs, Ne.symm hk]
    · exact (hother k a ha).symm

theorem CountsOK_of_same {w w' : World} (hc : CountsOK w)
    (h1 : ∀ k, w'.getSensorCount k = w.getSensorCount k)
    (h2 : ∀ k, liveSensors w' k = liveSensors w k) : CountsOK w' := by
  intro k
  rw [h1 k, h2 k]
  exact hc k

theorem CountsOK_step {w : World} (hw : WF w) (hc : CountsOK w) (op : Op)
    (hop : ∀ k, op = .newSensor k → w.getSensorCount k < INT_MAX) : CountsOK (step w op) := by
  cases op with
  | newSensor k0 =>
    intro k
    have hlt := hop k0 rfl
    have h0 := hc k0
    have hwrap : wrapInt (w.getSensorCount k0 + 1) = w.getSensorCount k0 + 1 := by
      apply wrapInt_of_range
      · have : (0 : Int) ≤ (liveSensors w k0 : Int) := Int.ofNat_nonneg _
        omega
      · unfold INT_MAX at hlt; omega
    simp only [step]
    rw [newSensor_getSensorCount, liveSensors_newSensor]
    by_cases hk : k = k0
    · subst hk
      rw [if_pos rfl, if_pos rfl, hwrap, h0.1]
      refine ⟨by push_cast; rfl, ?_⟩
      rw [← h0.1]; unfold INT_MAX at *; omega
    · rw [if_neg hk, if_neg hk]
      simpa using hc k
  | destroySensor p =>
    simp only [step]
    cases hs : w.sensors p with
    | none => rw [destroySensor_of_not_live hs]; exact hc
    | some s =>
      by_cases hh : heldByECU w p = true
      · rw [destroySensor_of_held hh]; exact hc
      · have hh' : heldByECU w p = false := by simpa using hh
        intro k
        have hl := liveSensors_destroySensor hw hs hh' k
        rw [destroySensor_getSensorCount hs hh']
        by_cases hk : k = s.kind
        · subst hk
          rw [if_pos rfl] at hl ⊢
          have h0 := hc s.kind
          have hwrap : wrapInt (w.getSensorCount s.kind - 1) = w.getSensorCount s.kind - 1 := by
            apply wrapInt_of_range
            · rw [h0.1, hl]; push_cast; omega
            · have := h0.2; unfold INT_MAX at this; omega
          rw [hwrap, h0.1, hl]
          refine ⟨by push_cast; omega, ?_⟩
          have := h0.2
          rw [h0.1, hl] at this
          push_cast at this ⊢
          omega
        · rw [if_neg hk] at hl ⊢
          rw [Nat.add_zero] at hl
          rw [← hl]
          exact hc k
  | newECU k0 =>
    exact CountsOK_of_same hc (fun k => by simp [step]) (fun k => liveSensors_newECU hw k0 k)
  | destroyECU h =>
    exact CountsOK_of_same hc (fun k => by simp [step])
      (fun k => liveSensors_congr (by simp [step]) (fun a => by simp [step]) k)
  | AttachSensor E S =>
    simp only [step]
    split
    · exact CountsOK_of_same hc (fun k => by simp)
        (fun k => liveSensors_congr (by simp) (fun a => by simp) k)
    · exact hc
  | DeattachSensor E S =>
    simp only [step]
    split
    · exact CountsOK_of_same hc (fun k => by simp)
        (fun k => liveSensors_congr (by simp) (fun a => by simp) k)
    · exact hc
  | AttachECU S E =>
    exact CountsOK_of_same hc (fun k => by simp [step])
      (fun k => liveSensors_congr (by simp [step]) (fun a => AttachECU_kind w S E a) k)
  | DeAttachECU S E =>
    exact CountsOK_of_same hc (fun k => by simp [step])
      (fun k => liveSensors_congr (by simp [step]) (fun a => DeAttachECU_kind w S E a) k)
  | updateECU S E =>
    exact CountsOK_of_same hc (fun k => by simp [step])
      (fun k => liveSensors_congr (by simp [step]) (fun a => by simp [step]) k)
  | NotifyAllECUs S =>
    exact CountsOK_of_same hc (fun k => by simp [step])
      (fun k => liveSensors_congr (NotifyAllECUs_tablesOnly w S).2.1
        (fun a => by rw [(NotifyAllECUs_tablesOnly w S).1]) k)
  | sensorRead S v =>
    exact CountsOK_of_same hc (fun k => by simp [step])
      (fun k => liveSensors_congr (by simp [step]) (fun a => sensorRead_kind w S v a) k)

theorem NoOverflow_cons {w : World} {op : Op} {ops : List Op}
    (h : NoOverflow w (op :: ops) = true) :
    (∀ k, op = .newSensor k → w.getSensorCount k < INT_MAX) ∧
      NoOverflow (step w op) ops = true := by
  cases op <;> simp [NoOverflow] at h ⊢ <;> exact h

theorem CountsOK_run {w : World} (hw : WF w) (hc : CountsOK w) :
    ∀ ops : List Op, NoOverflow w ops = true → CountsOK (run w ops)
  | [], _ => hc
  | op :: ops, h => by
    obtain ⟨h1, h2⟩ := NoOverflow_cons h
    exact CountsOK_run (WF_step hw op) (CountsOK_step hw hc op h1) ops h2

theorem CountsOK_init : CountsOK World.init := by
  intro k
  cases k <;> exact ⟨rfl, by decide⟩

theorem run_append (w : World) (a b : List Op) : run w (a ++ b) = run (run w a) b := by
  simp [run, List.foldl_append]

theorem NoOverflow_append (w : World) (a b : List Op) :
    NoOverflow w (a ++ b) = (NoOverflow w a && NoOverflow (run w a) b) := by
  induction a generalizing w with
  | nil => simp [NoOverflow, run]
  | cons op a ih =>
    have hrun : run w (op :: a) = run (step w op) a := rfl
    cases op <;> simp [NoOverflow, ih, hrun, Bool.and_assoc]

theorem sensorRead_sharedPtr (w : World) (S : Nat) (v : Rat) (a : Nat) :
    (sensorRead w S v).sharedPtr a = w.sharedPtr a := by
  unfold World.sharedPtr
  rw [sensorRead_sensors]
  cases hs : w.sensors S with
  | none => rfl
  | some s =>
    simp only
    split
    · rename_i hc
      rw [hc, hs]; rfl
    · rfl

theorem getSensorID_of_sharedPtr {w w' : World} {a : Nat}
    (h : w'.sharedPtr a = w.sharedPtr a) :
    (w'.sensors a).map Sensor.getSensorID = (w.sensors a).map Sensor.getSensorID := by
  unfold World.sharedPtr at h
  cases h1 : w'.sensors a <;> cases h2 : w.sensors a <;> simp [h1, h2] at h ⊢
  exact h.2

theorem step_next_le (w : World) (op : Op) : w.next ≤ (step w op).next := by
  cases op <;> simp [step]
  case AttachSensor E S => split <;> simp
  case DeattachSensor E S => split <;> simp
  case NotifyAllECUs S => rw [(NotifyAllECUs_tablesOnly w S).2.1]

theorem step_getSensorID {w : World} {op : Op} (hnd : op.isDestroySensor = false) {a : Nat}
    (ha : a < w.next) :
    ((step w op).sensors a).map Sensor.getSensorID = (w.sensors a).map Sensor.getSensorID := by
  cases op with
  | newSensor k => simp only [step, newSensor_sensors, if_neg (Nat.ne_of_lt ha)]
  | destroySensor p => simp [Op.isDestroySensor] at hnd
  | newECU k => simp [step]
  | destroyECU h => simp [step]
  | AttachSensor E S => simp only [step]; split <;> simp
  | DeattachSensor E S => simp only [step]; split <;> simp
  | AttachECU S E => exact getSensorID_of_sharedPtr (AttachECU_sharedPtr w S E a)
  | DeAttachECU S E => exact getSensorID_of_sharedPtr (DeAttachECU_sharedPtr w S E a)
  | updateECU S E => simp [step]
  | NotifyAllECUs S => simp only [step]; rw [(NotifyAllECUs_tablesOnly w S).1]
  | sensorRead S v => exact getSensorID_of_sharedPtr (sensorRead_sharedPtr w S v a)

theorem step_getSensorCount {w : World} {op : Op} (hnd : op.isDestroySensor = false)
    (hns : ∀ k, op ≠ .newSensor k) (k : SensorTypes) :
    (step w op).getSensorCount k = w.getSensorCount k := by
  cases op with
  | newSensor k0 => exact absurd rfl (hns k0)
  | destroySensor p => simp [Op.isDestroySensor] at hnd
  | AttachSensor E S => simp only [step]; split <;> simp
  | DeattachSensor E S => simp only [step]; split <;> simp
  | _ => simp [step]

/-- Steps that destroy no sensor, from a state whose class counters are all zero. -/
theorem construct_run_invariant (w0 : World) (h0 : ∀ k, w0.getSensorCount k = 0)
    (ops : List Op) (hov : NoOverflow w0 ops = true)
    (hnd : ∀ op ∈ ops, op.isDestroySensor = false) :
    (∀ k, (run w0 ops).getSensorCount k = (ops.count (.newSensor k) : Nat)) ∧
    ∀ i k, ops[i]? = some (.newSensor k) →
      (run w0 (ops.take i)).next < (run w0 ops).next ∧
      ((run w0 ops).sensors (run w0 (ops.take i)).next).map Sensor.getSensorID
        = some (((ops.take (i + 1)).count (.newSensor k) : Nat) : Int) := by
  induction ops using List.reverseRecOn with
  | nil =>
    refine ⟨fun k => by simpa [run] using h0 k, fun i k h => by simp at h⟩
  | append_singleton ops op ih =>
    rw [NoOverflow_append, Bool.and_eq_true] at hov
    obtain ⟨hc, hs⟩ := ih hov.1 (fun o ho => hnd o (List.mem_append_left _ ho))
    have hop : op.isDestroySensor = false := hnd op (by simp)
    have hrun : run w0 (ops ++ [op]) = step (run w0 ops) op := by
      rw [run_append]; rfl
    rw [hrun]
    have hlast := hov.2
    generalize hw : run w0 ops = w at *
    have hcount : ∀ k, (w.getSensorCount k + 1 = ((ops ++ [op]).count (.newSensor k) : Nat) ∧
        op = .newSensor k) ∨
        (w.getSensorCount k = ((ops ++ [op]).count (.newSensor k) : Nat) ∧
        op ≠ .newSensor k) := by
      intro k
      by_cases hk : op = .newSensor k
      · left
        subst hk
        rw [hc k, List.count_append]
        simp
      · right
        rw [hc k, List.count_append,
          List.count_eq_zero_of_not_mem (a := Op.newSensor k) (l := [op])
            (by simpa [eq_comm] using hk)]
        simp [hk]
    have hwrap : ∀ k, op = .newSensor k →
        wrapInt (w.getSensorCount k + 1) = w.getSensorCount k + 1 := by
      intro k hk
      subst hk
      have hlt : w.getSensorCount k < INT_MAX := by
        simpa [NoOverflow] using hlast
      apply wrapInt_of_range
      · rw [hc k]; omega
      · unfold INT_MAX at hlt; omega
    constructor
    · intro k
      rcases hcount k with ⟨h1, h2⟩ | ⟨h1, h2⟩
      · subst h2
        simp only [step]
        rw [newSensor_getSensorCount, if_pos rfl, hwrap k rfl, h1]
      · rw [← h1]
        by_cases hns : ∀ k', op ≠ .newSensor k'
        · exact step_getSensorCount hop hns k
        · push_neg at hns
          obtain ⟨k', hk'⟩ := hns
          subst hk'
          simp only [step]
          rw [newSensor_getSensorCount, if_neg (fun h => h2 (by rw [h]))]
    · intro i k hi
      by_cases hi' : i = ops.length
      · subst hi'
        have hk : op = .newSensor k := by simpa using hi
        subst hk
        rw [List.take_left' rfl, List.take_of_length_le (by simp), hw]
        simp only [step, newSensor_next, newSensor_sensors, if_true, Option.map_some',
          Sensor.getSensorID]
        refine ⟨Nat.lt_succ_self _, ?_⟩
        rw [hwrap k rfl]
        rcases hcount k with ⟨h1, _⟩ | ⟨_, h2⟩
        · rw [h1]
        · exact absurd rfl h2
      · have hlt : i < ops.length := by
          have := (List.getElem?_eq_some_iff.1 hi).1
          simp at this
          omega
        rw [List.getElem?_append_left hlt] at hi
        rw [List.take_append_of_le_length (by omega),
          List.take_append_of_le_length (by omega)]
        obtain ⟨h1, h2⟩ := hs i k hi
        refine ⟨Nat.lt_of_lt_of_le h1 (step_next_le w op), ?_⟩
        rw [step_getSensorID hop h1]
        exact h2

/-! ### The ECU counter -/

@[simp] theorem log_ECU_Count (w : World) (m : String) : (log w m).ECU_Count = w.ECU_Count := rfl

@[simp] theorem logAll_ECU_Count (w : World) (ms : List String) :
    (logAll w ms).ECU_Count = w.ECU_Count := by
  induction ms generalizing w with
  | nil => rfl
  | cons m ms ih => simp [logAll, List.foldl] at ih ⊢; rw [ih]; rfl

@[simp] theorem setECU_ECU_Count (w : World) (h : Nat) (e : Option ECU) :
    (w.setECU h e).ECU_Count = w.ECU_Count := rfl

@[simp] theorem setSensor_ECU_Count (w : World) (p : Nat) (s : Option Sensor) :
    (w.setSensor p s).ECU_Count = w.ECU_Count := rfl

@[simp] theorem newSensor_ECU_Count (w : World) (k : SensorTypes) :
    (newSensor w k).ECU_Count = w.ECU_Count := by
  cases k <;> rfl

@[simp] theorem destroySensor_ECU_Count (w : World) (p : Nat) :
    (destroySensor w p).ECU_Count = w.ECU_Count := by
  unfold destroySensor
  split
  · rfl
  · rename_i s _
    split
    · rfl
    · cases hk : s.kind <;> simp [World.setSensorCount]

theorem newECU_ECU_Count (w : World) (k : ECUKind) :
    (newECU w k).ECU_Count = wrapInt (w.ECU_Count + 1) := rfl

theorem destroyECU_ECU_Count (w : World) (h : Nat) :
    (destroyECU w h).ECU_Count =
      if (w.ecus h).isSome then wrapInt (w.ECU_Count - 1) else w.ECU_Count := by
  unfold destroyECU
  cases he : w.ecus h with
  | none => simp
  | some e => simp

@[simp] theorem AttachSensor_ECU_Count (w : World) (E : Nat) (s : SensorPtr) :
    (AttachSensor w E s).ECU_Count = w.ECU_Count := by
  unfold AttachSensor
  split
  · rfl
  · split <;> simp

@[simp] theorem DeattachSensor_ECU_Count (w : World) (E : Nat) (s : SensorPtr) :
    (DeattachSensor w E s).ECU_Count = w.ECU_Count := by
  unfold DeattachSensor
  split
  · rfl
  · split <;> simp

@[simp] theorem AttachECU_ECU_Count (w : World) (S E : Nat) :
    (AttachECU w S E).ECU_Count = w.ECU_Count := by
  unfold AttachECU
  split
  · rfl
  · split
    · split <;> simp
    · simp

@[simp] theorem DeAttachECU_ECU_Count (w : World) (S E : Nat) :
    (DeAttachECU w S E).ECU_Count = w.ECU_Count := by
  unfold DeAttachECU
  split
  · rfl
  · split
    · simp only []
      split <;> simp
    · simp

@[simp] theorem updateECU_ECU_Count (w : World) (S E : Nat) :
    (updateECU w S E).ECU_Count = w.ECU_Count := by
  unfold updateECU
  split
  · rfl
  · split <;> simp

@[simp] theorem NotifyAllECUs_ECU_Count (w : World) (S : Nat) :
    (NotifyAllECUs w S).ECU_Count = w.ECU_Count := by
  unfold NotifyAllECUs
  split
  · rfl
  · rename_i s _
    generalize s.Subscribed_ECUs = l
    clear * -
    induction l generalizing w with
    | nil => rfl
    | cons E l ih => simp only [List.foldl]; rw [ih]; simp

@[simp] theorem sensorRead_ECU_Count (w : World) (S : Nat) (v : Rat) :
    (sensorRead w S v).ECU_Count = w.ECU_Count := by
  unfold sensorRead
  split <;> simp

theorem liveECUs_eq_countP (w : World) :
    liveECUs w = (List.range w.next).countP (fun a => (w.ecus a).isSome) := by
  rw [liveECUs, List.countP_eq_length_filter]

theorem liveECUs_congr {w w' : World} (hn : w'.next = w.next)
    (hk : ∀ a, (w'.ecus a).isSome = (w.ecus a).isSome) : liveECUs w' = liveECUs w := by
  rw [liveECUs_eq_countP, liveECUs_eq_countP, hn]
  exact countP_range_congr (fun a _ => hk a)

theorem liveECUs_newECU (w : World) (k : ECUKind) :
    liveECUs (newECU w k) = liveECUs w + 1 := by
  rw [liveECUs_eq_countP, liveECUs_eq_countP, newECU_next, countP_range_succ]
  congr 1
  · apply countP_range_congr
    intro a ha
    simp only [newECU_ecus, if_neg (Nat.ne_of_lt ha)]
  · simp [newECU_ecus]

theorem liveECUs_newSensor {w : World} (hw : WF w) (k : SensorTypes) :
    liveECUs (newSensor w k) = liveECUs w := by
  rw [liveECUs_eq_countP, liveECUs_eq_countP, newSensor_next, countP_range_succ]
  have hnone : w.ecus w.next = none := by
    cases h : w.ecus w.next with
    | none => rfl
    | some e => exact absurd (hw.ecu_lt _ e h) (Nat.lt_irrefl _)
  simp [hnone]

theorem liveECUs_destroyECU {w : World} (hw : WF w) {h : Nat} (hl : (w.ecus h).isSome = true) :
    liveECUs w = liveECUs (destroyECU w h) + 1 := by
  rw [liveECUs_eq_countP, liveECUs_eq_countP, destroyECU_next]
  obtain ⟨e, he⟩ := Option.isSome_iff_exists.1 hl
  refine countP_range_remove hl ?_ ?_ w.next (hw.ecu_lt h e he)
  · simp [destroyECU_ecus]
  · intro a ha
    simp [destroyECU_ecus, ha]

theorem ECUCountOK_of_same {w w' : World} (hc : ECUCountOK w)
    (h1 : w'.ECU_Count = w.ECU_Count) (h2 : liveECUs w' = liveECUs w) : ECUCountOK w' := by
  unfold ECUCountOK getECUCount at *
  rw [h1, h2]
  exact hc

theorem ECUCountOK_step {w : World} (hw : WF w) (hc : ECUCountOK w) (op : Op)
    (hop : ∀ k, op = .newECU k → w.ECU_Count < INT_MAX) : ECUCountOK (step w op) := by
  cases op with
  | newECU k0 =>
    have hlt := hop k0 rfl
    unfold ECUCountOK getECUCount at *
    simp only [step]
    rw [newECU_ECU_Count, liveECUs_newECU]
    have hwrap : wrapInt (w.ECU_Count + 1) = w.ECU_Count + 1 := by
      apply wrapInt_of_range
      · have : (0 : Int) ≤ (liveECUs w : Int) := Int.ofNat_nonneg _
        omega
      · unfold INT_MAX at hlt; omega
    rw [hwrap, hc.1]
    refine ⟨by push_cast; rfl, ?_⟩
    rw [← hc.1]; unfold INT_MAX at *; omega
  | destroyECU h =>
    simp only [step]
    cases hl : (w.ecus h).isSome with
    | false =>
      have hnone : w.ecus h = none := by simpa using hl
      have : destroyECU w h = w := by simp [destroyECU, hnone]
      rw [this]; exact hc
    | true =>
      have hcount := liveECUs_destroyECU hw hl
      unfold ECUCountOK getECUCount at *
      rw [destroyECU_ECU_Count, hl, if_pos rfl]
      have hwrap : wrapInt (w.ECU_Count - 1) = w.ECU_Count - 1 := by
        apply wrapInt_of_range
        · rw [hc.1, hcount]; push_cast; omega
        · have := hc.2; unfold INT_MAX at this; omega
      rw [hwrap, hc.1, hcount]
      refine ⟨by push_cast; omega, ?_⟩
      have := hc.2
      rw [hc.1, hcount] at this
      push_cast at this ⊢
      omega
  | newSensor k => exact ECUCountOK_of_same hc (by simp [step]) (liveECUs_newSensor hw k)
  | destroySensor p =>
    exact ECUCountOK_of_same hc (by simp [step])
      (liveECUs_congr (by simp [step]) (fun a => by simp [step]))
  | AttachSensor E S =>
    simp only [step]
    split
    · rename_i s _
      refine ECUCountOK_of_same hc (by simp) (liveECUs_congr (by simp) (fun a => ?_))
      rw [AttachSensor_ecus]
      cases he : w.ecus E with
      | none => rfl
      | some e =>
        simp only
        split
        · rename_i hc'
          rw [hc'.1, he]; rfl
        · rfl
    · exact hc
  | DeattachSensor E S =>
    simp only [step]
    split
    · rename_i s _
      refine ECUCountOK_of_same hc (by simp) (liveECUs_congr (by simp) (fun a => ?_))
      rw [DeattachSensor_ecus]
      cases he : w.ecus E with
      | none => rfl
      | some e =>
        simp only
        split
        · rename_i hc'
          rw [hc', he]; rfl
        · rfl
    · exact hc
  | AttachECU S E =>
    exact ECUCountOK_of_same hc (by simp [step])
      (liveECUs_congr (by simp [step]) (fun a => by simp [step]))
  | DeAttachECU S E =>
    exact ECUCountOK_of_same hc (by simp [step])
      (liveECUs_congr (by simp [step]) (fun a => by simp [step]))
  | updateECU S E =>
    refine ECUCountOK_of_same hc (by simp [step])
      (liveECUs_congr (by simp [step]) (fun a => ?_))
    have := (updateECU_tablesOnly w S E).2.2 a
    simp only [step]
    cases h1 : (updateECU w S E).ecus a <;> cases h2 : w.ecus a <;> simp [h1, h2] at this ⊢
  | NotifyAllECUs S =>
    refine ECUCountOK_of_same hc (by simp [step])
      (liveECUs_congr (NotifyAllECUs_tablesOnly w S).2.1 (fun a => ?_))
    have := (NotifyAllECUs_tablesOnly w S).2.2 a
    simp only [step]
    cases h1 : (NotifyAllECUs w S).ecus a <;> cases h2 : w.ecus a <;> simp [h1, h2] at this ⊢
  | sensorRead S v =>
    exact ECUCountOK_of_same hc (by simp [step])
      (liveECUs_congr (by simp [step]) (fun a => by simp [step]))

theorem NoECUOverflow_cons {w : World} {op : Op} {ops : List Op}
    (h : NoECUOverflow w (op :: ops) = true) :
    (∀ k, op = .newECU k → w.ECU_Count < INT_MAX) ∧
      NoECUOverflow (step w op) ops = true := by
  cases op <;> simp [NoECUOverflow] at h ⊢ <;> exact h

theorem ECUCountOK_run {w : World} (hw : WF w) (hc : ECUCountOK w) :
    ∀ ops : List Op, NoECUOverflow w ops = true → ECUCountOK (run w ops)
  | [], _ => hc
  | op :: ops, h => by
    obtain ⟨h1, h2⟩ := NoECUOverflow_cons h
    exact ECUCountOK_run (WF_step hw op) (ECUCountOK_step hw hc op h1) ops h2

theorem ECUCountOK_init : ECUCountOK World.init := ⟨rfl, by decide⟩

/-! ### Constructing `n` sensors of one category and destroying one -/

theorem replicate_newSensor_run (k : SensorTypes) :
    ∀ n : Nat, (n : Int) ≤ INT_MAX →
      (run World.init (List.replicate n (.newSensor k))).next = n ∧
      (run World.init (List.replicate n (.newSensor k))).getSensorCount k = (n : Int) ∧
      (run World.init (List.replicate n (.newSensor k))).ecus = (fun _ => none) ∧
      NoOverflow World.init (List.replicate n (.newSensor k)) = true ∧
      ∀ i, i < n → (run World.init (List.replicate n (.newSensor k))).sensors i
        = some ⟨k, (i : Int) + 1, 0, []⟩
  | 0, _ => ⟨rfl, by cases k <;> rfl, rfl, rfl, fun i hi => absurd hi (Nat.not_lt_zero i)⟩
  | n + 1, hn => by
    have hn' : (n : Int) + 1 ≤ INT_MAX := by exact_mod_cast hn
    obtain ⟨h1, h2, h3, h4, h5⟩ := replicate_newSensor_run k n (by omega)
    have hrun : run World.init (List.replicate (n + 1) (Op.newSensor k)) =
        newSensor (run World.init (List.replicate n (.newSensor k))) k := by
      rw [List.replicate_succ', run_append]; rfl
    have hwrap : wrapInt ((n : Int) + 1) = (n : Int) + 1 := by
      apply wrapInt_of_range
      · omega
      · unfold INT_MAX at hn'; omega
    refine ⟨?_, ?_, ?_, ?_, ?_⟩
    · rw [hrun, newSensor_next, h1]
    · rw [hrun, newSensor_getSensorCount, if_pos rfl, h2, hwrap]; push_cast; rfl
    · rw [hrun, newSensor_ecus, h3]
    · rw [List.replicate_succ', NoOverflow_append, h4]
      have : (run World.init (List.replicate n (.newSensor k))).getSensorCount k < INT_MAX := by
        rw [h2]; omega
      simp [NoOverflow, this]
    · intro i hi
      rw [hrun, newSensor_sensors, h1]
      by_cases hin : i = n
      · subst hin
        rw [if_pos rfl, h2, hwrap]
      · rw [if_neg hin]
        exact h5 i (by omega)

theorem heldByECU_of_no_ECU {w : World} (h : w.ecus = fun _ => none) (p : Nat) :
    heldByECU w p = false := by
  simp [heldByECU, h]

/-! ### What `AttachECU` compares -/

theorem AttachECU_subscribed_of_sameID {w : World} {S E : Nat} {s : Sensor} {eE : ECU}
    (hs : w.sensors S = some s) (he : w.ecus E = some eE)
    (hex : ∃ x ∈ s.Subscribed_ECUs, ∃ ex, w.ecus x = some ex ∧ ex.getID = eE.getID) :
    (AttachECU w S E).subscribedECUs S = some s.Subscribed_ECUs := by
  have hany : s.Subscribed_ECUs.any (sameID w eE) = true := by
    obtain ⟨x, hx, ex, hwx, hid⟩ := hex
    rw [List.any_eq_true]
    exact ⟨x, hx, by simp [sameID, hwx, hid]⟩
  simp [World.subscribedECUs, AttachECU_sensors, hs, he, hany]

theorem AttachECU_subscribed_of_no_sameID {w : World} {S E : Nat} {s : Sensor} {eE : ECU}
    (hs : w.sensors S = some s) (he : w.ecus E = some eE)
    (hno : ¬ ∃ x ∈ s.Subscribed_ECUs, ∃ ex, w.ecus x = some ex ∧ ex.getID = eE.getID) :
    (AttachECU w S E).subscribedECUs S = some (s.Subscribed_ECUs ++ [E]) := by
  have hany : s.Subscribed_ECUs.any (sameID w eE) = false := by
    rw [Bool.eq_false_iff]
    intro h
    rw [List.any_eq_true] at h
    obtain ⟨x, hx, hsx⟩ := h
    cases hwx : w.ecus x with
    | none => simp [sameID, hwx] at hsx
    | some ex =>
      simp only [sameID, hwx, beq_iff_eq] at hsx
      exact hno ⟨x, hx, ex, hwx, hsx⟩
  simp [World.subscribedECUs, AttachECU_sensors, hs, he, hany]

/-! ### What `updateECU` writes and what it leaves -/

theorem toIndex_injective {c c' : SensorTypes} (h : c.toIndex = c'.toIndex) : c = c' := by
  cases c <;> cases c' <;> first | rfl | (exact absurd h (by decide))

theorem tableRead_tableWrite_other {t : List DataMap} {c c' : Nat} {k k' : Int} (v : Rat)
    (h : c' ≠ c ∨ k' ≠ k) : tableRead (tableWrite t c k v) c' k' = tableRead t c' k' := by
  unfold tableWrite
  cases hc : t[c]? with
  | none => rfl
  | some m =>
    simp only
    unfold tableRead
    by_cases hcc : c' = c
    · subst hcc
      have hk : k' ≠ k := by
        rcases h with h | h
        · exact absurd rfl h
        · exact h
      have hlt : c' < t.length := (List.getElem?_eq_some_iff.1 hc).1
      rw [List.getElem?_set_self hlt, hc]
      simp [DataMap.assign, hk]
    · rw [List.getElem?_set_ne (fun h' => hcc h'.symm)]

theorem updateECU_readTable_other {w : World} {S E : Nat} {s : Sensor}
    (hs : w.sensors S = some s) (h : Nat) (c : SensorTypes) (k : Int)
    (hne : h ≠ E ∨ c ≠ s.kind ∨ k ≠ s.Sensor_ID) :
    (updateECU w S E).readTable h c k = w.readTable h c k := by
  simp only [World.readTable, updateECU_ecus, hs]
  cases he : w.ecus E with
  | none => rfl
  | some e =>
    simp only
    by_cases hh : h = E
    · subst hh
      simp only [if_true, he]
      apply tableRead_tableWrite_other
      rcases hne with h1 | h1 | h1
      · exact absurd rfl h1
      · exact Or.inl (fun h' => h1 (toIndex_injective h'))
      · exact Or.inr h1
    · simp only [hh, if_false]

theorem updateECU_subscribedSensors (w : World) (S E h : Nat) :
    (updateECU w S E).subscribedSensors h = w.subscribedSensors h := by
  have := (updateECU_tablesOnly w S E).2.2 h
  unfold World.subscribedSensors
  cases h1 : (updateECU w S E).ecus h <;> cases h2 : w.ecus h <;>
    simp [h1, h2, ECU.skeleton] at this ⊢
  exact this.2.2.2.2.1

/-! ### Expired references, and what the sensor methods leave -/

theorem AttachECU_expired {w : World} {S W : Nat} {s : Sensor} (hS : w.sensors S = some s)
    (hW : w.ecus W = none) : AttachECU w S W = log w "ECU object no longer exists." := by
  simp [AttachECU, hS, hW]

theorem DeAttachECU_expired {w : World} {S W : Nat} {s : Sensor} (hS : w.sensors S = some s)
    (hW : w.ecus W = none) :
    DeAttachECU w S W = log w "The ECU reference has expired and cannot be locked." := by
  simp [DeAttachECU, hS, hW]

theorem updateECU_expired {w : World} {S W : Nat} {s : Sensor} (hS : w.sensors S = some s)
    (hW : w.ecus W = none) : updateECU w S W = log w "ECU object no longer exists." := by
  simp [updateECU, hS, hW]

@[simp] theorem log_cout_length (w : World) (m : String) :
    (log w m).cout.length = w.cout.length + 1 := by
  simp [log]

theorem updateECU_cout_length {w : World} {S : Nat} {s : Sensor} (hS : w.sensors S = some s)
    (E : Nat) : (updateECU w S E).cout.length = w.cout.length + 1 := by
  unfold updateECU
  rw [hS]
  simp only
  split
  · rw [log_cout_length]; rfl
  · rw [log_cout_length]

theorem foldl_updateECU_cout_length {S : Nat} {s : Sensor} :
    ∀ (l : List Nat) (w : World), w.sensors S = some s →
      (l.foldl (fun acc E => updateECU acc S E) w).cout.length = w.cout.length + l.length
  | [], _, _ => rfl
  | E :: l, w, hS => by
    simp only [List.foldl, List.length_cons]
    rw [foldl_updateECU_cout_length l (updateECU w S E) (by simpa using hS),
      updateECU_cout_length hS]
    omega

theorem sameIDName_iff (w : World) (sharedECU : ECU) (x : Nat) :
    sameIDName w sharedECU x = true ↔ MatchesLive w sharedECU x := by
  unfold sameIDName MatchesLive
  cases hx : w.ecus x with
  | none => simp
  | some e => simp

/-! ### The sensors held by the ECUs are alive -/

theorem PtrOK_init : PtrOK World.init := by
  intro h e he
  simp [World.init] at he

theorem PtrOK_of_same {w w' : World} (hp : PtrOK w)
    (he : ∀ h e', w'.ecus h = some e' → ∃ e, w.ecus h = some e ∧
      ∀ sp ∈ e'.Subscribed_Sensors, sp ∈ e.Subscribed_Sensors)
    (hs : ∀ h e, w.ecus h = some e → ∀ sp ∈ e.Subscribed_Sensors,
      w'.sharedPtr sp.addr = w.sharedPtr sp.addr) : PtrOK w' := by
  intro h e' he' sp hsp
  obtain ⟨e, h1, h2⟩ := he h e' he'
  rw [hs h e h1 sp (h2 sp hsp)]
  exact hp h e h1 sp (h2 sp hsp)

theorem PtrOK_of_lists {w w' : World} (hs : ∀ a, w'.sharedPtr a = w.sharedPtr a)
    (he : ∀ h e', w'.ecus h = some e' → ∀ sp ∈ e'.Subscribed_Sensors,
      w.sharedPtr sp.addr = some sp) : PtrOK w' := by
  intro h e' he' sp hsp
  rw [hs]
  exact he h e' he' sp hsp

theorem PtrOK_of_tablesOnly {w w' : World} (hp : PtrOK w) (ht : TablesOnly w w') : PtrOK w' := by
  refine PtrOK_of_lists (w := w) (fun a => by simp [World.sharedPtr, ht.1]) (fun h e' he' sp hsp => ?_)
  obtain ⟨e, h1, h2⟩ := skeleton_of_map_eq (ht.2.2 h) he'
  simp only [ECU.skeleton, Prod.mk.injEq] at h2
  rw [← h2.2.2.2.2.1] at hsp
  exact hp h e h1 sp hsp

theorem sharedPtr_addr {w : World} {p : Nat} {sp : SensorPtr} (h : w.sharedPtr p = some sp) :
    sp.addr = p := by
  unfold World.sharedPtr at h
  cases hs : w.sensors p with
  | none => simp [hs] at h
  | some s => simp [hs] at h; rw [← h]

theorem sharedPtr_lt {w : World} (hw : WF w) {p : Nat} {sp : SensorPtr}
    (h : w.sharedPtr p = some sp) : p < w.next := by
  unfold World.sharedPtr at h
  cases hs : w.sensors p with
  | none => simp [hs] at h
  | some s => exact hw.sensor_lt p s hs

theorem not_held_of_heldByECU_false {w : World} (hw : WF w) {p : Nat}
    (hh : heldByECU w p = false) {h : Nat} {e : ECU} (he : w.ecus h = some e) :
    ∀ sp ∈ e.Subscribed_Sensors, sp.addr ≠ p := by
  intro sp hsp hp
  have hlt := hw.ecu_lt h e he
  have : heldByECU w p = true := by
    unfold heldByECU
    rw [List.any_eq_true]
    refine ⟨h, List.mem_range.2 hlt, ?_⟩
    rw [he]
    simp only [List.any_eq_true, beq_iff_eq]
    exact ⟨sp, hsp, hp⟩
  rw [hh] at this
  exact Bool.noConfusion this

theorem PtrOK_step {w : World} (hw : WF w) (hp : PtrOK w) (op : Op) : PtrOK (step w op) := by
  have keepE : ∀ {w' : World}, w'.ecus = w.ecus →
      ∀ h e', w'.ecus h = some e' → ∃ e, w.ecus h = some e ∧
        ∀ sp ∈ e'.Subscribed_Sensors, sp ∈ e.Subscribed_Sensors :=
    fun hE h e' he' => ⟨e', by rw [← hE]; exact he', fun _ h => h⟩
  cases op with
  | newSensor k =>
    refine PtrOK_of_same hp (keepE (newSensor_ecus w k)) (fun h e he sp hsp => ?_)
    have hlt := sharedPtr_lt hw (hp h e he sp hsp)
    simp only [step, World.sharedPtr, newSensor_sensors, if_neg (Nat.ne_of_lt hlt)]
  | destroySensor p =>
    simp only [step]
    by_cases hh : heldByECU w p = true
    · rw [destroySensor_of_held hh]; exact hp
    · have hh' : heldByECU w p = false := by simpa using hh
      refine PtrOK_of_same hp (keepE (destroySensor_ecus w p)) (fun h e he sp hsp => ?_)
      have hne := not_held_of_heldByECU_false hw hh' he sp hsp
      simp only [World.sharedPtr, destroySensor_sensors]
      rw [if_neg (fun hc => hne hc.1)]
  | newECU k =>
    refine PtrOK_of_lists (w := w) (fun a => by simp [step, World.sharedPtr]) (fun h e' he' sp hsp => ?_)
    simp only [step, newECU_ecus] at he'
    split at he'
    · simp only [Option.some.injEq] at he'
      subst he'
      simp at hsp
    · exact hp h e' he' sp hsp
  | destroyECU h0 =>
    refine PtrOK_of_lists (w := w) (fun a => by simp [step, World.sharedPtr]) (fun h e' he' sp hsp => ?_)
    simp only [step, destroyECU_ecus] at he'
    split at he'
    · simp at he'
    · exact hp h e' he' sp hsp
  | AttachSensor E S =>
    simp only [step]
    cases hS : w.sharedPtr S with
    | none => exact hp
    | some s0 =>
      simp only
      refine PtrOK_of_lists (w := w) (fun a => AttachSensor_sharedPtr w E s0 a) (fun h e' he' sp hsp => ?_)
      rw [AttachSensor_ecus] at he'
      cases hE : w.ecus E with
      | none => rw [hE] at he'; exact hp h e' he' sp hsp
      | some e =>
        rw [hE] at he'
        simp only at he'
        split at he'
        · simp only [Option.some.injEq] at he'
          subst he'
          rcases List.mem_append.1 hsp with h1 | h1
          · exact hp E e hE sp h1
          · have : sp = s0 := by simpa using h1
            subst this
            rw [sharedPtr_addr hS]; exact hS
        · exact hp h e' he' sp hsp
  | DeattachSensor E S =>
    simp only [step]
    cases hS : w.sharedPtr S with
    | none => exact hp
    | some s0 =>
      simp only
      refine PtrOK_of_lists (w := w) (fun a => by simp [World.sharedPtr]) (fun h e' he' sp hsp => ?_)
      rw [DeattachSensor_ecus] at he'
      cases hE : w.ecus E with
      | none => rw [hE] at he'; exact hp h e' he' sp hsp
      | some e =>
        rw [hE] at he'
        simp only at he'
        split at he'
        · simp only [Option.some.injEq] at he'
          subst he'
          exact hp E e hE sp ((List.eraseP_sublist _).subset hsp)
        · exact hp h e' he' sp hsp
  | AttachECU S E =>
    exact PtrOK_of_lists (w := w) (fun a => AttachECU_sharedPtr w S E a)
      (fun h e' he' sp hsp => hp h e' (by simpa [step] using he') sp hsp)
  | DeAttachECU S E =>
    exact PtrOK_of_lists (w := w) (fun a => DeAttachECU_sharedPtr w S E a)
      (fun h e' he' sp hsp => hp h e' (by simpa [step] using he') sp hsp)
  | updateECU S E =>
    exact PtrOK_of_tablesOnly hp (updateECU_tablesOnly w S E)
  | NotifyAllECUs S =>
    exact PtrOK_of_tablesOnly hp (NotifyAllECUs_tablesOnly w S)
  | sensorRead S v =>
    exact PtrOK_of_lists (w := w) (fun a => sensorRead_sharedPtr w S v a)
      (fun h e' he' sp hsp => hp h e' (by simpa [step] using he') sp hsp)

theorem PtrOK_run {w : World} (hw : WF w) (hp : PtrOK w) (ops : List Op) :
    PtrOK (run w ops) := by
  induction ops generalizing w with
  | nil => exact hp
  | cons op ops ih => exact ih (WF_step hw op) (PtrOK_step hw hp op)

theorem PtrOK_reachable (ops : List Op) : PtrOK (run World.init ops) :=
  PtrOK_run WF_init PtrOK_init ops

/-! ### `DiagnosticECU::update` -/

theorem foldl_updateECU_readTable_other {S : Nat} {s : Sensor} (h : Nat) (c : SensorTypes)
    (k : Int) (hne : c ≠ s.kind ∨ k ≠ s.Sensor_ID) :
    ∀ (l : List Nat) (w : World), w.sensors S = some s →
      (l.foldl (fun acc E => updateECU acc S E) w).readTable h c k = w.readTable h c k
  | [], _, _ => rfl
  | E :: l, w, hs => by
    simp only [List.foldl]
    rw [foldl_updateECU_readTable_other h c k hne l (updateECU w S E) (by simpa using hs),
      updateECU_readTable_other hs h c k (Or.inr hne)]

theorem NotifyAllECUs_readTable_other {w : World} {S : Nat} (h : Nat) (c : SensorTypes) (k : Int)
    (hne : ∀ s, w.sensors S = some s → c ≠ s.kind ∨ k ≠ s.Sensor_ID) :
    (NotifyAllECUs w S).readTable h c k = w.readTable h c k := by
  unfold NotifyAllECUs
  cases hs : w.sensors S with
  | none => rfl
  | some s => exact foldl_updateECU_readTable_other h c k (hne s hs) _ w hs

theorem NotifyAllECUs_reaches {w : World} (hw : WF w) {S : Nat} {s : Sensor}
    (hs : w.sensors S = some s) {E : Nat} (hE : E ∈ s.Subscribed_ECUs)
    (hlive : (w.ecus E).isSome = true) :
    (NotifyAllECUs w S).readTable E s.kind s.Sensor_ID = some s.data := by
  simp only [NotifyAllECUs, hs]
  refine foldl_updateECU_reaches _ w hs hE (fun e he => ?_) hlive
  rw [hw.table_len E e he]
  exact toIndex_lt s.kind

theorem tablesOnly_live {w w' : World} (ht : TablesOnly w w') (h : Nat) :
    (w'.ecus h).isSome = (w.ecus h).isSome := by
  have := ht.2.2 h
  cases h1 : w'.ecus h <;> cases h2 : w.ecus h <;> simp [h1, h2] at this ⊢

theorem foldl_NotifyAllECUs_tablesOnly (l : List SensorPtr) (w : World) :
    TablesOnly w (l.foldl (fun acc s => NotifyAllECUs acc s.addr) w) := by
  induction l generalizing w with
  | nil => exact TablesOnly.refl w
  | cons a l ih => exact (NotifyAllECUs_tablesOnly w a.addr).trans (ih _)

theorem update_tablesOnly (w : World) (D : Nat) : TablesOnly w (DiagnosticECU.update w D) := by
  unfold DiagnosticECU.update
  split
  · exact TablesOnly.refl w
  · split
    · exact foldl_NotifyAllECUs_tablesOnly _ w
    · exact TablesOnly.refl w

theorem foldl_NotifyAllECUs_keep (E : Nat) (c : SensorTypes) (k : Int) :
    ∀ (l : List SensorPtr) (w : World),
      (∀ sp ∈ l, ∀ s, w.sensors sp.addr = some s → c ≠ s.kind ∨ k ≠ s.Sensor_ID) →
      (l.foldl (fun acc s => NotifyAllECUs acc s.addr) w).readTable E c k = w.readTable E c k
  | [], _, _ => rfl
  | a :: l, w, h => by
    simp only [List.foldl]
    have hs := (NotifyAllECUs_tablesOnly w a.addr).1
    rw [foldl_NotifyAllECUs_keep E c k l (NotifyAllECUs w a.addr)
        (fun sp hsp s hs' => h sp (List.mem_cons_of_mem _ hsp) s (by rw [← hs]; exact hs')),
      NotifyAllECUs_readTable_other E c k (h a (List.mem_cons_self _ _))]

theorem sensor_of_sharedPtr {w : World} {a : Nat} {sp : SensorPtr}
    (h : w.sharedPtr a = some sp) :
    ∃ s, w.sensors a = some s ∧ s.kind = sp.kind ∧ s.Sensor_ID = sp.Sensor_ID := by
  unfold World.sharedPtr at h
  cases hs : w.sensors a with
  | none => simp [hs] at h
  | some s =>
    simp only [hs, Option.map_some', Option.some.injEq] at h
    exact ⟨s, rfl, by rw [← h], by rw [← h]⟩

theorem key_ne_of_sameSensor_false {a b : SensorPtr} (h : sameSensor a b = false) :
    a.kind ≠ b.kind ∨ a.Sensor_ID ≠ b.Sensor_ID := by
  by_contra hc
  push_neg at hc
  have : sameSensor a b = true := by
    simp [sameSensor, SensorPtr.getSensorID, SensorPtr.getType, hc.1, hc.2]
  rw [h] at this
  exact Bool.noConfusion this

theorem foldl_NotifyAllECUs_reaches :
    ∀ (l : List SensorPtr) (w : World), WF w →
      (∀ sp ∈ l, w.sharedPtr sp.addr = some sp) → DistinctSensors l →
      ∀ sp ∈ l, ∀ s, w.sensors sp.addr = some s → ∀ E ∈ s.Subscribed_ECUs,
        (w.ecus E).isSome = true →
        (l.foldl (fun acc s => NotifyAllECUs acc s.addr) w).readTable E s.kind s.Sensor_ID
          = some s.data
  | [], _, _, _, _, sp, hsp, _, _, _, _, _ => by simp at hsp
  | a :: l, w, hw, hptr, hd, sp, hsp, s, hs, E, hE, hlive => by
    simp only [List.foldl]
    have ht := NotifyAllECUs_tablesOnly w a.addr
    have hw1 : WF (NotifyAllECUs w a.addr) := hw.of_tablesOnly ht
    have hptr1 : ∀ sp ∈ l, (NotifyAllECUs w a.addr).sharedPtr sp.addr = some sp := by
      intro sp' hsp'
      simp only [World.sharedPtr, ht.1]
      exact hptr sp' (List.mem_cons_of_mem _ hsp')
    rcases List.mem_cons.1 hsp with hsa | hsl
    · subst hsa
      rw [foldl_NotifyAllECUs_keep E s.kind s.Sensor_ID l (NotifyAllECUs w sp.addr) ?_]
      · exact NotifyAllECUs_reaches hw hs hE hlive
      · intro sp' hsp' s' hs'
        rw [ht.1] at hs'
        obtain ⟨s0, h0, hk0, hi0⟩ := sensor_of_sharedPtr (hptr sp (List.mem_cons_self _ _))
        obtain ⟨s1, h1, hk1, hi1⟩ := sensor_of_sharedPtr (hptr sp' (List.mem_cons_of_mem _ hsp'))
        rw [hs] at h0
        rw [hs'] at h1
        simp only [Option.some.injEq] at h0 h1
        subst h0 h1
        have := key_ne_of_sameSensor_false (List.rel_of_pairwise_cons hd hsp')
        rw [hk0, hi0, hk1, hi1]
        exact this
    · exact foldl_NotifyAllECUs_reaches l (NotifyAllECUs w a.addr) hw1 hptr1
        (List.Pairwise.of_cons hd) sp hsl s (by rw [ht.1]; exact hs) E hE
        (by rw [tablesOnly_live ht]; exact hlive)

/-! ### Sampling -/

theorem sensorRead_reading {w : World} {S : Nat} {s : Sensor} (hS : w.sensors S = some s)
    (v : Rat) : (sensorRead w S v).reading S = some v := by
  simp [World.reading, sensorRead, hS, World.setSensor]

theorem getRandomData_eq {w : World} {S : Nat} {s : Sensor} (hS : w.sensors S = some s)
    (r : Engines) :
    getRandomData w r S =
      (sensorRead w S ((r s.kind).values (r s.kind).drawn),
       fun k => if k = s.kind then { r s.kind with drawn := (r s.kind).drawn + 1 } else r k,
       some ((r s.kind).values (r s.kind).drawn)) := by
  simp [getRandomData, hS, RandomSource.draw]

theorem GetSensorData_eq {w : World} {S : Nat} {s : Sensor} (hS : w.sensors S = some s)
    (r : Engines) :
    GetSensorData w r S =
      (sensorRead w S ((r s.kind).values (r s.kind).drawn),
       fun k => if k = s.kind then { r s.kind with drawn := (r s.kind).drawn + 1 } else r k,
       some ((r s.kind).values (r s.kind).drawn)) := by
  unfold GetSensorData
  rw [getRandomData_eq hS]
  simp only [sensorRead_reading hS]

theorem sensorRead_sensors_self {w : World} {S : Nat} {s : Sensor} (hS : w.sensors S = some s)
    (v : Rat) : (sensorRead w S v).sensors S = some { s with data := v } := by
  simp [sensorRead, hS, World.setSensor]

/-! ### Where the keys of a table come from -/

theorem readTable_congr {w w' : World} {h : Nat}
    (he : (w'.ecus h).map (fun e => e.Recent_Sensory_Data)
      = (w.ecus h).map (fun e => e.Recent_Sensory_Data)) (c : SensorTypes) (k : Int) :
    w'.readTable h c k = w.readTable h c k := by
  unfold World.readTable
  cases h1 : w'.ecus h <;> cases h2 : w.ecus h <;> simp [h1, h2] at he ⊢
  rw [he]

theorem AttachSensor_readTable (w : World) (E : Nat) (s : SensorPtr) (h : Nat) (c : SensorTypes)
    (k : Int) : (AttachSensor w E s).readTable h c k = w.readTable h c k := by
  apply readTable_congr
  rw [AttachSensor_ecus]
  cases he : w.ecus E with
  | none => rfl
  | some e =>
    simp only
    split
    · rename_i hh
      rw [hh.1, he]
      rfl
    · rfl

theorem DeattachSensor_readTable (w : World) (E : Nat) (s : SensorPtr) (h : Nat) (c : SensorTypes)
    (k : Int) : (DeattachSensor w E s).readTable h c k = w.readTable h c k := by
  apply readTable_congr
  rw [DeattachSensor_ecus]
  cases he : w.ecus E with
  | none => rfl
  | some e =>
    simp only
    split
    · rename_i hh
      rw [hh, he]
      rfl
    · rfl

theorem readTable_of_ecus {w w' : World} (he : w'.ecus = w.ecus) (h : Nat) (c : SensorTypes)
    (k : Int) : w'.readTable h c k = w.readTable h c k := by
  unfold World.readTable
  rw [he]

theorem newECU_readTable_new (w : World) (k0 : ECUKind) (c : SensorTypes) (k : Int) :
    (newECU w k0).readTable w.next c k = none := by
  simp only [World.readTable, newECU_ecus, if_true]
  cases c <;> rfl

theorem updateECU_readTable_source {w : World} {S E' : Nat} {s : Sensor}
    (hs : w.sensors S = some s) {E : Nat} {c : SensorTypes} {k : Int}
    (h : ((updateECU w S E').readTable E c k).isSome = true) :
    (w.readTable E c k).isSome = true ∨
      (E = E' ∧ (w.ecus E).isSome = true ∧ c = s.kind ∧ k = s.Sensor_ID) := by
  by_cases hne : E ≠ E' ∨ c ≠ s.kind ∨ k ≠ s.Sensor_ID
  · rw [updateECU_readTable_other hs E c k hne] at h
    exact Or.inl h
  · push_neg at hne
    obtain ⟨h1, h2, h3⟩ := hne
    cases he : w.ecus E with
    | none =>
      rw [updateECU_expired hs (h1 ▸ he)] at h
      exact Or.inl h
    | some e => exact Or.inr ⟨h1, rfl, h2, h3⟩

theorem foldl_updateECU_readTable_source {S : Nat} {s : Sensor} {E : Nat} {c : SensorTypes}
    {k : Int} :
    ∀ (l : List Nat) (w : World), w.sensors S = some s →
      ((l.foldl (fun acc E' => updateECU acc S E') w).readTable E c k).isSome = true →
      (w.readTable E c k).isSome = true ∨
        (E ∈ l ∧ (w.ecus E).isSome = true ∧ c = s.kind ∧ k = s.Sensor_ID)
  | [], _, _, h => Or.inl h
  | E' :: l, w, hs, h => by
    simp only [List.foldl] at h
    rcases foldl_updateECU_readTable_source l (updateECU w S E') (by simpa using hs) h with
      h1 | ⟨h1, h2, h3, h4⟩
    · rcases updateECU_readTable_source hs h1 with h5 | ⟨h5, h6, h7, h8⟩
      · exact Or.inl h5
      · exact Or.inr ⟨h5 ▸ List.mem_cons_self _ _, h6, h7, h8⟩
    · rw [tablesOnly_live (updateECU_tablesOnly w S E')] at h2
      exact Or.inr ⟨List.mem_cons_of_mem _ h1, h2, h3, h4⟩

theorem step_readTable_source (w : World) (op : Op) (E : Nat) (c : SensorTypes) (k : Int)
    (h : ((step w op).readTable E c k).isSome = true) :
    (w.readTable E c k).isSome = true ∨ (E, c, k) ∈ updatesOf w op := by
  cases op with
  | newSensor k0 =>
    have h' : ((newSensor w k0).readTable E c k).isSome = true := h
    exact Or.inl (by rwa [readTable_of_ecus (newSensor_ecus w k0)] at h')
  | destroySensor p =>
    have h' : ((destroySensor w p).readTable E c k).isSome = true := h
    exact Or.inl (by rwa [readTable_of_ecus (destroySensor_ecus w p)] at h')
  | newECU k0 =>
    left
    have h' : ((newECU w k0).readTable E c k).isSome = true := h
    by_cases hE : E = w.next
    · rw [hE, newECU_readTable_new] at h'
      exact Bool.noConfusion h'
    · simp only [World.readTable, newECU_ecus, hE, if_false] at h' ⊢
      exact h'
  | destroyECU h0 =>
    left
    have h' : ((destroyECU w h0).readTable E c k).isSome = true := h
    simp only [World.readTable, destroyECU_ecus] at h' ⊢
    by_cases hE : E = h0
    · simp [hE] at h'
    · simpa [hE] using h'
  | AttachSensor E' S =>
    left
    simp only [step] at h
    cases hsp : w.sharedPtr S with
    | none => simpa [hsp] using h
    | some sp =>
      simp only [hsp] at h
      rwa [AttachSensor_readTable] at h
  | DeattachSensor E' S =>
    left
    simp only [step] at h
    cases hsp : w.sharedPtr S with
    | none => simpa [hsp] using h
    | some sp =>
      simp only [hsp] at h
      rwa [DeattachSensor_readTable] at h
  | AttachECU S E' =>
    have h' : ((AttachECU w S E').readTable E c k).isSome = true := h
    exact Or.inl (by rwa [readTable_of_ecus (AttachECU_ecus w S E')] at h')
  | DeAttachECU S E' =>
    have h' : ((DeAttachECU w S E').readTable E c k).isSome = true := h
    exact Or.inl (by rwa [readTable_of_ecus (DeAttachECU_ecus w S E')] at h')
  | updateECU S E' =>
    simp only [step] at h
    cases hs : w.sensors S with
    | none =>
      left
      simpa [updateECU, hs] using h
    | some s =>
      rcases updateECU_readTable_source hs h with h1 | ⟨h1, h2, h3, h4⟩
      · exact Or.inl h1
      · right
        subst h1 h3 h4
        obtain ⟨e, he⟩ := Option.isSome_iff_exists.1 h2
        simp [updatesOf, hs, he]
  | NotifyAllECUs S =>
    simp only [step] at h
    cases hs : w.sensors S with
    | none =>
      left
      simpa [NotifyAllECUs, hs] using h
    | some s =>
      simp only [NotifyAllECUs, hs] at h
      rcases foldl_updateECU_readTable_source _ w hs h with h1 | ⟨h1, h2, h3, h4⟩
      · exact Or.inl h1
      · right
        subst h3 h4
        simp only [updatesOf, hs, List.mem_map, List.mem_filter]
        exact ⟨E, ⟨h1, h2⟩, rfl⟩
  | sensorRead S v =>
    have h' : ((sensorRead w S v).readTable E c k).isSome = true := h
    exact Or.inl (by rwa [readTable_of_ecus (sensorRead_ecus w S v)] at h')

theorem run_readTable_source (E : Nat) (c : SensorTypes) (k : Int) :
    ∀ (ops : List Op) (w : World), ((run w ops).readTable E c k).isSome = true →
      (w.readTable E c k).isSome = true ∨ (E, c, k) ∈ updatesAlong w ops
  | [], _, h => Or.inl h
  | op :: ops, w, h => by
    rcases run_readTable_source E c k ops (step w op) h with h1 | h1
    · rcases step_readTable_source w op E c k h1 with h2 | h2
      · exact Or.inl h2
      · exact Or.inr (List.mem_append_left _ h2)
    · exact Or.inr (List.mem_append_right _ h1)

theorem update_eq_run {w : World} {D : Nat} {e : ECU} (hD : w.ecus D = some e)
    (hk : e.kind = .DIAGNOSTIC) :
    DiagnosticECU.update w D
      = run w (e.Subscribed_Sensors.map fun s => Op.NotifyAllECUs s.addr) := by
  simp only [DiagnosticECU.update, hD, hk, run, List.foldl_map]
  rfl

/-! ### The two halves of a subscription -/

theorem AttachSensor_others (w : World) (E : Nat) (sp : SensorPtr) (h : Nat) :
    (h ≠ E → (AttachSensor w E sp).ecus h = w.ecus h) ∧
      ((AttachSensor w E sp).ecus h).map
          (fun e => (e.kind, e.ECU_ID, e.name, e.Recent_Sensory_Data, e.ON))
        = (w.ecus h).map (fun e => (e.kind, e.ECU_ID, e.name, e.Recent_Sensory_Data, e.ON)) := by
  rw [AttachSensor_ecus]
  cases he : w.ecus E with
  | none => exact ⟨fun _ => rfl, rfl⟩
  | some e =>
    simp only
    split
    · rename_i hh
      refine ⟨fun hne => absurd hh.1 hne, ?_⟩
      rw [hh.1, he]
      rfl
    · exact ⟨fun _ => rfl, rfl⟩

theorem DeattachSensor_others (w : World) (E : Nat) (sp : SensorPtr) (h : Nat) :
    (h ≠ E → (DeattachSensor w E sp).ecus h = w.ecus h) ∧
      ((DeattachSensor w E sp).ecus h).map
          (fun e => (e.kind, e.ECU_ID, e.name, e.Recent_Sensory_Data, e.ON))
        = (w.ecus h).map (fun e => (e.kind, e.ECU_ID, e.name, e.Recent_Sensory_Data, e.ON)) := by
  rw [DeattachSensor_ecus]
  cases he : w.ecus E with
  | none => exact ⟨fun _ => rfl, rfl⟩
  | some e =>
    simp only
    split
    · rename_i hh
      refine ⟨fun hne => absurd hh hne, ?_⟩
      rw [hh, he]
      rfl
    · exact ⟨fun _ => rfl, rfl⟩

theorem AttachECU_others (w : World) (S E a : Nat) :
    (a ≠ S → (AttachECU w S E).sensors a = w.sensors a) ∧
      ((AttachECU w S E).sensors a).map (fun s => (s.kind, s.Sensor_ID, s.data))
        = (w.sensors a).map (fun s => (s.kind, s.Sensor_ID, s.data)) := by
  rw [AttachECU_sensors]
  cases hs : w.sensors S with
  | none => exact ⟨fun _ => rfl, rfl⟩
  | some s =>
    cases he : w.ecus E with
    | none => exact ⟨fun _ => rfl, rfl⟩
    | some e =>
      simp only
      split
      · rename_i hh
        refine ⟨fun hne => absurd hh.1 hne, ?_⟩
        rw [hh.1, hs]
        rfl
      · exact ⟨fun _ => rfl, rfl⟩

theorem DeAttachECU_others (w : World) (S E a : Nat) :
    (a ≠ S → (DeAttachECU w S E).sensors a = w.sensors a) ∧
      ((DeAttachECU w S E).sensors a).map (fun s => (s.kind, s.Sensor_ID, s.data))
        = (w.sensors a).map (fun s => (s.kind, s.Sensor_ID, s.data)) := by
  rw [DeAttachECU_sensors]
  cases hs : w.sensors S with
  | none => exact ⟨fun _ => rfl, rfl⟩
  | some s =>
    cases he : w.ecus E with
    | none => exact ⟨fun _ => rfl, rfl⟩
    | some e =>
      simp only
      split
      · rename_i hh
        refine ⟨fun hne => absurd hh hne, ?_⟩
        rw [hh, hs]
        rfl
      · exact ⟨fun _ => rfl, rfl⟩

theorem foldl_updateECU_readTable_unlisted {S : Nat} {s : Sensor} (E : Nat) (c : SensorTypes)
    (k : Int) :
    ∀ (l : List Nat) (w : World), w.sensors S = some s → E ∉ l →
      (l.foldl (fun acc E' => updateECU acc S E') w).readTable E c k = w.readTable E c k
  | [], _, _, _ => rfl
  | E' :: l, w, hs, hE => by
    simp only [List.foldl]
    rw [foldl_updateECU_readTable_unlisted E c k l (updateECU w S E') (by simpa using hs)
        (fun h => hE (List.mem_cons_of_mem _ h)),
      updateECU_readTable_other hs E c k (Or.inl (fun h => hE (h ▸ List.mem_cons_self _ _)))]

theorem NotifyAllECUs_readTable_unlisted {w : World} {S : Nat} (E : Nat) (c : SensorTypes)
    (k : Int) (h : ∀ s, w.sensors S = some s → E ∉ s.Subscribed_ECUs) :
    (NotifyAllECUs w S).readTable E c k = w.readTable E c k := by
  unfold NotifyAllECUs
  cases hs : w.sensors S with
  | none => rfl
  | some s => exact foldl_updateECU_readTable_unlisted E c k _ w hs (h s hs)

theorem foldl_NotifyAllECUs_untouched (E : Nat) (c : SensorTypes) (k : Int) :
    ∀ (l : List SensorPtr) (w : World),
      (∀ sp ∈ l, ∀ s, w.sensors sp.addr = some s →
        (c ≠ s.kind ∨ k ≠ s.Sensor_ID) ∨ E ∉ s.Subscribed_ECUs) →
      (l.foldl (fun acc s => NotifyAllECUs acc s.addr) w).readTable E c k = w.readTable E c k
  | [], _, _ => rfl
  | a :: l, w, h => by
    simp only [List.foldl]
    have hs := (NotifyAllECUs_tablesOnly w a.addr).1
    rw [foldl_NotifyAllECUs_untouched E c k l (NotifyAllECUs w a.addr)
        (fun sp hsp s hs' => h sp (List.mem_cons_of_mem _ hsp) s (by rw [← hs]; exact hs'))]
    by_cases hk : ∀ s, w.sensors a.addr = some s → c ≠ s.kind ∨ k ≠ s.Sensor_ID
    · exact NotifyAllECUs_readTable_other E c k hk
    · refine NotifyAllECUs_readTable_unlisted E c k (fun s hs' => ?_)
      rcases h a (List.mem_cons_self _ _) s hs' with h1 | h1
      · exact absurd (fun s0 hs0 => by rw [hs'] at hs0; cases hs0; exact h1) hk
      · exact h1

/-! ### The total sensor counter -/

@[simp] theorem log_total (w : World) (m : String) :
    (log w m).total_sensor_count = w.total_sensor_count := rfl

@[simp] theorem logAll_total (w : World) (ms : List String) :
    (logAll w ms).total_sensor_count = w.total_sensor_count := by
  induction ms generalizing w with
  | nil => rfl
  | cons m ms ih => simp [logAll, List.foldl] at ih ⊢; rw [ih]; rfl

@[simp] theorem setECU_total (w : World) (h : Nat) (e : Option ECU) :
    (w.setECU h e).total_sensor_count = w.total_sensor_count := rfl

@[simp] theorem setSensor_total (w : World) (p : Nat) (s : Option Sensor) :
    (w.setSensor p s).total_sensor_count = w.total_sensor_count := rfl

theorem newSensor_total (w : World) (k : SensorTypes) :
    (newSensor w k).total_sensor_count = wrapInt (w.total_sensor_count + 1) := by
  cases k <;> rfl

theorem destroySensor_total {w : World} {p : Nat} {s : Sensor}
    (hs : w.sensors p = some s) (hh : heldByECU w p = false) :
    (destroySensor w p).total_sensor_count = wrapInt (w.total_sensor_count - 1) := by
  simp only [destroySensor, hs, hh]
  cases hk : s.kind <;> rfl

@[simp] theorem newECU_total (w : World) (k : ECUKind) :
    (newECU w k).total_sensor_count = w.total_sensor_count := rfl

@[simp] theorem destroyECU_total (w : World) (h : Nat) :
    (destroyECU w h).total_sensor_count = w.total_sensor_count := by
  unfold destroyECU
  split <;> rfl

@[simp] theorem AttachSensor_total (w : World) (E : Nat) (s : SensorPtr) :
    (AttachSensor w E s).total_sensor_count = w.total_sensor_count := by
  unfold AttachSensor
  split
  · rfl
  · split <;> simp

@[simp] theorem DeattachSensor_total (w : World) (E : Nat) (s : SensorPtr) :
    (DeattachSensor w E s).total_sensor_count = w.total_sensor_count := by
  unfold DeattachSensor
  split
  · rfl
  · split <;> simp

@[simp] theorem AttachECU_total (w : World) (S E : Nat) :
    (AttachECU w S E).total_sensor_count = w.total_sensor_count := by
  unfold AttachECU
  split
  · rfl
  · split
    · split <;> simp
    · simp

@[simp] theorem DeAttachECU_total (w : World) (S E : Nat) :
    (DeAttachECU w S E).total_sensor_count = w.total_sensor_count := by
  unfold DeAttachECU
  split
  · rfl
  · split
    · simp only []
      split <;> simp
    · simp

@[simp] theorem updateECU_total (w : World) (S E : Nat) :
    (updateECU w S E).total_sensor_count = w.total_sensor_count := by
  unfold updateECU
  split
  · rfl
  · split <;> simp

@[simp] theorem NotifyAllECUs_total (w : World) (S : Nat) :
    (NotifyAllECUs w S).total_sensor_count = w.total_sensor_count := by
  unfold NotifyAllECUs
  split
  · rfl
  · rename_i s _
    generalize s.Subscribed_ECUs = l
    clear * -
    induction l generalizing w with
    | nil => rfl
    | cons E l ih => simp only [List.foldl]; rw [ih]; simp

@[simp] theorem sensorRead_total (w : World) (S : Nat) (v : Rat) :
    (sensorRead w S v).total_sensor_count = w.total_sensor_count := by
  unfold sensorRead
  split <;> simp

theorem TotalOK_init : TotalOK World.init := ⟨rfl, by decide⟩

theorem TotalOK_of_same {w w' : World} (ht : TotalOK w)
    (h1 : ∀ k, w'.getSensorCount k = w.getSensorCount k)
    (h2 : w'.total_sensor_count = w.total_sensor_count) : TotalOK w' := by
  unfold TotalOK getTotalSensorsCount at *
  rw [h1, h1, h1, h1, h2]
  exact ht

theorem count_le_total {w : World} (hc : CountsOK w) (ht : TotalOK w) (k : SensorTypes) :
    0 ≤ w.getSensorCount k ∧ w.getSensorCount k ≤ w.total_sensor_count := by
  have h0 : ∀ k, 0 ≤ w.getSensorCount k := fun k => by
    rw [(hc k).1]
    exact Int.ofNat_nonneg _
  have ht1 := ht.1
  unfold getTotalSensorsCount at ht1
  have a := h0 .SPEED_SENSOR
  have b := h0 .TEMPERATURE_SENSOR
  have c := h0 .RADAR_SENSOR
  have d := h0 .BATTERY_LEVEL_SENSOR
  refine ⟨h0 k, ?_⟩
  cases k <;> omega

theorem live_count_pos {w : World} (hw : WF w) (hc : CountsOK w) {p : Nat} {s : Sensor}
    (hs : w.sensors p = some s) (hh : heldByECU w p = false) : 1 ≤ w.getSensorCount s.kind := by
  have hl := liveSensors_destroySensor hw hs hh s.kind
  rw [if_pos rfl] at hl
  rw [(hc s.kind).1, hl]
  push_cast
  omega

theorem TotalOK_step {w : World} (hw : WF w) (hc : CountsOK w) (ht : TotalOK w) (op : Op)
    (hop : ∀ k, op = .newSensor k → w.total_sensor_count < INT_MAX) :
    CountsOK (step w op) ∧ TotalOK (step w op) := by
  have hc' : CountsOK (step w op) :=
    CountsOK_step hw hc op (fun k hk => lt_of_le_of_lt (count_le_total hc ht k).2 (hop k hk))
  refine ⟨hc', ?_⟩
  cases op with
  | newSensor k0 =>
    have hlt := hop k0 rfl
    have h0 := count_le_total hc ht k0
    have hw1 : wrapInt (w.getSensorCount k0 + 1) = w.getSensorCount k0 + 1 :=
      wrapInt_of_range (by omega) (by unfold INT_MAX at hlt; omega)
    have hw2 : wrapInt (w.total_sensor_count + 1) = w.total_sensor_count + 1 :=
      wrapInt_of_range (by omega) (by unfold INT_MAX at hlt; omega)
    have ht1 := ht.1
    unfold TotalOK getTotalSensorsCount at *
    simp only [step]
    rw [newSensor_total, hw2, newSensor_getSensorCount, newSensor_getSensorCount,
      newSensor_getSensorCount, newSensor_getSensorCount, hw1]
    refine ⟨?_, by unfold INT_MAX at *; omega⟩
    cases k0 <;> simp <;> omega
  | destroySensor p =>
    simp only [step]
    cases hs : w.sensors p with
    | none => rw [destroySensor_of_not_live hs]; exact ht
    | some s =>
      by_cases hh : heldByECU w p = true
      · rw [destroySensor_of_held hh]; exact ht
      · have hh' : heldByECU w p = false := by simpa using hh
        have hpos := live_count_pos hw hc hs hh'
        have h0 := count_le_total hc ht s.kind
        have hmax := (hc s.kind).2
        have hw1 : wrapInt (w.getSensorCount s.kind - 1) = w.getSensorCount s.kind - 1 :=
          wrapInt_of_range (by omega) (by unfold INT_MAX at hmax; omega)
        have ht1 := ht.1
        have ht2 := ht.2
        unfold TotalOK getTotalSensorsCount at *
        have hw2 : wrapInt (w.total_sensor_count - 1) = w.total_sensor_count - 1 :=
          wrapInt_of_range (by omega) (by unfold INT_MAX at ht2; omega)
        rw [destroySensor_total hs hh', hw2, destroySensor_getSensorCount hs hh',
          destroySensor_getSensorCount hs hh', destroySensor_getSensorCount hs hh',
          destroySensor_getSensorCount hs hh', hw1]
        refine ⟨?_, by unfold INT_MAX at *; omega⟩
        cases hk : s.kind <;> simp <;> omega
  | newECU k0 => exact TotalOK_of_same ht (fun k => by simp [step]) (by simp [step])
  | destroyECU h => exact TotalOK_of_same ht (fun k => by simp [step]) (by simp [step])
  | AttachSensor E S =>
    simp only [step]
    split
    · exact TotalOK_of_same ht (fun k => by simp) (by simp)
    · exact ht
  | DeattachSensor E S =>
    simp only [step]
    split
    · exact TotalOK_of_same ht (fun k => by simp) (by simp)
    · exact ht
  | AttachECU S E => exact TotalOK_of_same ht (fun k => by simp [step]) (by simp [step])
  | DeAttachECU S E => exact TotalOK_of_same ht (fun k => by simp [step]) (by simp [step])
  | updateECU S E => exact TotalOK_of_same ht (fun k => by simp [step]) (by simp [step])
  | NotifyAllECUs S => exact TotalOK_of_same ht (fun k => by simp [step]) (by simp [step])
  | sensorRead S v => exact TotalOK_of_same ht (fun k => by simp [step]) (by simp [step])

theorem NoTotalOverflow_cons {w : World} {op : Op} {ops : List Op}
    (h : NoTotalOverflow w (op :: ops) = true) :
    (∀ k, op = .newSensor k → w.total_sensor_count < INT_MAX) ∧
      NoTotalOverflow (step w op) ops = true := by
  cases op <;> simp [NoTotalOverflow] at h ⊢ <;> exact h

theorem TotalOK_run {w : World} (hw : WF w) (hc : CountsOK w) (ht : TotalOK w) :
    ∀ ops, NoTotalOverflow w ops = true → CountsOK (run w ops) ∧ TotalOK (run w ops) := by
  intro ops
  induction ops generalizing w with
  | nil => intro _; exact ⟨hc, ht⟩
  | cons op ops ih =>
    intro h
    obtain ⟨h1, h2⟩ := NoTotalOverflow_cons h
    obtain ⟨hc1, ht1⟩ := TotalOK_step hw hc ht op h1
    exact ih (WF_step hw op) hc1 ht1 h2

/-! ### The logger -/

theorem log_eq_of_range {w : World} (h0 : 0 ≤ w.message_number)
    (h1 : w.message_number < INT_MAX) (m : String) :
    (log w m).message_number = w.message_number + 1 ∧
      (log w m).cout
        = w.cout ++ ["CAR LOGGER (" ++ toString (w.message_number + 1) ++ "): " ++ m] := by
  have hw : wrapInt (w.message_number + 1) = w.message_number + 1 :=
    wrapInt_of_range (by omega) (by unfold INT_MAX at h1; omega)
  simp only [log, hw, and_self]

theorem logAll_cons (w : World) (m : String) (ms : List String) :
    logAll w (m :: ms) = logAll (log w m) ms := rfl

theorem logAll_lines :
    ∀ (ms : List String) (w : World), 0 ≤ w.message_number →
      w.message_number + (ms.length : Int) ≤ INT_MAX →
      (logAll w ms).message_number = w.message_number + (ms.length : Int) ∧
      (logAll w ms).cout.length = w.cout.length + ms.length ∧
      (∀ k, k < w.cout.length → (logAll w ms).cout[k]? = w.cout[k]?) ∧
      ∀ k m, ms[k]? = some m →
        (logAll w ms).cout[w.cout.length + k]?
          = some ("CAR LOGGER (" ++ toString (w.message_number + (k : Int) + 1) ++ "): " ++ m)
  | [], w, _, _ => by
    refine ⟨by simp [logAll], rfl, fun _ _ => rfl, fun k m h => by simp at h⟩
  | m0 :: ms, w, h0, h1 => by
    have hlen : ((m0 :: ms).length : Int) = (ms.length : Int) + 1 := by simp
    rw [hlen] at h1
    obtain ⟨e1, e2⟩ := log_eq_of_range h0 (by unfold INT_MAX at *; omega) m0
    obtain ⟨i1, i2, i3, i4⟩ := logAll_lines ms (log w m0) (by rw [e1]; omega)
      (by rw [e1]; omega)
    have hl : (log w m0).cout.length = w.cout.length + 1 := log_cout_length w m0
    rw [logAll_cons]
    refine ⟨by rw [i1, e1, hlen]; omega, by rw [i2, hl, List.length_cons]; omega,
      fun k hk => ?_, fun k m hm => ?_⟩
    · rw [i3 k (by omega), e2, List.getElem?_append_left hk]
    · cases k with
      | zero =>
        simp only [List.getElem?_cons_zero, Option.some.injEq] at hm
        subst hm
        rw [Nat.add_zero, i3 _ (by omega), e2, List.getElem?_append_right (le_refl _)]
        simp
      | succ k =>
        simp only [List.getElem?_cons_succ] at hm
        have := i4 k m hm
        rw [hl, e1] at this
        rw [show w.cout.length + (k + 1) = w.cout.length + 1 + k by omega, this]
        congr 3
        push_cast
        ring_nf

theorem eraseP_append_singleton {α : Type} {p : α → Bool} {l : List α} {a : α}
    (hl : ∀ x ∈ l, p x = false) (ha : p a = true) : (l ++ [a]).eraseP p = l := by
  rw [List.eraseP_append_right _ (fun b hb => by rw [hl b hb]; exact Bool.false_ne_true)]
  simp [List.eraseP, ha]

theorem sameIDName_false_of_sameID {w : World} {e : ECU} {x : Nat}
    (h : sameID w e x = false) : sameIDName w e x = false := by
  unfold sameID at h
  unfold sameIDName
  cases hx : w.ecus x with
  | none => rfl
  | some ex =>
    rw [hx] at h
    simp only at h ⊢
    rw [h]
    rfl

/-! ### Notifying twice -/

theorem NotifyAllECUs_readTable_dead {w : World} (S E : Nat) (hE : w.ecus E = none)
    (c : SensorTypes) (k : Int) : (NotifyAllECUs w S).readTable E c k = none := by
  have h := tablesOnly_live (NotifyAllECUs_tablesOnly w S) E
  rw [hE] at h
  unfold World.readTable
  cases h1 : (NotifyAllECUs w S).ecus E with
  | none => rfl
  | some e => rw [h1] at h; exact Bool.noConfusion h

theorem NotifyAllECUs_twice_readTable {w : World} (hw : WF w) (S E : Nat) (c : SensorTypes)
    (k : Int) :
    (NotifyAllECUs (NotifyAllECUs w S) S).readTable E c k = (NotifyAllECUs w S).readTable E c k := by
  have ht := NotifyAllECUs_tablesOnly w S
  have hw1 : WF (NotifyAllECUs w S) := hw.of_tablesOnly ht
  cases hs : w.sensors S with
  | none =>
    have : NotifyAllECUs w S = w := by simp [NotifyAllECUs, hs]
    rw [this, this]
  | some s =>
    have hs1 : (NotifyAllECUs w S).sensors S = some s := by rw [ht.1]; exact hs
    by_cases hkey : c ≠ s.kind ∨ k ≠ s.Sensor_ID
    · exact NotifyAllECUs_readTable_other E c k
        (fun s' hs' => by rw [hs1] at hs'; cases hs'; exact hkey)
    · push_neg at hkey
      obtain ⟨hc, hk⟩ := hkey
      subst hc hk
      by_cases hin : E ∈ s.Subscribed_ECUs
      · cases hE : w.ecus E with
        | none =>
          have hE1 : (NotifyAllECUs w S).ecus E = none := by
            have h := tablesOnly_live ht E
            rw [hE] at h
            cases h1 : (NotifyAllECUs w S).ecus E with
            | none => rfl
            | some e => rw [h1] at h; exact Bool.noConfusion h
          rw [NotifyAllECUs_readTable_dead S E hE1, NotifyAllECUs_readTable_dead S E hE]
        | some e =>
          have hl : (w.ecus E).isSome = true := by rw [hE]; rfl
          have hl1 : ((NotifyAllECUs w S).ecus E).isSome = true := by
            rw [tablesOnly_live ht]; exact hl
          rw [NotifyAllECUs_reaches hw1 hs1 hin hl1, NotifyAllECUs_reaches hw hs hin hl]
      · exact NotifyAllECUs_readTable_unlisted E s.kind s.Sensor_ID
          (fun s' hs' => by rw [hs1] at hs'; cases hs'; exact hin)

theorem exists_toIndex : ∀ i : Nat, i < 4 → ∃ c : SensorTypes, c.toIndex = i
  | 0, _ => ⟨.SPEED_SENSOR, rfl⟩
  | 1, _ => ⟨.TEMPERATURE_SENSOR, rfl⟩
  | 2, _ => ⟨.RADAR_SENSOR, rfl⟩
  | 3, _ => ⟨.BATTERY_LEVEL_SENSOR, rfl⟩
  | n + 4, h => absurd h (by omega)

theorem table_ext {t t' : List DataMap} (h1 : t.length = Sensor_Types_Count)
    (h2 : t'.length = Sensor_Types_Count)
    (h : ∀ (c : SensorTypes) (k : Int), tableRead t c.toIndex k = tableRead t' c.toIndex k) :
    t = t' := by
  apply List.ext_getElem (by rw [h1, h2])
  intro i hi hi'
  funext k
  obtain ⟨c, hc⟩ := exists_toIndex i (by rw [h1] at hi; exact hi)
  have := h c k
  simp only [tableRead, hc, List.getElem?_eq_getElem hi, List.getElem?_eq_getElem hi'] at this
  exact this

/-! ### Broadcasts that never reach an ECU -/

theorem iterate_NotifyAllECUs_unlisted {S E : Nat} {s : Sensor} (hE : E ∉ s.Subscribed_ECUs)
    (c : SensorTypes) (k : Int) :
    ∀ (n : Nat) (w : World), w.sensors S = some s →
      ((fun w => NotifyAllECUs w S)^[n] w).readTable E c k = w.readTable E c k
  | 0, _, _ => rfl
  | n + 1, w, hs => by
    rw [Function.iterate_succ_apply,
      iterate_NotifyAllECUs_unlisted hE c k n (NotifyAllECUs w S)
        (by rw [(NotifyAllECUs_tablesOnly w S).1]; exact hs)]
    exact NotifyAllECUs_readTable_unlisted E c k (fun s' hs' => by
      rw [hs] at hs'
      cases hs'
      exact hE)

/-! ### The status display -/

theorem readInfo_of_present {c : Car} {k : SensorTypes} (h : (c.Car_info k).isSome = true) :
    c.readInfo k = (c.info k, c) := by
  unfold Car.readInfo Car.info
  cases hk : c.Car_info k with
  | none => rw [hk] at h; exact Bool.noConfusion h
  | some v => rfl

theorem DisplayStatus_eq {c : Car} (h : ∀ k, (c.Car_info k).isSome = true) (w : World) :
    Car.DisplayStatus w c =
      (logAll w
        [if c.info .SPEED_SENSOR > 50 then "Speed Exceeded please SLOW DOWN"
          else "Speed is within the allowed Range",
         if c.info .TEMPERATURE_SENSOR > 30 then "Car is overheating please stop"
          else "Temperature is within the allowed Range",
         if c.info .BATTERY_LEVEL_SENSOR < 20
          then "LOW BATTERY PLEASE GO TO THE NEAREST CHARGING STATION" else "Battery is Good",
         if c.info .RADAR_SENSOR < 5 then "Collision is predicted please Slow down"
          else "NO collision Threats",
         if c.Adaptive_MODE = true then "CRUISE CONTROL IS ON" else "CRUISE CONTROL IS OFF"],
       c) := by
  unfold Car.DisplayStatus
  simp only [readInfo_of_present (h _), MAX_SPEED, MAX_TEMPERATURE, LOW_BATTERY,
    SAFE_RADAR_DISTANCE]
  rfl

/-! ### States with the same subscriptions -/

theorem SameLinks.same (w : World) : SameLinks w w := ⟨rfl, fun _ => rfl, fun _ => rfl, fun _ => rfl⟩

theorem SameLinks.comp {a b c : World} (h1 : SameLinks a b) (h2 : SameLinks b c) :
    SameLinks a c :=
  ⟨h2.1.trans h1.1, fun x => (h2.2.1 x).trans (h1.2.1 x), fun x => (h2.2.2.1 x).trans (h1.2.2.1 x),
    fun x => (h2.2.2.2 x).trans (h1.2.2.2 x)⟩

theorem SameLinks.from_tablesOnly {w w' : World} (h : TablesOnly w w') : SameLinks w w' := by
  refine ⟨h.2.1, fun a => by simp [World.sharedPtr, h.1], fun a => by
    simp [World.subscribedECUs, h.1], fun x => ?_⟩
  have := h.2.2 x
  cases h1 : w'.ecus x <;> cases h2 : w.ecus x <;> simp [h1, h2, ECU.skeleton, ECU.links] at this ⊢
  exact ⟨this.1, this.2.1, this.2.2.1, this.2.2.2.1, this.2.2.2.2.1⟩

theorem sameLinks_log (w : World) (m : String) : SameLinks w (log w m) :=
  ⟨rfl, fun _ => rfl, fun _ => rfl, fun _ => rfl⟩

theorem sensorRead_subscribedECUs (w : World) (S : Nat) (v : Rat) (a : Nat) :
    (sensorRead w S v).subscribedECUs a = w.subscribedECUs a := by
  unfold World.subscribedECUs
  rw [sensorRead_sensors]
  cases hs : w.sensors S with
  | none => rfl
  | some s =>
    simp only
    by_cases ha : a = S
    · simp [ha, hs]
    · simp [ha]

theorem sameLinks_sensorRead (w : World) (S : Nat) (v : Rat) : SameLinks w (sensorRead w S v) :=
  ⟨sensorRead_next w S v, sensorRead_sharedPtr w S v, sensorRead_subscribedECUs w S v,
    fun h => by rw [sensorRead_ecus]⟩

theorem sameLinks_setON {w : World} {h : Nat} {e : ECU} (he : w.ecus h = some e) (b : Bool) :
    SameLinks w (w.setECU h (some { e with ON := b })) := by
  refine ⟨rfl, fun _ => rfl, fun _ => rfl, fun x => ?_⟩
  simp only [setECU_ecus]
  by_cases hx : x = h
  · simp [hx, he, ECU.links]
  · simp [hx]

theorem GetSensorData_world (w : World) (r : Engines) (a : Nat) :
    ∃ v, (GetSensorData w r a).1 = sensorRead w a v := by
  cases hs : w.sensors a with
  | none => exact ⟨0, by simp [GetSensorData, getRandomData, hs, sensorRead]⟩
  | some s => exact ⟨_, by rw [GetSensorData_eq hs]⟩

theorem sameLinks_GetSensorData (w : World) (r : Engines) (a : Nat) :
    SameLinks w (GetSensorData w r a).1 := by
  obtain ⟨v, hv⟩ := GetSensorData_world w r a
  rw [hv]
  exact sameLinks_sensorRead w a v

theorem WF_log {w : World} (hw : WF w) (m : String) : WF (log w m) :=
  hw.of_tablesOnly ⟨rfl, rfl, fun _ => rfl⟩

theorem WF_GetSensorData {w : World} (hw : WF w) (r : Engines) (a : Nat) :
    WF (GetSensorData w r a).1 := by
  obtain ⟨v, hv⟩ := GetSensorData_world w r a
  rw [hv]
  exact WF_sensorRead hw a v

theorem WF_setON {w : World} (hw : WF w) {h : Nat} {e : ECU} (he : w.ecus h = some e)
    (b : Bool) : WF (w.setECU h (some { e with ON := b })) := by
  refine hw.of_ecuChange rfl rfl (fun a e' ha => ?_)
  simp only [setECU_ecus] at ha
  by_cases hx : a = h
  · rw [if_pos hx] at ha
    cases ha
    exact ⟨e, hx ▸ he, rfl, rfl, hw.distinctSensors h e he⟩
  · rw [if_neg hx] at ha
    exact ⟨e', ha, rfl, rfl, hw.distinctSensors a e' ha⟩

@[simp] theorem GetSensorData_ecus (w : World) (r : Engines) (a : Nat) :
    (GetSensorData w r a).1.ecus = w.ecus := by
  obtain ⟨v, hv⟩ := GetSensorData_world w r a
  rw [hv, sensorRead_ecus]

theorem UpdateSensorsData_ecus (w : World) (r : Engines) (c : Car) :
    (Car.UpdateSensorsData w r c).1.ecus = w.ecus := by
  simp only [Car.UpdateSensorsData, log_ecus, GetSensorData_ecus]

theorem sameLinks_UpdateSensorsData (w : World) (r : Engines) (c : Car) :
    SameLinks w (Car.UpdateSensorsData w r c).1 := by
  unfold Car.UpdateSensorsData
  exact ((((sameLinks_GetSensorData _ _ _).comp (sameLinks_GetSensorData _ _ _)).comp
    (sameLinks_GetSensorData _ _ _)).comp (sameLinks_GetSensorData _ _ _)).comp
    (sameLinks_log _ _)

theorem WF_UpdateSensorsData {w : World} (hw : WF w) (r : Engines) (c : Car) :
    WF (Car.UpdateSensorsData w r c).1 := by
  unfold Car.UpdateSensorsData
  exact WF_log (WF_GetSensorData (WF_GetSensorData (WF_GetSensorData
    (WF_GetSensorData hw _ _) _ _) _ _) _ _) _

theorem sameLinks_update (w : World) (D : Nat) : SameLinks w (DiagnosticECU.update w D) :=
  SameLinks.from_tablesOnly (update_tablesOnly w D)

theorem sameLinks_PerformFunction (w : World) (r : Engines) (E : Nat) (c : Car) :
    SameLinks w (PerformFunction w r E c).1 := by
  unfold PerformFunction
  cases he : w.ecus E with
  | none => exact SameLinks.same w
  | some e =>
    obtain ⟨kind, id, name, t, l, b⟩ := e
    cases kind with
    | ADAPTIVE_CRUISE_CONTROL =>
      exact (sameLinks_log w _).comp (sameLinks_setON (w := log w _) he true)
    | DIAGNOSTIC =>
      exact (((sameLinks_log w _).comp (sameLinks_setON (w := log w _) he true)).comp
        (sameLinks_update _ _)).comp (sameLinks_UpdateSensorsData _ _ _)

theorem WF_PerformFunction {w : World} (hw : WF w) (r : Engines) (E : Nat) (c : Car) :
    WF (PerformFunction w r E c).1 := by
  unfold PerformFunction
  cases he : w.ecus E with
  | none => exact hw
  | some e =>
    obtain ⟨kind, id, name, t, l, b⟩ := e
    cases kind with
    | ADAPTIVE_CRUISE_CONTROL => exact WF_setON (WF_log hw _) he true
    | DIAGNOSTIC =>
      exact WF_UpdateSensorsData
        ((WF_setON (WF_log hw _) he true).of_tablesOnly (update_tablesOnly _ _)) _ _

/-! ### The invariant of a car -/

theorem SameLinks.subscribedSensors {w w' : World} (h : SameLinks w w') (E : Nat) :
    w'.subscribedSensors E = w.subscribedSensors E := by
  have := h.2.2.2 E
  unfold World.subscribedSensors
  cases h1 : w'.ecus E <;> cases h2 : w.ecus E <;> simp [h1, h2, ECU.links] at this ⊢
  exact this.2.2.2.2

theorem SameLinks.ecu {w w' : World} (h : SameLinks w w') {E : Nat} {e : ECU}
    (he : w.ecus E = some e) :
    ∃ e', w'.ecus E = some e' ∧ e'.kind = e.kind ∧ e'.name = e.name ∧
      e'.Subscribed_Sensors = e.Subscribed_Sensors := by
  have := h.2.2.2 E
  rw [he] at this
  cases h1 : w'.ecus E with
  | none => simp [h1] at this
  | some e' =>
    simp [h1, ECU.links] at this
    exact ⟨e', rfl, this.1, this.2.2.1, this.2.2.2.2⟩

theorem Car.Unlinked.carried {c : Car} {w w' : World} (h : c.Unlinked w)
    (hs : SameLinks w w') : c.Unlinked w' :=
  ⟨by rw [hs.subscribedSensors]; exact h.1, fun sp hsp => by rw [hs.2.2.1]; exact h.2 sp hsp⟩

theorem Car.Linked.kept {c : Car} {w w' : World} (h : c.Linked w)
    (hs : SameLinks w w') : c.Linked w' :=
  ⟨by rw [hs.subscribedSensors]; exact h.1, fun sp hsp => by rw [hs.2.2.1]; exact h.2 sp hsp⟩

theorem CarInv.of_sameLinks {w w' : World} {c : Car} (h : CarInv w c) (hs : SameLinks w w')
    (hw : WF w') : CarInv w' c where
  wf := hw
  sensors_eq := h.sensors_eq
  speed := h.speed
  temperature := h.temperature
  radar := h.radar
  battery := h.battery
  ecus := h.ecus
  info := h.info
  live := fun sp hsp => by rw [hs.2.1]; exact h.live sp hsp
  diag := by
    obtain ⟨e, he, hk, hn⟩ := h.diag
    obtain ⟨e', he', hk', hn', _⟩ := hs.ecu he
    exact ⟨e', he', hk'.trans hk, hn'.trans hn⟩
  acc := by
    obtain ⟨e, he, hk, hn⟩ := h.acc
    obtain ⟨e', he', hk', hn', _⟩ := hs.ecu he
    exact ⟨e', he', hk'.trans hk, hn'.trans hn⟩
  links := h.links.imp (fun hl => hl.carried hs) (fun hl => hl.kept hs)

theorem CarInv.of_car {w : World} {c c' : Car} (h : CarInv w c)
    (h1 : c'.Sensors = c.Sensors) (h2 : c'.Car_Speed_Sensor = c.Car_Speed_Sensor)
    (h3 : c'.Car_Temperature_Sensor = c.Car_Temperature_Sensor)
    (h4 : c'.Car_Radar_Sensor = c.Car_Radar_Sensor)
    (h5 : c'.Car_Battery_Level_Sensor = c.Car_Battery_Level_Sensor)
    (h6 : c'.Car_Adaptive_Cruise_Control_ECU = c.Car_Adaptive_Cruise_Control_ECU)
    (h7 : c'.Car_Diagnostic_ECU = c.Car_Diagnostic_ECU)
    (h8 : ∀ E ∈ c'.ECUs, E = c.Car_Adaptive_Cruise_Control_ECU ∨ E = c.Car_Diagnostic_ECU)
    (h9 : ∀ k, (c'.Car_info k).isSome = true) : CarInv w c' where
  wf := h.wf
  sensors_eq := by rw [h1, h2, h3, h4, h5]; exact h.sensors_eq
  speed := by rw [h2]; exact h.speed
  temperature := by rw [h3]; exact h.temperature
  radar := by rw [h4]; exact h.radar
  battery := by rw [h5]; exact h.battery
  ecus := by rw [h6, h7]; exact h8
  info := h9
  live := by rw [h1]; exact h.live
  diag := by rw [h7]; exact h.diag
  acc := by rw [h6]; exact h.acc
  links := by
    unfold Car.Unlinked Car.Linked
    rw [h1, h7]
    exact h.links

theorem assignInfo_isSome (c : Car) (k : SensorTypes) (v : Rat)
    (h : ∀ j, (c.Car_info j).isSome = true) (j : SensorTypes) :
    ((c.assignInfo k v).Car_info j).isSome = true := by
  unfold Car.assignInfo
  simp only
  split
  · rfl
  · exact h j

theorem CarInv_CarINIT {w : World} {c : Car} (h : CarInv w c) :
    CarInv (Car.CarINIT w c).1 (Car.CarINIT w c).2 := by
  have hw : SameLinks w (Car.CarINIT w c).1 := by
    unfold Car.CarINIT
    exact ((((sameLinks_log _ _).comp (sameLinks_log _ _)).comp (sameLinks_log _ _)).comp
      (sameLinks_log _ _)).comp (sameLinks_log _ _)
  have hwf : WF (Car.CarINIT w c).1 := by
    unfold Car.CarINIT
    exact WF_log (WF_log (WF_log (WF_log (WF_log h.wf _) _) _) _) _
  refine (h.of_sameLinks hw hwf).of_car h.sensors_eq.symm rfl rfl rfl rfl rfl rfl ?_ ?_
  · intro E hE
    simp only [Car.CarINIT, Car.assignInfo, List.mem_append, List.mem_cons,
      List.mem_singleton, List.not_mem_nil, or_false] at hE
    rcases hE with hE | hE | hE
    · exact h.ecus E hE
    · exact Or.inl hE
    · exact Or.inr hE
  · intro k
    simp only [Car.CarINIT, Car.assignInfo]
    cases k <;> simp

theorem CarInv_DisplayStatus {w : World} {c : Car} (h : CarInv w c) :
    CarInv (Car.DisplayStatus w c).1 (Car.DisplayStatus w c).2 := by
  rw [DisplayStatus_eq h.info]
  refine h.of_sameLinks ?_ ?_
  · exact ((((sameLinks_log _ _).comp (sameLinks_log _ _)).comp (sameLinks_log _ _)).comp
      (sameLinks_log _ _)).comp (sameLinks_log _ _)
  · exact WF_log (WF_log (WF_log (WF_log (WF_log h.wf _) _) _) _) _

theorem CarInv_UpdateSensorsData {w : World} {c : Car} (h : CarInv w c) (r : Engines) :
    CarInv (Car.UpdateSensorsData w r c).1 (Car.UpdateSensorsData w r c).2.2 := by
  refine (h.of_sameLinks (sameLinks_UpdateSensorsData w r c)
    (WF_UpdateSensorsData h.wf r c)).of_car rfl rfl rfl rfl rfl rfl rfl h.ecus ?_
  intro k
  simp only [Car.UpdateSensorsData]
  exact assignInfo_isSome _ _ _ (assignInfo_isSome _ _ _ (assignInfo_isSome _ _ _
    (assignInfo_isSome _ _ _ h.info))) k

theorem setAdaptiveMode_loop (c1 : Car) (w : World) :
    ∀ (l : List Nat) (acc : World × Engines), SameLinks w acc.1 → WF acc.1 →
      SameLinks w (l.foldl (fun (acc : World × Engines) E =>
        match acc.1.ecus E with
        | some e =>
          if e.getName = "Adaptive Cruise Control ECU" then
            (log (PerformFunction acc.1 acc.2 E c1).1
              "Performing function for Adaptive Cruise Control ECU",
             (PerformFunction acc.1 acc.2 E c1).2)
          else acc
        | none => acc) acc).1 ∧
      WF (l.foldl (fun (acc : World × Engines) E =>
        match acc.1.ecus E with
        | some e =>
          if e.getName = "Adaptive Cruise Control ECU" then
            (log (PerformFunction acc.1 acc.2 E c1).1
              "Performing function for Adaptive Cruise Control ECU",
             (PerformFunction acc.1 acc.2 E c1).2)
          else acc
        | none => acc) acc).1
  | [], _, hs, hw => ⟨hs, hw⟩
  | E :: l, acc, hs, hw => by
    simp only [List.foldl]
    apply setAdaptiveMode_loop c1 w l
    · cases he : acc.1.ecus E with
      | none => exact hs
      | some e =>
        simp only
        split
        · exact (hs.comp (sameLinks_PerformFunction _ _ _ _)).comp (sameLinks_log _ _)
        · exact hs
    · cases he : acc.1.ecus E with
      | none => exact hw
      | some e =>
        simp only
        split
        · exact WF_log (WF_PerformFunction hw _ _ _) _
        · exact hw

theorem CarInv_setAdaptiveMode {w : World} {c : Car} (h : CarInv w c) (r : Engines)
    (mode : Bool) :
    CarInv (Car.setAdaptiveMode w r c mode).1 (Car.setAdaptiveMode w r c mode).2.2 := by
  have hl := setAdaptiveMode_loop { c with Adaptive_MODE := mode } w c.ECUs
    (log w ("Setting adaptive mode to " ++ (if mode then "enabled" else "disabled")), r)
    (sameLinks_log _ _) (WF_log h.wf _)
  exact (h.of_sameLinks hl.1 hl.2).of_car rfl rfl rfl rfl rfl rfl rfl h.ecus h.info

/-! ### The loop of `Car::StartDiagonisticTool` -/

theorem AttachSensor_eq_log_of_any {w : World} {E : Nat} {e : ECU} {s : SensorPtr}
    (he : w.ecus E = some e) (hany : e.Subscribed_Sensors.any (sameSensor s) = true) :
    ∃ m, AttachSensor w E s = log w m := by
  unfold AttachSensor
  rw [he]
  simp only [hany, if_true]
  exact ⟨_, rfl⟩

theorem AttachECU_eq_log_of_listed {w : World} {S E : Nat} {s : Sensor} {eE : ECU}
    (hs : w.sensors S = some s) (he : w.ecus E = some eE) (hin : E ∈ s.Subscribed_ECUs) :
    ∃ m, AttachECU w S E = log w m := by
  unfold AttachECU
  rw [hs, he]
  simp only
  have hany : s.Subscribed_ECUs.any (sameID w eE) = true :=
    List.any_eq_true.2 ⟨E, hin, sameID_self he⟩
  cases hf : s.Subscribed_ECUs.find? (sameID w eE) with
  | none =>
    rw [List.find?_eq_none] at hf
    obtain ⟨x, hx, hsx⟩ := List.any_eq_true.1 hany
    exact absurd hsx (hf x hx)
  | some x => exact ⟨_, rfl⟩

theorem subscribeAll_keep (D : Nat) :
    ∀ (l : List SensorPtr) (w : World) (all : List SensorPtr), (∀ sp ∈ l, sp ∈ all) →
      (∃ e, w.ecus D = some e) → w.subscribedSensors D = some all →
      (∀ sp ∈ all, w.sharedPtr sp.addr = some sp) →
      (∀ sp ∈ all, w.subscribedECUs sp.addr = some [D]) → WF w →
      SameLinks w (l.foldl (fun acc s => AttachECU (AttachSensor acc D s) s.addr D) w) ∧
      WF (l.foldl (fun acc s => AttachECU (AttachSensor acc D s) s.addr D) w)
  | [], w, _, _, _, _, _, _, hw => ⟨SameLinks.same w, hw⟩
  | sp :: l, w, all, hsub, ⟨e, he⟩, hD, hlive, hlist, hw => by
    simp only [List.foldl]
    have hsp : sp ∈ all := hsub sp (List.mem_cons_self _ _)
    have hel : e.Subscribed_Sensors = all := by
      simpa [World.subscribedSensors, he] using hD
    obtain ⟨m1, h1⟩ := AttachSensor_eq_log_of_any (s := sp) he
      (List.any_eq_true.2 ⟨sp, hel ▸ hsp, sameSensor_self sp⟩)
    obtain ⟨s, hs, _, _⟩ := sensor_of_sharedPtr (hlive sp hsp)
    have hsl : s.Subscribed_ECUs = [D] := by
      simpa [World.subscribedECUs, hs] using hlist sp hsp
    obtain ⟨m2, h2⟩ := AttachECU_eq_log_of_listed (w := log w m1) (S := sp.addr) (E := D) hs he
      (by rw [hsl]; exact List.mem_singleton_self D)
    rw [h1, h2]
    have hstep : SameLinks w (log (log w m1) m2) := (sameLinks_log _ _).comp (sameLinks_log _ _)
    have hwf : WF (log (log w m1) m2) := WF_log (WF_log hw _) _
    obtain ⟨r1, r2⟩ := subscribeAll_keep D l (log (log w m1) m2) all
      (fun x hx => hsub x (List.mem_cons_of_mem _ hx)) ⟨e, he⟩ hD hlive hlist hwf
    exact ⟨hstep.comp r1, r2⟩

theorem AttachECU_subscribedECUs_other (w : World) (S E a : Nat) (h : a ≠ S) :
    (AttachECU w S E).subscribedECUs a = w.subscribedECUs a := by
  unfold World.subscribedECUs
  rw [(AttachECU_others w S E a).1 h]

theorem subscribeAll_build (D : Nat) :
    ∀ (l done : List SensorPtr) (w : World), (∃ e, w.ecus D = some e) →
      w.subscribedSensors D = some done →
      (∀ sp ∈ l, w.sharedPtr sp.addr = some sp) →
      (∀ sp ∈ l, w.subscribedECUs sp.addr = some []) →
      DistinctSensors (done ++ l) →
      (l.foldl (fun acc s => AttachECU (AttachSensor acc D s) s.addr D) w).subscribedSensors D
        = some (done ++ l) ∧
      (∀ sp ∈ l, (l.foldl (fun acc s => AttachECU (AttachSensor acc D s) s.addr D)
        w).subscribedECUs sp.addr = some [D]) ∧
      ∀ a, (∀ sp ∈ l, sp.addr ≠ a) →
        (l.foldl (fun acc s => AttachECU (AttachSensor acc D s) s.addr D) w).subscribedECUs a
          = w.subscribedECUs a
  | [], done, w, _, hD, _, _, _ => by
    simp only [List.foldl, List.append_nil]
    exact ⟨hD, fun sp hsp => absurd hsp (List.not_mem_nil sp), fun _ _ => trivial⟩
  | sp :: l, done, w, ⟨e, he⟩, hD, hlive, hempty, hdist => by
    simp only [List.foldl]
    have hel : e.Subscribed_Sensors = done := by
      simpa [World.subscribedSensors, he] using hD
    have hpair := List.pairwise_append.1 hdist
    have hany : e.Subscribed_Sensors.any (sameSensor sp) = false := by
      rw [hel, Bool.eq_false_iff]
      intro h
      obtain ⟨x, hx, hsx⟩ := List.any_eq_true.1 h
      have := hpair.2.2 x hx sp (List.mem_cons_self _ _)
      rw [sameSensor_comm] at this
      rw [this] at hsx
      exact Bool.noConfusion hsx
    have hA := AttachSensor_subscribed_of_not_any he hany
    obtain ⟨s, hs, _, _⟩ := sensor_of_sharedPtr (hlive sp (List.mem_cons_self _ _))
    have hsl : s.Subscribed_ECUs = [] := by
      simpa [World.subscribedECUs, hs] using hempty sp (List.mem_cons_self _ _)
    obtain ⟨e1, he1⟩ : ∃ e1, (AttachSensor w D sp).ecus D = some e1 := by
      have := AttachSensor_live (E := D) sp (a := D) (w := w) (by rw [he]; rfl)
      exact Option.isSome_iff_exists.1 this
    have hs1 : (AttachSensor w D sp).sensors sp.addr = some s := by
      rw [AttachSensor_sensors]; exact hs
    have hB : (AttachECU (AttachSensor w D sp) sp.addr D).subscribedECUs sp.addr = some [D] := by
      have := AttachECU_subscribed_of_no_sameID (w := AttachSensor w D sp) (S := sp.addr)
        (E := D) hs1 he1 (by rw [hsl]; simp)
      rw [this, hsl]
      rfl
    have haddr : ∀ x ∈ l, x.addr ≠ sp.addr := by
      intro x hx heq
      have h1 := hlive x (List.mem_cons_of_mem _ hx)
      have h2 := hlive sp (List.mem_cons_self _ _)
      rw [heq, h2] at h1
      cases h1
      have := (List.pairwise_cons.1 hpair.2.1).1 sp hx
      rw [sameSensor_self] at this
      exact Bool.noConfusion this
    obtain ⟨r1, r2, r3⟩ := subscribeAll_build D l (done ++ [sp])
      (AttachECU (AttachSensor w D sp) sp.addr D)
      ⟨e1, by rw [AttachECU_ecus]; exact he1⟩
      (by
        rw [hel] at hA
        unfold World.subscribedSensors at hA ⊢
        rw [AttachECU_ecus]
        exact hA)
      (fun x hx => by
        rw [AttachECU_sharedPtr, AttachSensor_sharedPtr]
        exact hlive x (List.mem_cons_of_mem _ hx))
      (fun x hx => by
        rw [AttachECU_subscribedECUs_other _ _ _ _ (haddr x hx)]
        unfold World.subscribedECUs
        rw [AttachSensor_sensors]
        exact hempty x (List.mem_cons_of_mem _ hx))
      (by rw [List.append_assoc]; exact hdist)
    refine ⟨by rw [r1, List.append_assoc]; rfl, fun x hx => ?_, fun a ha => ?_⟩
    · rcases List.mem_cons.1 hx with hx | hx
      · subst hx
        rw [r3 x.addr (fun y hy => haddr y hy), hB]
      · exact r2 x hx
    · rw [r3 a (fun y hy => ha y (List.mem_cons_of_mem _ hy)),
        AttachECU_subscribedECUs_other _ _ _ _ (ha sp (List.mem_cons_self _ _)).symm]
      unfold World.subscribedECUs
      rw [AttachSensor_sensors]

theorem CarInv.of_objects {w w' : World} {c : Car} (h : CarInv w c) (hw : WF w')
    (hp : ∀ a, w'.sharedPtr a = w.sharedPtr a)
    (he : ∀ x, (w'.ecus x).map (fun e => (e.kind, e.name))
      = (w.ecus x).map (fun e => (e.kind, e.name)))
    (hl : c.Unlinked w' ∨ c.Linked w') : CarInv w' c where
  wf := hw
  sensors_eq := h.sensors_eq
  speed := h.speed
  temperature := h.temperature
  radar := h.radar
  battery := h.battery
  ecus := h.ecus
  info := h.info
  live := fun sp hsp => by rw [hp]; exact h.live sp hsp
  diag := by
    obtain ⟨e, h1, hk, hn⟩ := h.diag
    have := he c.Car_Diagnostic_ECU
    rw [h1] at this
    cases h2 : w'.ecus c.Car_Diagnostic_ECU with
    | none => simp [h2] at this
    | some e' =>
      simp [h2] at this
      exact ⟨e', rfl, this.1.trans hk, this.2.trans hn⟩
  acc := by
    obtain ⟨e, h1, hk, hn⟩ := h.acc
    have := he c.Car_Adaptive_Cruise_Control_ECU
    rw [h1] at this
    cases h2 : w'.ecus c.Car_Adaptive_Cruise_Control_ECU with
    | none => simp [h2] at this
    | some e' =>
      simp [h2] at this
      exact ⟨e', rfl, this.1.trans hk, this.2.trans hn⟩
  links := hl

theorem subscribeAll_frame (D : Nat) :
    ∀ (l : List SensorPtr) (w : World),
      (∀ a, (l.foldl (fun acc s => AttachECU (AttachSensor acc D s) s.addr D) w).sharedPtr a
        = w.sharedPtr a) ∧
      (∀ x, ((l.foldl (fun acc s => AttachECU (AttachSensor acc D s) s.addr D) w).ecus x).map
          (fun e => (e.kind, e.name)) = (w.ecus x).map (fun e => (e.kind, e.name))) ∧
      (WF w → WF (l.foldl (fun acc s => AttachECU (AttachSensor acc D s) s.addr D) w))
  | [], _ => ⟨fun _ => rfl, fun _ => rfl, fun h => h⟩
  | sp :: l, w => by
    simp only [List.foldl]
    obtain ⟨r1, r2, r3⟩ := subscribeAll_frame D l (AttachECU (AttachSensor w D sp) sp.addr D)
    refine ⟨fun a => by rw [r1, AttachECU_sharedPtr, AttachSensor_sharedPtr], fun x => ?_,
      fun hw => r3 (WF_AttachECU (WF_AttachSensor hw D sp) sp.addr D)⟩
    rw [r2, AttachECU_ecus]
    have := (AttachSensor_others w D sp x).2
    cases h1 : (AttachSensor w D sp).ecus x <;> cases h2 : w.ecus x <;>
      simp [h1, h2] at this ⊢
    exact ⟨this.1, this.2.2.1⟩

theorem sameSensor_of_kind_ne {a b : SensorPtr} (h : a.kind ≠ b.kind) :
    sameSensor a b = false := by
  obtain ⟨a1, ak, ai⟩ := a
  obtain ⟨b1, bk, bi⟩ := b
  simp only at h
  cases ak <;> cases bk <;>
    first
    | exact absurd rfl h
    | simp [sameSensor, SensorPtr.getType, SensorTypes.typeString]

theorem CarInv.distinct {w : World} {c : Car} (h : CarInv w c) : DistinctSensors c.Sensors := by
  rw [h.sensors_eq]
  unfold DistinctSensors
  have e1 := h.speed
  have e2 := h.temperature
  have e3 := h.radar
  have e4 := h.battery
  simp only [List.pairwise_cons, List.mem_cons, List.mem_singleton, List.not_mem_nil,
    forall_eq_or_imp, forall_eq, List.Pairwise.nil, and_true, IsEmpty.forall_iff,
    implies_true]
  refine ⟨⟨?_, ?_, ?_⟩, ⟨?_, ?_⟩, ?_⟩ <;>
    · apply sameSensor_of_kind_ne
      simp [e1, e2, e3, e4]

theorem CarInv_subscribeAll {w : World} {c : Car} (h : CarInv w c) :
    CarInv (c.subscribeAll w) c ∧ c.Linked (c.subscribeAll w) := by
  obtain ⟨e, he, _, _⟩ := h.diag
  obtain ⟨f1, f2, f3⟩ := subscribeAll_frame c.Car_Diagnostic_ECU c.Sensors w
  rcases h.links with hU | hL
  · obtain ⟨r1, r2, _⟩ := subscribeAll_build c.Car_Diagnostic_ECU c.Sensors [] w ⟨e, he⟩ hU.1
      h.live hU.2 (by rw [List.nil_append]; exact h.distinct)
    have hL : c.Linked (c.subscribeAll w) := ⟨by rw [List.nil_append] at r1; exact r1, r2⟩
    exact ⟨h.of_objects (f3 h.wf) f1 f2 (Or.inr hL), hL⟩
  · obtain ⟨r1, r2⟩ := subscribeAll_keep c.Car_Diagnostic_ECU c.Sensors w c.Sensors
      (fun _ hx => hx) ⟨e, he⟩ hL.1 h.live hL.2 h.wf
    exact ⟨h.of_sameLinks r1 r2, hL.kept r1⟩

theorem CarInv_StartDiagonisticTool {w : World} {c : Car} (h : CarInv w c) (r : Engines) :
    CarInv (c.StartDiagonisticTool w r).1 (c.StartDiagonisticTool w r).2.2 ∧
      c.Linked (c.StartDiagonisticTool w r).1 := by
  obtain ⟨h1, h2⟩ := CarInv_subscribeAll h
  have hs := sameLinks_PerformFunction (c.subscribeAll w) r c.Car_Diagnostic_ECU c
  exact ⟨h1.of_sameLinks hs (WF_PerformFunction h1.wf _ _ _), h2.kept hs⟩

theorem CarINIT_world (w : World) (c : Car) :
    (Car.CarINIT w c).1.sensors = w.sensors ∧ (Car.CarINIT w c).1.ecus = w.ecus ∧
      (Car.CarINIT w c).1.next = w.next := ⟨rfl, rfl, rfl⟩

theorem Car_new_sensors (w : World) (model make : String) (a : Nat) :
    (Car.new w model make).1.sensors a =
      if a = w.next + 3 then
        some { kind := .RADAR_SENSOR, Sensor_ID := (Car.new w model make).2.Car_Radar_Sensor.Sensor_ID,
               data := 0, Subscribed_ECUs := [] }
      else if a = w.next + 2 then
        some { kind := .BATTERY_LEVEL_SENSOR,
               Sensor_ID := (Car.new w model make).2.Car_Battery_Level_Sensor.Sensor_ID,
               data := 0, Subscribed_ECUs := [] }
      else if a = w.next + 1 then
        some { kind := .TEMPERATURE_SENSOR,
               Sensor_ID := (Car.new w model make).2.Car_Temperature_Sensor.Sensor_ID,
               data := 0, Subscribed_ECUs := [] }
      else if a = w.next then
        some { kind := .SPEED_SENSOR,
               Sensor_ID := (Car.new w model make).2.Car_Speed_Sensor.Sensor_ID,
               data := 0, Subscribed_ECUs := [] }
      else w.sensors a := by
  unfold Car.new
  simp only [(CarINIT_world _ _).1, log_sensors, make_shared_ECU, make_shared_Sensor,
    newECU_sensors, newSensor_sensors, newSensor_next]
  rfl

theorem Car_new_ecus (w : World) (model make : String) (a : Nat) :
    (Car.new w model make).1.ecus a =
      if a = w.next + 5 then
        some { kind := .DIAGNOSTIC, ECU_ID := wrapInt (wrapInt (w.ECU_Count + 1) + 1),
               name := "Diagnostic ECU",
               Recent_Sensory_Data := List.replicate Sensor_Types_Count (fun _ => none),
               Subscribed_Sensors := [], ON := false }
      else if a = w.next + 4 then
        some { kind := .ADAPTIVE_CRUISE_CONTROL, ECU_ID := wrapInt (w.ECU_Count + 1),
               name := "Adaptive Cruise Control ECU",
               Recent_Sensory_Data := List.replicate Sensor_Types_Count (fun _ => none),
               Subscribed_Sensors := [], ON := false }
      else w.ecus a := by
  unfold Car.new
  simp only [(CarINIT_world _ _).2.1, log_ecus, make_shared_ECU, make_shared_Sensor,
    newECU_ecus, newECU_next, newSensor_next, newSensor_ecus]
  rfl

theorem Car_new_car (w : World) (model make : String) :
    (Car.new w model make).2.Sensors =
        [(Car.new w model make).2.Car_Speed_Sensor, (Car.new w model make).2.Car_Temperature_Sensor,
         (Car.new w model make).2.Car_Radar_Sensor,
         (Car.new w model make).2.Car_Battery_Level_Sensor] ∧
      (Car.new w model make).2.Car_Speed_Sensor.addr = w.next ∧
      (Car.new w model make).2.Car_Speed_Sensor.kind = .SPEED_SENSOR ∧
      (Car.new w model make).2.Car_Temperature_Sensor.addr = w.next + 1 ∧
      (Car.new w model make).2.Car_Temperature_Sensor.kind = .TEMPERATURE_SENSOR ∧
      (Car.new w model make).2.Car_Battery_Level_Sensor.addr = w.next + 2 ∧
      (Car.new w model make).2.Car_Battery_Level_Sensor.kind = .BATTERY_LEVEL_SENSOR ∧
      (Car.new w model make).2.Car_Radar_Sensor.addr = w.next + 3 ∧
      (Car.new w model make).2.Car_Radar_Sensor.kind = .RADAR_SENSOR ∧
      (Car.new w model make).2.Car_Adaptive_Cruise_Control_ECU = w.next + 4 ∧
      (Car.new w model make).2.Car_Diagnostic_ECU = w.next + 5 ∧
      (Car.new w model make).2.ECUs = [w.next + 4, w.next + 5] ∧
      (Car.new w model make).2.Adaptive_MODE = false ∧
      (Car.new w model make).2.Car_info = fun k =>
        match k with
        | .SPEED_SENSOR => some 0
        | .TEMPERATURE_SENSOR => some 25
        | .RADAR_SENSOR => some 0
        | .BATTERY_LEVEL_SENSOR => some 100 := by
  refine ⟨rfl, rfl, rfl, ?_, rfl, ?_, rfl, ?_, rfl, ?_, ?_, ?_, rfl, ?_⟩
  · simp [Car.new, Car.CarINIT, Car.assignInfo, make_shared_Sensor]
  · simp [Car.new, Car.CarINIT, Car.assignInfo, make_shared_Sensor]
  · simp [Car.new, Car.CarINIT, Car.assignInfo, make_shared_Sensor]
  · simp [Car.new, Car.CarINIT, Car.assignInfo, make_shared_Sensor, make_shared_ECU]
  · simp [Car.new, Car.CarINIT, Car.assignInfo, make_shared_Sensor, make_shared_ECU]
  · simp [Car.new, Car.CarINIT, Car.assignInfo, make_shared_Sensor, make_shared_ECU]
  · funext k
    cases k <;> simp [Car.new, Car.CarINIT, Car.assignInfo]

theorem WF_Car_new {w : World} (hw : WF w) (model make : String) :
    WF (Car.new w model make).1 := by
  unfold Car.new Car.CarINIT
  exact WF_log (WF_log (WF_log (WF_log (WF_log (WF_log (WF_newECU (WF_newECU (WF_newSensor
    (WF_newSensor (WF_newSensor (WF_newSensor hw _) _) _) _) _) _) _) _) _) _) _) _

theorem CarInv_new {w : World} (hw : WF w) (model make : String) :
    CarInv (Car.new w model make).1 (Car.new w model make).2 ∧
      (Car.new w model make).2.Unlinked (Car.new w model make).1 := by
  obtain ⟨c1, a1, k1, a2, k2, a3, k3, a4, k4, e1, e2, e3, _, e5⟩ := Car_new_car w model make
  have hlive : ∀ sp ∈ (Car.new w model make).2.Sensors,
      (Car.new w model make).1.sensors sp.addr
        = some { kind := sp.kind, Sensor_ID := sp.Sensor_ID, data := 0, Subscribed_ECUs := [] } := by
    intro sp hsp
    rw [c1] at hsp
    simp only [List.mem_cons, List.mem_singleton, List.not_mem_nil, or_false] at hsp
    rw [Car_new_sensors]
    rcases hsp with h | h | h | h <;> subst h
    · rw [a1, k1]; simp
    · rw [a2, k2]; simp
    · rw [a4, k4]; simp
    · rw [a3, k3]; simp
  have hU : (Car.new w model make).2.Unlinked (Car.new w model make).1 := by
    refine ⟨?_, fun sp hsp => ?_⟩
    · unfold World.subscribedSensors
      rw [e2, Car_new_ecus]; simp
    · unfold World.subscribedECUs
      rw [hlive sp hsp]; rfl
  refine ⟨?_, hU⟩
  exact {
    wf := WF_Car_new hw model make
    sensors_eq := c1
    speed := k1
    temperature := k2
    radar := k4
    battery := k3
    ecus := by
      intro E hE
      rw [e3] at hE
      rw [e1, e2]
      simpa using hE
    info := by
      intro k
      rw [e5]
      cases k <;> rfl
    live := by
      intro sp hsp
      unfold World.sharedPtr
      rw [hlive sp hsp]; rfl
    diag := by
      rw [e2]
      exact ⟨_, by rw [Car_new_ecus]; simp; rfl, rfl, rfl⟩
    acc := by
      rw [e1]
      exact ⟨_, by rw [Car_new_ecus]; simp; rfl, rfl, rfl⟩
    links := Or.inl hU }

theorem CarInv_carStep {x : World × Engines × Car} (h : CarInv x.1 x.2.2) (o : CarOp) :
    CarInv (carStep x o).1 (carStep x o).2.2 := by
  cases o with
  | CarINIT => exact CarInv_CarINIT h
  | setAdaptiveMode mode => exact CarInv_setAdaptiveMode h x.2.1 mode
  | StartDiagonisticTool => exact (CarInv_StartDiagonisticTool h x.2.1).1
  | DisplayStatus => exact CarInv_DisplayStatus h
  | UpdateSensorsData => exact CarInv_UpdateSensorsData h x.2.1

theorem CarInv_carRun {x : World × Engines × Car} (h : CarInv x.1 x.2.2) (cs : List CarOp) :
    CarInv (carRun x cs).1 (carRun x cs).2.2 := by
  induction cs generalizing x with
  | nil => exact h
  | cons o cs ih => exact ih (CarInv_carStep h o)

theorem CarInv_carStart (ops : List Op) (model make : String) (r : Engines) :
    CarInv (carStart ops model make r).1 (carStart ops model make r).2.2 :=
  (CarInv_new (WF_reachable ops) model make).1

theorem Car.Linked.same_car {w : World} {c c' : Car} (h : c.Linked w)
    (h1 : c'.Sensors = c.Sensors) (h7 : c'.Car_Diagnostic_ECU = c.Car_Diagnostic_ECU) :
    c'.Linked w := by
  unfold Car.Linked at h ⊢
  rw [h1, h7]
  exact h

theorem carStep_members {x : World × Engines × Car} (h : CarInv x.1 x.2.2) (o : CarOp) :
    (carStep x o).2.2.Sensors = x.2.2.Sensors ∧
      (carStep x o).2.2.Car_Diagnostic_ECU = x.2.2.Car_Diagnostic_ECU := by
  cases o with
  | CarINIT => exact ⟨h.sensors_eq.symm, rfl⟩
  | setAdaptiveMode mode => exact ⟨rfl, rfl⟩
  | StartDiagonisticTool => exact ⟨rfl, rfl⟩
  | DisplayStatus =>
    show (Car.DisplayStatus x.1 x.2.2).2.Sensors = _ ∧ (Car.DisplayStatus x.1 x.2.2).2.Car_Diagnostic_ECU = _
    rw [DisplayStatus_eq h.info]
    exact ⟨rfl, rfl⟩
  | UpdateSensorsData => exact ⟨rfl, rfl⟩

theorem carStep_sameLinks {x : World × Engines × Car} (h : CarInv x.1 x.2.2)
    (hl : x.2.2.Linked x.1) (o : CarOp) : SameLinks x.1 (carStep x o).1 := by
  cases o with
  | CarINIT =>
    show SameLinks x.1 (Car.CarINIT x.1 x.2.2).1
    unfold Car.CarINIT
    exact ((((sameLinks_log _ _).comp (sameLinks_log _ _)).comp (sameLinks_log _ _)).comp
      (sameLinks_log _ _)).comp (sameLinks_log _ _)
  | setAdaptiveMode mode =>
    exact (setAdaptiveMode_loop { x.2.2 with Adaptive_MODE := mode } x.1 x.2.2.ECUs
      (log x.1 ("Setting adaptive mode to " ++ (if mode then "enabled" else "disabled")), x.2.1)
      (sameLinks_log _ _) (WF_log h.wf _)).1
  | StartDiagonisticTool =>
    obtain ⟨e, he, _, _⟩ := h.diag
    exact (subscribeAll_keep x.2.2.Car_Diagnostic_ECU x.2.2.Sensors x.1 x.2.2.Sensors
      (fun _ hx => hx) ⟨e, he⟩ hl.1 h.live hl.2 h.wf).1.comp
      (sameLinks_PerformFunction _ _ _ _)
  | DisplayStatus =>
    show SameLinks x.1 (Car.DisplayStatus x.1 x.2.2).1
    rw [DisplayStatus_eq h.info]
    exact ((((sameLinks_log _ _).comp (sameLinks_log _ _)).comp (sameLinks_log _ _)).comp
      (sameLinks_log _ _)).comp (sameLinks_log _ _)
  | UpdateSensorsData => exact sameLinks_UpdateSensorsData _ _ _

theorem Linked_carStep {x : World × Engines × Car} (h : CarInv x.1 x.2.2)
    (hl : x.2.2.Linked x.1) (o : CarOp) : (carStep x o).2.2.Linked (carStep x o).1 :=
  (hl.kept (carStep_sameLinks h hl o)).same_car (carStep_members h o).1
    (carStep_members h o).2

theorem carRun_linked {x : World × Engines × Car} (h : CarInv x.1 x.2.2)
    (hl : x.2.2.Linked x.1) (cs : List CarOp) :
    (carRun x cs).2.2.Linked (carRun x cs).1 ∧ SameLinks x.1 (carRun x cs).1 ∧
      (carRun x cs).2.2.Sensors = x.2.2.Sensors ∧
      (carRun x cs).2.2.Car_Diagnostic_ECU = x.2.2.Car_Diagnostic_ECU := by
  induction cs generalizing x with
  | nil => exact ⟨hl, SameLinks.same _, rfl, rfl⟩
  | cons o cs ih =>
    obtain ⟨r1, r2, r3, r4⟩ := ih (CarInv_carStep h o) (Linked_carStep h hl o)
    exact ⟨r1, (carStep_sameLinks h hl o).comp r2, r3.trans (carStep_members h o).1,
      r4.trans (carStep_members h o).2⟩

theorem carRun_linked_of_mem {x : World × Engines × Car} (h : CarInv x.1 x.2.2)
    (cs : List CarOp) (hm : CarOp.StartDiagonisticTool ∈ cs) :
    (carRun x cs).2.2.Linked (carRun x cs).1 := by
  induction cs generalizing x with
  | nil => simp at hm
  | cons o cs ih =>
    by_cases ho : o = .StartDiagonisticTool
    · subst ho
      have h2 : (carStep x .StartDiagonisticTool).2.2.Linked
          (carStep x .StartDiagonisticTool).1 := (CarInv_StartDiagonisticTool h x.2.1).2
      exact (carRun_linked (CarInv_carStep h .StartDiagonisticTool) h2 cs).1
    · rcases List.mem_cons.1 hm with h1 | h1
      · exact absurd h1.symm ho
      · exact ih (CarInv_carStep h o) h1

theorem CarInv.addr_nodup {w : World} {c : Car} (h : CarInv w c) :
    (c.Sensors.map SensorPtr.addr).Nodup := by
  have hd := h.distinct
  have hlive := h.live
  unfold DistinctSensors at hd
  refine (List.pairwise_map.2 (hd.imp_of_mem ?_))
  intro a b ha hb hab heq
  have h1 := hlive a ha
  have h2 := hlive b hb
  rw [heq, h2] at h1
  have : b = a := Option.some.inj h1
  subst this
  rw [sameSensor_self] at hab
  exact Bool.noConfusion hab

theorem sensorRead_sensors_ne {w : World} {S a : Nat} (v : Rat) (h : a ≠ S) :
    (sensorRead w S v).sensors a = w.sensors a := by
  rw [sensorRead_sensors]
  cases w.sensors S with
  | none => rfl
  | some s => simp [h]

theorem sensorRead_sensors_eq {w : World} {S : Nat} {s : Sensor} (v : Rat)
    (h : w.sensors S = some s) :
    (sensorRead w S v).sensors S = some { s with data := v } := by
  rw [sensorRead_sensors, h]
  simp

theorem CarInv.sensors {w : World} {c : Car} (h : CarInv w c) :
    ∃ s1 s2 s3 s4 : Sensor,
      w.sensors c.Car_Speed_Sensor.addr = some s1 ∧ s1.kind = .SPEED_SENSOR ∧
      w.sensors c.Car_Temperature_Sensor.addr = some s2 ∧ s2.kind = .TEMPERATURE_SENSOR ∧
      w.sensors c.Car_Radar_Sensor.addr = some s3 ∧ s3.kind = .RADAR_SENSOR ∧
      w.sensors c.Car_Battery_Level_Sensor.addr = some s4 ∧ s4.kind = .BATTERY_LEVEL_SENSOR ∧
      c.Car_Speed_Sensor.addr ≠ c.Car_Temperature_Sensor.addr ∧
      c.Car_Speed_Sensor.addr ≠ c.Car_Radar_Sensor.addr ∧
      c.Car_Speed_Sensor.addr ≠ c.Car_Battery_Level_Sensor.addr ∧
      c.Car_Temperature_Sensor.addr ≠ c.Car_Radar_Sensor.addr ∧
      c.Car_Temperature_Sensor.addr ≠ c.Car_Battery_Level_Sensor.addr ∧
      c.Car_Radar_Sensor.addr ≠ c.Car_Battery_Level_Sensor.addr := by
  have hn := h.addr_nodup
  have hl := h.live
  rw [h.sensors_eq] at hn hl
  simp only [List.map_cons, List.map_nil, List.nodup_cons, List.mem_cons, List.mem_singleton,
    List.not_mem_nil, not_or, or_false, not_false_eq_true, List.nodup_nil, and_true] at hn
  obtain ⟨s1, h1, k1, _⟩ := sensor_of_sharedPtr (hl c.Car_Speed_Sensor (by simp))
  obtain ⟨s2, h2, k2, _⟩ := sensor_of_sharedPtr (hl c.Car_Temperature_Sensor (by simp))
  obtain ⟨s3, h3, k3, _⟩ := sensor_of_sharedPtr (hl c.Car_Radar_Sensor (by simp))
  obtain ⟨s4, h4, k4, _⟩ := sensor_of_sharedPtr (hl c.Car_Battery_Level_Sensor (by simp))
  exact ⟨s1, s2, s3, s4, h1, k1.trans h.speed, h2, k2.trans h.temperature, h3,
    k3.trans h.radar, h4, k4.trans h.battery, hn.1.1, hn.1.2.1, hn.1.2.2, hn.2.1.1, hn.2.1.2,
    hn.2.2⟩

theorem UpdateSensorsData_spec {w : World} {c : Car} (h : CarInv w c) (r : Engines) :
    (∀ sp ∈ c.Sensors, (Car.UpdateSensorsData w r c).1.reading sp.addr
        = some ((r sp.kind).values (r sp.kind).drawn)) ∧
      (∀ k, (Car.UpdateSensorsData w r c).2.2.Car_info k = some ((r k).values (r k).drawn)) ∧
      (∀ k, (Car.UpdateSensorsData w r c).2.1 k = { r k with drawn := (r k).drawn + 1 }) := by
  obtain ⟨s1, s2, s3, s4, h1, k1, h2, k2, h3, k3, h4, k4, n12, n13, n14, n23, n24, n34⟩ :=
    h.sensors
  have g1 := GetSensorData_eq h1 r
  rw [k1] at g1
  have h2' := (sensorRead_sensors_ne (w := w) ((r .SPEED_SENSOR).values (r .SPEED_SENSOR).drawn)
    n12.symm).trans h2
  have g2 := GetSensorData_eq h2' (fun k => if k = .SPEED_SENSOR
    then { r .SPEED_SENSOR with drawn := (r .SPEED_SENSOR).drawn + 1 } else r k)
  rw [k2] at g2
  simp only [reduceCtorEq, if_false] at g2
  have h3' := (sensorRead_sensors_ne ((r .TEMPERATURE_SENSOR).values (r .TEMPERATURE_SENSOR).drawn)
    n23.symm).trans ((sensorRead_sensors_ne (w := w)
      ((r .SPEED_SENSOR).values (r .SPEED_SENSOR).drawn) n13.symm).trans h3)
  have g3 := GetSensorData_eq h3' (fun k => if k = .TEMPERATURE_SENSOR
    then { r .TEMPERATURE_SENSOR with drawn := (r .TEMPERATURE_SENSOR).drawn + 1 }
    else if k = .SPEED_SENSOR
    then { r .SPEED_SENSOR with drawn := (r .SPEED_SENSOR).drawn + 1 } else r k)
  rw [k3] at g3
  simp only [reduceCtorEq, if_false] at g3
  have h4' := (sensorRead_sensors_ne ((r .RADAR_SENSOR).values (r .RADAR_SENSOR).drawn)
    n34.symm).trans ((sensorRead_sensors_ne
      ((r .TEMPERATURE_SENSOR).values (r .TEMPERATURE_SENSOR).drawn)
    n24.symm).trans ((sensorRead_sensors_ne (w := w)
      ((r .SPEED_SENSOR).values (r .SPEED_SENSOR).drawn) n14.symm).trans h4))
  have g4 := GetSensorData_eq h4' (fun k => if k = .RADAR_SENSOR
    then { r .RADAR_SENSOR with drawn := (r .RADAR_SENSOR).drawn + 1 }
    else if k = .TEMPERATURE_SENSOR
    then { r .TEMPERATURE_SENSOR with drawn := (r .TEMPERATURE_SENSOR).drawn + 1 }
    else if k = .SPEED_SENSOR
    then { r .SPEED_SENSOR with drawn := (r .SPEED_SENSOR).drawn + 1 } else r k)
  rw [k4] at g4
  simp only [reduceCtorEq, if_false] at g4
  unfold Car.UpdateSensorsData
  simp only [g1, g2, g3, g4]
  refine ⟨?_, ?_, ?_⟩
  · intro sp hsp
    rw [h.sensors_eq] at hsp
    simp only [List.mem_cons, List.mem_singleton, List.not_mem_nil, or_false] at hsp
    unfold World.reading
    simp only [log_sensors]
    rcases hsp with e | e | e | e <;> subst e
    · rw [sensorRead_sensors_ne _ n14, sensorRead_sensors_ne _ n13, sensorRead_sensors_ne _ n12,
        sensorRead_sensors_eq _ h1, h.speed]; rfl
    · rw [sensorRead_sensors_ne _ n24, sensorRead_sensors_ne _ n23, sensorRead_sensors_eq _ h2',
        h.temperature]; rfl
    · rw [sensorRead_sensors_ne _ n34, sensorRead_sensors_eq _ h3', h.radar]; rfl
    · rw [sensorRead_sensors_eq _ h4', h.battery]; rfl
  · intro k
    cases k <;> simp [Car.assignInfo]
  · intro k
    cases k <;> simp

theorem readInfo_fst (c : Car) (k : SensorTypes) : (c.readInfo k).1 = c.info k := by
  unfold Car.readInfo Car.info
  cases c.Car_info k <;> rfl

theorem readInfo_info (c : Car) (k j : SensorTypes) : (c.readInfo k).2.info j = c.info j := by
  unfold Car.readInfo Car.info
  cases hk : c.Car_info k with
  | some v => rfl
  | none =>
    simp only [Car.assignInfo]
    by_cases hj : j = k
    · subst hj; simp [hk]
    · simp [hj]

theorem readInfo_members (c : Car) (k : SensorTypes) :
    (c.readInfo k).2.Adaptive_MODE = c.Adaptive_MODE ∧ (c.readInfo k).2.Sensors = c.Sensors ∧
      (c.readInfo k).2.ECUs = c.ECUs ∧ (c.readInfo k).2.model = c.model ∧
      (c.readInfo k).2.make = c.make := by
  unfold Car.readInfo
  cases c.Car_info k <;> exact ⟨rfl, rfl, rfl, rfl, rfl⟩

theorem DisplayStatus_world (w : World) (c : Car) :
    (Car.DisplayStatus w c).1 = logAll w
      [if c.info .SPEED_SENSOR > 50 then "Speed Exceeded please SLOW DOWN"
        else "Speed is within the allowed Range",
       if c.info .TEMPERATURE_SENSOR > 30 then "Car is overheating please stop"
        else "Temperature is within the allowed Range",
       if c.info .BATTERY_LEVEL_SENSOR < 20
        then "LOW BATTERY PLEASE GO TO THE NEAREST CHARGING STATION" else "Battery is Good",
       if c.info .RADAR_SENSOR < 5 then "Collision is predicted please Slow down"
        else "NO collision Threats",
       if c.Adaptive_MODE = true then "CRUISE CONTROL IS ON" else "CRUISE CONTROL IS OFF"] := by
  unfold Car.DisplayStatus
  simp only [readInfo_fst, readInfo_info, (readInfo_members _ _).1, MAX_SPEED, MAX_TEMPERATURE,
    LOW_BATTERY, SAFE_RADAR_DISTANCE]
  rfl

theorem DisplayStatus_car (w : World) (c : Car) :
    (∀ k, (Car.DisplayStatus w c).2.info k = c.info k) ∧
      (Car.DisplayStatus w c).2.Adaptive_MODE = c.Adaptive_MODE ∧
      (Car.DisplayStatus w c).2.Sensors = c.Sensors ∧ (Car.DisplayStatus w c).2.ECUs = c.ECUs := by
  unfold Car.DisplayStatus
  simp only [readInfo_info, readInfo_members, implies_true, and_self]

theorem PerformFunction_diag {w : World} {D : Nat} {e : ECU} (he : w.ecus D = some e)
    (hk : e.kind = .DIAGNOSTIC) (r : Engines) (c : Car) :
    PerformFunction w r D c =
      ((Car.UpdateSensorsData (DiagnosticECU.update
          ((log w "Diagnostics MODE is ON").setECU D (some { e with ON := true })) D) r c).1,
       (Car.UpdateSensorsData (DiagnosticECU.update
          ((log w "Diagnostics MODE is ON").setECU D (some { e with ON := true })) D) r c).2.1) := by
  unfold PerformFunction
  rw [he]
  simp only [hk]

theorem PerformFunction_diag_spec {w : World} {c : Car} (h : CarInv w c) (hl : c.Linked w)
    (r : Engines) :
    IsON (PerformFunction w r c.Car_Diagnostic_ECU c).1 c.Car_Diagnostic_ECU = some true ∧
      (∀ sp ∈ c.Sensors, (w.reading sp.addr).isSome = true ∧
        (PerformFunction w r c.Car_Diagnostic_ECU c).1.readTable c.Car_Diagnostic_ECU sp.kind
            sp.Sensor_ID = w.reading sp.addr) ∧
      (∀ sp ∈ c.Sensors, (PerformFunction w r c.Car_Diagnostic_ECU c).1.reading sp.addr
        = some ((r sp.kind).values (r sp.kind).drawn)) ∧
      ∀ k, (PerformFunction w r c.Car_Diagnostic_ECU c).2 k
        = { r k with drawn := (r k).drawn + 1 } := by
  obtain ⟨e, he, hk, hn⟩ := h.diag
  have hsub : e.Subscribed_Sensors = c.Sensors := by
    have := hl.1
    unfold World.subscribedSensors at this
    rw [he] at this
    exact Option.some.inj this
  rw [PerformFunction_diag he hk]
  have hs1 : SameLinks w ((log w "Diagnostics MODE is ON").setECU c.Car_Diagnostic_ECU
      (some { e with ON := true })) :=
    (sameLinks_log w _).comp (sameLinks_setON (w := log w "Diagnostics MODE is ON") he true)
  have hw1 : WF ((log w "Diagnostics MODE is ON").setECU c.Car_Diagnostic_ECU
      (some { e with ON := true })) :=
    WF_setON (WF_log h.wf _) (w := log w "Diagnostics MODE is ON") he true
  have hi1 := h.of_sameLinks hs1 hw1
  have ht := update_tablesOnly ((log w "Diagnostics MODE is ON").setECU c.Car_Diagnostic_ECU
      (some { e with ON := true })) c.Car_Diagnostic_ECU
  have hi2 := hi1.of_sameLinks (SameLinks.from_tablesOnly ht) (hw1.of_tablesOnly ht)
  obtain ⟨u1, _, u3⟩ := UpdateSensorsData_spec hi2 r
  have he1 : ((log w "Diagnostics MODE is ON").setECU c.Car_Diagnostic_ECU
      (some { e with ON := true })).ecus c.Car_Diagnostic_ECU = some { e with ON := true } := by
    simp [setECU_ecus]
  refine ⟨?_, ?_, u1, u3⟩
  · unfold IsON
    rw [UpdateSensorsData_ecus]
    have := ht.2.2 c.Car_Diagnostic_ECU
    rw [he1] at this
    cases h2 : (DiagnosticECU.update ((log w "Diagnostics MODE is ON").setECU c.Car_Diagnostic_ECU
      (some { e with ON := true })) c.Car_Diagnostic_ECU).ecus c.Car_Diagnostic_ECU with
    | none => rw [h2] at this; simp at this
    | some e2 =>
      rw [h2] at this
      simp only [Option.map_some', Option.some.injEq, ECU.skeleton, Prod.mk.injEq] at this
      simp [this.2.2.2.2.2]
  · intro sp hsp
    obtain ⟨s, hs, hsk, hsi⟩ := sensor_of_sharedPtr (h.live sp hsp)
    have hlist : s.Subscribed_ECUs = [c.Car_Diagnostic_ECU] := by
      have := hl.2 sp hsp
      unfold World.subscribedECUs at this
      rw [hs] at this
      exact Option.some.inj this
    have hr : w.reading sp.addr = some s.data := by
      unfold World.reading; rw [hs]; rfl
    refine ⟨by rw [hr]; rfl, ?_⟩
    rw [hr]
    have hrt : ∀ w' : World, (Car.UpdateSensorsData w' r c).1.readTable c.Car_Diagnostic_ECU
        sp.kind sp.Sensor_ID = w'.readTable c.Car_Diagnostic_ECU sp.kind sp.Sensor_ID :=
      fun w' => readTable_congr (by rw [UpdateSensorsData_ecus]) _ _
    rw [hrt]
    unfold DiagnosticECU.update
    rw [he1]
    simp only [hk, hsub]
    have := foldl_NotifyAllECUs_reaches c.Sensors _ hw1 hi1.live h.distinct sp hsp s
      (by simpa using hs) c.Car_Diagnostic_ECU (by rw [hlist]; simp) (by rw [he1]; rfl)
    rw [hsk, hsi] at this
    simp only [hk, hsub] at this
    exact this

theorem CarINIT_defaults (w : World) (c : Car) :
    (Car.CarINIT w c).2.Car_info = fun k =>
      match k with
      | .SPEED_SENSOR => some 0
      | .TEMPERATURE_SENSOR => some 25
      | .RADAR_SENSOR => some 0
      | .BATTERY_LEVEL_SENSOR => some 100 := by
  funext k
  cases k <;> simp [Car.CarINIT, Car.assignInfo]

theorem carStep_keeps_info {x : World × Engines × Car} (h : CarInv x.1 x.2.2) {o : CarOp}
    (ho : o ≠ .UpdateSensorsData) (ho' : o ≠ .CarINIT) :
    (carStep x o).2.2.Car_info = x.2.2.Car_info := by
  cases o with
  | CarINIT => exact absurd rfl ho'
  | setAdaptiveMode mode => rfl
  | StartDiagonisticTool => rfl
  | DisplayStatus =>
    show (Car.DisplayStatus x.1 x.2.2).2.Car_info = _
    rw [DisplayStatus_eq h.info]
  | UpdateSensorsData => exact absurd rfl ho

theorem carRun_defaults {x : World × Engines × Car} (h : CarInv x.1 x.2.2)
    (hd : x.2.2.Car_info = fun k =>
      match k with
      | .SPEED_SENSOR => some 0
      | .TEMPERATURE_SENSOR => some 25
      | .RADAR_SENSOR => some 0
      | .BATTERY_LEVEL_SENSOR => some 100)
    (cs : List CarOp) (hc : CarOp.UpdateSensorsData ∉ cs) :
    (carRun x cs).2.2.Car_info = fun k =>
      match k with
      | .SPEED_SENSOR => some 0
      | .TEMPERATURE_SENSOR => some 25
      | .RADAR_SENSOR => some 0
      | .BATTERY_LEVEL_SENSOR => some 100 := by
  induction cs generalizing x with
  | nil => exact hd
  | cons o cs ih =>
    have ho : o ≠ .UpdateSensorsData := fun e => hc (e ▸ List.mem_cons_self _ _)
    refine ih (CarInv_carStep h o) ?_ (fun hm => hc (List.mem_cons_of_mem _ hm))
    by_cases ho' : o = .CarINIT
    · subst ho'
      exact CarINIT_defaults x.1 x.2.2
    · rw [carStep_keeps_info h ho ho']
      exact hd

theorem StartDiagonisticTool_copy {w : World} {c : Car} (h : CarInv w c) (r : Engines) :
    ∃ w2 : World, (Car.StartDiagonisticTool w r c).1 = (Car.UpdateSensorsData w2 r c).1 ∧
      ∀ k, (Car.UpdateSensorsData w2 r c).2.2.Car_info k = some ((r k).values (r k).drawn) := by
  obtain ⟨h1, _⟩ := CarInv_subscribeAll h
  obtain ⟨e, he, hk, _⟩ := h1.diag
  have hs1 : SameLinks (c.subscribeAll w) ((log (c.subscribeAll w)
      "Diagnostics MODE is ON").setECU c.Car_Diagnostic_ECU (some { e with ON := true })) :=
    (sameLinks_log (c.subscribeAll w) _).comp
      (sameLinks_setON (w := log (c.subscribeAll w) "Diagnostics MODE is ON") he true)
  have hw1 : WF ((log (c.subscribeAll w) "Diagnostics MODE is ON").setECU c.Car_Diagnostic_ECU
      (some { e with ON := true })) :=
    WF_setON (WF_log h1.wf _) (w := log (c.subscribeAll w) "Diagnostics MODE is ON") he true
  have ht := update_tablesOnly ((log (c.subscribeAll w) "Diagnostics MODE is ON").setECU
    c.Car_Diagnostic_ECU (some { e with ON := true })) c.Car_Diagnostic_ECU
  refine ⟨DiagnosticECU.update ((log (c.subscribeAll w) "Diagnostics MODE is ON").setECU
    c.Car_Diagnostic_ECU (some { e with ON := true })) c.Car_Diagnostic_ECU, ?_, ?_⟩
  · show (PerformFunction (c.subscribeAll w) r c.Car_Diagnostic_ECU c).1 = _
    rw [PerformFunction_diag he hk]
  · exact (UpdateSensorsData_spec ((h1.of_sameLinks hs1 hw1).of_sameLinks
      (SameLinks.from_tablesOnly ht) (hw1.of_tablesOnly ht)) r).2.1

theorem carRun_append (x : World × Engines × Car) (a b : List CarOp) :
    carRun x (a ++ b) = carRun (carRun x a) b := by
  unfold carRun
  rw [List.foldl_append]

theorem carRun_CarINIT_succ (x : World × Engines × Car) (k : Nat) :
    carRun x (List.replicate (k + 1) .CarINIT) = carStep (carRun x (List.replicate k .CarINIT))
      .CarINIT := by
  rw [List.replicate_succ', carRun_append]
  rfl

theorem carRun_CarINIT_ECUs (ops : List Op) (model make : String) (r : Engines) (k : Nat) :
    (carRun (carStart ops model make r) (List.replicate k .CarINIT)).2.2.ECUs
      = (List.replicate (k + 1)
          [(carStart ops model make r).2.2.Car_Adaptive_Cruise_Control_ECU,
           (carStart ops model make r).2.2.Car_Diagnostic_ECU]).flatten ∧
    (carRun (carStart ops model make r) (List.replicate k .CarINIT)).2.2.Car_Adaptive_Cruise_Control_ECU
      = (carStart ops model make r).2.2.Car_Adaptive_Cruise_Control_ECU ∧
    (carRun (carStart ops model make r) (List.replicate k .CarINIT)).2.2.Car_Diagnostic_ECU
      = (carStart ops model make r).2.2.Car_Diagnostic_ECU := by
  induction k with
  | zero =>
    refine ⟨?_, rfl, rfl⟩
    simp [carRun, carStart, (Car_new_car _ _ _).2.2.2.2.2.2.2.2.2.2.2.1,
      (Car_new_car _ _ _).2.2.2.2.2.2.2.2.2.1, (Car_new_car _ _ _).2.2.2.2.2.2.2.2.2.2.1]
  | succ k ih =>
    rw [carRun_CarINIT_succ]
    obtain ⟨i1, i2, i3⟩ := ih
    refine ⟨?_, i2, i3⟩
    show (carRun (carStart ops model make r) (List.replicate k .CarINIT)).2.2.ECUs ++
      [(carRun (carStart ops model make r) (List.replicate k .CarINIT)).2.2.Car_Adaptive_Cruise_Control_ECU,
       (carRun (carStart ops model make r) (List.replicate k .CarINIT)).2.2.Car_Diagnostic_ECU] = _
    rw [i1, i2, i3, List.replicate_succ' (k + 1), List.flatten_append]
    simp

theorem PerformFunction_acc {w : World} {A : Nat} {e : ECU} (he : w.ecus A = some e)
    (hk : e.kind = .ADAPTIVE_CRUISE_CONTROL) (r : Engines) (c : Car) :
    PerformFunction w r A c =
      ((log w "Adaptive Cruise Control MODE is ON").setECU A (some { e with ON := true }), r) := by
  unfold PerformFunction
  rw [he]
  simp only [hk]

theorem adaptiveRound_spec {w : World} {A D : Nat} {eA eD : ECU} (hA : w.ecus A = some eA)
    (hkA : eA.kind = .ADAPTIVE_CRUISE_CONTROL) (hnA : eA.name = "Adaptive Cruise Control ECU")
    (hD : w.ecus D = some eD) (hnD : eD.name = "Diagnostic ECU") (r : Engines) (c : Car) :
    (adaptiveRound r A c w).ecus A = some { eA with ON := true } ∧
      (adaptiveRound r A c w).ecus D = some eD ∧
      (adaptiveRound r A c w).cout.length = w.cout.length + 2 ∧
      (PerformFunction w r A c).2 = r := by
  have hne : D ≠ A := by
    intro h
    rw [h, hA] at hD
    have := Option.some.inj hD
    rw [← this, hnA] at hnD
    exact absurd hnD (by decide)
  unfold adaptiveRound
  rw [PerformFunction_acc hA hkA]
  refine ⟨by simp [setECU_ecus], by simp [setECU_ecus, hne, hD], ?_, rfl⟩
  simp [log, World.setECU]

theorem setAdaptiveMode_rounds (r : Engines) (A D : Nat) (c : Car) :
    ∀ (n : Nat) (w : World) (eA eD : ECU), w.ecus A = some eA →
      eA.kind = .ADAPTIVE_CRUISE_CONTROL → eA.name = "Adaptive Cruise Control ECU" →
      w.ecus D = some eD → eD.name = "Diagnostic ECU" →
      (List.replicate n [A, D]).flatten.foldl (fun (acc : World × Engines) E =>
        match acc.1.ecus E with
        | some e =>
          if e.getName = "Adaptive Cruise Control ECU" then
            (log (PerformFunction acc.1 acc.2 E c).1
              "Performing function for Adaptive Cruise Control ECU",
             (PerformFunction acc.1 acc.2 E c).2)
          else acc
        | none => acc) (w, r) = ((adaptiveRound r A c)^[n] w, r) ∧
      ((adaptiveRound r A c)^[n] w).cout.length = w.cout.length + 2 * n
  | 0, _, _, _, _, _, _, _, _ => ⟨rfl, rfl⟩
  | n + 1, w, eA, eD, hA, hkA, hnA, hD, hnD => by
    obtain ⟨s1, s2, s3, s4⟩ := adaptiveRound_spec hA hkA hnA hD hnD r c
    obtain ⟨i1, i2⟩ := setAdaptiveMode_rounds r A D c n (adaptiveRound r A c w)
      { eA with ON := true } eD s1 hkA hnA s2 hnD
    rw [List.replicate_succ, List.flatten_cons, List.foldl_append, Function.iterate_succ_apply]
    refine ⟨?_, by rw [i2, s3]; omega⟩
    rw [← i1]
    congr 1
    simp only [List.foldl, hA, ECU.getName, hnA, if_true, s4]
    have : (log (PerformFunction w r A c).1
        "Performing function for Adaptive Cruise Control ECU") = adaptiveRound r A c w := rfl
    rw [this, s2]
    simp [hnD]

theorem CarInv.kind_at {w : World} {c : Car} (h : CarInv w c) (i : Nat) (sp : SensorPtr)
    (hsp : c.Sensors[i]? = some sp) : sp.kind.toIndex = i := by
  rw [h.sensors_eq] at hsp
  match i, hsp with
  | 0, hsp =>
    have h0 : c.Car_Speed_Sensor = sp := Option.some.inj hsp
    rw [← h0, h.speed]; rfl
  | 1, hsp =>
    have h0 : c.Car_Temperature_Sensor = sp := Option.some.inj hsp
    rw [← h0, h.temperature]; rfl
  | 2, hsp =>
    have h0 : c.Car_Radar_Sensor = sp := Option.some.inj hsp
    rw [← h0, h.radar]; rfl
  | 3, hsp =>
    have h0 : c.Car_Battery_Level_Sensor = sp := Option.some.inj hsp
    rw [← h0, h.battery]; rfl
  | n + 4, hsp => simp at hsp

/-- What `AttachECU` tests: in every state, for a live sensor and a live ECU `E`, `AttachECU(E)`
leaves `Subscribed_ECUs` as it is exactly when some entry of it can be locked to an ECU with the
same `getID()` as `E` (the name is not compared); in every other case it appends `E` at the end.
In both cases no ECU object is changed. -/
theorem AttachECU_compares_id (w : World) (S E : Nat) (s : Sensor) (eE : ECU)
    (hs : w.sensors S = some s) (he : w.ecus E = some eE) :
    ((∃ x ∈ s.Subscribed_ECUs, ∃ ex, w.ecus x = some ex ∧ ex.getID = eE.getID) →
      (AttachECU w S E).subscribedECUs S = some s.Subscribed_ECUs) ∧
    ((¬ ∃ x ∈ s.Subscribed_ECUs, ∃ ex, w.ecus x = some ex ∧ ex.getID = eE.getID) →
      (AttachECU w S E).subscribedECUs S = some (s.Subscribed_ECUs ++ [E])) ∧
    (AttachECU w S E).ecus = w.ecus :=
  ⟨AttachECU_subscribed_of_sameID hs he, AttachECU_subscribed_of_no_sameID hs he,
    AttachECU_ecus w S E⟩

/-! ### Letting go of a `shared_ptr` -/

@[simp] theorem releaseSensor_ecus (w : World) (p : Nat) (b : Bool) :
    (releaseSensor w p b).ecus = w.ecus := by
  unfold releaseSensor
  split <;> simp

@[simp] theorem releaseSensor_next (w : World) (p : Nat) (b : Bool) :
    (releaseSensor w p b).next = w.next := by
  unfold releaseSensor
  split <;> simp

@[simp] theorem releaseSensor_ECU_Count (w : World) (p : Nat) (b : Bool) :
    (releaseSensor w p b).ECU_Count = w.ECU_Count := by
  unfold releaseSensor
  split <;> simp

theorem releaseSensor_eq_step (w : World) (p : Nat) (b : Bool) :
    releaseSensor w p b = w ∨ releaseSensor w p b = step w (.destroySensor p) := by
  unfold releaseSensor
  split
  · exact Or.inl rfl
  · exact Or.inr rfl

theorem heldByECU_congr {w w' : World} (he : w'.ecus = w.ecus) (hn : w'.next = w.next)
    (p : Nat) : heldByECU w' p = heldByECU w p := by
  unfold heldByECU
  rw [he, hn]

theorem releaseAll_eq_run (own : Nat → Bool) :
    ∀ (l : List SensorPtr) (w : World),
      ∃ ps : List Nat, releaseAll own w l = run w (ps.map Op.destroySensor)
  | [], w => ⟨[], rfl⟩
  | x :: rest, w => by
    obtain ⟨ps, hps⟩ := releaseAll_eq_run own rest
      (releaseSensor w x.addr (own x.addr || rest.any fun y => y.addr == x.addr))
    rcases releaseSensor_eq_step w x.addr (own x.addr || rest.any fun y => y.addr == x.addr)
      with h | h
    · exact ⟨ps, by simp only [releaseAll]; rw [hps, h]⟩
    · exact ⟨x.addr :: ps, by simp only [releaseAll]; rw [hps, h]; rfl⟩

theorem releaseAll_ecus (own : Nat → Bool) :
    ∀ (l : List SensorPtr) (w : World), (releaseAll own w l).ecus = w.ecus ∧
      (releaseAll own w l).next = w.next ∧ (releaseAll own w l).ECU_Count = w.ECU_Count
  | [], _ => ⟨rfl, rfl, rfl⟩
  | x :: rest, w => by
    obtain ⟨h1, h2, h3⟩ := releaseAll_ecus own rest
      (releaseSensor w x.addr (own x.addr || rest.any fun y => y.addr == x.addr))
    simp only [releaseAll]
    exact ⟨by rw [h1, releaseSensor_ecus], by rw [h2, releaseSensor_next],
      by rw [h3, releaseSensor_ECU_Count]⟩

theorem releaseAll_of_owned (own : Nat → Bool) :
    ∀ (l : List SensorPtr) (w : World), (∀ x ∈ l, own x.addr = true) → releaseAll own w l = w
  | [], _, _ => rfl
  | x :: rest, w, h => by
    simp only [releaseAll, releaseSensor, h x (List.mem_cons_self _ _), Bool.true_or, if_true]
    exact releaseAll_of_owned own rest w (fun y hy => h y (List.mem_cons_of_mem _ hy))

theorem releaseAll_sensors (own : Nat → Bool) :
    ∀ (l : List SensorPtr) (w : World) (p : Nat), (releaseAll own w l).sensors p =
      if (l.any fun x => x.addr == p) = true ∧ own p = false ∧ heldByECU w p = false then none
      else w.sensors p
  | [], _, _ => by simp [releaseAll]
  | x :: rest, w, p => by
    simp only [releaseAll]
    rw [releaseAll_sensors own rest, heldByECU_congr (releaseSensor_ecus _ _ _)
      (releaseSensor_next _ _ _)]
    by_cases hp : x.addr = p
    · subst hp
      by_cases ho : own x.addr = true
      · simp [releaseSensor, ho]
      · have ho' : own x.addr = false := by simpa using ho
        by_cases hr : (rest.any fun y => y.addr == x.addr) = true
        · simp [releaseSensor, ho', hr]
        · have hr' : (rest.any fun y => y.addr == x.addr) = false := by simpa using hr
          simp only [releaseSensor, ho', hr', Bool.or_self, Bool.false_eq_true, if_false,
            false_and, destroySensor_sensors, true_and, List.any_cons, beq_self_eq_true,
            Bool.true_or]
    · have hx : (x.addr == p) = false := by simpa using hp
      have hs : (releaseSensor w x.addr
          (own x.addr || rest.any fun y => y.addr == x.addr)).sensors p = w.sensors p := by
        unfold releaseSensor
        split
        · rfl
        · rw [destroySensor_sensors, if_neg (fun h => hp h.1.symm)]
      rw [hs]
      simp [hx]

theorem NoTotalOverflow_destroySensors (w : World) (ps : List Nat) :
    NoTotalOverflow w (ps.map Op.destroySensor) = true := by
  induction ps generalizing w with
  | nil => rfl
  | cons p ps ih => exact ih (step w (.destroySensor p))

theorem NoECUOverflow_destroySensors (w : World) (ps : List Nat) :
    NoECUOverflow w (ps.map Op.destroySensor) = true := by
  induction ps generalizing w with
  | nil => rfl
  | cons p ps ih => exact ih (step w (.destroySensor p))

theorem destroyECUFull_eq_run (own : Nat → Bool) {w : World} {h : Nat} {e : ECU}
    (he : w.ecus h = some e) :
    ∃ ps : List Nat, destroyECUFull own w h = run w (.destroyECU h :: ps.map Op.destroySensor) := by
  obtain ⟨ps, hps⟩ := releaseAll_eq_run own e.Subscribed_Sensors (destroyECU w h)
  refine ⟨ps, ?_⟩
  unfold destroyECUFull
  rw [he]
  exact hps

theorem destroyECUFull_of_owned (own : Nat → Bool) {w : World} {h : Nat} {e : ECU}
    (he : w.ecus h = some e) (ho : ∀ x ∈ e.Subscribed_Sensors, own x.addr = true) :
    destroyECUFull own w h = destroyECU w h := by
  unfold destroyECUFull
  rw [he]
  exact releaseAll_of_owned own _ _ ho

theorem destroyECUFull_sensors (own : Nat → Bool) {w : World} {h : Nat} {e : ECU}
    (he : w.ecus h = some e) (p : Nat) :
    (destroyECUFull own w h).sensors p =
      if (e.Subscribed_Sensors.any fun x => x.addr == p) = true ∧ own p = false ∧
          heldByECU (destroyECU w h) p = false then none
      else w.sensors p := by
  unfold destroyECUFull
  rw [he]
  simp only [releaseAll_sensors, destroyECU_sensors]

theorem find_any_of_some {l : List SensorPtr} {s x : SensorPtr}
    (h : l.find? (sameSensor s) = some x) :
    l.any (sameSensor s) = true ∧ x ∈ l ∧ sameSensor s x = true :=
  ⟨List.any_eq_true.2 ⟨x, List.mem_of_find?_eq_some h, List.find?_some h⟩,
    List.mem_of_find?_eq_some h, List.find?_some h⟩

theorem find_any_of_none {l : List SensorPtr} {s : SensorPtr}
    (h : l.find? (sameSensor s) = none) : l.any (sameSensor s) = false := by
  rw [List.find?_eq_none] at h
  cases hany : l.any (sameSensor s) with
  | false => rfl
  | true =>
    obtain ⟨x, hx, hs⟩ := List.any_eq_true.1 hany
    exact absurd hs (h x hx)

/-- The call `DeattachSensor` is the step of a run whenever the sensor of the entry it erases is
the one the argument points to, or has another owner outside the ECUs. -/
theorem DeattachSensorFull_eq_of_kept (own : Nat → Bool) (w : World) (E : Nat) (s : SensorPtr)
    (hk : ∀ e x, w.ecus E = some e → e.Subscribed_Sensors.find? (sameSensor s) = some x →
      own x.addr = true ∨ x.addr = s.addr) :
    DeattachSensorFull own w E s = DeattachSensor w E s := by
  unfold DeattachSensorFull DeattachSensor
  cases he : w.ecus E with
  | none => rfl
  | some e =>
    cases hf : e.Subscribed_Sensors.find? (sameSensor s) with
    | none =>
      simp only [hf, find_any_of_none hf]
      rfl
    | some x =>
      have ho : (own x.addr || x.addr == s.addr) = true := by
        rcases hk e x he hf with h | h
        · simp [h]
        · simp [h]
      simp only [hf, (find_any_of_some hf).1, releaseSensor, ho, if_true]

theorem typeString_injective {a b : SensorTypes} (h : a.typeString = b.typeString) : a = b := by
  cases a <;> cases b <;> first | rfl | exact absurd h (by decide)

/-- With ids that are unique among the live sensors of a class, `DeattachSensor(S)` is the step of
a run whatever the owners are: the entry it erases points to `S` itself, so no sensor is
destroyed and no sensor object changes. -/
theorem DeattachSensorFull_of_unique_ids (ops : List Op) (own : Nat → Bool) (E S : Nat)
    (sp : SensorPtr) (hsp : (run World.init ops).sharedPtr S = some sp)
    (hu : ∀ a b sa sb, (run World.init ops).sensors a = some sa →
      (run World.init ops).sensors b = some sb → sa.kind = sb.kind →
      sa.Sensor_ID = sb.Sensor_ID → a = b) :
    DeattachSensorFull own (run World.init ops) E sp = step (run World.init ops) (.DeattachSensor E S) ∧
      (DeattachSensorFull own (run World.init ops) E sp).sensors = (run World.init ops).sensors := by
  have hp := PtrOK_reachable ops
  generalize run World.init ops = w at *
  have hstep : step w (.DeattachSensor E S) = DeattachSensor w E sp := by
    simp only [step, hsp]
  have hkept : DeattachSensorFull own w E sp = DeattachSensor w E sp := by
    refine DeattachSensorFull_eq_of_kept own w E sp (fun e x he hf => Or.inr ?_)
    obtain ⟨_, hx, hs⟩ := find_any_of_some hf
    obtain ⟨sx, h1, hk1, hi1⟩ := sensor_of_sharedPtr (hp E e he x hx)
    obtain ⟨ss, h2, hk2, hi2⟩ := sensor_of_sharedPtr hsp
    have ha := sharedPtr_addr hsp
    simp only [sameSensor, SensorPtr.getType, SensorPtr.getSensorID, Bool.and_eq_true,
      beq_iff_eq] at hs
    have hkind : sx.kind = ss.kind := by
      rw [hk1, hk2]
      exact typeString_injective hs.2
    have hid : sx.Sensor_ID = ss.Sensor_ID := by rw [hi1, hi2]; exact hs.1
    rw [ha]
    exact hu x.addr S sx ss h1 h2 hkind hid
  rw [hkept, hstep]
  exact ⟨rfl, DeattachSensor_sensors w E sp⟩

/-- Where the two halves of a subscription do not meet.  (1) In every state, `AttachSensor` of an
ECU `E` changes no sensor object (so no list `Subscribed_ECUs`); `AttachSensor` and
`DeattachSensor` change no other ECU object and of `E` nothing but `Subscribed_Sensors`;
`AttachECU` and `DeAttachECU` of a sensor `S` change no ECU object (so no list
`Subscribed_Sensors`), no other sensor object, and of `S` nothing but `Subscribed_ECUs`.
(2) In every state reached by a run, when a live `DiagnosticECU` `D` holds the sensor `S` in
`Subscribed_Sensors` while `Subscribed_ECUs` of `S` does not list `D` (only the half
`D.AttachSensor(S)` was done), `update()` of `D` leaves the entry of the table of `D` at the
category and id of `S` as it was: absent if it was absent.  (3) So it is after the call
`D.AttachSensor(S)` in a state reached by a run in which `D` holds no sensor with the type and id
of `S` and `S` does not list `D`. -/
theorem subscription_halves_frame :
    (∀ (w : World) (E S : Nat),
      ((step w (.AttachSensor E S)).sensors = w.sensors ∧
        (step w (.AttachECU S E)).ecus = w.ecus ∧
        (step w (.DeAttachECU S E)).ecus = w.ecus) ∧
      (∀ h, (h ≠ E → (step w (.AttachSensor E S)).ecus h = w.ecus h ∧
            (step w (.DeattachSensor E S)).ecus h = w.ecus h) ∧
          ((step w (.AttachSensor E S)).ecus h).map
              (fun e => (e.kind, e.ECU_ID, e.name, e.Recent_Sensory_Data, e.ON))
            = (w.ecus h).map (fun e => (e.kind, e.ECU_ID, e.name, e.Recent_Sensory_Data, e.ON)) ∧
          ((step w (.DeattachSensor E S)).ecus h).map
              (fun e => (e.kind, e.ECU_ID, e.name, e.Recent_Sensory_Data, e.ON))
            = (w.ecus h).map (fun e => (e.kind, e.ECU_ID, e.name, e.Recent_Sensory_Data, e.ON))) ∧
      ∀ a, (a ≠ S → (step w (.AttachECU S E)).sensors a = w.sensors a ∧
            (step w (.DeAttachECU S E)).sensors a = w.sensors a) ∧
          ((step w (.AttachECU S E)).sensors a).map (fun s => (s.kind, s.Sensor_ID, s.data))
            = (w.sensors a).map (fun s => (s.kind, s.Sensor_ID, s.data)) ∧
          ((step w (.DeAttachECU S E)).sensors a).map (fun s => (s.kind, s.Sensor_ID, s.data))
            = (w.sensors a).map (fun s => (s.kind, s.Sensor_ID, s.data))) ∧
    (∀ (ops : List Op) (D S : Nat) (eD : ECU) (s : Sensor) (sp : SensorPtr),
      (run World.init ops).ecus D = some eD → eD.kind = .DIAGNOSTIC →
      (run World.init ops).sensors S = some s → (run World.init ops).sharedPtr S = some sp →
      sp ∈ eD.Subscribed_Sensors → D ∉ s.Subscribed_ECUs →
        (DiagnosticECU.update (run World.init ops) D).readTable D s.kind s.Sensor_ID
          = (run World.init ops).readTable D s.kind s.Sensor_ID) ∧
    ∀ (ops : List Op) (D S : Nat) (eD : ECU) (s : Sensor) (sp : SensorPtr),
      (run World.init ops).ecus D = some eD → eD.kind = .DIAGNOSTIC →
      (run World.init ops).sensors S = some s → (run World.init ops).sharedPtr S = some sp →
      eD.Subscribed_Sensors.any (sameSensor sp) = false → D ∉ s.Subscribed_ECUs →
        (DiagnosticECU.update (step (run World.init ops) (.AttachSensor D S)) D).readTable D
          s.kind s.Sensor_ID = (run World.init ops).readTable D s.kind s.Sensor_ID := by
  have second : ∀ (ops : List Op) (D S : Nat) (eD : ECU) (s : Sensor) (sp : SensorPtr),
      (run World.init ops).ecus D = some eD → eD.kind = .DIAGNOSTIC →
      (run World.init ops).sensors S = some s → (run World.init ops).sharedPtr S = some sp →
      sp ∈ eD.Subscribed_Sensors → D ∉ s.Subscribed_ECUs →
        (DiagnosticECU.update (run World.init ops) D).readTable D s.kind s.Sensor_ID
          = (run World.init ops).readTable D s.kind s.Sensor_ID := by
    intro ops D S eD s sp hD hk hS hsp hin hnot
    have hw := WF_reachable ops
    have hp := PtrOK_reachable ops
    generalize run World.init ops = w at *
    simp only [DiagnosticECU.update, hD, hk]
    refine foldl_NotifyAllECUs_untouched D s.kind s.Sensor_ID _ w (fun sp' hsp' s' hs' => ?_)
    by_cases heq : sp' = sp
    · subst heq
      have ha := sharedPtr_addr hsp
      rw [ha] at hs'
      rw [hS] at hs'
      cases hs'
      exact Or.inr hnot
    · left
      have hdist := hw.distinctSensors D eD hD
      have hrel : sameSensor sp sp' = false :=
        List.Pairwise.forall (R := fun a b => sameSensor a b = false)
          (fun a b h => by
            show sameSensor b a = false
            rw [sameSensor_comm]
            exact h) hdist hin hsp' (fun h => heq h.symm)
      obtain ⟨s0, h0, hk0, hi0⟩ := sensor_of_sharedPtr hsp
      obtain ⟨s1, h1, hk1, hi1⟩ := sensor_of_sharedPtr (hp D eD hD sp' hsp')
      rw [hS] at h0
      rw [hs'] at h1
      cases h0
      cases h1
      rw [hk0, hi0, hk1, hi1]
      exact key_ne_of_sameSensor_false hrel
  refine ⟨?_, second, ?_⟩
  · intro w E S
    have hA : ∀ h, (h ≠ E → (step w (.AttachSensor E S)).ecus h = w.ecus h) ∧
        ((step w (.AttachSensor E S)).ecus h).map
            (fun e => (e.kind, e.ECU_ID, e.name, e.Recent_Sensory_Data, e.ON))
          = (w.ecus h).map (fun e => (e.kind, e.ECU_ID, e.name, e.Recent_Sensory_Data, e.ON)) := by
      intro h
      simp only [step]
      cases w.sharedPtr S with
      | none => exact ⟨fun _ => rfl, rfl⟩
      | some sp => exact AttachSensor_others w E sp h
    have hD : ∀ h, (h ≠ E → (step w (.DeattachSensor E S)).ecus h = w.ecus h) ∧
        ((step w (.DeattachSensor E S)).ecus h).map
            (fun e => (e.kind, e.ECU_ID, e.name, e.Recent_Sensory_Data, e.ON))
          = (w.ecus h).map (fun e => (e.kind, e.ECU_ID, e.name, e.Recent_Sensory_Data, e.ON)) := by
      intro h
      simp only [step]
      cases w.sharedPtr S with
      | none => exact ⟨fun _ => rfl, rfl⟩
      | some sp => exact DeattachSensor_others w E sp h
    refine ⟨⟨?_, AttachECU_ecus w S E, DeAttachECU_ecus w S E⟩,
      fun h => ⟨fun hne => ⟨(hA h).1 hne, (hD h).1 hne⟩, (hA h).2, (hD h).2⟩,
      fun a => ⟨fun hne => ⟨(AttachECU_others w S E a).1 hne, (DeAttachECU_others w S E a).1 hne⟩,
        (AttachECU_others w S E a).2, (DeAttachECU_others w S E a).2⟩⟩
    · simp only [step]
      cases w.sharedPtr S <;> simp
  · intro ops D S eD s sp hD hk hS hsp hany hnot
    have hrun : run World.init (ops ++ [.AttachSensor D S])
        = step (run World.init ops) (.AttachSensor D S) := by
      rw [run_append]
      rfl
    have hstep : step (run World.init ops) (.AttachSensor D S)
        = AttachSensor (run World.init ops) D sp := by
      simp only [step, hsp]
    have h := second (ops ++ [.AttachSensor D S]) D S
      { eD with Subscribed_Sensors := eD.Subscribed_Sensors ++ [sp] } s sp
      (by rw [hrun, hstep, AttachSensor_ecus, hD]; simp [hany]) hk
      (by rw [hrun, hstep, AttachSensor_sensors]; exact hS)
      (by rw [hrun, hstep]; simp only [World.sharedPtr, AttachSensor_sensors]; exact hsp)
      (by simp) hnot
    rw [hrun] at h
    rw [h, hstep, AttachSensor_readTable]

/-! ## The claims -/

/-- C1: in every state reached by a run of the program and for every live ECU `E` (of either class)
and every sensor pointer `s`, a second `AttachSensor(s)` right after a first leaves
`Subscribed_Sensors` as the first call left it, and that list holds exactly one entry with the
`(getType, getSensorID)` pair of `s`. -/
theorem C1_AttachSensor_twice_once (ops : List Op) (E : Nat) (s : SensorPtr)
    (hE : ((run World.init ops).ecus E).isSome = true) :
    ∃ l, (AttachSensor (run World.init ops) E s).subscribedSensors E = some l ∧
      (AttachSensor (AttachSensor (run World.init ops) E s) E s).subscribedSensors E = some l ∧
      l.countP (fun x => decide (sameKey x s)) = 1 := by
  obtain ⟨e, he⟩ := Option.isSome_iff_exists.1 hE
  obtain ⟨l, h1, h2, h3, h4⟩ := AttachSensor_twice s he
  exact ⟨l, h1, h2,
    countP_eq_one_of_distinct (h4 ((WF_reachable ops).distinctSensors E e he)) h3⟩

theorem C1_AttachSensor_twice_once_witness :
    ((run World.init [.newECU .DIAGNOSTIC, .newSensor .SPEED_SENSOR]).ecus 0).isSome = true ∧
    ∃ l, (AttachSensor (run World.init [.newECU .DIAGNOSTIC, .newSensor .SPEED_SENSOR]) 0
            ⟨1, .SPEED_SENSOR, 1⟩).subscribedSensors 0 = some l ∧
      (AttachSensor (AttachSensor (run World.init [.newECU .DIAGNOSTIC, .newSensor .SPEED_SENSOR])
            0 ⟨1, .SPEED_SENSOR, 1⟩) 0 ⟨1, .SPEED_SENSOR, 1⟩).subscribedSensors 0 = some l ∧
      l.countP (fun x => decide (sameKey x ⟨1, .SPEED_SENSOR, 1⟩)) = 1 :=
  ⟨rfl, C1_AttachSensor_twice_once [.newECU .DIAGNOSTIC, .newSensor .SPEED_SENSOR] 0
    ⟨1, .SPEED_SENSOR, 1⟩ rfl⟩

/-- C2 (the code departs from the claim): the ECUs at allocation numbers 1 and 2 are both alive
with `getID() = 2`; the speed sensor at 3 (id 1, reading 42) lists the former.  `AttachECU` of the
latter adds nothing, and after `NotifyAllECUs()` the table of the latter has no entry at
`[SPEED_SENSOR][1]`, while the reading of the sensor is still 42. -/
theorem C2_attach_then_notify_misses_reused_id :
    ((run World.init reusedECUIdRun).ecus 1).map ECU.getID = some 2 ∧
    ((run World.init reusedECUIdRun).ecus 2).map ECU.getID = some 2 ∧
    (run World.init reusedECUIdRun).sensors 3 = some ⟨.SPEED_SENSOR, 1, 42, [1]⟩ ∧
    (AttachECU (run World.init reusedECUIdRun) 3 2).subscribedECUs 3 = some [1] ∧
    (NotifyAllECUs (AttachECU (run World.init reusedECUIdRun) 3 2) 3).readTable 2
      .SPEED_SENSOR 1 = none ∧
    (NotifyAllECUs (AttachECU (run World.init reusedECUIdRun) 3 2) 3).reading 3 = some 42 := by
  decide

/-- C3: in every state reached by a run of the program, for a live sensor `S` and a live ECU `E`:
after both halves of a subscription and then both halves of its removal, the list
`Subscribed_Sensors` of `E` has no entry with the `(getType, getSensorID)` pair of `S`, and the list
`Subscribed_ECUs` of `S` has no entry for `E` (which is still alive). -/
theorem C3_subscribe_then_unsubscribe (ops : List Op) (E S : Nat)
    (hE : ((run World.init ops).ecus E).isSome = true)
    (hS : ((run World.init ops).sensors S).isSome = true) :
    ∃ sp l l', (run World.init ops).sharedPtr S = some sp ∧
      (Unsubscribe (Subscribe (run World.init ops) E S) E S).subscribedSensors E = some l ∧
      (∀ x ∈ l, ¬ sameKey x sp) ∧
      (Unsubscribe (Subscribe (run World.init ops) E S) E S).subscribedECUs S = some l' ∧
      E ∉ l' ∧
      ((Unsubscribe (Subscribe (run World.init ops) E S) E S).ecus E).isSome = true := by
  have hw0 := WF_reachable ops
  generalize run World.init ops = w0 at *
  obtain ⟨s0, hs0⟩ := Option.isSome_iff_exists.1 hS
  have hsp : w0.sharedPtr S = some ⟨S, s0.kind, s0.Sensor_ID⟩ := by
    simp [World.sharedPtr, hs0]
  generalize hspdef : (⟨S, s0.kind, s0.Sensor_ID⟩ : SensorPtr) = sp at hsp
  -- the four calls
  have e1 : step w0 (.AttachSensor E S) = AttachSensor w0 E sp := by simp [step, hsp]
  have hw1 : WF (AttachSensor w0 E sp) := e1 ▸ WF_step hw0 _
  have hw2 : WF (AttachECU (AttachSensor w0 E sp) S E) := WF_AttachECU hw1 S E
  have hsp2 : (AttachECU (AttachSensor w0 E sp) S E).sharedPtr S = some sp := by
    rw [AttachECU_sharedPtr, AttachSensor_sharedPtr]; exact hsp
  have hE2 : ((AttachECU (AttachSensor w0 E sp) S E).ecus E).isSome = true := by
    rw [AttachECU_ecus]; exact AttachSensor_live sp hE
  have hfinal : Unsubscribe (Subscribe w0 E S) E S =
      DeAttachECU (DeattachSensor (AttachECU (AttachSensor w0 E sp) S E) E sp) S E := by
    simp only [Unsubscribe, Subscribe, e1]
    simp [step, hsp2]
  rw [hfinal]
  generalize AttachECU (AttachSensor w0 E sp) S E = w2 at *
  have hw3 : WF (DeattachSensor w2 E sp) := WF_DeattachSensor hw2 E sp
  obtain ⟨e2, he2⟩ := Option.isSome_iff_exists.1 hE2
  have he3 : (DeattachSensor w2 E sp).ecus E =
      some { e2 with Subscribed_Sensors := e2.Subscribed_Sensors.eraseP (sameSensor sp) } := by
    rw [DeattachSensor_ecus, he2]; simp
  have hS3 : ∃ s3, (DeattachSensor w2 E sp).sensors S = some s3 := by
    have : (w2.sharedPtr S).isSome = true := by rw [hsp2]; rfl
    simp only [World.sharedPtr, Option.isSome_map'] at this
    simpa using Option.isSome_iff_exists.1 this
  obtain ⟨s3, hs3⟩ := hS3
  generalize DeattachSensor w2 E sp = w3 at *
  refine ⟨sp, e2.Subscribed_Sensors.eraseP (sameSensor sp),
    s3.Subscribed_ECUs.eraseP (sameIDName w3
      { e2 with Subscribed_Sensors := e2.Subscribed_Sensors.eraseP (sameSensor sp) }),
    hsp, ?_, ?_, ?_, ?_, ?_⟩
  · simp only [World.subscribedSensors, DeAttachECU_ecus, he3]; rfl
  · intro x hx hk
    have := not_mem_eraseP_of_distinct sp _ (hw2.distinctSensors E e2 he2) x hx
    rw [(sameSensor_iff sp x).2 hk] at this
    exact Bool.noConfusion this
  · simp only [World.subscribedECUs, DeAttachECU_sensors, hs3, he3]; simp
  · exact not_mem_eraseP_sameIDName he3 (hw3.nodup S s3 hs3) (hw3.distinctIDs S s3 hs3)
  · rw [DeAttachECU_ecus, he3]; rfl

theorem C3_subscribe_then_unsubscribe_witness :
    ((run World.init [.newECU .DIAGNOSTIC, .newSensor .SPEED_SENSOR]).ecus 0).isSome = true ∧
    ((run World.init [.newECU .DIAGNOSTIC, .newSensor .SPEED_SENSOR]).sensors 1).isSome = true ∧
    ∃ sp l l', (run World.init [.newECU .DIAGNOSTIC, .newSensor .SPEED_SENSOR]).sharedPtr 1
        = some sp ∧
      (Unsubscribe (Subscribe (run World.init [.newECU .DIAGNOSTIC, .newSensor .SPEED_SENSOR])
        0 1) 0 1).subscribedSensors 0 = some l ∧
      (∀ x ∈ l, ¬ sameKey x sp) ∧
      (Unsubscribe (Subscribe (run World.init [.newECU .DIAGNOSTIC, .newSensor .SPEED_SENSOR])
        0 1) 0 1).subscribedECUs 1 = some l' ∧
      0 ∉ l' ∧
      ((Unsubscribe (Subscribe (run World.init [.newECU .DIAGNOSTIC, .newSensor .SPEED_SENSOR])
        0 1) 0 1).ecus 0).isSome = true :=
  ⟨rfl, rfl,
    C3_subscribe_then_unsubscribe [.newECU .DIAGNOSTIC, .newSensor .SPEED_SENSOR] 0 1 rfl rfl⟩

/-- C4: detaching what is not a member changes no list.  (1) If the list `Subscribed_Sensors` of a
live ECU has no entry with the `(getType, getSensorID)` pair of `sp`, `DeattachSensor(sp)` leaves
it as it is.  (2) If the list `Subscribed_ECUs` of a live sensor has no entry that can be locked to
an ECU with the id and the name of `E`, `DeAttachECU(E)` leaves it as it is.  (3) In every state
reached by a run of the program, a second `DeattachSensor(sp)` right after a first, and a second
`DeAttachECU(E)` right after a first, leave the list as the first call left it; and so does a
second unsubscription (both halves) right after a first, on both lists. -/
theorem C4_detach_non_member :
    (∀ (w : World) (E : Nat) (sp : SensorPtr) (l : List SensorPtr),
      w.subscribedSensors E = some l → (∀ x ∈ l, ¬ sameKey x sp) →
      (DeattachSensor w E sp).subscribedSensors E = some l) ∧
    (∀ (w : World) (S E : Nat) (l : List Nat),
      w.subscribedECUs S = some l →
      (∀ x ∈ l, ∀ ex eE, w.ecus x = some ex → w.ecus E = some eE →
        ¬ (ex.getID = eE.getID ∧ ex.getName = eE.getName)) →
      (DeAttachECU w S E).subscribedECUs S = some l) ∧
    (∀ (ops : List Op) (E : Nat) (sp : SensorPtr),
      (DeattachSensor (DeattachSensor (run World.init ops) E sp) E sp).subscribedSensors E =
        (DeattachSensor (run World.init ops) E sp).subscribedSensors E) ∧
    (∀ (ops : List Op) (S E : Nat),
      (DeAttachECU (DeAttachECU (run World.init ops) S E) S E).subscribedECUs S =
        (DeAttachECU (run World.init ops) S E).subscribedECUs S) ∧
    (∀ (ops : List Op) (E S : Nat),
      (Unsubscribe (Unsubscribe (run World.init ops) E S) E S).subscribedSensors E
        = (Unsubscribe (run World.init ops) E S).subscribedSensors E ∧
      (Unsubscribe (Unsubscribe (run World.init ops) E S) E S).subscribedECUs S
        = (Unsubscribe (run World.init ops) E S).subscribedECUs S) := by
  refine ⟨?_, ?_, ?_, ?_, fun ops E S => Unsubscribe_twice (WF_reachable ops) E S⟩
  · intro w E sp l hl hno
    rw [DeattachSensor_subscribed, hl]
    simp only [Option.map_some', Option.some.injEq]
    exact List.eraseP_of_forall_not (fun x hx hs => hno x hx ((sameSensor_iff sp x).1 hs))
  · intro w S E l hl hno
    rw [DeAttachECU_subscribed]
    cases he : w.ecus E with
    | none => exact hl
    | some eE =>
      simp only [hl, Option.map_some', Option.some.injEq]
      refine List.eraseP_of_forall_not (fun x hx hs => ?_)
      cases hx' : w.ecus x with
      | none => simp [sameIDName, hx'] at hs
      | some ex =>
        simp only [sameIDName, hx', Bool.and_eq_true, beq_iff_eq] at hs
        exact hno x hx ex eE hx' he hs
  · intro ops E sp
    have hw := WF_reachable ops
    generalize run World.init ops = w at *
    rw [DeattachSensor_subscribed, DeattachSensor_subscribed]
    cases he : w.ecus E with
    | none => simp [World.subscribedSensors, he]
    | some e =>
      simp only [World.subscribedSensors, he, Option.map_some', Option.some.injEq]
      exact List.eraseP_of_forall_not (fun x hx hs => by
        have := not_mem_eraseP_of_distinct sp _ (hw.distinctSensors E e he) x hx
        rw [hs] at this
        exact Bool.noConfusion this)
  · intro ops S E
    have hw := WF_reachable ops
    generalize run World.init ops = w at *
    rw [DeAttachECU_subscribed, DeAttachECU_subscribed, DeAttachECU_ecus]
    cases he : w.ecus E with
    | none => rfl
    | some eE =>
      simp only
      cases hs : w.sensors S with
      | none => simp [World.subscribedECUs, hs]
      | some s =>
        simp only [World.subscribedECUs, hs, Option.map_some', Option.some.injEq]
        exact List.eraseP_of_forall_not (fun x hx hsx => by
          have := no_sameIDName_after_eraseP eE _ (hw.distinctIDs S s hs) x hx
          have hsame : sameIDName (DeAttachECU w S E) eE x = sameIDName w eE x := by
            simp [sameIDName]
          rw [hsame, this] at hsx
          exact Bool.noConfusion hsx)

theorem C4_detach_non_member_witness :
    (DeattachSensor (run World.init [.newECU .DIAGNOSTIC, .newSensor .SPEED_SENSOR,
        .newSensor .RADAR_SENSOR, .AttachSensor 0 1]) 0 ⟨2, .RADAR_SENSOR, 1⟩).subscribedSensors 0
      = some [⟨1, .SPEED_SENSOR, 1⟩] ∧
    (DeAttachECU (run World.init [.newECU .DIAGNOSTIC, .newECU .DIAGNOSTIC,
        .newSensor .SPEED_SENSOR, .AttachECU 2 0, .destroyECU 0]) 2 1).subscribedECUs 2
      = some [0] :=
  ⟨C4_detach_non_member.1 _ 0 ⟨2, .RADAR_SENSOR, 1⟩ [⟨1, .SPEED_SENSOR, 1⟩] (by decide)
      (by decide),
   C4_detach_non_member.2.1 (run World.init [.newECU .DIAGNOSTIC, .newECU .DIAGNOSTIC,
        .newSensor .SPEED_SENSOR, .AttachECU 2 0, .destroyECU 0]) 2 1 [0] (by decide)
      (by
        intro x hx ex eE h1
        have hx0 : x = 0 := by simpa using hx
        subst hx0
        have h0 : (run World.init [.newECU .DIAGNOSTIC, .newECU .DIAGNOSTIC,
            .newSensor .SPEED_SENSOR, .AttachECU 2 0, .destroyECU 0]).ecus 0 = none := rfl
        rw [h0] at h1
        exact Option.noConfusion h1)⟩

/-- C5: in every state reached by a run of the program (so with any mix of expired and live
entries, in any order, in `Subscribed_ECUs`), `NotifyAllECUs()` of a live sensor returns a state
in which every listed ECU that is alive has the sensor's reading at
`Recent_Sensory_Data[category][Sensor_ID]`; the reading itself is not changed, and the category
index is within the table of every live ECU. -/
theorem C5_notify_with_expired_entries (ops : List Op) (S : Nat) (s : Sensor)
    (hS : (run World.init ops).sensors S = some s) :
    (∀ E ∈ s.Subscribed_ECUs, ((run World.init ops).ecus E).isSome = true →
      (NotifyAllECUs (run World.init ops) S).readTable E s.kind s.Sensor_ID = some s.data) ∧
    (NotifyAllECUs (run World.init ops) S).reading S = some s.data ∧
    (∀ E e, (run World.init ops).ecus E = some e →
      s.kind.toIndex < e.Recent_Sensory_Data.length) := by
  have hw := WF_reachable ops
  generalize run World.init ops = w at *
  have hlen : ∀ E e, w.ecus E = some e → s.kind.toIndex < e.Recent_Sensory_Data.length := by
    intro E e he
    rw [hw.table_len E e he]
    exact toIndex_lt s.kind
  refine ⟨fun E hE hlive => ?_, ?_, hlen⟩
  · simp only [NotifyAllECUs, hS]
    exact foldl_updateECU_reaches _ w hS hE (hlen E) hlive
  · simp only [World.reading, (NotifyAllECUs_tablesOnly w S).1, hS]
    rfl

theorem C5_notify_with_expired_entries_witness :
    (run World.init [.newECU .DIAGNOSTIC, .newECU .ADAPTIVE_CRUISE_CONTROL, .newECU .DIAGNOSTIC,
        .newSensor .RADAR_SENSOR, .AttachECU 3 0, .AttachECU 3 1, .AttachECU 3 2,
        .destroyECU 0, .destroyECU 2, .sensorRead 3 7]).sensors 3
      = some ⟨.RADAR_SENSOR, 1, 7, [0, 1, 2]⟩ ∧
    (NotifyAllECUs (run World.init [.newECU .DIAGNOSTIC, .newECU .ADAPTIVE_CRUISE_CONTROL,
        .newECU .DIAGNOSTIC, .newSensor .RADAR_SENSOR, .AttachECU 3 0, .AttachECU 3 1,
        .AttachECU 3 2, .destroyECU 0, .destroyECU 2, .sensorRead 3 7]) 3).readTable 1
        .RADAR_SENSOR 1 = some 7 :=
  ⟨by decide,
   (C5_notify_with_expired_entries [.newECU .DIAGNOSTIC, .newECU .ADAPTIVE_CRUISE_CONTROL,
        .newECU .DIAGNOSTIC, .newSensor .RADAR_SENSOR, .AttachECU 3 0, .AttachECU 3 1,
        .AttachECU 3 2, .destroyECU 0, .destroyECU 2, .sensorRead 3 7] 3
        ⟨.RADAR_SENSOR, 1, 7, [0, 1, 2]⟩ (by decide)).1 1 (by decide) (by decide)⟩

/-- C6: in every state reached by a run of the program, no two entries of the list
`Subscribed_Sensors` of a live ECU have the same `(getType, getSensorID)` pair. -/
theorem C6_subscribed_sensors_distinct (ops : List Op) (E : Nat) (l : List SensorPtr)
    (hE : (run World.init ops).subscribedSensors E = some l) :
    l.Pairwise (fun a b => ¬ sameKey a b) := by
  simp only [World.subscribedSensors, Option.map_eq_some'] at hE
  obtain ⟨e, he, hl⟩ := hE
  subst hl
  refine List.Pairwise.imp ?_ ((WF_reachable ops).distinctSensors E e he)
  intro a b hab hk
  rw [(sameSensor_iff a b).2 ⟨hk.1.symm, hk.2.symm⟩] at hab
  exact Bool.noConfusion hab

theorem C6_subscribed_sensors_distinct_witness :
    (run World.init [.newECU .ADAPTIVE_CRUISE_CONTROL, .newSensor .SPEED_SENSOR,
        .newSensor .RADAR_SENSOR, .AttachSensor 0 1, .AttachSensor 0 2, .AttachSensor 0 1,
        .DeattachSensor 0 1, .AttachSensor 0 1]).subscribedSensors 0
      = some [⟨2, .RADAR_SENSOR, 1⟩, ⟨1, .SPEED_SENSOR, 1⟩] ∧
    List.Pairwise (fun a b => ¬ sameKey a b)
      [(⟨2, .RADAR_SENSOR, 1⟩ : SensorPtr), ⟨1, .SPEED_SENSOR, 1⟩] :=
  ⟨by decide, C6_subscribed_sensors_distinct
    [.newECU .ADAPTIVE_CRUISE_CONTROL, .newSensor .SPEED_SENSOR,
        .newSensor .RADAR_SENSOR, .AttachSensor 0 1, .AttachSensor 0 2, .AttachSensor 0 1,
        .DeattachSensor 0 1, .AttachSensor 0 1] 0 _ (by decide)⟩

/-- C7: in every state reached by a run of the program, the list `Subscribed_ECUs` of a live sensor
names no ECU twice, and no two of its entries can be locked to ECUs with the same id. -/
theorem C7_subscribed_ecus_distinct (ops : List Op) (S : Nat) (l : List Nat)
    (hS : (run World.init ops).subscribedECUs S = some l) :
    l.Nodup ∧
    l.Pairwise (fun a b => ∀ ea eb, (run World.init ops).ecus a = some ea →
      (run World.init ops).ecus b = some eb → ea.getID ≠ eb.getID) := by
  simp only [World.subscribedECUs, Option.map_eq_some'] at hS
  obtain ⟨s, hs, hl⟩ := hS
  subst hl
  exact ⟨(WF_reachable ops).nodup S s hs, (WF_reachable ops).distinctIDs S s hs⟩

theorem C7_subscribed_ecus_distinct_witness :
    (run World.init [.newECU .DIAGNOSTIC, .newECU .ADAPTIVE_CRUISE_CONTROL,
        .newSensor .SPEED_SENSOR, .AttachECU 2 0, .AttachECU 2 1, .AttachECU 2 0, .destroyECU 0,
        .newECU .DIAGNOSTIC, .AttachECU 2 3, .NotifyAllECUs 2]).subscribedECUs 2
      = some [0, 1] ∧
    ([0, 1] : List Nat).Nodup :=
  ⟨by decide,
   (C7_subscribed_ecus_distinct [.newECU .DIAGNOSTIC, .newECU .ADAPTIVE_CRUISE_CONTROL,
        .newSensor .SPEED_SENSOR, .AttachECU 2 0, .AttachECU 2 1, .AttachECU 2 0, .destroyECU 0,
        .newECU .DIAGNOSTIC, .AttachECU 2 3, .NotifyAllECUs 2] 2 [0, 1] (by decide)).1⟩

/-- C8 (the code departs from the claim): after two speed sensors are constructed, the first is
destroyed and a third is constructed, the second and the third are both alive and both have
`getSensorID() = 2`. -/
theorem C8_sensor_id_reused :
    ((run World.init reusedSensorIdRun).sensors 1).map Sensor.getSensorID = some 2 ∧
    ((run World.init reusedSensorIdRun).sensors 2).map Sensor.getSensorID = some 2 ∧
    ((run World.init reusedSensorIdRun).sensors 1).map Sensor.kind = some .SPEED_SENSOR ∧
    ((run World.init reusedSensorIdRun).sensors 2).map Sensor.kind = some .SPEED_SENSOR := by
  decide

/-- C9: from any state reached by a run of the program in which no sensor is alive, along any
further steps that destroy no sensor and overflow no class counter, the sensor constructed by the
step number `i`, of category `k`, has `getSensorID()` equal to the number of sensors of category
`k` constructed up to and including that step: the first of a category has id 1, the second id 2,
and so on, whatever is constructed in the other categories (or done to ECUs) in between. -/
theorem C9_sequential_ids (ops0 : List Op) (h0 : NoOverflow World.init ops0 = true)
    (hempty : ∀ k, liveSensors (run World.init ops0) k = 0)
    (ops : List Op) (hov : NoOverflow (run World.init ops0) ops = true)
    (hnd : ∀ op ∈ ops, op.isDestroySensor = false)
    (i : Nat) (k : SensorTypes) (hi : ops[i]? = some (.newSensor k)) :
    ((run (run World.init ops0) ops).sensors
        (run (run World.init ops0) (ops.take i)).next).map Sensor.getSensorID
      = some (((ops.take (i + 1)).count (.newSensor k) : Nat) : Int) := by
  have hc := CountsOK_run WF_init CountsOK_init ops0 h0
  have hzero : ∀ k, (run World.init ops0).getSensorCount k = 0 := by
    intro k
    rw [(hc k).1, hempty k]
    rfl
  exact ((construct_run_invariant _ hzero ops hov hnd).2 i k hi).2

theorem C9_sequential_ids_witness :
    NoOverflow World.init [.newSensor .SPEED_SENSOR, .newECU .DIAGNOSTIC, .destroySensor 0]
      = true ∧
    (∀ k, liveSensors
      (run World.init [.newSensor .SPEED_SENSOR, .newECU .DIAGNOSTIC, .destroySensor 0]) k = 0) ∧
    ((run (run World.init [.newSensor .SPEED_SENSOR, .newECU .DIAGNOSTIC, .destroySensor 0])
        [.newSensor .SPEED_SENSOR, .newSensor .RADAR_SENSOR, .AttachECU 2 1,
         .newSensor .SPEED_SENSOR, .sensorRead 2 5, .newECU .ADAPTIVE_CRUISE_CONTROL,
         .newSensor .SPEED_SENSOR]).sensors 6).map Sensor.getSensorID = some 3 :=
  ⟨by decide, fun k => by cases k <;> decide, by
    have h := C9_sequential_ids [.newSensor .SPEED_SENSOR, .newECU .DIAGNOSTIC, .destroySensor 0]
      (by decide) (fun k => by cases k <;> decide)
      [.newSensor .SPEED_SENSOR, .newSensor .RADAR_SENSOR, .AttachECU 2 1,
       .newSensor .SPEED_SENSOR, .sensorRead 2 5, .newECU .ADAPTIVE_CRUISE_CONTROL,
       .newSensor .SPEED_SENSOR]
      (by decide) (by decide) 6 .SPEED_SENSOR (by decide)
    exact h⟩

/-- C10: along every run of the program in which no `++` of a class counter overflows, each of
the four per-category counters (`getSensorCount`) equals the number of sensors of that category
that are alive, and so is never negative. -/
theorem C10_counters_equal_population (ops : List Op) (h : NoOverflow World.init ops = true)
    (k : SensorTypes) :
    (run World.init ops).getSensorCount k = (liveSensors (run World.init ops) k : Int) ∧
    0 ≤ (run World.init ops).getSensorCount k := by
  have := CountsOK_run WF_init CountsOK_init ops h k
  exact ⟨this.1, by rw [this.1]; exact Int.ofNat_nonneg _⟩

theorem C10_counters_equal_population_witness :
    NoOverflow World.init [.newSensor .SPEED_SENSOR, .newSensor .SPEED_SENSOR,
      .newSensor .SPEED_SENSOR, .newSensor .RADAR_SENSOR, .destroySensor 1] = true ∧
    (run World.init [.newSensor .SPEED_SENSOR, .newSensor .SPEED_SENSOR,
      .newSensor .SPEED_SENSOR, .newSensor .RADAR_SENSOR, .destroySensor 1]).getSensorCount
        .SPEED_SENSOR = 2 :=
  ⟨by decide, by
    have := (C10_counters_equal_population [.newSensor .SPEED_SENSOR, .newSensor .SPEED_SENSOR,
      .newSensor .SPEED_SENSOR, .newSensor .RADAR_SENSOR, .destroySensor 1] (by decide)
      .SPEED_SENSOR).1
    rw [this]
    decide⟩

/-- C11: along every run of the program in which `ECU_Count` never goes beyond the largest `int`,
`ECU::getECUCount()` equals the number of ECUs (of both classes together) that are alive, and so
is never negative. -/
theorem C11_ECU_count_equals_population (ops : List Op)
    (h : NoECUOverflow World.init ops = true) :
    getECUCount (run World.init ops) = (liveECUs (run World.init ops) : Int) ∧
    0 ≤ getECUCount (run World.init ops) := by
  have := ECUCountOK_run WF_init ECUCountOK_init ops h
  exact ⟨this.1, by rw [this.1]; exact Int.ofNat_nonneg _⟩

theorem C11_ECU_count_equals_population_witness :
    NoECUOverflow World.init [.newECU .DIAGNOSTIC, .newECU .ADAPTIVE_CRUISE_CONTROL,
      .newSensor .SPEED_SENSOR, .newECU .DIAGNOSTIC, .destroyECU 1] = true ∧
    getECUCount (run World.init [.newECU .DIAGNOSTIC, .newECU .ADAPTIVE_CRUISE_CONTROL,
      .newSensor .SPEED_SENSOR, .newECU .DIAGNOSTIC, .destroyECU 1]) = 2 ∧
    liveECUs (run World.init [.newECU .DIAGNOSTIC, .newECU .ADAPTIVE_CRUISE_CONTROL,
      .newSensor .SPEED_SENSOR, .newECU .DIAGNOSTIC, .destroyECU 1]) = 2 :=
  ⟨by decide, by
    have := (C11_ECU_count_equals_population [.newECU .DIAGNOSTIC,
      .newECU .ADAPTIVE_CRUISE_CONTROL, .newSensor .SPEED_SENSOR, .newECU .DIAGNOSTIC,
      .destroyECU 1] (by decide)).1
    rw [this]
    decide, by decide⟩

/-- C12: from the program start, after `n` sensors of one category are constructed (at most
`INT_MAX`) and any one of them, the one at allocation number `j`, is destroyed: the counter of the
category and the number of live sensors of the category are `n - 1`; the destroyed sensor is gone;
every other one has the `getSensorID()` it had when its constructor returned, namely its rank in
the order of construction; and the ids of the survivors are pairwise different. -/
theorem C12_destroy_one_of_n (k : SensorTypes) (n j : Nat) (hn : (n : Int) ≤ INT_MAX)
    (hj : j < n) :
    (run World.init (List.replicate n (.newSensor k) ++ [.destroySensor j])).getSensorCount k
      = (n : Int) - 1 ∧
    (liveSensors (run World.init (List.replicate n (.newSensor k) ++ [.destroySensor j])) k : Int)
      = (n : Int) - 1 ∧
    (run World.init (List.replicate n (.newSensor k) ++ [.destroySensor j])).sensors j = none ∧
    (∀ i, i < n → i ≠ j →
      ((run World.init (List.replicate n (.newSensor k) ++ [.destroySensor j])).sensors i).map
          Sensor.getSensorID
        = ((run World.init (List.replicate (i + 1) (.newSensor k))).sensors i).map
          Sensor.getSensorID ∧
      ((run World.init (List.replicate n (.newSensor k) ++ [.destroySensor j])).sensors i).map
          Sensor.getSensorID = some ((i : Int) + 1)) ∧
    (∀ i i', i < n → i' < n → i ≠ j → i' ≠ j → i ≠ i' →
      ((run World.init (List.replicate n (.newSensor k) ++ [.destroySensor j])).sensors i).map
          Sensor.getSensorID
        ≠ ((run World.init (List.replicate n (.newSensor k) ++ [.destroySensor j])).sensors i').map
          Sensor.getSensorID) := by
  obtain ⟨h1, h2, h3, h4, h5⟩ := replicate_newSensor_run k n hn
  have hov : NoOverflow World.init (List.replicate n (.newSensor k) ++ [.destroySensor j])
      = true := by
    rw [NoOverflow_append, h4]; rfl
  have hcount := CountsOK_run WF_init CountsOK_init _ hov k
  have hrun : run World.init (List.replicate n (.newSensor k) ++ [.destroySensor j]) =
      destroySensor (run World.init (List.replicate n (.newSensor k))) j := by
    rw [run_append]; rfl
  rw [hrun] at hcount ⊢
  have hheld := heldByECU_of_no_ECU h3 j
  have hsj := h5 j hj
  have hwrap : wrapInt ((n : Int) - 1) = (n : Int) - 1 := by
    apply wrapInt_of_range
    · omega
    · unfold INT_MAX at hn; omega
  have hcnt : (destroySensor (run World.init (List.replicate n (.newSensor k))) j).getSensorCount k
      = (n : Int) - 1 := by
    rw [destroySensor_getSensorCount hsj hheld, if_pos rfl]
    simp only [h2, hwrap]
  have hid : ∀ i, i < n → i ≠ j →
      ((destroySensor (run World.init (List.replicate n (.newSensor k))) j).sensors i).map
        Sensor.getSensorID = some ((i : Int) + 1) := by
    intro i hi hij
    rw [destroySensor_sensors, if_neg (fun h => hij h.1), h5 i hi]
    rfl
  refine ⟨hcnt, ?_, ?_, ?_, ?_⟩
  · rw [← hcount.1, hcnt]
  · rw [destroySensor_sensors, if_pos ⟨rfl, hheld⟩]
  · intro i hi hij
    refine ⟨?_, hid i hi hij⟩
    rw [hid i hi hij]
    have hi1 : ((i + 1 : Nat) : Int) ≤ INT_MAX := by
      have : ((i + 1 : Nat) : Int) ≤ (n : Int) := by exact_mod_cast hi
      omega
    rw [(replicate_newSensor_run k (i + 1) hi1).2.2.2.2 i (Nat.lt_succ_self i)]
    rfl
  · intro i i' hi hi' hij hij' hne
    rw [hid i hi hij, hid i' hi' hij']
    intro h
    simp only [Option.some.injEq] at h
    omega

theorem C12_destroy_one_of_n_witness :
    ((3 : Nat) : Int) ≤ INT_MAX ∧ 1 < 3 ∧
    (run World.init (List.replicate 3 (.newSensor .SPEED_SENSOR)
      ++ [.destroySensor 1])).getSensorCount .SPEED_SENSOR = 2 :=
  ⟨by decide, by decide,
    (C12_destroy_one_of_n .SPEED_SENSOR 3 1 (by decide) (by decide)).1⟩

/-- C13 (the code departs from the claim): after the ECUs `A` and `B` are constructed, `A` is
destroyed and `C` is constructed, `C` gets the id 2, which is not greater than the id 2 given to
`B` before, and `B` and `C` are alive at the same time with the same `getID()`. -/
theorem C13_ECU_id_reused :
    ((run World.init [.newECU .ADAPTIVE_CRUISE_CONTROL, .newECU .DIAGNOSTIC]).ecus 1).map
      ECU.getID = some 2 ∧
    ((run World.init [.newECU .ADAPTIVE_CRUISE_CONTROL, .newECU .DIAGNOSTIC, .destroyECU 0,
      .newECU .ADAPTIVE_CRUISE_CONTROL]).ecus 1).map ECU.getID = some 2 ∧
    ((run World.init [.newECU .ADAPTIVE_CRUISE_CONTROL, .newECU .DIAGNOSTIC, .destroyECU 0,
      .newECU .ADAPTIVE_CRUISE_CONTROL]).ecus 2).map ECU.getID = some 2 := by
  decide

/-- C14 (the code departs from the claim): the ECUs at the allocation numbers 1 and 2 are alive
with the same `getID()`, 2, and different names; the only entry of `Subscribed_ECUs` of the speed
sensor at 3 is the former.  No live entry has both the id and the name of the ECU at 2, and yet
`AttachECU` of it appends nothing. -/
theorem C14_name_is_not_compared :
    ((run World.init reusedECUIdOtherNameRun).ecus 1).map (fun e => (e.getID, e.getName))
      = some (2, "Diagnostic ECU") ∧
    ((run World.init reusedECUIdOtherNameRun).ecus 2).map (fun e => (e.getID, e.getName))
      = some (2, "Adaptive Cruise Control ECU") ∧
    (run World.init reusedECUIdOtherNameRun).subscribedECUs 3 = some [1] ∧
    (AttachECU (run World.init reusedECUIdOtherNameRun) 3 2).subscribedECUs 3 = some [1] := by
  decide

/-- C15: in every state reached by a run of the program, for a live sensor `S` of category `c`
with id `k` and a live ECU `E`, `S.updateECU(E)` makes `E.Recent_Sensory_Data[c][k]` the stored
reading of `S`; every other entry of the table of `E` (other ids of partition `c`, all entries of
the other partitions) and every entry of the tables of the other ECUs is as before; no sensor
object is changed (so neither the reading nor `Subscribed_ECUs` of `S`), and no list
`Subscribed_Sensors`. -/
theorem C15_updateECU_frame (ops : List Op) (S E : Nat) (s : Sensor)
    (hS : (run World.init ops).sensors S = some s)
    (hE : ((run World.init ops).ecus E).isSome = true) :
    (updateECU (run World.init ops) S E).readTable E s.kind s.Sensor_ID = some s.data ∧
    (∀ c k, (c ≠ s.kind ∨ k ≠ s.Sensor_ID) →
      (updateECU (run World.init ops) S E).readTable E c k
        = (run World.init ops).readTable E c k) ∧
    (∀ E' c k, E' ≠ E →
      (updateECU (run World.init ops) S E).readTable E' c k
        = (run World.init ops).readTable E' c k) ∧
    (updateECU (run World.init ops) S E).sensors = (run World.init ops).sensors ∧
    (∀ h, (updateECU (run World.init ops) S E).subscribedSensors h
        = (run World.init ops).subscribedSensors h) := by
  have hw := WF_reachable ops
  generalize run World.init ops = w at *
  obtain ⟨e, he⟩ := Option.isSome_iff_exists.1 hE
  refine ⟨?_, ?_, ?_, updateECU_sensors w S E, updateECU_subscribedSensors w S E⟩
  · refine updateECU_readTable_self hS he ?_
    rw [hw.table_len E e he]
    exact toIndex_lt s.kind
  · intro c k hck
    exact updateECU_readTable_other hS E c k (Or.inr hck)
  · intro E' c k hne
    exact updateECU_readTable_other hS E' c k (Or.inl hne)

theorem C15_updateECU_frame_witness :
    (run World.init [.newECU .DIAGNOSTIC, .newSensor .RADAR_SENSOR, .newSensor .RADAR_SENSOR,
      .sensorRead 1 5, .sensorRead 2 9, .updateECU 1 0]).sensors 2
        = some ⟨.RADAR_SENSOR, 2, 9, []⟩ ∧
    ((run World.init [.newECU .DIAGNOSTIC, .newSensor .RADAR_SENSOR, .newSensor .RADAR_SENSOR,
      .sensorRead 1 5, .sensorRead 2 9, .updateECU 1 0]).ecus 0).isSome = true ∧
    (updateECU (run World.init [.newECU .DIAGNOSTIC, .newSensor .RADAR_SENSOR,
      .newSensor .RADAR_SENSOR, .sensorRead 1 5, .sensorRead 2 9, .updateECU 1 0]) 2 0).readTable
        0 .RADAR_SENSOR 2 = some 9 :=
  ⟨by decide, by decide,
    (C15_updateECU_frame [.newECU .DIAGNOSTIC, .newSensor .RADAR_SENSOR,
      .newSensor .RADAR_SENSOR, .sensorRead 1 5, .sensorRead 2 9, .updateECU 1 0] 2 0
      ⟨.RADAR_SENSOR, 2, 9, []⟩ (by decide) (by decide)).1⟩

/-- C16: in every state, for a live sensor and a reference `W` that is expired, each of
`AttachECU(W)`, `DeAttachECU(W)` and `updateECU(W)` returns the state that one call of
`Logger::log` returns: the console has one more line, and no sensor object (so no list
`Subscribed_ECUs`, no reading) and no ECU object (so no table) is changed. -/
theorem C16_expired_reference_only_logs (w : World) (S W : Nat) (s : Sensor)
    (hS : w.sensors S = some s) (hW : w.ecus W = none) :
    ((∃ m, AttachECU w S W = log w m) ∧ (∃ m, DeAttachECU w S W = log w m) ∧
      (∃ m, updateECU w S W = log w m)) ∧
    ((AttachECU w S W).sensors = w.sensors ∧ (AttachECU w S W).ecus = w.ecus ∧
      (AttachECU w S W).cout.length = w.cout.length + 1) ∧
    ((DeAttachECU w S W).sensors = w.sensors ∧ (DeAttachECU w S W).ecus = w.ecus ∧
      (DeAttachECU w S W).cout.length = w.cout.length + 1) ∧
    ((updateECU w S W).sensors = w.sensors ∧ (updateECU w S W).ecus = w.ecus ∧
      (updateECU w S W).cout.length = w.cout.length + 1) := by
  rw [AttachECU_expired hS hW, DeAttachECU_expired hS hW, updateECU_expired hS hW]
  exact ⟨⟨⟨_, rfl⟩, ⟨_, rfl⟩, ⟨_, rfl⟩⟩, ⟨rfl, rfl, log_cout_length _ _⟩,
    ⟨rfl, rfl, log_cout_length _ _⟩, ⟨rfl, rfl, log_cout_length _ _⟩⟩

theorem C16_expired_reference_only_logs_witness :
    (run World.init [.newECU .DIAGNOSTIC, .newSensor .RADAR_SENSOR, .AttachECU 1 0,
      .destroyECU 0]).sensors 1 = some ⟨.RADAR_SENSOR, 1, 0, [0]⟩ ∧
    (DeAttachECU (run World.init [.newECU .DIAGNOSTIC, .newSensor .RADAR_SENSOR, .AttachECU 1 0,
      .destroyECU 0]) 1 0).sensors
      = (run World.init [.newECU .DIAGNOSTIC, .newSensor .RADAR_SENSOR, .AttachECU 1 0,
      .destroyECU 0]).sensors :=
  ⟨by decide,
    (C16_expired_reference_only_logs (run World.init [.newECU .DIAGNOSTIC,
      .newSensor .RADAR_SENSOR, .AttachECU 1 0, .destroyECU 0]) 1 0 ⟨.RADAR_SENSOR, 1, 0, [0]⟩
      (by decide) rfl).2.2.1.1⟩

/-- C17: in every state, `NotifyAllECUs()` of a live sensor changes no sensor object: its list
`Subscribed_ECUs` has the same entries in the same order (the expired ones included) and the
reading is the same; and it logs exactly one message for each entry of the list, so no entry is
handled twice. -/
theorem C17_notify_keeps_subscribers (w : World) (S : Nat) (s : Sensor)
    (hS : w.sensors S = some s) :
    (NotifyAllECUs w S).sensors = w.sensors ∧
    (NotifyAllECUs w S).subscribedECUs S = some s.Subscribed_ECUs ∧
    (NotifyAllECUs w S).cout.length = w.cout.length + s.Subscribed_ECUs.length := by
  have h1 := (NotifyAllECUs_tablesOnly w S).1
  refine ⟨h1, by simp [World.subscribedECUs, h1, hS], ?_⟩
  simp only [NotifyAllECUs, hS]
  exact foldl_updateECU_cout_length _ w hS

theorem C17_notify_keeps_subscribers_witness :
    (run World.init [.newECU .DIAGNOSTIC, .newECU .DIAGNOSTIC, .newSensor .RADAR_SENSOR,
      .AttachECU 2 0, .AttachECU 2 1, .destroyECU 0]).sensors 2
        = some ⟨.RADAR_SENSOR, 1, 0, [0, 1]⟩ ∧
    (NotifyAllECUs (run World.init [.newECU .DIAGNOSTIC, .newECU .DIAGNOSTIC,
      .newSensor .RADAR_SENSOR, .AttachECU 2 0, .AttachECU 2 1, .destroyECU 0]) 2).subscribedECUs 2
        = some [0, 1] :=
  ⟨by decide,
    (C17_notify_keeps_subscribers (run World.init [.newECU .DIAGNOSTIC, .newECU .DIAGNOSTIC,
      .newSensor .RADAR_SENSOR, .AttachECU 2 0, .AttachECU 2 1, .destroyECU 0]) 2
      ⟨.RADAR_SENSOR, 1, 0, [0, 1]⟩ (by decide)).2.1⟩

/-- C18: in every state, for a live sensor with the list `l` as `Subscribed_ECUs` (expired
entries at any places) and a live ECU `E`: either `l` is `l₁ ++ x :: l₂` where `x` can be locked
to an ECU with the id and the name of `E` and no entry of `l₁` can, and `DeAttachECU(E)` leaves
`l₁ ++ l₂` (the first such entry is removed, the others, expired or not, stay in their order); or
no entry of `l` can be locked to such an ECU and `DeAttachECU(E)` leaves `l`.  No ECU object is
changed. -/
theorem C18_DeAttachECU_removes_first_live_match (w : World) (S E : Nat) (s : Sensor) (eE : ECU)
    (hS : w.sensors S = some s) (hE : w.ecus E = some eE) :
    ((∃ l₁ x l₂, s.Subscribed_ECUs = l₁ ++ x :: l₂ ∧ MatchesLive w eE x ∧
        (∀ y ∈ l₁, ¬ MatchesLive w eE y) ∧
        (DeAttachECU w S E).subscribedECUs S = some (l₁ ++ l₂)) ∨
      ((∀ y ∈ s.Subscribed_ECUs, ¬ MatchesLive w eE y) ∧
        (DeAttachECU w S E).subscribedECUs S = some s.Subscribed_ECUs)) ∧
    (DeAttachECU w S E).ecus = w.ecus := by
  refine ⟨?_, DeAttachECU_ecus w S E⟩
  have hsub : (DeAttachECU w S E).subscribedECUs S
      = some (s.Subscribed_ECUs.eraseP (sameIDName w eE)) := by
    rw [DeAttachECU_subscribed, hE]
    simp [World.subscribedECUs, hS]
  by_cases hany : ∃ x ∈ s.Subscribed_ECUs, sameIDName w eE x = true
  · left
    obtain ⟨x, hx, hpx⟩ := hany
    obtain ⟨a, l₁, l₂, h1, h2, h3, h4⟩ := List.exists_of_eraseP hx hpx
    refine ⟨l₁, a, l₂, h3, (sameIDName_iff w eE a).1 h2, ?_, ?_⟩
    · intro y hy hm
      exact h1 y hy ((sameIDName_iff w eE y).2 hm)
    · rw [hsub, h4]
  · right
    have hno : ∀ y ∈ s.Subscribed_ECUs, ¬ sameIDName w eE y = true :=
      fun y hy hp => hany ⟨y, hy, hp⟩
    refine ⟨fun y hy hm => hno y hy ((sameIDName_iff w eE y).2 hm), ?_⟩
    rw [hsub, List.eraseP_of_forall_not hno]

theorem C18_DeAttachECU_removes_first_live_match_witness :
    (run World.init [.newECU .DIAGNOSTIC, .newECU .DIAGNOSTIC, .newECU .DIAGNOSTIC,
      .newSensor .SPEED_SENSOR, .AttachECU 3 0, .AttachECU 3 1, .AttachECU 3 2,
      .destroyECU 0]).sensors 3 = some ⟨.SPEED_SENSOR, 1, 0, [0, 1, 2]⟩ ∧
    (DeAttachECU (run World.init [.newECU .DIAGNOSTIC, .newECU .DIAGNOSTIC, .newECU .DIAGNOSTIC,
      .newSensor .SPEED_SENSOR, .AttachECU 3 0, .AttachECU 3 1, .AttachECU 3 2,
      .destroyECU 0]) 3 1).ecus
      = (run World.init [.newECU .DIAGNOSTIC, .newECU .DIAGNOSTIC, .newECU .DIAGNOSTIC,
      .newSensor .SPEED_SENSOR, .AttachECU 3 0, .AttachECU 3 1, .AttachECU 3 2,
      .destroyECU 0]).ecus :=
  ⟨by decide,
    (C18_DeAttachECU_removes_first_live_match (run World.init [.newECU .DIAGNOSTIC,
      .newECU .DIAGNOSTIC, .newECU .DIAGNOSTIC, .newSensor .SPEED_SENSOR, .AttachECU 3 0,
      .AttachECU 3 1, .AttachECU 3 2, .destroyECU 0]) 3 1 ⟨.SPEED_SENSOR, 1, 0, [0, 1, 2]⟩
      ⟨.DIAGNOSTIC, 2, "Diagnostic ECU", List.replicate Sensor_Types_Count (fun _ => none), [],
        false⟩ (by decide) rfl).2⟩

/-- C19: in every state reached by a run of the program, for a live `DiagnosticECU` `D`:
`update()` changes no sensor object, and afterwards, for every entry of `Subscribed_Sensors` of
`D`, which points to a live sensor `S`, and every ECU `E` that is listed in `Subscribed_ECUs` of
`S` and alive (`D` itself or any other), `E.Recent_Sensory_Data[category(S)][S.getSensorID()]` is
the stored reading of `S`. -/
theorem C19_update_broadcasts (ops : List Op) (D : Nat) (eD : ECU)
    (hD : (run World.init ops).ecus D = some eD) (hk : eD.kind = .DIAGNOSTIC) :
    (DiagnosticECU.update (run World.init ops) D).sensors = (run World.init ops).sensors ∧
    ∀ sp ∈ eD.Subscribed_Sensors, ∃ s, (run World.init ops).sensors sp.addr = some s ∧
      s.kind = sp.kind ∧ s.Sensor_ID = sp.Sensor_ID ∧
      ∀ E ∈ s.Subscribed_ECUs, ((run World.init ops).ecus E).isSome = true →
        (DiagnosticECU.update (run World.init ops) D).readTable E s.kind s.Sensor_ID
          = some s.data := by
  have hw := WF_reachable ops
  have hp := PtrOK_reachable ops
  generalize run World.init ops = w at *
  refine ⟨(update_tablesOnly w D).1, fun sp hsp => ?_⟩
  obtain ⟨s, hs, hk1, hk2⟩ := sensor_of_sharedPtr (hp D eD hD sp hsp)
  refine ⟨s, hs, hk1, hk2, fun E hE hlive => ?_⟩
  simp only [DiagnosticECU.update, hD, hk]
  exact foldl_NotifyAllECUs_reaches eD.Subscribed_Sensors w hw (hp D eD hD)
    (hw.distinctSensors D eD hD) sp hsp s hs E hE hlive

theorem C19_update_broadcasts_witness :
    ((run World.init twoSensorsRun).ecus 0).map (fun e => (e.kind, e.Subscribed_Sensors))
      = some (.DIAGNOSTIC, [⟨2, .SPEED_SENSOR, 1⟩, ⟨3, .RADAR_SENSOR, 1⟩]) ∧
    (DiagnosticECU.update (run World.init twoSensorsRun) 0).sensors
      = (run World.init twoSensorsRun).sensors :=
  ⟨by decide,
    (C19_update_broadcasts twoSensorsRun 0
      ⟨.DIAGNOSTIC, 1, "Diagnostic ECU", List.replicate Sensor_Types_Count (fun _ => none),
        [⟨2, .SPEED_SENSOR, 1⟩, ⟨3, .RADAR_SENSOR, 1⟩], false⟩ rfl rfl).1⟩

/-- C20 (as stated, it fails): the `DiagnosticECU` at 0 is subscribed in both directions to a
speed sensor holding the reading 42 and to a radar sensor holding the reading 7.  After
`update()` the two entries of its table are 42 and 7: the readings that the sensors already held
before the call. -/
theorem C20_update_writes_the_old_readings :
    (run World.init twoSensorsRun).reading 2 = some 42 ∧
    (run World.init twoSensorsRun).reading 3 = some 7 ∧
    (DiagnosticECU.update (run World.init twoSensorsRun) 0).readTable 0 .SPEED_SENSOR 1
      = (run World.init twoSensorsRun).reading 2 ∧
    (DiagnosticECU.update (run World.init twoSensorsRun) 0).readTable 0 .RADAR_SENSOR 1
      = (run World.init twoSensorsRun).reading 3 := by
  decide

/-- C20 (amended): in every state reached by a run of the program, for a live `DiagnosticECU` `D`
subscribed in both directions to two live sensors of different categories: after `update()` the
table of `D` has an entry for each of the two sensors, in two different partitions, and each
entry holds the reading that the sensor held before the call; `update()` changes no sensor
object, so no sample is drawn and stored during the call. -/
theorem C20_update_two_sensors (ops : List Op) (D S₁ S₂ : Nat) (eD : ECU) (s₁ s₂ : Sensor)
    (hD : (run World.init ops).ecus D = some eD) (hk : eD.kind = .DIAGNOSTIC)
    (h₁ : (run World.init ops).sensors S₁ = some s₁)
    (h₂ : (run World.init ops).sensors S₂ = some s₂)
    (hsub₁ : ∃ sp ∈ eD.Subscribed_Sensors, sp.addr = S₁)
    (hsub₂ : ∃ sp ∈ eD.Subscribed_Sensors, sp.addr = S₂)
    (hback₁ : D ∈ s₁.Subscribed_ECUs) (hback₂ : D ∈ s₂.Subscribed_ECUs)
    (hcat : s₁.kind ≠ s₂.kind) :
    (DiagnosticECU.update (run World.init ops) D).readTable D s₁.kind s₁.Sensor_ID
      = some s₁.data ∧
    (DiagnosticECU.update (run World.init ops) D).readTable D s₂.kind s₂.Sensor_ID
      = some s₂.data ∧
    s₁.kind.toIndex ≠ s₂.kind.toIndex ∧
    (DiagnosticECU.update (run World.init ops) D).sensors = (run World.init ops).sensors := by
  have hw := WF_reachable ops
  have hp := PtrOK_reachable ops
  generalize run World.init ops = w at *
  have hlive : (w.ecus D).isSome = true := by rw [hD]; rfl
  have key : ∀ S s, w.sensors S = some s → (∃ sp ∈ eD.Subscribed_Sensors, sp.addr = S) →
      D ∈ s.Subscribed_ECUs →
      (DiagnosticECU.update w D).readTable D s.kind s.Sensor_ID = some s.data := by
    intro S s hs hsub hback
    obtain ⟨sp, hsp, hadd⟩ := hsub
    subst hadd
    simp only [DiagnosticECU.update, hD, hk]
    exact foldl_NotifyAllECUs_reaches eD.Subscribed_Sensors w hw (hp D eD hD)
      (hw.distinctSensors D eD hD) sp hsp s hs D hback hlive
  exact ⟨key S₁ s₁ h₁ hsub₁ hback₁, key S₂ s₂ h₂ hsub₂ hback₂,
    fun h => hcat (toIndex_injective h), (update_tablesOnly w D).1⟩

theorem C20_update_two_sensors_witness :
    (DiagnosticECU.update (run World.init twoSensorsRun) 0).readTable 0 .SPEED_SENSOR 1
      = some 42 ∧
    (DiagnosticECU.update (run World.init twoSensorsRun) 0).readTable 0 .RADAR_SENSOR 1
      = some 7 :=
  ⟨(C20_update_two_sensors twoSensorsRun 0 2 3
      ⟨.DIAGNOSTIC, 1, "Diagnostic ECU", List.replicate Sensor_Types_Count (fun _ => none),
        [⟨2, .SPEED_SENSOR, 1⟩, ⟨3, .RADAR_SENSOR, 1⟩], false⟩
      ⟨.SPEED_SENSOR, 1, 42, [0, 1]⟩ ⟨.RADAR_SENSOR, 1, 7, [0]⟩ rfl rfl (by decide) (by decide)
      ⟨⟨2, .SPEED_SENSOR, 1⟩, by decide, rfl⟩ ⟨⟨3, .RADAR_SENSOR, 1⟩, by decide, rfl⟩
      (by decide) (by decide) (by decide)).1,
   (C20_update_two_sensors twoSensorsRun 0 2 3
      ⟨.DIAGNOSTIC, 1, "Diagnostic ECU", List.replicate Sensor_Types_Count (fun _ => none),
        [⟨2, .SPEED_SENSOR, 1⟩, ⟨3, .RADAR_SENSOR, 1⟩], false⟩
      ⟨.SPEED_SENSOR, 1, 42, [0, 1]⟩ ⟨.RADAR_SENSOR, 1, 7, [0]⟩ rfl rfl (by decide) (by decide)
      ⟨⟨2, .SPEED_SENSOR, 1⟩, by decide, rfl⟩ ⟨⟨3, .RADAR_SENSOR, 1⟩, by decide, rfl⟩
      (by decide) (by decide) (by decide)).2.1⟩

/-- C21: for every live sensor `S` of any of the four classes, with `v` the value that the random
source of its class produces next: `sensorRead()` stores `v` as the reading of `S` and changes
nothing else of `S` and no other object; `GetSensorData()` has the same effect on the state, draws
exactly one value (the source of the class is one call further, the other three sources are as they
were), and returns `v`, which is the reading held afterwards, whatever the reading was before. -/
theorem C21_GetSensorData_returns_the_new_reading (w : World) (r : Engines) (S : Nat) (s : Sensor)
    (hS : w.sensors S = some s) :
    (sensorRead w S ((r s.kind).values (r s.kind).drawn)).sensors S
        = some { s with data := (r s.kind).values (r s.kind).drawn } ∧
      (∀ a, a ≠ S →
        (sensorRead w S ((r s.kind).values (r s.kind).drawn)).sensors a = w.sensors a) ∧
      (sensorRead w S ((r s.kind).values (r s.kind).drawn)).ecus = w.ecus ∧
      (getRandomData w r S).1 = sensorRead w S ((r s.kind).values (r s.kind).drawn) ∧
      (GetSensorData w r S).1 = sensorRead w S ((r s.kind).values (r s.kind).drawn) ∧
      (GetSensorData w r S).2.2 = some ((r s.kind).values (r s.kind).drawn) ∧
      (GetSensorData w r S).2.2 = (GetSensorData w r S).1.reading S ∧
      ((GetSensorData w r S).2.1 s.kind).drawn = (r s.kind).drawn + 1 ∧
      ((GetSensorData w r S).2.1 s.kind).values = (r s.kind).values ∧
      ∀ k, k ≠ s.kind → (GetSensorData w r S).2.1 k = r k := by
  rw [GetSensorData_eq hS, getRandomData_eq hS]
  refine ⟨sensorRead_sensors_self hS _, ?_, sensorRead_ecus _ _ _, rfl, rfl, rfl, ?_, ?_, ?_, ?_⟩
  · intro a ha
    rw [sensorRead_sensors, hS]
    simp [ha]
  · exact (sensorRead_reading hS _).symm
  · simp
  · simp
  · intro k hk
    simp [hk]

theorem C21_GetSensorData_returns_the_new_reading_witness :
    (run World.init [.newSensor .SPEED_SENSOR]).sensors 0 = some ⟨.SPEED_SENSOR, 1, 0, []⟩ ∧
      (GetSensorData (run World.init [.newSensor .SPEED_SENSOR])
        (fun _ => { values := fun _ => 42, drawn := 0 }) 0).2.2 = some 42 ∧
      (GetSensorData (run World.init [.newSensor .SPEED_SENSOR])
        (fun _ => { values := fun _ => 42, drawn := 0 }) 0).2.2
        = (GetSensorData (run World.init [.newSensor .SPEED_SENSOR])
            (fun _ => { values := fun _ => 42, drawn := 0 }) 0).1.reading 0 :=
  have h := C21_GetSensorData_returns_the_new_reading (run World.init [.newSensor .SPEED_SENSOR])
    (fun _ => { values := fun _ => 42, drawn := 0 }) 0 ⟨.SPEED_SENSOR, 1, 0, []⟩ (by decide)
  ⟨by decide, h.2.2.2.2.2.1, h.2.2.2.2.2.2.1⟩

/-- C23: when the four random sources produce values in the intervals of their distributions
(`unifs(0, 320)`, `unift(0, 320)`, `unifr(0, 50)`, `unifb(0, 100)`), `GetSensorData()` of a live
sensor returns a value, and that value lies in `[0, 320]` for a speed sensor, `[0, 320]` for a
temperature sensor, `[0, 50]` for a radar sensor and `[0, 100]` for a battery level sensor. -/
theorem C23_GetSensorData_within_bounds (w : World) (r : Engines) (S : Nat) (s : Sensor)
    (hS : w.sensors S = some s) (hr : InDistribution r) :
    ∃ v, (GetSensorData w r S).2.2 = some v ∧
      (s.kind = .SPEED_SENSOR → 0 ≤ v ∧ v ≤ 320) ∧
      (s.kind = .TEMPERATURE_SENSOR → 0 ≤ v ∧ v ≤ 320) ∧
      (s.kind = .RADAR_SENSOR → 0 ≤ v ∧ v ≤ 50) ∧
      (s.kind = .BATTERY_LEVEL_SENSOR → 0 ≤ v ∧ v ≤ 100) := by
  refine ⟨(r s.kind).values (r s.kind).drawn, by rw [GetSensorData_eq hS], ?_⟩
  have h := hr s.kind (r s.kind).drawn
  refine ⟨fun hk => ?_, fun hk => ?_, fun hk => ?_, fun hk => ?_⟩ <;>
    · rw [hk] at h ⊢
      exact ⟨h.1, le_of_lt h.2⟩

theorem C23_GetSensorData_within_bounds_witness :
    (run World.init [.newSensor .RADAR_SENSOR]).sensors 0 = some ⟨.RADAR_SENSOR, 1, 0, []⟩ ∧
      InDistribution (fun _ => { values := fun n => if n = 0 then 49 else 0, drawn := 0 }) ∧
      ∃ v, (GetSensorData (run World.init [.newSensor .RADAR_SENSOR])
          (fun _ => { values := fun n => if n = 0 then 49 else 0, drawn := 0 }) 0).2.2 = some v ∧
        0 ≤ v ∧ v ≤ 50 :=
  have hr : InDistribution (fun _ => { values := fun n => if n = 0 then 49 else 0, drawn := 0 }) := by
    intro k n
    cases k <;> by_cases hn : n = 0 <;> simp [distribution, hn] <;> norm_num
  have h := C23_GetSensorData_within_bounds (run World.init [.newSensor .RADAR_SENSOR])
    (fun _ => { values := fun n => if n = 0 then 49 else 0, drawn := 0 }) 0
    ⟨.RADAR_SENSOR, 1, 0, []⟩ (by decide) hr
  ⟨by decide, hr, h.elim fun v hv => ⟨v, hv.1, hv.2.2.2.1 rfl⟩⟩

/-- C24: in every state reached by a run, the constructor of either ECU class leaves the new ECU
with a table of `Sensor_Types_Count` = 4 partitions, all empty, so that the lookup of every
(category, id) yields absent (not zero); and after any further steps among which no call of
`updateECU` reaches this ECU (directly or from `NotifyAllECUs`), every lookup in its table still
yields absent and the table still has 4 partitions. -/
theorem C24_fresh_table_is_empty (ops0 : List Op) (k : ECUKind) (ops : List Op)
    (h : ∀ u ∈ updatesAlong (newECU (run World.init ops0) k) ops,
      u.1 ≠ (run World.init ops0).next) :
    (∃ e, (newECU (run World.init ops0) k).ecus (run World.init ops0).next = some e ∧
      e.Recent_Sensory_Data = List.replicate Sensor_Types_Count (fun _ => none) ∧
      Sensor_Types_Count = 4) ∧
    (∀ c id, (newECU (run World.init ops0) k).readTable (run World.init ops0).next c id = none) ∧
    (∀ c id, (run (newECU (run World.init ops0) k) ops).readTable (run World.init ops0).next c id
      = none) ∧
    ∀ e, (run (newECU (run World.init ops0) k) ops).ecus (run World.init ops0).next = some e →
      e.Recent_Sensory_Data.length = 4 := by
  refine ⟨⟨_, by rw [newECU_ecus, if_pos rfl], rfl, rfl⟩, fun c id => newECU_readTable_new _ k c id,
    fun c id => ?_, fun e he => ?_⟩
  · cases hr : (run (newECU (run World.init ops0) k) ops).readTable (run World.init ops0).next c id
      with
    | none => rfl
    | some v =>
      exfalso
      rcases run_readTable_source (run World.init ops0).next c id ops _ (by rw [hr]; rfl) with
        h1 | h1
      · rw [newECU_readTable_new] at h1
        exact Bool.noConfusion h1
      · exact h _ h1 rfl
  · exact (WF_run (WF_newECU (WF_reachable ops0) k) ops).table_len _ e he

theorem C24_fresh_table_is_empty_witness :
    (∀ u ∈ updatesAlong (newECU (run World.init [.newSensor .SPEED_SENSOR]) .DIAGNOSTIC)
        [.AttachSensor 1 0, .newECU .ADAPTIVE_CRUISE_CONTROL, .AttachECU 0 2, .sensorRead 0 5,
          .NotifyAllECUs 0], u.1 ≠ 1) ∧
      ∀ c id, (run (newECU (run World.init [.newSensor .SPEED_SENSOR]) .DIAGNOSTIC)
        [.AttachSensor 1 0, .newECU .ADAPTIVE_CRUISE_CONTROL, .AttachECU 0 2, .sensorRead 0 5,
          .NotifyAllECUs 0]).readTable 1 c id = none :=
  ⟨by decide,
    (C24_fresh_table_is_empty [.newSensor .SPEED_SENSOR] .DIAGNOSTIC
      [.AttachSensor 1 0, .newECU .ADAPTIVE_CRUISE_CONTROL, .AttachECU 0 2, .sensorRead 0 5,
        .NotifyAllECUs 0] (by decide)).2.2.1⟩

/-- C25: in every state reached by a run, if the key `k` is present in the partition of the
category `c` of the table of the ECU `E`, then some step of the run has executed `updateECU`, for
a sensor of category `c` with id `k`, on `E` while `E` was alive (directly or from
`NotifyAllECUs`).  `DiagnosticECU::update` is the run of the `NotifyAllECUs` steps of the sensors
it holds, so the states it reaches are covered.  And, in every state, none of `AttachSensor`,
`DeattachSensor`, `AttachECU` and `DeAttachECU` changes the lookup of any key in any table. -/
theorem C25_keys_come_from_updateECU :
    (∀ (ops : List Op) (E : Nat) (c : SensorTypes) (k : Int),
      ((run World.init ops).readTable E c k).isSome = true →
        (E, c, k) ∈ updatesAlong World.init ops) ∧
    (∀ (w : World) (D : Nat) (e : ECU), w.ecus D = some e → e.kind = .DIAGNOSTIC →
      DiagnosticECU.update w D
        = run w (e.Subscribed_Sensors.map fun s => Op.NotifyAllECUs s.addr)) ∧
    ∀ (w : World) (E S h : Nat) (c : SensorTypes) (k : Int),
      (step w (.AttachSensor E S)).readTable h c k = w.readTable h c k ∧
      (step w (.DeattachSensor E S)).readTable h c k = w.readTable h c k ∧
      (step w (.AttachECU S E)).readTable h c k = w.readTable h c k ∧
      (step w (.DeAttachECU S E)).readTable h c k = w.readTable h c k := by
  refine ⟨fun ops E c k h => ?_, fun w D e hD hk => update_eq_run hD hk,
    fun w E S h c k => ⟨?_, ?_, readTable_of_ecus (AttachECU_ecus w S E) h c k,
      readTable_of_ecus (DeAttachECU_ecus w S E) h c k⟩⟩
  · rcases run_readTable_source E c k ops World.init h with h1 | h1
    · exact Bool.noConfusion h1
    · exact h1
  · simp only [step]
    cases w.sharedPtr S with
    | none => rfl
    | some sp => exact AttachSensor_readTable w E sp h c k
  · simp only [step]
    cases w.sharedPtr S with
    | none => rfl
    | some sp => exact DeattachSensor_readTable w E sp h c k

theorem C25_keys_come_from_updateECU_witness :
    ((run World.init [.newECU .DIAGNOSTIC, .newSensor .SPEED_SENSOR, .AttachECU 1 0,
        .NotifyAllECUs 1]).readTable 0 .SPEED_SENSOR 1).isSome = true ∧
      (0, SensorTypes.SPEED_SENSOR, (1 : Int)) ∈ updatesAlong World.init
        [.newECU .DIAGNOSTIC, .newSensor .SPEED_SENSOR, .AttachECU 1 0, .NotifyAllECUs 1] :=
  ⟨by decide,
    C25_keys_come_from_updateECU.1 [.newECU .DIAGNOSTIC, .newSensor .SPEED_SENSOR,
      .AttachECU 1 0, .NotifyAllECUs 1] 0 .SPEED_SENSOR 1 (by decide)⟩

/-- C26 (the code departs from the claim): two speed sensors are constructed and the second
(allocation number 1, id 2) is attached to a `DiagnosticECU` `E` (2); the variables that pointed
to the two sensors are reset, which destroys the first sensor and leaves the second to `E` alone;
a new speed sensor `S` (3) gets the id 2 again.  Then `E.DeattachSensor(S)` erases the entry of
the sensor at 1, which `S` is not, and with it goes that sensor: its object is destroyed, and the
counter of its class and `total_sensor_count` drop from 2 to 1.  `S` itself is as before. -/
theorem C26_DeattachSensor_destroys_the_sensor_with_the_reused_id :
    ((run World.init heldReusedSensorIdRun).sensors 1).map (fun s => (s.kind, s.getSensorID))
      = some (.SPEED_SENSOR, 2) ∧
    (run World.init heldReusedSensorIdRun).sharedPtr 3 = some ⟨3, .SPEED_SENSOR, 2⟩ ∧
    (run World.init heldReusedSensorIdRun).subscribedSensors 2 = some [⟨1, .SPEED_SENSOR, 2⟩] ∧
    (run World.init heldReusedSensorIdRun).getSensorCount .SPEED_SENSOR = 2 ∧
    getTotalSensorsCount (run World.init heldReusedSensorIdRun) = 2 ∧
    (DeattachSensorFull (fun p => p == 3) (run World.init heldReusedSensorIdRun) 2
      ⟨3, .SPEED_SENSOR, 2⟩).subscribedSensors 2 = some [] ∧
    (DeattachSensorFull (fun p => p == 3) (run World.init heldReusedSensorIdRun) 2
      ⟨3, .SPEED_SENSOR, 2⟩).sensors 1 = none ∧
    (DeattachSensorFull (fun p => p == 3) (run World.init heldReusedSensorIdRun) 2
      ⟨3, .SPEED_SENSOR, 2⟩).sensors 3 = (run World.init heldReusedSensorIdRun).sensors 3 ∧
    (DeattachSensorFull (fun p => p == 3) (run World.init heldReusedSensorIdRun) 2
      ⟨3, .SPEED_SENSOR, 2⟩).getSensorCount .SPEED_SENSOR = 1 ∧
    getTotalSensorsCount (DeattachSensorFull (fun p => p == 3)
      (run World.init heldReusedSensorIdRun) 2 ⟨3, .SPEED_SENSOR, 2⟩) = 1 := by
  decide

/-- C27 (as stated, it fails): a `DiagnosticECU` (allocation number 0) and a battery level sensor
(1) are constructed, the sensor is attached to the ECU and the variable that pointed to the sensor
is reset; the sensor is still alive, held by the ECU alone, and its class counter and
`total_sensor_count` are 1.  The destruction of the ECU destroys the sensor with it: both counters
are 0 afterwards. -/
theorem C27_ECU_destruction_destroys_its_last_sensors :
    ((run World.init lastOwnerRun).sensors 1).isSome = true ∧
    (run World.init lastOwnerRun).subscribedSensors 0
      = some [⟨1, .BATTERY_LEVEL_SENSOR, 1⟩] ∧
    (run World.init lastOwnerRun).getSensorCount .BATTERY_LEVEL_SENSOR = 1 ∧
    getTotalSensorsCount (run World.init lastOwnerRun) = 1 ∧
    (destroyECUFull (fun _ => false) (run World.init lastOwnerRun) 0).sensors 1 = none ∧
    (destroyECUFull (fun _ => false) (run World.init lastOwnerRun) 0).getSensorCount
      .BATTERY_LEVEL_SENSOR = 0 ∧
    getTotalSensorsCount (destroyECUFull (fun _ => false) (run World.init lastOwnerRun) 0) = 0 := by
  decide

/-- C27 (amended): along every run in which neither `total_sensor_count` nor `ECU_Count` goes
beyond the largest `int`: (1) the destructor of a live sensor (it runs when no ECU holds a
`shared_ptr` to the sensor any more) decrements the counter of the class of the sensor by exactly
1 and `total_sensor_count` by exactly 1, and leaves the counters of the other three classes and
`ECU_Count` as they were; (2) the destruction of a live ECU, whatever lists `Subscribed_ECUs`
still hold a reference to it, decrements `ECU_Count` by exactly 1; when every sensor in its
`Subscribed_Sensors` is still owned by a `shared_ptr` outside the ECUs, it leaves the four class
counters, `total_sensor_count` and every sensor as they were; in general the sensors gone
afterwards are exactly those in `Subscribed_Sensors` that no `shared_ptr` outside the ECUs and no
other live ECU points to, every class counter is again the number of live sensors of its class and
`total_sensor_count` their sum, and the whole is the step `destroyECU` followed by destructors of
sensors, each of them as in (1). -/
theorem C27_destructors_decrement_once (ops : List Op)
    (hs : NoTotalOverflow World.init ops = true) (he : NoECUOverflow World.init ops = true) :
    (∀ p s, (run World.init ops).sensors p = some s → heldByECU (run World.init ops) p = false →
      (destroySensor (run World.init ops) p).getSensorCount s.kind
        = (run World.init ops).getSensorCount s.kind - 1 ∧
      getTotalSensorsCount (destroySensor (run World.init ops) p)
        = getTotalSensorsCount (run World.init ops) - 1 ∧
      (∀ k, k ≠ s.kind → (destroySensor (run World.init ops) p).getSensorCount k
        = (run World.init ops).getSensorCount k) ∧
      getECUCount (destroySensor (run World.init ops) p) = getECUCount (run World.init ops)) ∧
    ∀ (own : Nat → Bool) (h : Nat) (e : ECU), (run World.init ops).ecus h = some e →
      getECUCount (destroyECUFull own (run World.init ops) h)
        = getECUCount (run World.init ops) - 1 ∧
      ((∀ x ∈ e.Subscribed_Sensors, own x.addr = true) →
        (∀ k, (destroyECUFull own (run World.init ops) h).getSensorCount k
          = (run World.init ops).getSensorCount k) ∧
        getTotalSensorsCount (destroyECUFull own (run World.init ops) h)
          = getTotalSensorsCount (run World.init ops) ∧
        (destroyECUFull own (run World.init ops) h).sensors = (run World.init ops).sensors) ∧
      (∀ p, (destroyECUFull own (run World.init ops) h).sensors p =
        if (e.Subscribed_Sensors.any fun x => x.addr == p) = true ∧ own p = false ∧
            heldByECU (destroyECU (run World.init ops) h) p = false then none
        else (run World.init ops).sensors p) ∧
      (∀ k, (destroyECUFull own (run World.init ops) h).getSensorCount k
        = (liveSensors (destroyECUFull own (run World.init ops) h) k : Int)) ∧
      getTotalSensorsCount (destroyECUFull own (run World.init ops) h)
        = (destroyECUFull own (run World.init ops) h).getSensorCount .SPEED_SENSOR
          + (destroyECUFull own (run World.init ops) h).getSensorCount .TEMPERATURE_SENSOR
          + (destroyECUFull own (run World.init ops) h).getSensorCount .RADAR_SENSOR
          + (destroyECUFull own (run World.init ops) h).getSensorCount .BATTERY_LEVEL_SENSOR ∧
      ∃ ps : List Nat, destroyECUFull own (run World.init ops) h
        = run (run World.init ops) (.destroyECU h :: ps.map Op.destroySensor) := by
  have hw := WF_reachable ops
  obtain ⟨hc, ht⟩ := TotalOK_run WF_init CountsOK_init TotalOK_init ops hs
  have hec := ECUCountOK_run WF_init ECUCountOK_init ops he
  generalize run World.init ops = w at *
  constructor
  · intro p s hsp hh
    have hpos := live_count_pos hw hc hsp hh
    have h0 := count_le_total hc ht s.kind
    have hmax := (hc s.kind).2
    have ht2 := ht.2
    unfold getTotalSensorsCount getECUCount at *
    have hw1 : wrapInt (w.getSensorCount s.kind - 1) = w.getSensorCount s.kind - 1 :=
      wrapInt_of_range (by omega) (by unfold INT_MAX at hmax; omega)
    have hw2 : wrapInt (w.total_sensor_count - 1) = w.total_sensor_count - 1 :=
      wrapInt_of_range (by omega) (by unfold INT_MAX at ht2; omega)
    refine ⟨?_, ?_, fun k hk => ?_, destroySensor_ECU_Count w p⟩
    · rw [destroySensor_getSensorCount hsp hh, if_pos rfl, hw1]
    · rw [destroySensor_total hsp hh, hw2]
    · rw [destroySensor_getSensorCount hsp hh, if_neg hk]
  · intro own h e hh
    have hl : (w.ecus h).isSome = true := by rw [hh]; rfl
    obtain ⟨ps, hps⟩ := destroyECUFull_eq_run own hh
    have hno : NoTotalOverflow w (.destroyECU h :: ps.map Op.destroySensor) = true :=
      NoTotalOverflow_destroySensors _ ps
    obtain ⟨hc', ht'⟩ := TotalOK_run hw hc ht _ hno
    rw [← hps] at hc' ht'
    refine ⟨?_, fun ho => ?_, destroyECUFull_sensors own hh, fun k => (hc' k).1, ht'.1,
      ps, hps⟩
    · have hcount := liveECUs_destroyECU hw hl
      have h1 := hec.1
      have h2 := hec.2
      have hE : (destroyECUFull own w h).ECU_Count = (destroyECU w h).ECU_Count := by
        unfold destroyECUFull
        rw [hh]
        exact (releaseAll_ecus own _ _).2.2
      unfold getECUCount at *
      rw [hE, destroyECU_ECU_Count, hl, if_pos rfl]
      exact wrapInt_of_range (by rw [h1, hcount]; push_cast; omega)
        (by unfold INT_MAX at h2; omega)
    · rw [destroyECUFull_of_owned own hh ho]
      exact ⟨fun k => destroyECU_getSensorCount w h k, destroyECU_total w h,
        destroyECU_sensors w h⟩

theorem C27_destructors_decrement_once_witness :
    (NoTotalOverflow World.init [.newSensor .SPEED_SENSOR, .newSensor .RADAR_SENSOR,
        .newECU .DIAGNOSTIC, .AttachECU 0 2, .AttachSensor 2 0, .AttachSensor 2 1] = true ∧
      NoECUOverflow World.init [.newSensor .SPEED_SENSOR, .newSensor .RADAR_SENSOR,
        .newECU .DIAGNOSTIC, .AttachECU 0 2, .AttachSensor 2 0, .AttachSensor 2 1] = true) ∧
      (run World.init [.newSensor .SPEED_SENSOR, .newSensor .RADAR_SENSOR, .newECU .DIAGNOSTIC,
        .AttachECU 0 2, .AttachSensor 2 0, .AttachSensor 2 1]).subscribedSensors 2
        = some [⟨0, .SPEED_SENSOR, 1⟩, ⟨1, .RADAR_SENSOR, 1⟩] ∧
      getECUCount (destroyECUFull (fun p => p == 0) (run World.init [.newSensor .SPEED_SENSOR,
        .newSensor .RADAR_SENSOR, .newECU .DIAGNOSTIC, .AttachECU 0 2, .AttachSensor 2 0,
        .AttachSensor 2 1]) 2)
        = getECUCount (run World.init [.newSensor .SPEED_SENSOR, .newSensor .RADAR_SENSOR,
          .newECU .DIAGNOSTIC, .AttachECU 0 2, .AttachSensor 2 0, .AttachSensor 2 1]) - 1 ∧
      (destroyECUFull (fun p => p == 0) (run World.init [.newSensor .SPEED_SENSOR,
        .newSensor .RADAR_SENSOR, .newECU .DIAGNOSTIC, .AttachECU 0 2, .AttachSensor 2 0,
        .AttachSensor 2 1]) 2).getSensorCount .RADAR_SENSOR = 0 ∧
      (destroyECUFull (fun p => p == 0) (run World.init [.newSensor .SPEED_SENSOR,
        .newSensor .RADAR_SENSOR, .newECU .DIAGNOSTIC, .AttachECU 0 2, .AttachSensor 2 0,
        .AttachSensor 2 1]) 2).getSensorCount .SPEED_SENSOR = 1 :=
  have h := C27_destructors_decrement_once [.newSensor .SPEED_SENSOR, .newSensor .RADAR_SENSOR,
    .newECU .DIAGNOSTIC, .AttachECU 0 2, .AttachSensor 2 0, .AttachSensor 2 1] (by decide)
    (by decide)
  ⟨⟨by decide, by decide⟩, by decide,
    (h.2 (fun p => p == 0) 2
      ⟨.DIAGNOSTIC, 1, "Diagnostic ECU", List.replicate 4 (fun _ => none),
        [⟨0, .SPEED_SENSOR, 1⟩, ⟨1, .RADAR_SENSOR, 1⟩], false⟩ rfl).1,
    by decide, by decide⟩

/-- C29: the car `Car("rio", "kia")` is constructed at program start; its Adaptive Cruise Control
ECU (allocation number 4) is off.  After `setAdaptiveMode(false)`, `getAdaptiveMode()` returns
`false`, and yet `IsON()` of that ECU is `true`: `PerformFunction` has run. -/
theorem C29_setAdaptiveMode_false_turns_the_ECU_on :
    (Car.new World.init "rio" "kia").2.Car_Adaptive_Cruise_Control_ECU = 4 ∧
      IsON (Car.new World.init "rio" "kia").1 4 = some false ∧
      (Car.setAdaptiveMode (Car.new World.init "rio" "kia").1
        (fun _ => { values := fun _ => 0, drawn := 0 })
        (Car.new World.init "rio" "kia").2 false).2.2.getAdaptiveMode = false ∧
      IsON (Car.setAdaptiveMode (Car.new World.init "rio" "kia").1
        (fun _ => { values := fun _ => 0, drawn := 0 })
        (Car.new World.init "rio" "kia").2 false).1 4 = some true := by
  decide

/-- C30: (1) in every state in which `message_number` is not negative and below the largest
`int`, one call of `Logger::log` increases `message_number` by exactly 1, appends exactly one line
to the console, made of the new message number and the message text as it was given, and changes
no sensor and no ECU.  (2) From program start, when the messages `ms` (at most `INT_MAX` of them)
are logged one after the other, the console holds exactly one line for each message, in the order
of the calls, and the line of the `k`-th call carries the number `k` and the text of the `k`-th
message; `message_number` is the number of messages. -/
theorem C30_log_numbers_the_messages :
    (∀ (w : World) (m : String), 0 ≤ w.message_number → w.message_number < INT_MAX →
      (log w m).message_number = w.message_number + 1 ∧
      (log w m).cout
        = w.cout ++ ["CAR LOGGER (" ++ toString (w.message_number + 1) ++ "): " ++ m] ∧
      (log w m).sensors = w.sensors ∧ (log w m).ecus = w.ecus) ∧
    ∀ ms : List String, (ms.length : Int) ≤ INT_MAX →
      (logAll World.init ms).message_number = (ms.length : Int) ∧
      (logAll World.init ms).cout.length = ms.length ∧
      ∀ (k : Nat) (m : String), ms[k]? = some m →
        (logAll World.init ms).cout[k]?
          = some ("CAR LOGGER (" ++ toString ((k : Int) + 1) ++ "): " ++ m) := by
  refine ⟨fun w m h0 h1 => ⟨(log_eq_of_range h0 h1 m).1, (log_eq_of_range h0 h1 m).2, rfl, rfl⟩,
    fun ms h => ?_⟩
  obtain ⟨i1, i2, _, i4⟩ := logAll_lines ms World.init (le_refl _)
    (by show (0 : Int) + _ ≤ _; omega)
  refine ⟨by rw [i1]; show (0 : Int) + _ = _; omega, by rw [i2]; show 0 + _ = _; omega,
    fun k m hm => ?_⟩
  have := i4 k m hm
  rw [show (World.init.cout.length + k) = k from Nat.zero_add k] at this
  rw [this]
  show some (_ ++ toString ((0 : Int) + (k : Int) + 1) ++ _ ++ _) = _
  rw [Int.zero_add]

theorem C30_log_numbers_the_messages_witness :
    ((["a", "b", "c"] : List String).length : Int) ≤ INT_MAX ∧
      (logAll World.init ["a", "b", "c"]).cout[2]? = some ("CAR LOGGER (" ++ toString
        (((2 : Nat) : Int) + 1) ++ "): " ++ "c") ∧
      (logAll World.init ["a", "b", "c"]).cout
        = ["CAR LOGGER (1): a", "CAR LOGGER (2): b", "CAR LOGGER (3): c"] :=
  ⟨by decide, (C30_log_numbers_the_messages.2 ["a", "b", "c"] (by decide)).2.2 2 "c" rfl,
    by decide⟩

/-- C31: a car is constructed, in any state a driver program can reach, and then used through
the methods that `main` calls on its car (`CarINIT`, `setAdaptiveMode`, `StartDiagonisticTool`,
`DisplayStatus`, `UpdateSensorsData`), in any order and number.  As soon as
`StartDiagonisticTool()` was called once, the list `Subscribed_Sensors` of the Diagnostic ECU is
exactly the list `Sensors` of the car, whose four entries are four different objects, and the list
`Subscribed_ECUs` of each of these sensors is exactly the one-entry list of the Diagnostic ECU;
whatever calls follow, `StartDiagonisticTool()` among them any number of times, `Sensors` and both
kinds of list stay what they are. -/
theorem C31_StartDiagonisticTool_subscribes_once (ops : List Op) (model make : String)
    (r : Engines) (cs : List CarOp) (h : CarOp.StartDiagonisticTool ∈ cs) :
    (carRun (carStart ops model make r) cs).1.subscribedSensors
        (carRun (carStart ops model make r) cs).2.2.Car_Diagnostic_ECU
      = some (carRun (carStart ops model make r) cs).2.2.Sensors ∧
    (∀ sp ∈ (carRun (carStart ops model make r) cs).2.2.Sensors,
      (carRun (carStart ops model make r) cs).1.subscribedECUs sp.addr
        = some [(carRun (carStart ops model make r) cs).2.2.Car_Diagnostic_ECU]) ∧
    (carRun (carStart ops model make r) cs).2.2.Sensors.length = 4 ∧
    ((carRun (carStart ops model make r) cs).2.2.Sensors.map SensorPtr.addr).Nodup ∧
    ∀ more : List CarOp,
      (carRun (carRun (carStart ops model make r) cs) more).2.2.Sensors
        = (carRun (carStart ops model make r) cs).2.2.Sensors ∧
      (carRun (carRun (carStart ops model make r) cs) more).2.2.Car_Diagnostic_ECU
        = (carRun (carStart ops model make r) cs).2.2.Car_Diagnostic_ECU ∧
      (carRun (carRun (carStart ops model make r) cs) more).1.subscribedSensors
          (carRun (carStart ops model make r) cs).2.2.Car_Diagnostic_ECU
        = (carRun (carStart ops model make r) cs).1.subscribedSensors
          (carRun (carStart ops model make r) cs).2.2.Car_Diagnostic_ECU ∧
      ∀ a, (carRun (carRun (carStart ops model make r) cs) more).1.subscribedECUs a
        = (carRun (carStart ops model make r) cs).1.subscribedECUs a := by
  have hi := CarInv_carRun (CarInv_carStart ops model make r) cs
  have hl := carRun_linked_of_mem (CarInv_carStart ops model make r) cs h
  refine ⟨hl.1, hl.2, by rw [hi.sensors_eq]; rfl, hi.addr_nodup, fun more => ?_⟩
  obtain ⟨_, r2, r3, r4⟩ := carRun_linked hi hl more
  exact ⟨r3, r4, r2.subscribedSensors _, r2.2.2.1⟩

theorem C31_StartDiagonisticTool_subscribes_once_witness :
    CarOp.StartDiagonisticTool ∈ mainCalls ∧
      (carRun (carStart [] "rio" "kia" tenEngines) mainCalls).1.subscribedSensors 5
        = some [⟨0, .SPEED_SENSOR, 1⟩, ⟨1, .TEMPERATURE_SENSOR, 1⟩, ⟨3, .RADAR_SENSOR, 1⟩,
                ⟨2, .BATTERY_LEVEL_SENSOR, 1⟩] :=
  ⟨by decide, (C31_StartDiagonisticTool_subscribes_once [] "rio" "kia" tenEngines mainCalls
    (by decide)).1⟩

/-- C32: whatever the map `Car_info` holds and whatever `Adaptive_MODE` is, `DisplayStatus()` is
exactly five calls of `Logger::log`, in the order speed, temperature, battery, radar, cruise
control (a key that is absent reads as 0); the speed message is the warning exactly when the
value is above 50, the temperature message exactly when it is above 30, the battery message
exactly when it is below 20, the radar message exactly when it is below 5, and the last message
says ON exactly when `Adaptive_MODE` is true.  No sensor and no ECU changes, nor does
`Adaptive_MODE`, `Sensors`, `ECUs` or a value of `Car_info`; when `Car_info` holds the four keys
the car is left exactly as it was, and the map of a constructed car holds them in every state that
the methods called by `main` lead to. -/
theorem C32_DisplayStatus_five_messages (w : World) (c : Car) :
    (Car.DisplayStatus w c).1 = logAll w
      [if c.info .SPEED_SENSOR > 50 then "Speed Exceeded please SLOW DOWN"
        else "Speed is within the allowed Range",
       if c.info .TEMPERATURE_SENSOR > 30 then "Car is overheating please stop"
        else "Temperature is within the allowed Range",
       if c.info .BATTERY_LEVEL_SENSOR < 20
        then "LOW BATTERY PLEASE GO TO THE NEAREST CHARGING STATION" else "Battery is Good",
       if c.info .RADAR_SENSOR < 5 then "Collision is predicted please Slow down"
        else "NO collision Threats",
       if c.Adaptive_MODE = true then "CRUISE CONTROL IS ON" else "CRUISE CONTROL IS OFF"] ∧
    (Car.DisplayStatus w c).1.cout.length = w.cout.length + 5 ∧
    (Car.DisplayStatus w c).1.sensors = w.sensors ∧ (Car.DisplayStatus w c).1.ecus = w.ecus ∧
    (∀ k, (Car.DisplayStatus w c).2.info k = c.info k) ∧
    (Car.DisplayStatus w c).2.Adaptive_MODE = c.Adaptive_MODE ∧
    (Car.DisplayStatus w c).2.Sensors = c.Sensors ∧ (Car.DisplayStatus w c).2.ECUs = c.ECUs ∧
    ((∀ k, (c.Car_info k).isSome = true) → (Car.DisplayStatus w c).2 = c) ∧
    ∀ (ops : List Op) (model make : String) (r : Engines) (cs : List CarOp) (k : SensorTypes),
      ((carRun (carStart ops model make r) cs).2.2.Car_info k).isSome = true := by
  obtain ⟨d1, d2, d3, d4⟩ := DisplayStatus_car w c
  refine ⟨DisplayStatus_world w c, ?_, ?_, ?_, d1, d2, d3, d4, ?_, ?_⟩
  · rw [DisplayStatus_world]; simp [logAll]
  · rw [DisplayStatus_world]; simp
  · rw [DisplayStatus_world]; simp
  · intro h; rw [DisplayStatus_eq h]
  · intro ops model make r cs
    exact (CarInv_carRun (CarInv_carStart ops model make r) cs).info

theorem C32_DisplayStatus_five_messages_witness :
    (∀ k, (boundaryCar.Car_info k).isSome = true) ∧
      (Car.DisplayStatus World.init boundaryCar).2 = boundaryCar ∧
      (Car.DisplayStatus World.init boundaryCar).1.cout.length = 0 + 5 ∧
      (Car.DisplayStatus World.init boundaryCar).1.cout
        = ["CAR LOGGER (1): Speed is within the allowed Range",
           "CAR LOGGER (2): Temperature is within the allowed Range",
           "CAR LOGGER (3): Battery is Good", "CAR LOGGER (4): NO collision Threats",
           "CAR LOGGER (5): CRUISE CONTROL IS OFF"] :=
  ⟨fun k => by cases k <;> decide,
    (C32_DisplayStatus_five_messages World.init boundaryCar).2.2.2.2.2.2.2.2.1
      (fun k => by cases k <;> decide),
    (C32_DisplayStatus_five_messages World.init boundaryCar).2.1, by decide⟩

/-- C33: in every state, (1) for a live ECU whose list `Subscribed_Sensors` is `L`, with no entry
matching the sensor pointer `sp`: `AttachSensor(sp)` makes the list `L ++ [sp]` and
`DeattachSensor(sp)` right after makes it `L` again; (2) for a live sensor whose list
`Subscribed_ECUs` is `l`, with no entry that locks to an ECU with the id of the live ECU `E`:
`AttachECU(E)` makes the list `l ++ [E]` and `DeAttachECU(E)` right after makes it `l` again;
(3) whatever the list is, `AttachSensor` and `AttachECU` leave it as it is or append one entry at
the end, and `DeattachSensor` and `DeAttachECU` leave a sublist of it (same relative order) that
is at most one entry shorter. -/
theorem C33_attach_then_detach_restores :
    (∀ (w : World) (E : Nat) (e : ECU) (sp : SensorPtr), w.ecus E = some e →
      e.Subscribed_Sensors.any (sameSensor sp) = false →
        (AttachSensor w E sp).subscribedSensors E = some (e.Subscribed_Sensors ++ [sp]) ∧
        (DeattachSensor (AttachSensor w E sp) E sp).subscribedSensors E
          = some e.Subscribed_Sensors) ∧
    (∀ (w : World) (S E : Nat) (s : Sensor) (eE : ECU), w.sensors S = some s →
      w.ecus E = some eE → s.Subscribed_ECUs.any (sameID w eE) = false →
        (AttachECU w S E).subscribedECUs S = some (s.Subscribed_ECUs ++ [E]) ∧
        (DeAttachECU (AttachECU w S E) S E).subscribedECUs S = some s.Subscribed_ECUs) ∧
    (∀ (w : World) (E : Nat) (e : ECU) (sp : SensorPtr), w.ecus E = some e →
      ((AttachSensor w E sp).subscribedSensors E = some e.Subscribed_Sensors ∨
        (AttachSensor w E sp).subscribedSensors E = some (e.Subscribed_Sensors ++ [sp])) ∧
      ∃ l, (DeattachSensor w E sp).subscribedSensors E = some l ∧
        l.Sublist e.Subscribed_Sensors ∧ e.Subscribed_Sensors.length ≤ l.length + 1) ∧
    ∀ (w : World) (S E : Nat) (s : Sensor), w.sensors S = some s →
      ((AttachECU w S E).subscribedECUs S = some s.Subscribed_ECUs ∨
        (AttachECU w S E).subscribedECUs S = some (s.Subscribed_ECUs ++ [E])) ∧
      ∃ l, (DeAttachECU w S E).subscribedECUs S = some l ∧
        l.Sublist s.Subscribed_ECUs ∧ s.Subscribed_ECUs.length ≤ l.length + 1 := by
  refine ⟨fun w E e sp he hany => ?_, fun w S E s eE hs he hany => ?_,
    fun w E e sp he => ⟨?_, ?_⟩, fun w S E s hs => ⟨?_, ?_⟩⟩
  · have h1 := AttachSensor_subscribed_of_not_any he hany
    refine ⟨h1, ?_⟩
    rw [DeattachSensor_subscribed, h1, Option.map_some']
    congr 1
    refine eraseP_append_singleton (fun x hx => ?_) (sameSensor_self sp)
    cases hsx : sameSensor sp x with
    | false => rfl
    | true =>
      have : e.Subscribed_Sensors.any (sameSensor sp) = true :=
        List.any_eq_true.2 ⟨x, hx, hsx⟩
      rw [hany] at this
      exact Bool.noConfusion this
  · have h1 : (AttachECU w S E).subscribedECUs S = some (s.Subscribed_ECUs ++ [E]) := by
      simp [World.subscribedECUs, AttachECU_sensors, hs, he, hany]
    refine ⟨h1, ?_⟩
    rw [DeAttachECU_subscribed, AttachECU_ecus, he]
    simp only
    rw [h1, Option.map_some']
    congr 1
    have hsame : sameIDName (AttachECU w S E) eE = sameIDName w eE := by
      funext x
      unfold sameIDName
      rw [AttachECU_ecus]
    rw [hsame]
    refine eraseP_append_singleton (fun x hx => ?_) (sameIDName_self he)
    apply sameIDName_false_of_sameID
    cases hsx : sameID w eE x with
    | false => rfl
    | true =>
      have : s.Subscribed_ECUs.any (sameID w eE) = true := List.any_eq_true.2 ⟨x, hx, hsx⟩
      rw [hany] at this
      exact Bool.noConfusion this
  · by_cases hany : e.Subscribed_Sensors.any (sameSensor sp) = true
    · exact Or.inl (AttachSensor_subscribed_of_any he hany)
    · exact Or.inr (AttachSensor_subscribed_of_not_any he (by simpa using hany))
  · refine ⟨e.Subscribed_Sensors.eraseP (sameSensor sp), ?_, List.eraseP_sublist _, ?_⟩
    · rw [DeattachSensor_subscribed]
      simp [World.subscribedSensors, he]
    · have := List.le_length_eraseP (p := sameSensor sp) e.Subscribed_Sensors
      omega
  · cases he : w.ecus E with
    | none => exact Or.inl (by simp [World.subscribedECUs, AttachECU_sensors, hs, he])
    | some eE =>
      by_cases hany : s.Subscribed_ECUs.any (sameID w eE) = true
      · exact Or.inl (by simp [World.subscribedECUs, AttachECU_sensors, hs, he, hany])
      · exact Or.inr (by
          have hany' : s.Subscribed_ECUs.any (sameID w eE) = false := by simpa using hany
          simp [World.subscribedECUs, AttachECU_sensors, hs, he, hany'])
  · rw [DeAttachECU_subscribed]
    cases he : w.ecus E with
    | none =>
      exact ⟨s.Subscribed_ECUs, by simp [World.subscribedECUs, hs], List.Sublist.refl _,
        Nat.le_succ _⟩
    | some eE =>
      refine ⟨s.Subscribed_ECUs.eraseP (sameIDName w eE), by simp [World.subscribedECUs, hs],
        List.eraseP_sublist _, ?_⟩
      have := List.le_length_eraseP (p := sameIDName w eE) s.Subscribed_ECUs
      omega

theorem C33_attach_then_detach_restores_witness :
    (run World.init [.newECU .DIAGNOSTIC, .newSensor .SPEED_SENSOR, .newSensor .RADAR_SENSOR,
        .AttachSensor 0 1]).subscribedSensors 0 = some [⟨1, .SPEED_SENSOR, 1⟩] ∧
      (DeattachSensor (AttachSensor (run World.init [.newECU .DIAGNOSTIC,
        .newSensor .SPEED_SENSOR, .newSensor .RADAR_SENSOR, .AttachSensor 0 1]) 0
        ⟨2, .RADAR_SENSOR, 1⟩) 0 ⟨2, .RADAR_SENSOR, 1⟩).subscribedSensors 0
        = some [⟨1, .SPEED_SENSOR, 1⟩] :=
  ⟨by decide,
    (C33_attach_then_detach_restores.1 (run World.init [.newECU .DIAGNOSTIC,
      .newSensor .SPEED_SENSOR, .newSensor .RADAR_SENSOR, .AttachSensor 0 1]) 0
      ⟨.DIAGNOSTIC, 1, "Diagnostic ECU", List.replicate 4 (fun _ => none),
        [⟨1, .SPEED_SENSOR, 1⟩], false⟩ ⟨2, .RADAR_SENSOR, 1⟩ rfl (by decide)).2⟩

/-- C34: in every state reached by a run and for every live sensor `S`: `NotifyAllECUs()` changes
no sensor object, so the stored reading of `S` is the same before and after the call (the method
takes nothing from a random source); and after a second call right after the first, the lookup of
every (category, id) in the table of every ECU gives what it gave after the first call, and every
ECU has the same table as after the first call. -/
theorem C34_NotifyAllECUs_idempotent (ops : List Op) (S : Nat) (s : Sensor)
    (hS : (run World.init ops).sensors S = some s) :
    (NotifyAllECUs (run World.init ops) S).sensors = (run World.init ops).sensors ∧
    (NotifyAllECUs (run World.init ops) S).reading S = some s.data ∧
    (NotifyAllECUs (NotifyAllECUs (run World.init ops) S) S).reading S = some s.data ∧
    (∀ E c k, (NotifyAllECUs (NotifyAllECUs (run World.init ops) S) S).readTable E c k
      = (NotifyAllECUs (run World.init ops) S).readTable E c k) ∧
    ∀ E, ((NotifyAllECUs (NotifyAllECUs (run World.init ops) S) S).ecus E).map
        (fun e => e.Recent_Sensory_Data)
      = ((NotifyAllECUs (run World.init ops) S).ecus E).map (fun e => e.Recent_Sensory_Data) := by
  have hw := WF_reachable ops
  generalize run World.init ops = w at *
  have ht := NotifyAllECUs_tablesOnly w S
  have hw1 : WF (NotifyAllECUs w S) := hw.of_tablesOnly ht
  have ht2 := NotifyAllECUs_tablesOnly (NotifyAllECUs w S) S
  have hw2 : WF (NotifyAllECUs (NotifyAllECUs w S) S) := hw1.of_tablesOnly ht2
  refine ⟨ht.1, by simp [World.reading, ht.1, hS], by simp [World.reading, ht2.1, ht.1, hS],
    fun E c k => NotifyAllECUs_twice_readTable hw S E c k, fun E => ?_⟩
  have hlive := tablesOnly_live ht2 E
  cases h1 : (NotifyAllECUs w S).ecus E with
  | none =>
    rw [h1] at hlive
    cases h2 : (NotifyAllECUs (NotifyAllECUs w S) S).ecus E with
    | none => rfl
    | some e => rw [h2] at hlive; exact Bool.noConfusion hlive
  | some e1 =>
    rw [h1] at hlive
    cases h2 : (NotifyAllECUs (NotifyAllECUs w S) S).ecus E with
    | none => rw [h2] at hlive; exact Bool.noConfusion hlive
    | some e2 =>
      simp only [Option.map_some', Option.some.injEq]
      refine table_ext (hw2.table_len E e2 h2) (hw1.table_len E e1 h1) (fun c k => ?_)
      have := NotifyAllECUs_twice_readTable hw S E c k
      simp only [World.readTable, h1, h2] at this
      exact this

theorem C34_NotifyAllECUs_idempotent_witness :
    (run World.init [.newECU .DIAGNOSTIC, .newSensor .SPEED_SENSOR, .sensorRead 1 42,
        .AttachECU 1 0]).sensors 1 = some ⟨.SPEED_SENSOR, 1, 42, [0]⟩ ∧
      (NotifyAllECUs (NotifyAllECUs (run World.init [.newECU .DIAGNOSTIC,
        .newSensor .SPEED_SENSOR, .sensorRead 1 42, .AttachECU 1 0]) 1) 1).readTable 0
          .SPEED_SENSOR 1
        = (NotifyAllECUs (run World.init [.newECU .DIAGNOSTIC, .newSensor .SPEED_SENSOR,
          .sensorRead 1 42, .AttachECU 1 0]) 1).readTable 0 .SPEED_SENSOR 1 ∧
      (NotifyAllECUs (run World.init [.newECU .DIAGNOSTIC, .newSensor .SPEED_SENSOR,
          .sensorRead 1 42, .AttachECU 1 0]) 1).readTable 0 .SPEED_SENSOR 1 = some 42 :=
  ⟨by decide,
    (C34_NotifyAllECUs_idempotent [.newECU .DIAGNOSTIC, .newSensor .SPEED_SENSOR,
      .sensorRead 1 42, .AttachECU 1 0] 1 ⟨.SPEED_SENSOR, 1, 42, [0]⟩ (by decide)).2.2.2.1 0
      .SPEED_SENSOR 1, by decide⟩

/-- C35: `DiagnosticECU::PerformFunction(c)` as `StartDiagonisticTool()` calls it, on the
Diagnostic ECU of a constructed car in any state that the methods called by `main` lead to, once
the loop of `StartDiagonisticTool()` has subscribed the ECU to the sensors of the car.  After the
call `IsON()` is true; for each sensor of the car the table entry of its category and id holds the
reading that the sensor had before the call; the reading stored in the sensor is the value drawn
for it by `UpdateSensorsData` from the engine of its class, of which one more value is used up.
In the run of `main` with engines that return 1, 2, 3, ... the second call of
`StartDiagonisticTool()` leaves 2 in the table, the value that the speed sensor got from the
`UpdateSensorsData()` before it, where the speed sensor itself now holds 3. -/
theorem C35_table_is_one_sample_behind (ops : List Op) (model make : String) (r : Engines)
    (cs : List CarOp) :
    IsON (PerformFunction
        ((carRun (carStart ops model make r) cs).2.2.subscribeAll
          (carRun (carStart ops model make r) cs).1)
        (carRun (carStart ops model make r) cs).2.1
        (carRun (carStart ops model make r) cs).2.2.Car_Diagnostic_ECU
        (carRun (carStart ops model make r) cs).2.2).1
      (carRun (carStart ops model make r) cs).2.2.Car_Diagnostic_ECU = some true ∧
    (∀ sp ∈ (carRun (carStart ops model make r) cs).2.2.Sensors,
      (((carRun (carStart ops model make r) cs).2.2.subscribeAll
          (carRun (carStart ops model make r) cs).1).reading sp.addr).isSome = true ∧
      (PerformFunction
        ((carRun (carStart ops model make r) cs).2.2.subscribeAll
          (carRun (carStart ops model make r) cs).1)
        (carRun (carStart ops model make r) cs).2.1
        (carRun (carStart ops model make r) cs).2.2.Car_Diagnostic_ECU
        (carRun (carStart ops model make r) cs).2.2).1.readTable
          (carRun (carStart ops model make r) cs).2.2.Car_Diagnostic_ECU sp.kind sp.Sensor_ID
        = ((carRun (carStart ops model make r) cs).2.2.subscribeAll
            (carRun (carStart ops model make r) cs).1).reading sp.addr ∧
      (PerformFunction
        ((carRun (carStart ops model make r) cs).2.2.subscribeAll
          (carRun (carStart ops model make r) cs).1)
        (carRun (carStart ops model make r) cs).2.1
        (carRun (carStart ops model make r) cs).2.2.Car_Diagnostic_ECU
        (carRun (carStart ops model make r) cs).2.2).1.reading sp.addr
        = some (((carRun (carStart ops model make r) cs).2.1 sp.kind).values
            ((carRun (carStart ops model make r) cs).2.1 sp.kind).drawn)) ∧
    (∀ k, (PerformFunction
        ((carRun (carStart ops model make r) cs).2.2.subscribeAll
          (carRun (carStart ops model make r) cs).1)
        (carRun (carStart ops model make r) cs).2.1
        (carRun (carStart ops model make r) cs).2.2.Car_Diagnostic_ECU
        (carRun (carStart ops model make r) cs).2.2).2 k
      = { (carRun (carStart ops model make r) cs).2.1 k with
          drawn := ((carRun (carStart ops model make r) cs).2.1 k).drawn + 1 }) ∧
    (carRun (carStart [] "rio" "kia" countingEngines)
        [.CarINIT, .setAdaptiveMode true, .StartDiagonisticTool, .DisplayStatus,
         .UpdateSensorsData, .StartDiagonisticTool]).1.readTable 5 .SPEED_SENSOR 1 = some 2 ∧
    (carRun (carStart [] "rio" "kia" countingEngines)
        [.CarINIT, .setAdaptiveMode true, .StartDiagonisticTool, .DisplayStatus,
         .UpdateSensorsData, .StartDiagonisticTool]).1.reading 0 = some 3 := by
  have hi := CarInv_carRun (CarInv_carStart ops model make r) cs
  obtain ⟨h1, h2⟩ := CarInv_subscribeAll hi
  obtain ⟨p1, p2, p3, p4⟩ := PerformFunction_diag_spec h1 h2
    (carRun (carStart ops model make r) cs).2.1
  exact ⟨p1, fun sp hsp => ⟨(p2 sp hsp).1, (p2 sp hsp).2, p3 sp hsp⟩, p4, by decide, by decide⟩

theorem C35_table_is_one_sample_behind_witness :
    IsON (Car.StartDiagonisticTool (carRun (carStart [] "rio" "kia" countingEngines) mainCalls).1
        (carRun (carStart [] "rio" "kia" countingEngines) mainCalls).2.1
        (carRun (carStart [] "rio" "kia" countingEngines) mainCalls).2.2).1 5 = some true :=
  (C35_table_is_one_sample_behind [] "rio" "kia" countingEngines mainCalls).1

/-- C36: `StartDiagonisticTool()` returns the car it was called on as it was, `Car_info`,
`Adaptive_MODE`, `Sensors` and `ECUs` included, whatever the state.  For a constructed car in any
state that the methods called by `main` lead to: the call does resample, each sensor of the car
ends with the value drawn from the engine of its class, and the state it leaves is the one left
by `UpdateSensorsData()` run on a copy of the car, a copy whose `Car_info` holds the four values
drawn; a `DisplayStatus()` that follows chooses its messages from the values that `Car_info` had
before the call.  After `UpdateSensorsData(); StartDiagonisticTool();` the map holds the values
drawn by `UpdateSensorsData()` while the sensors hold the values drawn next; and as long as
`UpdateSensorsData()` was not called the map holds the `CarINIT` defaults 0, 25, 0 and 100. -/
theorem C36_StartDiagonisticTool_keeps_the_car (ops : List Op) (model make : String)
    (r : Engines) (cs : List CarOp) :
    (∀ (w : World) (r' : Engines) (c : Car), (Car.StartDiagonisticTool w r' c).2.2 = c) ∧
    (∀ sp ∈ (carRun (carStart ops model make r) cs).2.2.Sensors,
      (carRun (carRun (carStart ops model make r) cs) [.StartDiagonisticTool]).1.reading sp.addr
        = some (((carRun (carStart ops model make r) cs).2.1 sp.kind).values
            ((carRun (carStart ops model make r) cs).2.1 sp.kind).drawn)) ∧
    (∃ w2 : World,
      (carRun (carRun (carStart ops model make r) cs) [.StartDiagonisticTool]).1
        = (Car.UpdateSensorsData w2 (carRun (carStart ops model make r) cs).2.1
            (carRun (carStart ops model make r) cs).2.2).1 ∧
      ∀ k, (Car.UpdateSensorsData w2 (carRun (carStart ops model make r) cs).2.1
            (carRun (carStart ops model make r) cs).2.2).2.2.Car_info k
        = some (((carRun (carStart ops model make r) cs).2.1 k).values
            ((carRun (carStart ops model make r) cs).2.1 k).drawn)) ∧
    (carRun (carRun (carStart ops model make r) cs) [.StartDiagonisticTool]).2.2
      = (carRun (carStart ops model make r) cs).2.2 ∧
    (carRun (carRun (carStart ops model make r) cs) [.StartDiagonisticTool, .DisplayStatus]).1
      = logAll (carRun (carRun (carStart ops model make r) cs) [.StartDiagonisticTool]).1
        [if (carRun (carStart ops model make r) cs).2.2.info .SPEED_SENSOR > 50
          then "Speed Exceeded please SLOW DOWN" else "Speed is within the allowed Range",
         if (carRun (carStart ops model make r) cs).2.2.info .TEMPERATURE_SENSOR > 30
          then "Car is overheating please stop" else "Temperature is within the allowed Range",
         if (carRun (carStart ops model make r) cs).2.2.info .BATTERY_LEVEL_SENSOR < 20
          then "LOW BATTERY PLEASE GO TO THE NEAREST CHARGING STATION" else "Battery is Good",
         if (carRun (carStart ops model make r) cs).2.2.info .RADAR_SENSOR < 5
          then "Collision is predicted please Slow down" else "NO collision Threats",
         if (carRun (carStart ops model make r) cs).2.2.Adaptive_MODE = true
          then "CRUISE CONTROL IS ON" else "CRUISE CONTROL IS OFF"] ∧
    (∀ k, (carRun (carRun (carStart ops model make r) cs)
        [.UpdateSensorsData, .StartDiagonisticTool]).2.2.Car_info k
      = some (((carRun (carStart ops model make r) cs).2.1 k).values
          ((carRun (carStart ops model make r) cs).2.1 k).drawn)) ∧
    (∀ sp ∈ (carRun (carStart ops model make r) cs).2.2.Sensors,
      (carRun (carRun (carStart ops model make r) cs)
        [.UpdateSensorsData, .StartDiagonisticTool]).1.reading sp.addr
      = some (((carRun (carStart ops model make r) cs).2.1 sp.kind).values
          (((carRun (carStart ops model make r) cs).2.1 sp.kind).drawn + 1))) ∧
    (CarOp.UpdateSensorsData ∉ cs →
      (carRun (carStart ops model make r) cs).2.2.Car_info .SPEED_SENSOR = some 0 ∧
      (carRun (carStart ops model make r) cs).2.2.Car_info .TEMPERATURE_SENSOR = some 25 ∧
      (carRun (carStart ops model make r) cs).2.2.Car_info .RADAR_SENSOR = some 0 ∧
      (carRun (carStart ops model make r) cs).2.2.Car_info .BATTERY_LEVEL_SENSOR = some 100) := by
  have hi := CarInv_carRun (CarInv_carStart ops model make r) cs
  obtain ⟨h1, h2⟩ := CarInv_subscribeAll hi
  obtain ⟨_, _, p3, _⟩ := PerformFunction_diag_spec h1 h2
    (carRun (carStart ops model make r) cs).2.1
  refine ⟨fun _ _ _ => rfl, p3, ?_, rfl, ?_, ?_, ?_, ?_⟩
  · exact StartDiagonisticTool_copy hi _
  · exact DisplayStatus_world _ _
  · exact (UpdateSensorsData_spec hi _).2.1
  · have hu := CarInv_carStep hi .UpdateSensorsData
    obtain ⟨h1', h2'⟩ := CarInv_subscribeAll hu
    obtain ⟨_, _, q3, _⟩ := PerformFunction_diag_spec h1' h2'
      (carStep (carRun (carStart ops model make r) cs) .UpdateSensorsData).2.1
    intro sp hsp
    have := q3 sp hsp
    have hr := (UpdateSensorsData_spec hi (carRun (carStart ops model make r) cs).2.1).2.2 sp.kind
    have hr' : (carStep (carRun (carStart ops model make r) cs) .UpdateSensorsData).2.1 sp.kind
        = _ := hr
    rw [hr'] at this
    exact this
  · intro hc
    have hd := carRun_defaults (CarInv_carStart ops model make r)
      (Car_new_car (run World.init ops) model make).2.2.2.2.2.2.2.2.2.2.2.2.2 cs hc
    rw [hd]
    exact ⟨rfl, rfl, rfl, rfl⟩

theorem C36_StartDiagonisticTool_keeps_the_car_witness :
    CarOp.UpdateSensorsData ∉ [CarOp.CarINIT, .setAdaptiveMode true, .StartDiagonisticTool] ∧
      (carRun (carStart [] "rio" "kia" countingEngines)
        [.CarINIT, .setAdaptiveMode true, .StartDiagonisticTool]).2.2.Car_info .TEMPERATURE_SENSOR
        = some 25 ∧
      (carRun (carStart [] "rio" "kia" countingEngines)
        [.CarINIT, .setAdaptiveMode true, .StartDiagonisticTool]).1.reading 1 = some 1 :=
  ⟨by decide,
    ((C36_StartDiagonisticTool_keeps_the_car [] "rio" "kia" countingEngines
      [.CarINIT, .setAdaptiveMode true, .StartDiagonisticTool]).2.2.2.2.2.2.2 (by decide)).2.1,
    by decide⟩

/-- C37: the run "construct the ECU `A`, construct `B`, destroy `A`, construct `C`, construct a
speed sensor, store the reading 42, `AttachECU(B)`" reaches a state in which `B` and `C`
(allocation numbers 1 and 2) are two live ECUs with the same `getID()`, 2, and the sensor (at 3)
lists `B` only.  There `AttachECU(C)` leaves `Subscribed_ECUs` as it is, `[B]`: `C` is not added
although it is not in the list.  After any number of calls of `NotifyAllECUs()` the table of `C`
has no entry at all, while one call brings the reading into the table of `B`. -/
theorem C37_reused_id_blocks_the_subscription :
    (((run World.init reusedECUIdRun).ecus 1).map ECU.getID = some 2 ∧
      ((run World.init reusedECUIdRun).ecus 2).map ECU.getID = some 2) ∧
    (run World.init reusedECUIdRun).subscribedECUs 3 = some [1] ∧
    (AttachECU (run World.init reusedECUIdRun) 3 2).subscribedECUs 3 = some [1] ∧
    (∀ (n : Nat) (c : SensorTypes) (k : Int),
      ((fun w => NotifyAllECUs w 3)^[n] (AttachECU (run World.init reusedECUIdRun) 3 2)).readTable
        2 c k = none) ∧
    (NotifyAllECUs (AttachECU (run World.init reusedECUIdRun) 3 2) 3).readTable 1 .SPEED_SENSOR 1
      = some 42 := by
  refine ⟨by decide, by decide, by decide, fun n c k => ?_, by decide⟩
  have hs : (AttachECU (run World.init reusedECUIdRun) 3 2).sensors 3
      = some ⟨.SPEED_SENSOR, 1, 42, [1]⟩ := by decide
  rw [iterate_NotifyAllECUs_unlisted (s := ⟨.SPEED_SENSOR, 1, 42, [1]⟩) (by decide) c k n _ hs]
  cases c <;> rfl

/-- C38: each call of `CarINIT()` appends the two ECUs of the car to `ECUs` again.  After the
constructor and `k` further calls of `CarINIT()`, in any state a driver program can reach,
`ECUs` is `k + 1` times the pair of the Adaptive Cruise Control ECU and the Diagnostic ECU, so it
has `2 * (k + 1)` entries, while `Sensors` has exactly 4 entries, the entry at index `i` being of
category `i`.  A call of `setAdaptiveMode` that follows then runs, after its first message,
`k + 1` rounds of `PerformFunction` on the Adaptive Cruise Control ECU, each followed by one
message: `1 + 2 * (k + 1)` lines in all. -/
theorem C38_CarINIT_appends_the_ECUs_again (ops : List Op) (model make : String) (r : Engines)
    (k : Nat) (mode : Bool) :
    (∀ (w : World) (c : Car), (Car.CarINIT w c).2.ECUs
      = c.ECUs ++ [c.Car_Adaptive_Cruise_Control_ECU, c.Car_Diagnostic_ECU]) ∧
    (carRun (carStart ops model make r) (List.replicate k .CarINIT)).2.2.ECUs
      = (List.replicate (k + 1)
          [(carRun (carStart ops model make r)
              (List.replicate k .CarINIT)).2.2.Car_Adaptive_Cruise_Control_ECU,
           (carRun (carStart ops model make r)
              (List.replicate k .CarINIT)).2.2.Car_Diagnostic_ECU]).flatten ∧
    (carRun (carStart ops model make r) (List.replicate k .CarINIT)).2.2.ECUs.length
      = 2 * (k + 1) ∧
    (carRun (carStart ops model make r) (List.replicate k .CarINIT)).2.2.Sensors.length = 4 ∧
    (∀ (i : Nat) (sp : SensorPtr),
      (carRun (carStart ops model make r) (List.replicate k .CarINIT)).2.2.Sensors[i]? = some sp →
      sp.kind.toIndex = i) ∧
    (Car.setAdaptiveMode (carRun (carStart ops model make r) (List.replicate k .CarINIT)).1
        (carRun (carStart ops model make r) (List.replicate k .CarINIT)).2.1
        (carRun (carStart ops model make r) (List.replicate k .CarINIT)).2.2 mode).1
      = (adaptiveRound (carRun (carStart ops model make r) (List.replicate k .CarINIT)).2.1
          (carRun (carStart ops model make r)
            (List.replicate k .CarINIT)).2.2.Car_Adaptive_Cruise_Control_ECU
          { (carRun (carStart ops model make r) (List.replicate k .CarINIT)).2.2 with
            Adaptive_MODE := mode })^[k + 1]
        (log (carRun (carStart ops model make r) (List.replicate k .CarINIT)).1
          ("Setting adaptive mode to " ++ (if mode then "enabled" else "disabled"))) ∧
    (Car.setAdaptiveMode (carRun (carStart ops model make r) (List.replicate k .CarINIT)).1
        (carRun (carStart ops model make r) (List.replicate k .CarINIT)).2.1
        (carRun (carStart ops model make r) (List.replicate k .CarINIT)).2.2 mode).1.cout.length
      = (carRun (carStart ops model make r) (List.replicate k .CarINIT)).1.cout.length
        + 1 + 2 * (k + 1) := by
  have hi := CarInv_carRun (CarInv_carStart ops model make r) (List.replicate k .CarINIT)
  obtain ⟨e1, e2, e3⟩ := carRun_CarINIT_ECUs ops model make r k
  have hE : (carRun (carStart ops model make r) (List.replicate k .CarINIT)).2.2.ECUs
      = (List.replicate (k + 1)
          [(carRun (carStart ops model make r)
              (List.replicate k .CarINIT)).2.2.Car_Adaptive_Cruise_Control_ECU,
           (carRun (carStart ops model make r)
              (List.replicate k .CarINIT)).2.2.Car_Diagnostic_ECU]).flatten := by
    rw [e1, e2, e3]
  obtain ⟨eA, hA, hkA, hnA⟩ := hi.acc
  obtain ⟨eD, hD, _, hnD⟩ := hi.diag
  obtain ⟨l1, l2⟩ := setAdaptiveMode_rounds
    (carRun (carStart ops model make r) (List.replicate k .CarINIT)).2.1
    (carRun (carStart ops model make r)
      (List.replicate k .CarINIT)).2.2.Car_Adaptive_Cruise_Control_ECU
    (carRun (carStart ops model make r) (List.replicate k .CarINIT)).2.2.Car_Diagnostic_ECU
    { (carRun (carStart ops model make r) (List.replicate k .CarINIT)).2.2 with
      Adaptive_MODE := mode } (k + 1)
    (log (carRun (carStart ops model make r) (List.replicate k .CarINIT)).1
      ("Setting adaptive mode to " ++ (if mode then "enabled" else "disabled")))
    eA eD hA hkA hnA hD hnD
  have hfold : (Car.setAdaptiveMode (carRun (carStart ops model make r)
        (List.replicate k .CarINIT)).1
        (carRun (carStart ops model make r) (List.replicate k .CarINIT)).2.1
        (carRun (carStart ops model make r) (List.replicate k .CarINIT)).2.2 mode).1
      = (adaptiveRound (carRun (carStart ops model make r) (List.replicate k .CarINIT)).2.1
          (carRun (carStart ops model make r)
            (List.replicate k .CarINIT)).2.2.Car_Adaptive_Cruise_Control_ECU
          { (carRun (carStart ops model make r) (List.replicate k .CarINIT)).2.2 with
            Adaptive_MODE := mode })^[k + 1]
        (log (carRun (carStart ops model make r) (List.replicate k .CarINIT)).1
          ("Setting adaptive mode to " ++ (if mode then "enabled" else "disabled"))) := by
    unfold Car.setAdaptiveMode
    simp only [hE]
    exact congrArg Prod.fst l1
  refine ⟨fun _ _ => rfl, hE, ?_, by rw [hi.sensors_eq]; rfl, ?_, hfold, ?_⟩
  · rw [hE]
    simp [List.length_flatten]
    omega
  · exact fun i sp hsp => hi.kind_at i sp hsp
  · rw [hfold, l2, log_cout_length]

theorem C38_CarINIT_appends_the_ECUs_again_witness :
    (carRun (carStart [] "rio" "kia" tenEngines) (List.replicate 1 .CarINIT)).2.2.ECUs
        = [4, 5, 4, 5] ∧
      (Car.setAdaptiveMode (carRun (carStart [] "rio" "kia" tenEngines)
          (List.replicate 1 .CarINIT)).1 tenEngines
        (carRun (carStart [] "rio" "kia" tenEngines) (List.replicate 1 .CarINIT)).2.2
        true).1.cout.length = 17 + 1 + 2 * (1 + 1) :=
  ⟨(C38_CarINIT_appends_the_ECUs_again [] "rio" "kia" tenEngines 1 true).2.1,
    (C38_CarINIT_appends_the_ECUs_again [] "rio" "kia" tenEngines 1 true).2.2.2.2.2.2⟩

/-- C39: along every run in which `total_sensor_count` never goes beyond the largest `int`,
`getTotalSensorsCount()` equals the sum of the four class counters (each of which is the number of
live sensors of its class) after every step, that is between the calls of constructors,
destructors and methods. -/
theorem C39_total_is_the_sum (ops : List Op) (h : NoTotalOverflow World.init ops = true) :
    getTotalSensorsCount (run World.init ops)
      = (run World.init ops).getSensorCount .SPEED_SENSOR
        + (run World.init ops).getSensorCount .TEMPERATURE_SENSOR
        + (run World.init ops).getSensorCount .RADAR_SENSOR
        + (run World.init ops).getSensorCount .BATTERY_LEVEL_SENSOR ∧
    getTotalSensorsCount (run World.init ops)
      = ((liveSensors (run World.init ops) .SPEED_SENSOR
        + liveSensors (run World.init ops) .TEMPERATURE_SENSOR
        + liveSensors (run World.init ops) .RADAR_SENSOR
        + liveSensors (run World.init ops) .BATTERY_LEVEL_SENSOR : Nat) : Int) := by
  obtain ⟨hc, ht⟩ := TotalOK_run WF_init CountsOK_init TotalOK_init ops h
  refine ⟨ht.1, ?_⟩
  rw [ht.1, (hc .SPEED_SENSOR).1, (hc .TEMPERATURE_SENSOR).1, (hc .RADAR_SENSOR).1,
    (hc .BATTERY_LEVEL_SENSOR).1]
  push_cast
  rfl

theorem C39_total_is_the_sum_witness :
    NoTotalOverflow World.init [.newSensor .SPEED_SENSOR, .newSensor .RADAR_SENSOR,
        .newSensor .SPEED_SENSOR, .destroySensor 0, .newSensor .BATTERY_LEVEL_SENSOR] = true ∧
      getTotalSensorsCount (run World.init [.newSensor .SPEED_SENSOR, .newSensor .RADAR_SENSOR,
        .newSensor .SPEED_SENSOR, .destroySensor 0, .newSensor .BATTERY_LEVEL_SENSOR])
      = (run World.init [.newSensor .SPEED_SENSOR, .newSensor .RADAR_SENSOR,
          .newSensor .SPEED_SENSOR, .destroySensor 0,
          .newSensor .BATTERY_LEVEL_SENSOR]).getSensorCount .SPEED_SENSOR
        + (run World.init [.newSensor .SPEED_SENSOR, .newSensor .RADAR_SENSOR,
          .newSensor .SPEED_SENSOR, .destroySensor 0,
          .newSensor .BATTERY_LEVEL_SENSOR]).getSensorCount .TEMPERATURE_SENSOR
        + (run World.init [.newSensor .SPEED_SENSOR, .newSensor .RADAR_SENSOR,
          .newSensor .SPEED_SENSOR, .destroySensor 0,
          .newSensor .BATTERY_LEVEL_SENSOR]).getSensorCount .RADAR_SENSOR
        + (run World.init [.newSensor .SPEED_SENSOR, .newSensor .RADAR_SENSOR,
          .newSensor .SPEED_SENSOR, .destroySensor 0,
          .newSensor .BATTERY_LEVEL_SENSOR]).getSensorCount .BATTERY_LEVEL_SENSOR ∧
      getTotalSensorsCount (run World.init [.newSensor .SPEED_SENSOR, .newSensor .RADAR_SENSOR,
        .newSensor .SPEED_SENSOR, .destroySensor 0, .newSensor .BATTERY_LEVEL_SENSOR]) = 3 :=
  ⟨by decide,
    (C39_total_is_the_sum [.newSensor .SPEED_SENSOR, .newSensor .RADAR_SENSOR,
      .newSensor .SPEED_SENSOR, .destroySensor 0, .newSensor .BATTERY_LEVEL_SENSOR]
      (by decide)).1, by decide⟩

/-- C40: in every state reached by a run, for every live sensor `S` and every live ECU `E`: the
index `int(category)` that `updateECU` uses is one of 0, 1, 2, 3 and is below the length of
`Recent_Sensory_Data` of `E`, which is `Sensor_Types_Count` = 4; so the indexing finds a map and
the assignment is made in it; and after any further step every live ECU still has a table of
length 4. -/
theorem C40_partition_index_in_bounds (ops : List Op) (S E : Nat) (s : Sensor) (e : ECU)
    (hS : (run World.init ops).sensors S = some s) (hE : (run World.init ops).ecus E = some e) :
    s.kind.toIndex < 4 ∧ e.Recent_Sensory_Data.length = Sensor_Types_Count ∧
    Sensor_Types_Count = 4 ∧ s.kind.toIndex < e.Recent_Sensory_Data.length ∧
    (∃ m, e.Recent_Sensory_Data[s.kind.toIndex]? = some m ∧
      ∀ k v, tableWrite e.Recent_Sensory_Data s.kind.toIndex k v
        = e.Recent_Sensory_Data.set s.kind.toIndex (m.assign k v)) ∧
    (updateECU (run World.init ops) S E).readTable E s.kind s.Sensor_ID = some s.data ∧
    ∀ (op : Op) (h : Nat) (e' : ECU), (step (run World.init ops) op).ecus h = some e' →
      e'.Recent_Sensory_Data.length = 4 := by
  have hw := WF_reachable ops
  have hlen := hw.table_len E e hE
  have hlt : s.kind.toIndex < e.Recent_Sensory_Data.length := by
    rw [hlen]
    exact toIndex_lt s.kind
  refine ⟨toIndex_lt s.kind, hlen, rfl, hlt,
    ⟨e.Recent_Sensory_Data[s.kind.toIndex], List.getElem?_eq_getElem hlt, fun k v => ?_⟩,
    updateECU_readTable_self hS hE hlt, fun op h e' he' => (WF_step hw op).table_len h e' he'⟩
  simp only [tableWrite, List.getElem?_eq_getElem hlt]

theorem C40_partition_index_in_bounds_witness :
    (run World.init [.newECU .ADAPTIVE_CRUISE_CONTROL, .newSensor .BATTERY_LEVEL_SENSOR,
        .sensorRead 1 77]).sensors 1 = some ⟨.BATTERY_LEVEL_SENSOR, 1, 77, []⟩ ∧
      (updateECU (run World.init [.newECU .ADAPTIVE_CRUISE_CONTROL,
        .newSensor .BATTERY_LEVEL_SENSOR, .sensorRead 1 77]) 1 0).readTable 0
          .BATTERY_LEVEL_SENSOR 1 = some 77 :=
  ⟨by decide,
    (C40_partition_index_in_bounds [.newECU .ADAPTIVE_CRUISE_CONTROL,
      .newSensor .BATTERY_LEVEL_SENSOR, .sensorRead 1 77] 1 0
      ⟨.BATTERY_LEVEL_SENSOR, 1, 77, []⟩
      ⟨.ADAPTIVE_CRUISE_CONTROL, 1, "Adaptive Cruise Control ECU",
        List.replicate 4 (fun _ => none), [], false⟩ (by decide) rfl).2.2.2.2.2.1⟩

end Telemetry
